import Mathlib

/-!
# Shader-Assignment: scene / light / model orchestration

A shallow embedding of `Model`, `CLight`, `CSpotlight` and `CSceneManager`
(files `Model.h`, `Model.cpp`, `CLight.h`, `CLight.cpp`, `Scene.h`, `Scene.cpp`).

Conventions of the embedding.

* The C++ `float` is a type parameter `α`.  A definition asks of `α` only the
  operations it uses; the float-to-index conversions ask for an ordered field
  with a floor (`LinearOrderedField α`, `FloorRing α`).  A statement proved from
  the laws of a field holds in exact arithmetic (`α := ℚ`, `α := ℝ`); a
  statement about the arithmetic of the C++ build is proved either for every
  `α` with the operations or at `α := Binary32`, the IEEE 754 single precision
  numbers with their rounding, defined below.
* A `const T&` returned from a temporary is a `Dangling T`; reading it is
  undefined behaviour and sets `Gfx.fault`.
* Heap objects that are owned by exactly one pointer (`Model* mpBody`) are
  embedded by value.
* A method that mutates its object returns the new object; a method that both
  mutates and returns a value returns the pair `(value, new object)`.
* The helper library `CMatrix4x4.cpp`, `MathHelpers.h`, `GraphicsHelpers.cpp`
  is not among the sources.  Code that calls it takes it as the parameter
  `MathLib α`; the textbook row-vector version of it is `stdMathLib`.
-/

namespace ShaderAssignment

/-! ## Vectors and matrices -/

/-- Three floats `x`, `y`, `z` (the class of `CVector3.cpp`). -/
structure CVector3 (α : Type) where
  x : α
  y : α
  z : α
deriving DecidableEq, Repr

/-- Sixteen floats `e00 .. e33`, row by row; `Model.cpp` reads `e20`, `e21`, `e22`
as the local Z axis, so row 2 is the Z axis and row 3 the translation. -/
structure CMatrix4x4 (α : Type) where
  e00 : α
  e01 : α
  e02 : α
  e03 : α
  e10 : α
  e11 : α
  e12 : α
  e13 : α
  e20 : α
  e21 : α
  e22 : α
  e23 : α
  e30 : α
  e31 : α
  e32 : α
  e33 : α
deriving DecidableEq, Repr

section Scalar

variable {α : Type}

/-- Vector-vector addition, `operator+ (const CVector3&, const CVector3&)`. -/
def CVector3.add [Add α] (v w : CVector3 α) : CVector3 α :=
  ⟨v.x + w.x, v.y + w.y, v.z + w.z⟩

/-- Vector-scalar multiplication, `operator* (const CVector3&, float)`. -/
def CVector3.scale [Mul α] (v : CVector3 α) (s : α) : CVector3 α :=
  ⟨v.x * s, v.y * s, v.z * s⟩

/-- The C math library as far as the sources call it (`cos`, `sin`, `pow`) and
the constant `PI` of `MathHelpers.h`. -/
structure FloatMath (α : Type) where
  cos : α → α
  sin : α → α
  pow : α → α → α
  pi : α
  -- `IsZero` and `InvSqrt` of `BaseMath.h`
  IsZero : α → Bool
  InvSqrt : α → α

/-- The functions of `CMatrix4x4.cpp`, `MathHelpers.h` and `GraphicsHelpers.cpp`
that `Model`, `CLight` and `CSceneManager` call.  Those files are not among the
sources, so the callers take them as this parameter. -/
structure MathLib (α : Type) where
  -- the `operator*` of two matrices
  mul : CMatrix4x4 α → CMatrix4x4 α → CMatrix4x4 α
  MatrixScaling : CVector3 α → CMatrix4x4 α
  MatrixRotationX : α → CMatrix4x4 α
  MatrixRotationY : α → CMatrix4x4 α
  MatrixRotationZ : α → CMatrix4x4 α
  MatrixTranslation : CVector3 α → CMatrix4x4 α
  -- the member `CMatrix4x4::FaceTarget`, as a function of the old matrix
  FaceTarget : CMatrix4x4 α → CVector3 α → CMatrix4x4 α
  GetEulerAngles : CMatrix4x4 α → CVector3 α
  InverseAffine : CMatrix4x4 α → CMatrix4x4 α
  -- the call `MakeProjectionMatrix(aspect, fovX)`, clip planes defaulted
  MakeProjectionMatrix : α → α → CMatrix4x4 α
  ToRadians : α → α
  cos : α → α
  pow : α → α → α
  -- the member `CMatrix4x4::GetZAxis`
  GetZAxis : CMatrix4x4 α → CVector3 α
  -- `IsZero` and `InvSqrt` of `BaseMath.h`, called by `Normalise`
  IsZero : α → Bool
  InvSqrt : α → α

/-- The 4x4 identity matrix. -/
def CMatrix4x4.identity [Zero α] [One α] : CMatrix4x4 α :=
  ⟨1, 0, 0, 0,
   0, 1, 0, 0,
   0, 0, 1, 0,
   0, 0, 0, 1⟩

/-- Modelled from the spec: the matrix `operator*` of the absent `CMatrix4x4.cpp`,
the row-by-column product ("Scale · RotateZ · RotateX · RotateY · Translate"). -/
def CMatrix4x4.mul [Add α] [Mul α] (a b : CMatrix4x4 α) : CMatrix4x4 α :=
  ⟨a.e00 * b.e00 + a.e01 * b.e10 + a.e02 * b.e20 + a.e03 * b.e30,
   a.e00 * b.e01 + a.e01 * b.e11 + a.e02 * b.e21 + a.e03 * b.e31,
   a.e00 * b.e02 + a.e01 * b.e12 + a.e02 * b.e22 + a.e03 * b.e32,
   a.e00 * b.e03 + a.e01 * b.e13 + a.e02 * b.e23 + a.e03 * b.e33,
   a.e10 * b.e00 + a.e11 * b.e10 + a.e12 * b.e20 + a.e13 * b.e30,
   a.e10 * b.e01 + a.e11 * b.e11 + a.e12 * b.e21 + a.e13 * b.e31,
   a.e10 * b.e02 + a.e11 * b.e12 + a.e12 * b.e22 + a.e13 * b.e32,
   a.e10 * b.e03 + a.e11 * b.e13 + a.e12 * b.e23 + a.e13 * b.e33,
   a.e20 * b.e00 + a.e21 * b.e10 + a.e22 * b.e20 + a.e23 * b.e30,
   a.e20 * b.e01 + a.e21 * b.e11 + a.e22 * b.e21 + a.e23 * b.e31,
   a.e20 * b.e02 + a.e21 * b.e12 + a.e22 * b.e22 + a.e23 * b.e32,
   a.e20 * b.e03 + a.e21 * b.e13 + a.e22 * b.e23 + a.e23 * b.e33,
   a.e30 * b.e00 + a.e31 * b.e10 + a.e32 * b.e20 + a.e33 * b.e30,
   a.e30 * b.e01 + a.e31 * b.e11 + a.e32 * b.e21 + a.e33 * b.e31,
   a.e30 * b.e02 + a.e31 * b.e12 + a.e32 * b.e22 + a.e33 * b.e32,
   a.e30 * b.e03 + a.e31 * b.e13 + a.e32 * b.e23 + a.e33 * b.e33⟩

/-- Modelled from the spec: `MatrixScaling` of the absent `CMatrix4x4.cpp`
("non-uniform scale"), the diagonal matrix of the three factors. -/
def MatrixScaling [Zero α] [One α] (s : CVector3 α) : CMatrix4x4 α :=
  ⟨s.x, 0, 0, 0,
   0, s.y, 0, 0,
   0, 0, s.z, 0,
   0, 0, 0, 1⟩

/-- Modelled from the spec: `MatrixRotationX` of the absent `CMatrix4x4.cpp`
("RotateX"), the rotation about the X axis acting on row vectors. -/
def MatrixRotationX [Zero α] [One α] [Neg α] (fm : FloatMath α) (a : α) : CMatrix4x4 α :=
  ⟨1, 0, 0, 0,
   0, fm.cos a, fm.sin a, 0,
   0, -fm.sin a, fm.cos a, 0,
   0, 0, 0, 1⟩

/-- Modelled from the spec: `MatrixRotationY` of the absent `CMatrix4x4.cpp`
("RotateY"), the rotation about the Y axis acting on row vectors. -/
def MatrixRotationY [Zero α] [One α] [Neg α] (fm : FloatMath α) (a : α) : CMatrix4x4 α :=
  ⟨fm.cos a, 0, -fm.sin a, 0,
   0, 1, 0, 0,
   fm.sin a, 0, fm.cos a, 0,
   0, 0, 0, 1⟩

/-- Modelled from the spec: `MatrixRotationZ` of the absent `CMatrix4x4.cpp`
("RotateZ"), the rotation about the Z axis acting on row vectors. -/
def MatrixRotationZ [Zero α] [One α] [Neg α] (fm : FloatMath α) (a : α) : CMatrix4x4 α :=
  ⟨fm.cos a, fm.sin a, 0, 0,
   -fm.sin a, fm.cos a, 0, 0,
   0, 0, 1, 0,
   0, 0, 0, 1⟩

/-- Modelled from the spec: `MatrixTranslation` of the absent `CMatrix4x4.cpp`
("Translate"), the identity with the offset in row 3. -/
def MatrixTranslation [Zero α] [One α] (t : CVector3 α) : CMatrix4x4 α :=
  ⟨1, 0, 0, 0,
   0, 1, 0, 0,
   0, 0, 1, 0,
   t.x, t.y, t.z, 1⟩

/-- Modelled from the spec: `InverseAffine` of the absent `CMatrix4x4.cpp`
("view matrix = inverse-affine of its body's world matrix"): the upper-left 3x3
block is inverted by its adjugate over its determinant, the translation row is
the negated old one carried through that inverse, the last column is
`(0, 0, 0, 1)`. -/
def InverseAffine [Add α] [Sub α] [Mul α] [Div α] [Neg α] [Zero α] [One α]
    (m : CMatrix4x4 α) : CMatrix4x4 α :=
  let det0 := m.e11 * m.e22 - m.e12 * m.e21
  let det1 := m.e12 * m.e20 - m.e10 * m.e22
  let det2 := m.e10 * m.e21 - m.e11 * m.e20
  let det := m.e00 * det0 + m.e01 * det1 + m.e02 * det2
  let invDet := 1 / det
  let o00 := invDet * det0
  let o10 := invDet * det1
  let o20 := invDet * det2
  let o01 := invDet * (m.e21 * m.e02 - m.e22 * m.e01)
  let o11 := invDet * (m.e22 * m.e00 - m.e20 * m.e02)
  let o21 := invDet * (m.e20 * m.e01 - m.e21 * m.e00)
  let o02 := invDet * (m.e01 * m.e12 - m.e02 * m.e11)
  let o12 := invDet * (m.e02 * m.e10 - m.e00 * m.e12)
  let o22 := invDet * (m.e00 * m.e11 - m.e01 * m.e10)
  ⟨o00, o01, o02, 0,
   o10, o11, o12, 0,
   o20, o21, o22, 0,
   -m.e30 * o00 - m.e31 * o10 - m.e32 * o20,
   -m.e30 * o01 - m.e31 * o11 - m.e32 * o21,
   -m.e30 * o02 - m.e31 * o12 - m.e32 * o22,
   1⟩

/-- Modelled from the spec: the member `GetZAxis` of the absent `CMatrix4x4.h`
("forward axis of the body's world matrix", "the current world matrix's third
row"). -/
def CMatrix4x4.GetZAxis (m : CMatrix4x4 α) : CVector3 α :=
  ⟨m.e20, m.e21, m.e22⟩

/-- The determinant of the upper-left 3x3 block, the `det` that `InverseAffine`
divides by. -/
def CMatrix4x4.det3 [Add α] [Mul α] [Sub α] (m : CMatrix4x4 α) : α :=
  m.e00 * (m.e11 * m.e22 - m.e12 * m.e21) + m.e01 * (m.e12 * m.e20 - m.e10 * m.e22)
    + m.e02 * (m.e10 * m.e21 - m.e11 * m.e20)

/-- The row vector `(p.x, p.y, p.z, 1)` times the matrix `m`: the point `p`
carried through `m`, with its fourth coordinate. -/
def CMatrix4x4.transformPoint [Add α] [Mul α] (p : CVector3 α) (m : CMatrix4x4 α) :
    α × α × α × α :=
  (p.x * m.e00 + p.y * m.e10 + p.z * m.e20 + m.e30,
   p.x * m.e01 + p.y * m.e11 + p.z * m.e21 + m.e31,
   p.x * m.e02 + p.y * m.e12 + p.z * m.e22 + m.e32,
   p.x * m.e03 + p.y * m.e13 + p.z * m.e23 + m.e33)

/-- Modelled from the spec: `ToRadians` of the absent `MathHelpers.h`
("degrees converted to radians"). -/
def ToRadians [Mul α] [Div α] [OfNat α 180] (fm : FloatMath α) (d : α) : α :=
  d * fm.pi / 180

/-- Modelled from the spec: the absent helper library with the matrix functions
above.  `FaceTarget`, `GetEulerAngles` and `MakeProjectionMatrix` stay
parameters: the spec does not fix their values. -/
def stdMathLib [Add α] [Sub α] [Mul α] [Div α] [Neg α] [Zero α] [One α] [OfNat α 180]
    (fm : FloatMath α)
    (faceTarget : CMatrix4x4 α → CVector3 α → CMatrix4x4 α)
    (getEulerAngles : CMatrix4x4 α → CVector3 α)
    (makeProjectionMatrix : α → α → CMatrix4x4 α) : MathLib α where
  mul := CMatrix4x4.mul
  MatrixScaling := MatrixScaling
  MatrixRotationX := MatrixRotationX fm
  MatrixRotationY := MatrixRotationY fm
  MatrixRotationZ := MatrixRotationZ fm
  MatrixTranslation := MatrixTranslation
  FaceTarget := faceTarget
  GetEulerAngles := getEulerAngles
  InverseAffine := InverseAffine
  MakeProjectionMatrix := makeProjectionMatrix
  ToRadians := ToRadians fm
  cos := fm.cos
  pow := fm.pow
  GetZAxis := CMatrix4x4.GetZAxis
  IsZero := fm.IsZero
  InvSqrt := fm.InvSqrt

/-! ## Model (`Model.h`, `Model.cpp`) -/

/-- A `Mesh*`: the mesh is only ever passed on, so its identity is a number. -/
abbrev MeshRef := Nat

/-- A `CTexture*` into the scene manager's texture table (its index there). -/
abbrev TextureRef := Nat

/-- The data members of `class Model`. -/
structure Model (α : Type) where
  mMesh : MeshRef
  mPosition : CVector3 α
  mRotation : CVector3 α
  mScale : CVector3 α
  mWiggleStrength : α
  mTexture : List TextureRef
  mWorldMatrix : CMatrix4x4 α
deriving DecidableEq, Repr

/-- The constructor `Model(Mesh*, vector<CTexture*>&, position, rotation, scale)`.
`mWorldMatrix` is not initialised by it; `stale` is whatever the member holds. -/
def Model.newTextured [Zero α] (stale : CMatrix4x4 α) (mesh : MeshRef)
    (textures : List TextureRef) (position rotation : CVector3 α) (scale : α) : Model α :=
  { mMesh := mesh, mPosition := position, mRotation := rotation,
    mScale := ⟨scale, scale, scale⟩, mWiggleStrength := 0,
    mTexture := textures, mWorldMatrix := stale }

/-- The constructor `Model(Mesh*, position, rotation, scale)` (no textures). -/
def Model.new [Zero α] (stale : CMatrix4x4 α) (mesh : MeshRef)
    (position rotation : CVector3 α) (scale : α) : Model α :=
  { mMesh := mesh, mPosition := position, mRotation := rotation,
    mScale := ⟨scale, scale, scale⟩, mWiggleStrength := 0,
    mTexture := [], mWorldMatrix := stale }

/-- The getter `Model::Position`. -/
def Model.Position (m : Model α) : CVector3 α := m.mPosition

/-- The getter `Model::Rotation`. -/
def Model.Rotation (m : Model α) : CVector3 α := m.mRotation

/-- The getter `Model::Scale`. -/
def Model.Scale (m : Model α) : CVector3 α := m.mScale

/-- The setter `Model::SetPosition`. -/
def Model.SetPosition (m : Model α) (position : CVector3 α) : Model α :=
  { m with mPosition := position }

/-- The setter `Model::SetRotation`. -/
def Model.SetRotation (m : Model α) (rotation : CVector3 α) : Model α :=
  { m with mRotation := rotation }

/-- The setter `Model::SetScale(float)`. -/
def Model.SetScale (m : Model α) (scale : α) : Model α :=
  { m with mScale := ⟨scale, scale, scale⟩ }

/-- The setter `Model::SetWiggleStrength`. -/
def Model.SetWiggleStrength (m : Model α) (strength : α) : Model α :=
  { m with mWiggleStrength := strength }

/-- The private `Model::UpdateWorldMatrix`: the five-factor product, associated
to the left as C++ parses `a * b * c * d * e`. -/
def Model.UpdateWorldMatrix (L : MathLib α) (m : Model α) : Model α :=
  let world :=
    L.mul (L.mul (L.mul (L.mul (L.MatrixScaling m.mScale) (L.MatrixRotationZ m.mRotation.z))
      (L.MatrixRotationX m.mRotation.x)) (L.MatrixRotationY m.mRotation.y))
      (L.MatrixTranslation m.mPosition)
  { m with mWorldMatrix := world }

/-- The accessor `Model::WorldMatrix`: `UpdateWorldMatrix(); return mWorldMatrix;`.
The result is the returned matrix and the model after the call. -/
def Model.WorldMatrix (L : MathLib α) (m : Model α) : CMatrix4x4 α × Model α :=
  let m1 := m.UpdateWorldMatrix L
  (m1.mWorldMatrix, m1)

/-- The method `Model::FaceTarget`. -/
def Model.FaceTarget (L : MathLib α) (m : Model α) (target : CVector3 α) : Model α :=
  let m1 := m.UpdateWorldMatrix L
  let m2 := { m1 with mWorldMatrix := L.FaceTarget m1.mWorldMatrix target }
  { m2 with mRotation := L.GetEulerAngles m2.mWorldMatrix }

/-- Return unit length vector in the same direction as given one
(`Normalise` of `CVector3.cpp`). -/
def Normalise [Add α] [Mul α] [Zero α] (L : MathLib α) (v : CVector3 α) : CVector3 α :=
  let lengthSq := v.x * v.x + v.y * v.y + v.z * v.z
  if L.IsZero lengthSq then
    ⟨0, 0, 0⟩
  else
    let invLength := L.InvSqrt lengthSq
    ⟨v.x * invLength, v.y * invLength, v.z * invLength⟩

/-! ## Lights (`CLight.h`, `CLight.cpp`) -/

/-- The `enum class ELightType`. -/
inductive ELightType where
  | point
  | spotlight
  | directional
deriving DecidableEq, Repr

/-- The data members of `class CLight`; the body is owned by the light alone. -/
structure CLight (α : Type) where
  mType : ELightType
  mpBody : Model α
  mColour : CVector3 α
  mStrength : α
deriving DecidableEq, Repr

/-- The data members of `class CSpotlight : public CLight`. -/
structure CSpotlight (α : Type) extends CLight α where
  mSpotlightConeAngle : α
deriving DecidableEq, Repr

/-- The constructor `CLight::CLight`.  `stale` is the uninitialised
`mWorldMatrix` of the freshly allocated body. -/
def CLight.new [Field α] (L : MathLib α) (stale : CMatrix4x4 α) (mesh : MeshRef)
    (colour position : CVector3 α) (strength : α) (facingToward : CVector3 α) : CLight α :=
  let body0 := Model.new stale mesh ⟨0, 0, 0⟩ ⟨0, 0, 0⟩ 1
  let body1 := body0.SetPosition position
  let body2 := body1.SetScale (L.pow strength (7 / 10))
  let body3 := body2.FaceTarget L facingToward
  { mType := ELightType.point, mpBody := body3, mColour := colour, mStrength := strength }

/-- The constructor `CSpotlight::CSpotlight`: the base constructor, then the
type tag and the cone angle. -/
def CSpotlight.new [Field α] (L : MathLib α) (stale : CMatrix4x4 α) (mesh : MeshRef)
    (colour position : CVector3 α) (strength : α) (facingToward : CVector3 α) (fov : α) :
    CSpotlight α :=
  let base := CLight.new L stale mesh colour position strength facingToward
  { toCLight := { base with mType := ELightType.spotlight }, mSpotlightConeAngle := fov }

/-- The getter `CSpotlight::GetConeAngle`. -/
def CSpotlight.GetConeAngle (sp : CSpotlight α) : α := sp.mSpotlightConeAngle

/-- The method `CSpotlight::CalculateViewMatrix`; the call of `WorldMatrix`
refreshes the body's stored matrix, so the light after the call is returned too. -/
def CSpotlight.CalculateViewMatrix (L : MathLib α) (sp : CSpotlight α) :
    CMatrix4x4 α × CSpotlight α :=
  let r := sp.mpBody.WorldMatrix L
  (L.InverseAffine r.1, { sp with mpBody := r.2 })

/-- The method `CSpotlight::CalculateProjectionMatrix`. -/
def CSpotlight.CalculateProjectionMatrix [One α] (L : MathLib α) (sp : CSpotlight α) :
    CMatrix4x4 α :=
  L.MakeProjectionMatrix 1 (L.ToRadians sp.mSpotlightConeAngle)

/-- The method `CSpotlight::GetCosHalfAngle`. -/
def CSpotlight.GetCosHalfAngle [Field α] (L : MathLib α) (sp : CSpotlight α) : α :=
  L.cos (L.ToRadians (sp.mSpotlightConeAngle / 2))

/-- The method `CLight::Rotate`. -/
def CLight.Rotate (l : CLight α) (rotation : CVector3 α) : CLight α :=
  { l with mpBody := l.mpBody.SetRotation rotation }

/-- The method `CLight::FaceTarget`. -/
def CLight.FaceTarget (L : MathLib α) (l : CLight α) (target : CVector3 α) : CLight α :=
  { l with mpBody := l.mpBody.FaceTarget L target }

/-- The method `CLight::SetPosition`. -/
def CLight.SetPosition (l : CLight α) (pos : CVector3 α) : CLight α :=
  { l with mpBody := l.mpBody.SetPosition pos }

/-- A `const T&` that a function returns bound to a temporary of its own
`return` statement (`return f(...);` where `f` returns by value).  The temporary
is destroyed when the function returns, so the reference dangles: `referent`
is the value the temporary held, and every read through the reference is
undefined behaviour. -/
structure Dangling (β : Type) where
  referent : β
deriving DecidableEq, Repr

/-- The method `const CVector3& CLight::GetFacing() const`:
`return Normalise(mpBody->WorldMatrix().GetZAxis());`.  `Normalise` returns by
value, so the returned reference dangles; the body's stored matrix is
refreshed. -/
def CLight.GetFacing [Add α] [Mul α] [Zero α] (L : MathLib α) (l : CLight α) :
    Dangling (CVector3 α) × CLight α :=
  let r := l.mpBody.WorldMatrix L
  (⟨Normalise L (L.GetZAxis r.1)⟩, { l with mpBody := r.2 })

/-- The method `const CVector3& CLight::GetPosition() const`:
`return mpBody->Position();`.  `Model::Position` returns by value, so the
returned reference dangles. -/
def CLight.GetPosition (l : CLight α) : Dangling (CVector3 α) := ⟨l.mpBody.Position⟩

/-- The method `CLight::GetColour`. -/
def CLight.GetColour (l : CLight α) : CVector3 α := l.mColour

/-- The method `CLight::GetStrength`. -/
def CLight.GetStrength (l : CLight α) : α := l.mStrength

/-- One call of a spatial mutator of `CLight`. -/
inductive LightCall (α : Type) where
  | Rotate (rotation : CVector3 α)
  | FaceTarget (target : CVector3 α)
  | SetPosition (pos : CVector3 α)

/-- The light after one spatial mutator call. -/
def CLight.call (L : MathLib α) (l : CLight α) : LightCall α → CLight α
  | .Rotate r => l.Rotate r
  | .FaceTarget t => l.FaceTarget L t
  | .SetPosition p => l.SetPosition p

/-- The light after a sequence of spatial mutator calls, first call first. -/
def CLight.calls (L : MathLib α) (l : CLight α) (cs : List (LightCall α)) : CLight α :=
  cs.foldl (CLight.call L) l

/-- The spotlight after one spatial mutator call (the members are inherited). -/
def CSpotlight.call (L : MathLib α) (sp : CSpotlight α) (c : LightCall α) : CSpotlight α :=
  { sp with toCLight := sp.toCLight.call L c }

/-- The spotlight after a sequence of spatial mutator calls, first call first. -/
def CSpotlight.calls (L : MathLib α) (sp : CSpotlight α) (cs : List (LightCall α)) :
    CSpotlight α :=
  cs.foldl (CSpotlight.call L) sp

/-! ## Scene manager state (`Scene.h`) -/

/-- The `enum EMaxGroupSizes` entry `gsNumSpotlights`. -/
def gsNumSpotlights : Nat := 4

/-- The `enum EMaxGroupSizes` entry `gsNumPointLights`. -/
def gsNumPointLights : Nat := 3

/-- The `enum EMaxGroupSizes` entry `gsNumDirectionalLights`. -/
def gsNumDirectionalLights : Nat := 1

/-- The `enum EMaxGroupSizes` entry `gsNumOfModelPS` (`NumPSInCollections`). -/
def gsNumOfModelPS : Nat := 6

/-- A COM interface pointer (`ID3D11Texture2D*` and the like): `none` is
`nullptr`, `some n` the object with identity `n`. -/
abbrev Handle := Option Nat

/-- Modelled from the spec: the data of the absent `class Camera` that the
scene code sets ("an independently controllable secondary Camera"): a position
and a rotation. -/
structure Camera (α : Type) where
  mPosition : CVector3 α
  mRotation : CVector3 α
deriving DecidableEq, Repr

/-- The fields of a `D3D11_TEXTURE2D_DESC` that differ between the textures the
scene creates: the size. -/
structure TextureDesc where
  Width : Nat
  Height : Nat
deriving DecidableEq, Repr

/-- The data members of `class CPortal` (`CPortal.h`). -/
structure CPortal (α : Type) where
  mpBody : Model α
  mCamera : Camera α
  mTexture : Handle
  mTextureSRV : Handle
  mRenderTarget : Handle
deriving DecidableEq, Repr

/-- The data members of `class CSceneManager` that hold the scene: the model
buckets, the portals, the three light arrays with their running counts
(`mLightStackTop`, a `CVector3` of floats: point, spot, direction), the shadow
map and portal resources, the camera and the light constants.  A `std::array`
of `N` pointers is a function on `Fin N`; `none` is a pointer that is null or
was never written. -/
structure CSceneManager (α : Type) where
  mMeshArray : Nat → MeshRef
  mModelCollection : Fin gsNumOfModelPS → List (Model α)
  mTeapotCollection : Fin gsNumOfModelPS → List (Model α)
  mTransparentModels : List (Model α)
  mPortalCollection : List (CPortal α)
  mPointLights : Fin gsNumPointLights → Option (CLight α)
  mSpotlights : Fin gsNumSpotlights → Option (CSpotlight α)
  mDirectionalLights : Fin gsNumDirectionalLights → Option (CLight α)
  mLightStackTop : CVector3 α
  mPortalWidth : Nat
  mPortalHeight : Nat
  mShadowMapSize : Nat
  mShadowMapTextureDesc : TextureDesc
  mPortalDesc : TextureDesc
  mShadowMapSpotlightTexture : Fin gsNumSpotlights → Handle
  mShadowMapSpotlightDepthStencil : Fin gsNumSpotlights → Handle
  mShadowMapSpotlightSRV : Fin gsNumSpotlights → Handle
  mPortalDepthStencil : Handle
  mPortalDepthStencilView : Handle
  mCamera : Option (Camera α)
  mAmbientColour : CVector3 α
  mSpecularPower : α
  mBackgroundColor : α × α × α × α

/-- The scene manager as its member initialisers leave it (`Scene.h`): counts
`{0, 0, 0}`, empty collections, sizes 1024, ambient `{0.2, 0.2, 0.3}`, specular
power 256, descriptors `{}`; the pointers that have no initialiser are taken as
null, and entry `i` of the mesh table stands for the mesh with number `i`. -/
def CSceneManager.init [Div α] [Zero α] [One α] [OfNat α 2] [OfNat α 3] [OfNat α 10]
    [OfNat α 256] : CSceneManager α where
  mMeshArray := fun i => i
  mModelCollection := fun _ => []
  mTeapotCollection := fun _ => []
  mTransparentModels := []
  mPortalCollection := []
  mPointLights := fun _ => none
  mSpotlights := fun _ => none
  mDirectionalLights := fun _ => none
  mLightStackTop := ⟨0, 0, 0⟩
  mPortalWidth := 1024
  mPortalHeight := 1024
  mShadowMapSize := 1024
  mShadowMapTextureDesc := ⟨0, 0⟩
  mPortalDesc := ⟨0, 0⟩
  mShadowMapSpotlightTexture := fun _ => none
  mShadowMapSpotlightDepthStencil := fun _ => none
  mShadowMapSpotlightSRV := fun _ => none
  mPortalDepthStencil := none
  mPortalDepthStencilView := none
  mCamera := none
  mAmbientColour := ⟨2 / 10, 2 / 10, 3 / 10⟩
  mSpecularPower := 256
  mBackgroundColor := (2 / 10, 2 / 10, 3 / 10, 1)

/-- The float-to-index conversion of `mPointLights[mLightStackTop.x]`
(truncation), with the bound that the guard `top < size` provides. -/
def stackIndex [LinearOrderedField α] [FloorRing α] (n : Nat) (hn : n ≠ 0) (top : α)
    (h : top < (n : α)) : Fin n :=
  ⟨⌊top⌋₊, (Nat.floor_lt' hn).mpr h⟩

/-- The light factory `CSceneManager::NewLight`.  `stale` is the uninitialised
`mWorldMatrix` of the body that a created light allocates. -/
def CSceneManager.NewLight [LinearOrderedField α] [FloorRing α] (L : MathLib α)
    (stale : CMatrix4x4 α) (s : CSceneManager α) (type : ELightType) (mesh : MeshRef)
    (colour position : CVector3 α) (strength : α) (facingToward : CVector3 α) (fov : α) :
    CSceneManager α :=
  match type with
  | ELightType.point =>
    if h : s.mLightStackTop.x < (gsNumPointLights : α) then
      { s with
        mPointLights := Function.update s.mPointLights
          (stackIndex gsNumPointLights (by decide) s.mLightStackTop.x h)
          (some (CLight.new L stale mesh colour position strength facingToward))
        mLightStackTop := { s.mLightStackTop with x := s.mLightStackTop.x + 1 } }
    else s
  | ELightType.spotlight =>
    if h : s.mLightStackTop.y < (gsNumSpotlights : α) then
      { s with
        mSpotlights := Function.update s.mSpotlights
          (stackIndex gsNumSpotlights (by decide) s.mLightStackTop.y h)
          (some (CSpotlight.new L stale mesh colour position strength facingToward fov))
        mLightStackTop := { s.mLightStackTop with y := s.mLightStackTop.y + 1 } }
    else s
  | ELightType.directional => s

/-! ## Device calls and global constant blocks (`Common.h`, Direct3D) -/

/-- The `enum EVertexShaders` entry `vs_Wiggle`. -/
def vs_Wiggle : Nat := 0

/-- The `enum EVertexShaders` entry `vs_NormalMap`. -/
def vs_NormalMap : Nat := 1

/-- The `enum EVertexShaders` entry `vs_PixelLighting`. -/
def vs_PixelLighting : Nat := 2

/-- The `enum EVertexShaders` entry `vs_BasicTransform`. -/
def vs_BasicTransform : Nat := 3

/-- The `enum EVertexShaders` entry `vs_WiggleTangent`. -/
def vs_WiggleTangent : Nat := 4

/-- The `enum EPixelShaders` entry `ps_Wiggle`. -/
def ps_Wiggle : Nat := 0

/-- The `enum EPixelShaders` entry `ps_NormalMap`. -/
def ps_NormalMap : Nat := 1

/-- The `enum EPixelShaders` entry `ps_ParallaxMap`. -/
def ps_ParallaxMap : Nat := 2

/-- The `enum EPixelShaders` entry `ps_PixelLighting`. -/
def ps_PixelLighting : Nat := 3

/-- The `enum EPixelShaders` entry `ps_Fade`. -/
def ps_Fade : Nat := 4

/-- The `enum EPixelShaders` entry `ps_Portal`. -/
def ps_Portal : Nat := 5

/-- The `enum EPixelShaders` entry `ps_Transparent`. -/
def ps_Transparent : Nat := 6

/-- The `enum EPixelShaders` entry `ps_LightModel`. -/
def ps_LightModel : Nat := 7

/-- The `enum EPixelShaders` entry `ps_DepthOnly`. -/
def ps_DepthOnly : Nat := 8

/-- The `enum EPixelShaders` entry `ps_WiggleParallax = ps_Portal`. -/
def ps_WiggleParallax : Nat := ps_Portal

/-- The `enum ETextureType` entry `TVTexture`. -/
def TVTexture : Nat := 20

/-- The `enum ETextureType` entry `FlareTexture`. -/
def FlareTexture : Nat := 21

/-- One entry of `gPerFrameConstants.pointLights`, with the fields that
`RenderScene` assigns. -/
structure PointLightData (α : Type) where
  colour : CVector3 α
  position : CVector3 α

/-- One entry of `gPerFrameConstants.spotlights`, with the fields that
`RenderScene` assigns. -/
structure SpotlightData (α : Type) where
  colour : CVector3 α
  position : CVector3 α
  facing : CVector3 α
  cosHalfAngle : α
  viewMatrix : CMatrix4x4 α
  projectionMatrix : CMatrix4x4 α

/-- The global `gPerFrameConstants`, with the fields that the sources assign
(its declaration, `Common.h`, is not among them). -/
structure PerFrameConstants (α : Type) where
  viewMatrix : CMatrix4x4 α
  projectionMatrix : CMatrix4x4 α
  viewProjectionMatrix : CMatrix4x4 α
  pointLights : Fin gsNumPointLights → PointLightData α
  spotlights : Fin gsNumSpotlights → SpotlightData α
  lightStackTops : CVector3 α
  ambientColour : CVector3 α
  specularPower : α
  cameraPosition : CVector3 α
  wiggle : α

/-- The global `gPerModelConstants`, with the fields that the sources assign. -/
structure PerModelConstants (α : Type) where
  worldMatrix : CMatrix4x4 α
  objectColour : CVector3 α
  wiggleStrength : α

/-- The two constant buffers `gPerFrameConstantBuffer`, `gPerModelConstantBuffer`. -/
inductive ConstantBuffer where
  | perFrame
  | perModel
deriving DecidableEq, Repr

/-- The blend state objects `gNoBlendingState`, `gAdditiveBlendingState`,
`gMultiplicativeBlending`. -/
inductive BlendState where
  | NoBlending
  | Additive
  | Multiplicative
deriving DecidableEq, Repr

/-- The depth state objects `gUseDepthBufferState`, `gDepthReadOnlyState`,
`gNoDepthBufferState`. -/
inductive DepthState where
  | UseDepthBuffer
  | DepthReadOnly
  | NoDepthBuffer
deriving DecidableEq, Repr

/-- The rasteriser state objects `gCullBackState`, `gCullFrontState`,
`gCullNoneState`. -/
inductive RasterState where
  | CullBack
  | CullFront
  | CullNone
deriving DecidableEq, Repr

/-- The sampler objects `gPointSampler`, `gTrilinearSampler`,
`gAnisotropic4xSampler`. -/
inductive Sampler where
  | Point
  | Trilinear
  | Anisotropic4x
deriving DecidableEq, Repr

/-- A shader resource view handed to `PSSetShaderResources`: the view of entry
`t` of the texture table, a raw view pointer (shadow map, portal texture, or
null), or the result of reading `mTexture` out of range. -/
inductive ViewRef where
  | texture (t : TextureRef)
  | handle (h : Handle)
  | outOfRange
deriving DecidableEq, Repr

/-- A render target: the global `gBackBufferRenderTarget` or a raw view pointer. -/
inductive RenderTargetRef where
  | backBuffer
  | handle (h : Handle)
deriving DecidableEq, Repr

/-- A depth view: the global `gDepthStencil` or a raw view pointer. -/
inductive DepthRef where
  | mainDepth
  | handle (h : Handle)
deriving DecidableEq, Repr

/-- One call on the Direct3D device, context or swap chain (or of
`Mesh::Render`), with the arguments that vary. -/
inductive Cmd (α : Type) where
  | RSSetViewports (width height : Nat)
  | OMSetRenderTargets (target : Option RenderTargetRef) (depth : DepthRef)
  | ClearDepthStencilView (depth : DepthRef)
  | ClearRenderTargetView (target : RenderTargetRef) (colour : α × α × α × α)
  | UpdatePerFrame (block : PerFrameConstants α)
  | UpdatePerModel (block : PerModelConstants α)
  | VSSetConstantBuffers (slot : Nat) (buffer : ConstantBuffer)
  | PSSetConstantBuffers (slot : Nat) (buffer : ConstantBuffer)
  | VSSetShader (shader : Nat)
  | PSSetShader (shader : Nat)
  | OMSetBlendState (state : BlendState)
  | OMSetDepthStencilState (state : DepthState)
  | RSSetState (state : RasterState)
  | PSSetSamplers (slot : Nat) (sampler : Sampler)
  | PSSetShaderResources (slot : Nat) (views : List ViewRef)
  | MeshRender (mesh : MeshRef)
  | Present

/-- The globals of `Common.h` that rendering reads and writes, and the record of
the run: `calls` are the device calls issued so far, oldest first; `fault` is
set when a statement with undefined behaviour was reached (a null pointer
dereferenced, an array read out of range, a read through a dangling
reference), after which the record says nothing about the C++ program. -/
structure Gfx (α : Type) where
  gPerFrameConstants : PerFrameConstants α
  gPerModelConstants : PerModelConstants α
  gViewportWidth : Nat
  gViewportHeight : Nat
  calls : List (Cmd α)
  fault : Bool

/-- Issue device calls, in order. -/
def Gfx.emit (g : Gfx α) (cs : List (Cmd α)) : Gfx α :=
  { g with calls := g.calls ++ cs }

/-- Record that a statement with undefined behaviour was reached. -/
def Gfx.raise (g : Gfx α) : Gfx α :=
  { g with fault := true }

/-- A read through a dangling reference: undefined behaviour.  The fault is
recorded; the run goes on with the value the destroyed temporary held. -/
def Gfx.readDangling {β : Type} (g : Gfx α) (d : Dangling β) : β × Gfx α :=
  (d.referent, g.raise)

/-- The loop `for (i = 0; i < n; ++i) body`, the state after `n` rounds. -/
def forLoop {σ : Type} : Nat → (Nat → σ → σ) → σ → σ
  | 0, _, st => st
  | n + 1, body, st => body n (forLoop n body st)

/-- The number of rounds of `for (unsigned short i = 0; i < top; ++i)` with a
float bound: the least natural number that is not below `top`. -/
def loopRounds [LinearOrderedField α] [FloorRing α] (top : α) : Nat := ⌈top⌉₊

/-- The method `Model::Render`: refresh the world matrix, copy it and the wiggle
strength to `gPerModelConstants`, upload that block, bind it to both shader
stages and draw the mesh. -/
def Model.Render (L : MathLib α) (m : Model α) (g : Gfx α) : Model α × Gfx α :=
  let m1 := m.UpdateWorldMatrix L
  let block : PerModelConstants α :=
    { g.gPerModelConstants with
      worldMatrix := m1.mWorldMatrix, wiggleStrength := m1.mWiggleStrength }
  (m1, ({ g with gPerModelConstants := block }).emit
    [Cmd.UpdatePerModel block, Cmd.VSSetConstantBuffers 1 ConstantBuffer.perModel,
     Cmd.PSSetConstantBuffers 1 ConstantBuffer.perModel, Cmd.MeshRender m1.mMesh])

/-- The method `Model::GetTexture`: entry `index` of `mTexture`, or `outOfRange`
when there is none. -/
def Model.GetTexture (m : Model α) (index : Nat) : ViewRef :=
  match m.mTexture.get? index with
  | some t => ViewRef.texture t
  | none => ViewRef.outOfRange

/-- The method `CLight::Render`. -/
def CLight.Render (L : MathLib α) (l : CLight α) (g : Gfx α) : CLight α × Gfx α :=
  let r := l.mpBody.Render L g
  ({ l with mpBody := r.1 }, r.2)

/-- The method `CPortal::Render`. -/
def CPortal.Render (L : MathLib α) (p : CPortal α) (g : Gfx α) : CPortal α × Gfx α :=
  let r := p.mpBody.Render L g
  ({ p with mpBody := r.1 }, r.2)

/-- The loop `for (auto& model : models) model->Render();`. -/
def renderModels (L : MathLib α) : List (Model α) → Gfx α → List (Model α) × Gfx α
  | [], g => ([], g)
  | m :: rest, g =>
    let r := m.Render L g
    let rs := renderModels L rest r.2
    (r.1 :: rs.1, rs.2)

/-- The loop `for (auto& portal : mPortalCollection) portal->Render();`. -/
def renderPortals (L : MathLib α) : List (CPortal α) → Gfx α → List (CPortal α) × Gfx α
  | [], g => ([], g)
  | p :: rest, g =>
    let r := p.Render L g
    let rs := renderPortals L rest r.2
    (r.1 :: rs.1, rs.2)

/-- The nested loop `for (auto& bucket : collection) for (auto& model : bucket)
model->Render();` over an array of `gsNumOfModelPS` vectors. -/
def renderBuckets (L : MathLib α) (collection : Fin gsNumOfModelPS → List (Model α))
    (g : Gfx α) : (Fin gsNumOfModelPS → List (Model α)) × Gfx α :=
  forLoop gsNumOfModelPS
    (fun i st =>
      if h : i < gsNumOfModelPS then
        let r := renderModels L (st.1 ⟨i, h⟩) st.2
        (Function.update st.1 ⟨i, h⟩ r.1, r.2)
      else st)
    (collection, g)

/-! ## Rendering (`Scene.cpp`) -/

/-- The member functions of the absent `class Camera` that rendering calls. -/
structure CameraLib (α : Type) where
  ViewMatrix : Camera α → CMatrix4x4 α
  ProjectionMatrix : Camera α → CMatrix4x4 α
  ViewProjectionMatrix : Camera α → CMatrix4x4 α

/-- The getter `Camera::Position`. -/
def Camera.Position (c : Camera α) : CVector3 α := c.mPosition

/-- The function `CSceneManager::RenderDepthBufferFromLight`, called on the
spotlight `light`.  Returns the light (its body's stored matrix refreshed), the
scene (the stored matrices of the rendered models refreshed) and the globals. -/
def CSceneManager.RenderDepthBufferFromLight [One α] (L : MathLib α) (s : CSceneManager α)
    (g : Gfx α) (light : CSpotlight α) : CSpotlight α × CSceneManager α × Gfx α :=
  let v := light.CalculateViewMatrix L
  let pf1 : PerFrameConstants α := { g.gPerFrameConstants with viewMatrix := v.1 }
  let pf2 : PerFrameConstants α :=
    { pf1 with projectionMatrix := v.2.CalculateProjectionMatrix L }
  let pf3 : PerFrameConstants α :=
    { pf2 with viewProjectionMatrix := L.mul pf2.viewMatrix pf2.projectionMatrix }
  let g1 := ({ g with gPerFrameConstants := pf3 }).emit
    [Cmd.UpdatePerFrame pf3,
     Cmd.VSSetConstantBuffers 0 ConstantBuffer.perFrame,
     Cmd.PSSetConstantBuffers 0 ConstantBuffer.perFrame,
     Cmd.VSSetShader vs_BasicTransform,
     Cmd.PSSetShader ps_DepthOnly,
     Cmd.OMSetBlendState BlendState.NoBlending,
     Cmd.OMSetDepthStencilState DepthState.UseDepthBuffer,
     Cmd.RSSetState RasterState.CullBack]
  let models := renderBuckets L s.mModelCollection g1
  let portals := renderPortals L s.mPortalCollection models.2
  let g2 := portals.2.emit [Cmd.RSSetState RasterState.CullNone]
  let teapots := renderBuckets L s.mTeapotCollection g2
  let g3 := teapots.2.emit
    [Cmd.OMSetBlendState BlendState.Multiplicative,
     Cmd.OMSetDepthStencilState DepthState.DepthReadOnly]
  let transparent := renderModels L s.mTransparentModels g3
  (v.2,
   { s with
     mModelCollection := models.1, mPortalCollection := portals.1,
     mTeapotCollection := teapots.1, mTransparentModels := transparent.1 },
   transparent.2)

/-- The `switch (i)` of the first (no-cull) sweep of `RenderSceneFromCamera`:
the shader calls it issues and the value it leaves in `secondTexture`. -/
def shaderSwitchNoCull (i : Nat) : List (Cmd α) × Bool :=
  if i = ps_Wiggle then
    ([Cmd.VSSetShader vs_Wiggle, Cmd.PSSetShader ps_Wiggle], false)
  else if i = ps_NormalMap then
    ([Cmd.VSSetShader vs_NormalMap, Cmd.PSSetShader ps_NormalMap], true)
  else if i = ps_ParallaxMap then
    ([Cmd.PSSetShader ps_ParallaxMap], true)
  else if i = ps_PixelLighting then
    ([Cmd.VSSetShader vs_PixelLighting, Cmd.PSSetShader ps_PixelLighting], false)
  else if i = ps_Fade then
    ([Cmd.PSSetShader ps_Fade], true)
  else if i = ps_WiggleParallax then
    ([Cmd.VSSetShader vs_WiggleTangent, Cmd.PSSetShader ps_ParallaxMap], false)
  else ([], false)

/-- The `switch (i)` of the second (back-face-cull) sweep of
`RenderSceneFromCamera`. -/
def shaderSwitchCullBack (i : Nat) : List (Cmd α) × Bool :=
  if i = ps_Wiggle then
    ([Cmd.VSSetShader vs_Wiggle, Cmd.PSSetShader ps_Wiggle], false)
  else if i = ps_NormalMap then
    ([Cmd.VSSetShader vs_NormalMap, Cmd.PSSetShader ps_NormalMap], true)
  else if i = ps_ParallaxMap then
    ([Cmd.PSSetShader ps_ParallaxMap], true)
  else if i = ps_PixelLighting then
    ([Cmd.VSSetShader vs_PixelLighting, Cmd.PSSetShader ps_PixelLighting], false)
  else if i = ps_Fade then
    ([Cmd.PSSetShader ps_Fade], true)
  else if i = ps_WiggleParallax then
    ([Cmd.VSSetShader vs_WiggleTangent, Cmd.PSSetShader ps_ParallaxMap], true)
  else ([], false)

/-- Bind the view that `model->GetTexture(index)` yields to a pixel shader slot;
a read out of range is a fault. -/
def bindModelTexture (slot : Nat) (m : Model α) (index : Nat) (g : Gfx α) : Gfx α :=
  let g1 := if m.GetTexture index = ViewRef.outOfRange then g.raise else g
  g1.emit [Cmd.PSSetShaderResources slot [m.GetTexture index]]

/-- The inner loop of a sweep: for each model of the bucket bind its first
texture to slot 0, its second to slot `gsNumSpotlights + 1` when
`secondTexture` is set, and render it. -/
def drawTexturedModels (L : MathLib α) (secondTexture : Bool) :
    List (Model α) → Gfx α → List (Model α) × Gfx α
  | [], g => ([], g)
  | m :: rest, g =>
    let g1 := bindModelTexture 0 m 0 g
    let g2 := if secondTexture then bindModelTexture (gsNumSpotlights + 1) m 1 g1 else g1
    let r := m.Render L g2
    let rs := drawTexturedModels L secondTexture rest r.2
    (r.1 :: rs.1, rs.2)

/-- One sweep of `RenderSceneFromCamera` over an array of buckets: for each
bucket index the shader switch, then the inner loop. -/
def sweepBuckets (L : MathLib α) (shaderSwitch : Nat → List (Cmd α) × Bool)
    (collection : Fin gsNumOfModelPS → List (Model α)) (g : Gfx α) :
    (Fin gsNumOfModelPS → List (Model α)) × Gfx α :=
  forLoop gsNumOfModelPS
    (fun i st =>
      if h : i < gsNumOfModelPS then
        let g1 := st.2.emit (shaderSwitch i).1
        let r := drawTexturedModels L (shaderSwitch i).2 (st.1 ⟨i, h⟩) g1
        (Function.update st.1 ⟨i, h⟩ r.1, r.2)
      else st)
    (collection, g)

/-- The portal loop of `RenderSceneFromCamera`: bind the portal's own texture
view to slot `gsNumSpotlights + 1` and render the portal body. -/
def drawPortals (L : MathLib α) : List (CPortal α) → Gfx α → List (CPortal α) × Gfx α
  | [], g => ([], g)
  | p :: rest, g =>
    let g1 := g.emit
      [Cmd.PSSetShaderResources (gsNumSpotlights + 1) [ViewRef.handle p.mTextureSRV]]
    let r := p.Render L g1
    let rs := drawPortals L rest r.2
    (r.1 :: rs.1, rs.2)

/-- A light marker loop of `RenderSceneFromCamera` over an array of `n` light
pointers with the float count `top`: copy the colour to
`gPerModelConstants.objectColour` and render the light. -/
def drawLightMarkers [LinearOrderedField α] [FloorRing α] {β : Type} (L : MathLib α) (n : Nat)
    (base : β → CLight α) (rebase : β → CLight α → β) (top : α)
    (lights : Fin n → Option β) (g : Gfx α) : (Fin n → Option β) × Gfx α :=
  forLoop (loopRounds top)
    (fun i st =>
      if h : i < n then
        match st.1 ⟨i, h⟩ with
        | some l =>
          let g1 : Gfx α :=
            { st.2 with
              gPerModelConstants :=
                { st.2.gPerModelConstants with objectColour := (base l).GetColour } }
          let r := (base l).Render L g1
          (Function.update st.1 ⟨i, h⟩ (some (rebase l r.1)), r.2)
        | none => (st.1, st.2.raise)
      else (st.1, st.2.raise))
    (lights, g)

/-- The transparent loop of `RenderSceneFromCamera`. -/
def drawTransparentModels (L : MathLib α) : List (Model α) → Gfx α → List (Model α) × Gfx α
  | [], g => ([], g)
  | m :: rest, g =>
    let r := m.Render L (bindModelTexture 0 m 0 g)
    let rs := drawTransparentModels L rest r.2
    (r.1 :: rs.1, rs.2)

/-- The function `CSceneManager::RenderSceneFromCamera`. -/
def CSceneManager.RenderSceneFromCamera [LinearOrderedField α] [FloorRing α]
    (K : CameraLib α) (L : MathLib α) (s : CSceneManager α) (g : Gfx α) (camera : Camera α) :
    CSceneManager α × Gfx α :=
  let pf : PerFrameConstants α :=
    { g.gPerFrameConstants with
      viewMatrix := K.ViewMatrix camera
      projectionMatrix := K.ProjectionMatrix camera
      viewProjectionMatrix := K.ViewProjectionMatrix camera }
  let g1 := ({ g with gPerFrameConstants := pf }).emit
    [Cmd.UpdatePerFrame pf,
     Cmd.VSSetConstantBuffers 0 ConstantBuffer.perFrame,
     Cmd.PSSetConstantBuffers 0 ConstantBuffer.perFrame,
     Cmd.OMSetBlendState BlendState.NoBlending,
     Cmd.OMSetDepthStencilState DepthState.UseDepthBuffer,
     Cmd.PSSetSamplers 0 Sampler.Anisotropic4x,
     Cmd.RSSetState RasterState.CullNone]
  let teapots := sweepBuckets L shaderSwitchNoCull s.mTeapotCollection g1
  let g2 := teapots.2.emit [Cmd.RSSetState RasterState.CullBack]
  let models := sweepBuckets L shaderSwitchCullBack s.mModelCollection g2
  let g3 := models.2.emit
    [Cmd.PSSetShader ps_Portal, Cmd.PSSetShaderResources 0 [ViewRef.texture TVTexture]]
  let portals := drawPortals L s.mPortalCollection g3
  let g4 := portals.2.emit
    [Cmd.VSSetShader vs_BasicTransform,
     Cmd.PSSetShader ps_LightModel,
     Cmd.PSSetShaderResources 0 [ViewRef.texture FlareTexture],
     Cmd.PSSetSamplers 0 Sampler.Anisotropic4x,
     Cmd.OMSetBlendState BlendState.Additive,
     Cmd.OMSetDepthStencilState DepthState.DepthReadOnly,
     Cmd.RSSetState RasterState.CullNone]
  let points := drawLightMarkers L gsNumPointLights id (fun _ l => l)
    s.mLightStackTop.x s.mPointLights g4
  let spots := drawLightMarkers L gsNumSpotlights CSpotlight.toCLight
    (fun sp l => { sp with toCLight := l }) s.mLightStackTop.y s.mSpotlights points.2
  let directionals := drawLightMarkers L gsNumDirectionalLights id (fun _ l => l)
    s.mLightStackTop.z s.mDirectionalLights spots.2
  let g5 := directionals.2.emit
    [Cmd.VSSetShader vs_BasicTransform,
     Cmd.PSSetShader ps_Transparent,
     Cmd.PSSetSamplers 0 Sampler.Trilinear,
     Cmd.OMSetBlendState BlendState.Multiplicative,
     Cmd.OMSetDepthStencilState DepthState.DepthReadOnly,
     Cmd.RSSetState RasterState.CullNone]
  let transparent := drawTransparentModels L s.mTransparentModels g5
  ({ s with
     mTeapotCollection := teapots.1, mModelCollection := models.1,
     mPortalCollection := portals.1, mPointLights := points.1, mSpotlights := spots.1,
     mDirectionalLights := directionals.1, mTransparentModels := transparent.1 },
   transparent.2)

/-- The entry that `RenderScene` writes for a point light; the position is what
the destroyed temporary behind `GetPosition()` held. -/
def pointLightData [Mul α] (l : CLight α) : PointLightData α :=
  { colour := l.GetColour.scale l.GetStrength, position := l.GetPosition.referent }

/-- The six assignments of `RenderScene` for one spotlight, in source order;
`GetFacing` and `CalculateViewMatrix` refresh the body's stored matrix, so the
spotlight after them is returned with the entry.  The position and the facing
are what the destroyed temporaries behind `GetPosition()` and `GetFacing()`
held. -/
def spotlightData [Field α] (L : MathLib α) (sp : CSpotlight α) :
    SpotlightData α × CSpotlight α :=
  let colour := sp.GetColour.scale sp.GetStrength
  let position := sp.GetPosition.referent
  let f := sp.toCLight.GetFacing L
  let sp1 : CSpotlight α := { sp with toCLight := f.2 }
  let cosHalfAngle := sp1.GetCosHalfAngle L
  let v := sp1.CalculateViewMatrix L
  let projection := v.2.CalculateProjectionMatrix L
  ({ colour := colour, position := position, facing := f.1.referent,
     cosHalfAngle := cosHalfAngle, viewMatrix := v.1, projectionMatrix := projection }, v.2)

/-- One round of the point-light loop of `RenderScene`, for index `i`.  The
assignment of `.position` copies from the dangling reference that
`GetPosition()` returned. -/
def CSceneManager.aggregatePoint [Mul α] (i : Nat) (st : CSceneManager α × Gfx α) :
    CSceneManager α × Gfx α :=
  if h : i < gsNumPointLights then
    match st.1.mPointLights ⟨i, h⟩ with
    | some l =>
      let g1 := (st.2.readDangling l.GetPosition).2
      (st.1,
       { g1 with
         gPerFrameConstants :=
           { g1.gPerFrameConstants with
             pointLights := Function.update g1.gPerFrameConstants.pointLights ⟨i, h⟩
               (pointLightData l) } })
    | none => (st.1, st.2.raise)
  else (st.1, st.2.raise)

/-- One round of the spotlight loop of `RenderScene`, for index `i`.  The
assignments of `.position` and `.facing` copy from the dangling references
that `GetPosition()` and `GetFacing()` returned. -/
def CSceneManager.aggregateSpot [Field α] (L : MathLib α) (i : Nat)
    (st : CSceneManager α × Gfx α) : CSceneManager α × Gfx α :=
  if h : i < gsNumSpotlights then
    match st.1.mSpotlights ⟨i, h⟩ with
    | some sp =>
      let d := spotlightData L sp
      let g1 := (st.2.readDangling sp.GetPosition).2
      let g2 := (g1.readDangling (sp.toCLight.GetFacing L).1).2
      ({ st.1 with mSpotlights := Function.update st.1.mSpotlights ⟨i, h⟩ (some d.2) },
       { g2 with
         gPerFrameConstants :=
           { g2.gPerFrameConstants with
             spotlights := Function.update g2.gPerFrameConstants.spotlights ⟨i, h⟩ d.1 } })
    | none => (st.1, st.2.raise)
  else (st.1, st.2.raise)

/-- The first part of `CSceneManager::RenderScene` ("Common settings"): the two
light loops that fill `gPerFrameConstants.pointLights` and `.spotlights`, then
the counts, ambient colour, specular power and camera position. -/
def CSceneManager.aggregateLights [LinearOrderedField α] [FloorRing α] (L : MathLib α)
    (s : CSceneManager α) (g : Gfx α) : CSceneManager α × Gfx α :=
  let afterPoints := forLoop (loopRounds s.mLightStackTop.x) CSceneManager.aggregatePoint (s, g)
  let afterSpots :=
    forLoop (loopRounds s.mLightStackTop.y) (CSceneManager.aggregateSpot L) afterPoints
  let s1 := afterSpots.1
  let g1 := afterSpots.2
  let pf1 : PerFrameConstants α :=
    { g1.gPerFrameConstants with
      lightStackTops := s1.mLightStackTop
      ambientColour := s1.mAmbientColour
      specularPower := s1.mSpecularPower }
  match s1.mCamera with
  | some camera =>
    (s1, { g1 with gPerFrameConstants := { pf1 with cameraPosition := camera.Position } })
  | none => (s1, ({ g1 with gPerFrameConstants := pf1 }).raise)

/-- One round of the shadow loop of `RenderScene`, for index `i`: bind and clear
the shadow map depth view of spotlight `i` (no colour target), then render the
depth buffer from that light. -/
def CSceneManager.shadowPass [Field α] (L : MathLib α) (i : Nat)
    (st : CSceneManager α × Gfx α) : CSceneManager α × Gfx α :=
  if h : i < gsNumSpotlights then
    let depth := DepthRef.handle (st.1.mShadowMapSpotlightDepthStencil ⟨i, h⟩)
    let g1 := st.2.emit [Cmd.OMSetRenderTargets none depth, Cmd.ClearDepthStencilView depth]
    match st.1.mSpotlights ⟨i, h⟩ with
    | some sp =>
      let r := st.1.RenderDepthBufferFromLight L g1 sp
      ({ r.2.1 with mSpotlights := Function.update r.2.1.mSpotlights ⟨i, h⟩ (some r.1) },
       r.2.2)
    | none => (st.1, g1.raise)
  else (st.1, st.2.raise)

/-- The shadow loop of `CSceneManager::RenderScene`, one round for each
spotlight below the count. -/
def CSceneManager.shadowPasses [LinearOrderedField α] [FloorRing α] (L : MathLib α)
    (s : CSceneManager α) (g : Gfx α) : CSceneManager α × Gfx α :=
  forLoop (loopRounds s.mLightStackTop.y) (CSceneManager.shadowPass L) (s, g)

/-- The views `mShadowMapSpotlightSRV[0 .. gsNumSpotlights - 1]`, as handed to
`PSSetShaderResources(1, gsNumSpotlights, mShadowMapSpotlightSRV)`. -/
def CSceneManager.shadowMapViews (s : CSceneManager α) : List ViewRef :=
  List.ofFn (fun i => ViewRef.handle (s.mShadowMapSpotlightSRV i))

/-- The portal loop of `CSceneManager::RenderScene`, portal by portal in the
order of `mPortalCollection`. -/
def CSceneManager.portalPasses [LinearOrderedField α] [FloorRing α] (K : CameraLib α)
    (L : MathLib α) (s : CSceneManager α) (g : Gfx α) : CSceneManager α × Gfx α :=
  forLoop s.mPortalCollection.length
    (fun k st =>
      match st.1.mPortalCollection.get? k with
      | some portal =>
        let depth := DepthRef.handle st.1.mPortalDepthStencilView
        let target := RenderTargetRef.handle portal.mRenderTarget
        let g1 := st.2.emit
          [Cmd.OMSetRenderTargets (some target) depth,
           Cmd.PSSetShaderResources 1 st.1.shadowMapViews,
           Cmd.ClearRenderTargetView target st.1.mBackgroundColor,
           Cmd.ClearDepthStencilView depth]
        st.1.RenderSceneFromCamera K L g1 portal.mCamera
      | none => (st.1, st.2.raise))
    (s, g)

/-- The function `CSceneManager::RenderScene`: light aggregation, shadow passes,
portal passes, main pass, `Present`. -/
def CSceneManager.RenderScene [LinearOrderedField α] [FloorRing α] (K : CameraLib α)
    (L : MathLib α) (s : CSceneManager α) (g : Gfx α) : CSceneManager α × Gfx α :=
  let a := s.aggregateLights L g
  let g1 := a.2.emit [Cmd.RSSetViewports a.1.mShadowMapSize a.1.mShadowMapSize]
  let sh := a.1.shadowPasses L g1
  let g2 := sh.2.emit
    [Cmd.RSSetViewports sh.1.mPortalWidth sh.1.mPortalHeight,
     Cmd.PSSetSamplers 1 Sampler.Point]
  let po := sh.1.portalPasses K L g2
  let g3 := po.2.emit
    [Cmd.OMSetRenderTargets (some RenderTargetRef.backBuffer) DepthRef.mainDepth,
     Cmd.ClearRenderTargetView RenderTargetRef.backBuffer po.1.mBackgroundColor,
     Cmd.ClearDepthStencilView DepthRef.mainDepth,
     Cmd.RSSetViewports po.2.gViewportWidth po.2.gViewportHeight]
  let ma : CSceneManager α × Gfx α :=
    match po.1.mCamera with
    | some camera => po.1.RenderSceneFromCamera K L g3 camera
    | none => (po.1, g3.raise)
  (ma.1, ma.2.emit
    [Cmd.PSSetShaderResources 1 (List.replicate gsNumSpotlights (ViewRef.handle none)),
     Cmd.Present])

/-- The per-frame blocks uploaded by a run of device calls, in order. -/
def perFrameUploads : List (Cmd α) → List (PerFrameConstants α)
  | [] => []
  | Cmd.UpdatePerFrame block :: rest => block :: perFrameUploads rest
  | _ :: rest => perFrameUploads rest

/-- The globals `g2` continue `g1` with the per-frame block untouched and no
per-frame upload issued. -/
def Gfx.Neutral (g1 g2 : Gfx α) : Prop :=
  g2.gPerFrameConstants = g1.gPerFrameConstants
    ∧ perFrameUploads g2.calls = perFrameUploads g1.calls

/-- The globals `g2` continue `g1`: the record of `g1` with further calls after
it, and a fault recorded in `g1` is still recorded in `g2`. -/
def Gfx.Extends (g1 g2 : Gfx α) : Prop :=
  (∃ cs : List (Cmd α), g2.calls = g1.calls ++ cs) ∧ (g1.fault = true → g2.fault = true)

/-- The per-frame block that a shadow pass for `light` uploads when the block
before it is `pf`: the three camera-like matrices are overwritten. -/
def shadowBlock [One α] (L : MathLib α) (pf : PerFrameConstants α) (light : CSpotlight α) :
    PerFrameConstants α :=
  { pf with
    viewMatrix := (light.CalculateViewMatrix L).1
    projectionMatrix := (light.CalculateViewMatrix L).2.CalculateProjectionMatrix L
    viewProjectionMatrix :=
      L.mul (light.CalculateViewMatrix L).1
        ((light.CalculateViewMatrix L).2.CalculateProjectionMatrix L) }

/-- The spotlight with the stored world matrix of its body brought up to date,
as `GetFacing` and `CalculateViewMatrix` leave it. -/
def CSpotlight.refreshed (L : MathLib α) (sp : CSpotlight α) : CSpotlight α :=
  { sp with mpBody := sp.mpBody.UpdateWorldMatrix L }

/-! ## Model factory (`CSceneManager::NewModel`) -/

/-- The `enum EMeshType` entry `Mesh_Troll`. -/
def Mesh_Troll : Nat := 0

/-- The `enum EMeshType` entry `Mesh_Cube`. -/
def Mesh_Cube : Nat := 1

/-- The `enum EMeshType` entry `Mesh_CubeTangent`. -/
def Mesh_CubeTangent : Nat := 2

/-- The `enum EMeshType` entry `Mesh_Decal`. -/
def Mesh_Decal : Nat := 3

/-- The `enum EMeshType` entry `Mesh_Crate`. -/
def Mesh_Crate : Nat := 4

/-- The `enum EMeshType` entry `Mesh_Sphere`. -/
def Mesh_Sphere : Nat := 5

/-- The `enum EMeshType` entry `Mesh_SphereTangent`. -/
def Mesh_SphereTangent : Nat := 6

/-- The `enum EMeshType` entry `Mesh_Ground`. -/
def Mesh_Ground : Nat := 7

/-- The `enum EMeshType` entry `Mesh_Light`. -/
def Mesh_Light : Nat := 8

/-- The `enum EMeshType` entry `Mesh_Teapot`. -/
def Mesh_Teapot : Nat := 9

/-- The `enum EMeshType` entry `Mesh_Portal`. -/
def Mesh_Portal : Nat := 10

/-- The model factory `CSceneManager::NewModel`.  The pointers `&mTextures[index]`
are the indices themselves; `stale` is the uninitialised `mWorldMatrix` of the
model that is allocated. -/
def CSceneManager.NewModel [Zero α] (stale : CMatrix4x4 α) (s : CSceneManager α)
    (meshIndex : Nat) (textureIndexes : List Nat) (position : CVector3 α) (scale : α)
    (rotation : CVector3 α) (wiggleStrength : α) (shaderType : Nat) : CSceneManager α :=
  let textures : List TextureRef := textureIndexes
  let fresh := Model.newTextured stale (s.mMeshArray meshIndex) textures position rotation scale
  let s1 : CSceneManager α :=
    if shaderType = ps_Transparent then
      { s with mTransparentModels := s.mTransparentModels ++ [fresh] }
    else s
  if h : shaderType < gsNumOfModelPS then
    if meshIndex = Mesh_Teapot then
      { s1 with
        mTeapotCollection := Function.update s1.mTeapotCollection ⟨shaderType, h⟩
          (s1.mTeapotCollection ⟨shaderType, h⟩ ++ [fresh.SetWiggleStrength wiggleStrength]) }
    else if meshIndex < Mesh_Portal then
      { s1 with
        mModelCollection := Function.update s1.mModelCollection ⟨shaderType, h⟩
          (s1.mModelCollection ⟨shaderType, h⟩ ++ [fresh.SetWiggleStrength wiggleStrength]) }
    else s1
  else s1

/-! ## The host: device allocations, loaders and the global error message -/

/-- A request to the Direct3D device or to a loader of the helper files, with the
arguments that matter.  `NewMesh i` is the `new Mesh(...)` that fills
`mMeshArray[i]`, `LoadTexture t` the `LoadTexture` call for `mTextures[t]`. -/
inductive HostCall where
  | NewMesh (meshIndex : Nat)
  | LoadShaders
  | CreateConstantBuffer (buffer : ConstantBuffer)
  | LoadTexture (textureIndex : Nat)
  | CreateTexture2D (desc : TextureDesc)
  | CreateDepthStencilView (texture : Handle)
  | CreateRenderTargetView (texture : Handle)
  | CreateShaderResourceView (texture : Handle)
  | CreateStates
deriving DecidableEq, Repr

/-- The world outside the scene code: `outcome n c` is what the `n`-th request
made yields when it is `c` (`some id` on success, with `id` the object created;
`none` on failure, which is a failed `HRESULT`, a null pointer, a `false`, or for
a mesh a thrown `std::runtime_error`); `meshError i` is the `what()` of that
error; `calls` are the requests made so far, oldest first; `gLastError` is the
global of that name.  An out-pointer receives the object on success and null on
failure. -/
structure Host where
  outcome : Nat → HostCall → Option Nat
  meshError : Nat → String
  calls : List HostCall
  gLastError : String

/-- Make a request: its outcome, and the host with the request recorded. -/
def Host.request (h : Host) (c : HostCall) : Option Nat × Host :=
  (h.outcome h.calls.length c, { h with calls := h.calls ++ [c] })

/-- The assignment `gLastError = message`. -/
def Host.setError (h : Host) (message : String) : Host :=
  { h with gLastError := message }

/-! ## Portals (`CPortal.cpp`, `CSceneManager::NewPortal`) -/

/-- The constructor `CPortal::CPortal`: the body at the starting placement, the
camera five units behind the body along its normalised Z axis, turned by
`{ToRadians(20), ToRadians(345), 0}`; the handles start null. -/
def CPortal.new [Field α] (L : MathLib α) (stale : CMatrix4x4 α) (mesh : MeshRef)
    (startingPos startingRotation : CVector3 α) : CPortal α :=
  let body := Model.new stale mesh startingPos startingRotation 1
  let w := body.WorldMatrix L
  let camera : Camera α :=
    { mPosition := startingPos.add ((Normalise L (L.GetZAxis w.1)).scale (-5)),
      mRotation := startingRotation.add ⟨L.ToRadians 20, L.ToRadians 345, 0⟩ }
  { mpBody := w.2, mCamera := camera, mTexture := none, mTextureSRV := none,
    mRenderTarget := none }

/-- The method `CPortal::CreateTexture`: the returned flag, the portal and the
host after the call. -/
def CPortal.CreateTexture (p : CPortal α) (portalDesc : TextureDesc) (h : Host) :
    Bool × CPortal α × Host :=
  let r1 := h.request (HostCall.CreateTexture2D portalDesc)
  let p1 : CPortal α := { p with mTexture := r1.1 }
  if r1.1 = none then
    (false, p1, r1.2.setError "Error creating portal texture")
  else
    let r2 := r1.2.request (HostCall.CreateRenderTargetView p1.mTexture)
    let p2 : CPortal α := { p1 with mRenderTarget := r2.1 }
    if r2.1 = none then
      (false, p2, r2.2.setError "Error creating portal render target view")
    else
      let r3 := r2.2.request (HostCall.CreateShaderResourceView p2.mTexture)
      let p3 : CPortal α := { p2 with mTextureSRV := r3.1 }
      if r3.1 = none then
        (false, p3, r3.2.setError "Error creating portal shader resource view")
      else
        (true, p3, r3.2)

/-- The method `CSceneManager::NewPortal`: the portal is appended to
`mPortalCollection`, then `CreateTexture` is called on it and its result is
dropped. -/
def CSceneManager.NewPortal [Field α] (L : MathLib α) (stale : CMatrix4x4 α)
    (s : CSceneManager α) (h : Host) (position rotation : CVector3 α) :
    CSceneManager α × Host :=
  let portal := CPortal.new L stale (s.mMeshArray Mesh_Portal) position rotation
  let s1 : CSceneManager α := { s with mPortalCollection := s.mPortalCollection ++ [portal] }
  let r := portal.CreateTexture s1.mPortalDesc h
  ({ s1 with mPortalCollection := s.mPortalCollection ++ [r.2.1] }, r.2.2)

/-! ## Scene set-up (`CSceneManager::InitScene`, `CSceneManager::InitGeometry`) -/

/-- The `enum ETextureType` entry `StoneTexture`. -/
def StoneTexture : Nat := 1

/-- The `enum ETextureType` entry `BrickTexture`. -/
def BrickTexture : Nat := 2

/-- The `enum ETextureType` entry `CargoTexture`. -/
def CargoTexture : Nat := 4

/-- The `enum ETextureType` entry `WoodTexture`. -/
def WoodTexture : Nat := 5

/-- The `enum ETextureType` entry `WoodNormal`. -/
def WoodNormal : Nat := 6

/-- The `enum ETextureType` entry `GrassTexture`. -/
def GrassTexture : Nat := 7

/-- The `enum ETextureType` entry `PatternTexture`. -/
def PatternTexture : Nat := 10

/-- The `enum ETextureType` entry `PatternNormalH`. -/
def PatternNormalH : Nat := 11

/-- The `enum ETextureType` entry `TechTexture`. -/
def TechTexture : Nat := 16

/-- The `enum ETextureType` entry `TechNormalH`. -/
def TechNormalH : Nat := 17

/-- The `enum ETextureType` entry `GlassTexture`. -/
def GlassTexture : Nat := 22

/-- The `enum ETextureType` entry `NumOfTextures`. -/
def NumOfTextures : Nat := 23

/-- The function `CSceneManager::InitScene`: nine models, a spotlight facing the
first model of the ordinary `ps_PixelLighting` bucket (`front()`, taken at the
origin should the bucket be empty), a point light, a portal, the camera; the
returned flag is the `return true` at its end. -/
def CSceneManager.InitScene [LinearOrderedField α] [FloorRing α] (L : MathLib α)
    (stale : CMatrix4x4 α) (s : CSceneManager α) (h : Host) : Bool × CSceneManager α × Host :=
  let s1 := s.NewModel stale Mesh_Teapot [StoneTexture] ⟨15, 0, 0⟩ 1
    ⟨0, L.ToRadians 215, 0⟩ 0 ps_PixelLighting
  let s2 := s1.NewModel stale Mesh_Crate [CargoTexture] ⟨40, 0, 30⟩ 6
    ⟨0, L.ToRadians (-20), 0⟩ 0 ps_PixelLighting
  let s3 := s2.NewModel stale Mesh_Ground [GrassTexture] ⟨-20, 0, -20⟩ 1
    ⟨0, 0, 0⟩ 0 ps_PixelLighting
  let s4 := s3.NewModel stale Mesh_Sphere [WoodTexture, WoodNormal] ⟨-20, 12, 20⟩ 1
    ⟨0, 0, 0⟩ 6 ps_Wiggle
  let s5 := s4.NewModel stale Mesh_SphereTangent [PatternTexture, PatternNormalH]
    ⟨-10, 12, -10⟩ 1 ⟨0, 0, 0⟩ 3 ps_WiggleParallax
  let s6 := s5.NewModel stale Mesh_Cube [BrickTexture, WoodTexture] ⟨40, 11 / 2, -30⟩ 1
    ⟨0, 0, 0⟩ 1 ps_Fade
  let s7 := s6.NewModel stale Mesh_CubeTangent [TechTexture, TechNormalH] ⟨40, 11 / 2, -10⟩ 1
    ⟨0, L.ToRadians 45, 0⟩ 1 ps_ParallaxMap
  let s8 := s7.NewModel stale Mesh_CubeTangent [PatternTexture, PatternNormalH] ⟨40, 20, -10⟩ 1
    ⟨0, L.ToRadians 45, 0⟩ 1 ps_NormalMap
  let s9 := s8.NewModel stale Mesh_Cube [GlassTexture] ⟨5, 10, 30⟩ 1
    ⟨0, L.ToRadians 180, 0⟩ 0 ps_Transparent
  let front : CVector3 α :=
    match (s9.mModelCollection ⟨ps_PixelLighting, by decide⟩).head? with
    | some m => m.Position
    | none => ⟨0, 0, 0⟩
  let s10 := s9.NewLight L stale ELightType.spotlight (s9.mMeshArray Mesh_Light)
    ⟨8 / 10, 8 / 10, 1⟩ ⟨30, 20, 0⟩ 10 front 90
  let s11 := s10.NewLight L stale ELightType.point (s10.mMeshArray Mesh_Light)
    ⟨1, 8 / 10, 2 / 10⟩ ⟨-5, 30, -20⟩ 50 ⟨0, 0, 0⟩ 90
  let r := s11.NewPortal L stale h ⟨10, 15, 50⟩ ⟨0, L.ToRadians 180, 0⟩
  let camera : Camera α := { mPosition := ⟨15, 30, -70⟩, mRotation := ⟨L.ToRadians 13, 0, 0⟩ }
  (true, { r.1 with mCamera := some camera }, r.2)

/-- The order in which `InitGeometry` loads the meshes (the destination indices
of the eleven `new Mesh(...)` statements of its `try` block). -/
def meshLoadOrder : List Nat :=
  [Mesh_Teapot, Mesh_Troll, Mesh_Crate, Mesh_Ground, Mesh_Light, Mesh_Portal, Mesh_Sphere,
   Mesh_SphereTangent, Mesh_Cube, Mesh_CubeTangent, Mesh_Decal]

/-- The `try` block of `InitGeometry` with its `catch`: the meshes are loaded one
after the other; a load that throws ends the block with `gLastError = e.what()`
and the flag `false`. -/
def CSceneManager.loadMeshes : List Nat → CSceneManager α → Host → Bool × CSceneManager α × Host
  | [], s, h => (true, s, h)
  | i :: rest, s, h =>
    let r := h.request (HostCall.NewMesh i)
    match r.1 with
    | some mesh =>
      CSceneManager.loadMeshes rest { s with mMeshArray := Function.update s.mMeshArray i mesh } r.2
    | none => (false, s, r.2.setError (r.2.meshError i))

/-- The chain `!LoadTexture(..) || !LoadTexture(..) || ...` of `InitGeometry`,
read as "all loaded": the loads run in order until one fails. -/
def loadTextures : List Nat → Host → Bool × Host
  | [], h => (true, h)
  | t :: rest, h =>
    let r := h.request (HostCall.LoadTexture t)
    if r.1 = none then (false, r.2) else loadTextures rest r.2

/-- The shadow map loop of `InitGeometry`: for each index a texture, a depth
view of it and a shader view of it, with a `return false` after each failure. -/
def CSceneManager.createShadowMaps :
    List (Fin gsNumSpotlights) → CSceneManager α → Host → Bool × CSceneManager α × Host
  | [], s, h => (true, s, h)
  | i :: rest, s, h =>
    let r1 := h.request (HostCall.CreateTexture2D s.mShadowMapTextureDesc)
    let s1 : CSceneManager α :=
      { s with mShadowMapSpotlightTexture := Function.update s.mShadowMapSpotlightTexture i r1.1 }
    if r1.1 = none then (false, s1, r1.2.setError "Error creating shadow map texture") else
    let r2 := r1.2.request (HostCall.CreateDepthStencilView (s1.mShadowMapSpotlightTexture i))
    let s2 : CSceneManager α :=
      { s1 with
        mShadowMapSpotlightDepthStencil :=
          Function.update s1.mShadowMapSpotlightDepthStencil i r2.1 }
    if r2.1 = none then
      (false, s2, r2.2.setError "Error creating shadow map depth stencil view") else
    let r3 := r2.2.request (HostCall.CreateShaderResourceView (s2.mShadowMapSpotlightTexture i))
    let s3 : CSceneManager α :=
      { s2 with mShadowMapSpotlightSRV := Function.update s2.mShadowMapSpotlightSRV i r3.1 }
    if r3.1 = none then
      (false, s3, r3.2.setError "Error creating shadow map shader resource view") else
    CSceneManager.createShadowMaps rest s3 r3.2

/-- The function `CSceneManager::InitGeometry`: the returned flag, the scene and
the host after the call. -/
def CSceneManager.InitGeometry (s : CSceneManager α) (h : Host) :
    Bool × CSceneManager α × Host :=
  let m := CSceneManager.loadMeshes meshLoadOrder s h
  if m.1 = false then m else
  let sh := m.2.2.request HostCall.LoadShaders
  if sh.1 = none then (false, m.2.1, sh.2.setError "Error loading shaders") else
  let b1 := sh.2.request (HostCall.CreateConstantBuffer ConstantBuffer.perFrame)
  let b2 := b1.2.request (HostCall.CreateConstantBuffer ConstantBuffer.perModel)
  if b1.1 = none ∨ b2.1 = none then
    (false, m.2.1, b2.2.setError "Error creating constant buffers") else
  let t := loadTextures (List.range NumOfTextures) b2.2
  if t.1 = false then (false, m.2.1, t.2.setError "Error loading textures") else
  let s1 : CSceneManager α :=
    { m.2.1 with mShadowMapTextureDesc := ⟨m.2.1.mShadowMapSize, m.2.1.mShadowMapSize⟩ }
  let sm := CSceneManager.createShadowMaps (List.finRange gsNumSpotlights) s1 t.2
  if sm.1 = false then sm else
  let s2 : CSceneManager α :=
    { sm.2.1 with mPortalDesc := ⟨sm.2.1.mPortalWidth, sm.2.1.mPortalHeight⟩ }
  let d := sm.2.2.request (HostCall.CreateTexture2D ⟨s2.mPortalWidth, s2.mPortalHeight⟩)
  let s3 : CSceneManager α := { s2 with mPortalDepthStencil := d.1 }
  if d.1 = none then
    (false, s3, d.2.setError "Error creating portal depth stencil texture") else
  let v := d.2.request (HostCall.CreateDepthStencilView s3.mPortalDepthStencil)
  let s4 : CSceneManager α := { s3 with mPortalDepthStencilView := v.1 }
  if v.1 = none then
    (false, s4, v.2.setError "Error creating portal depth stencil view") else
  let st := v.2.request HostCall.CreateStates
  if st.1 = none then (false, s4, st.2.setError "Error creating states") else
  (true, s4, st.2)

/-- The outcome of the request `c` when it is made `k` requests from now. -/
def Host.ahead (h : Host) (k : Nat) (c : HostCall) : Option Nat :=
  h.outcome (h.calls.length + k) c

/-! ### The set-up sequence in the words of the spec

"A failed resource allocation at startup aborts scene initialization entirely":
the set-up is a list of steps; they run in order; the first step that fails
stores its message and ends the run with `false`; no later step runs. -/

/-- One step of the set-up sequence: what it does to the scene and the host,
with the flag whether it succeeded, and the message stored when it failed
(read from the host after the step, which holds the thrown error of a mesh). -/
structure InitStep (α : Type) where
  run : CSceneManager α → Host → Bool × CSceneManager α × Host
  message : Host → String

/-- Run the steps in order; stop at the first that fails, storing its message. -/
def runPlan : List (InitStep α) → CSceneManager α → Host → Bool × CSceneManager α × Host
  | [], s, h => (true, s, h)
  | step :: rest, s, h =>
    if (step.run s h).1 = true then runPlan rest (step.run s h).2.1 (step.run s h).2.2
    else (false, (step.run s h).2.1, (step.run s h).2.2.setError (step.message (step.run s h).2.2))

/-- Every step of the list succeeds when the steps are run in order. -/
def AllSucceed : List (InitStep α) → CSceneManager α → Host → Prop
  | [], _, _ => True
  | step :: rest, s, h =>
    (step.run s h).1 = true ∧ AllSucceed rest (step.run s h).2.1 (step.run s h).2.2

/-- The step "load the mesh for `mMeshArray[i]`". -/
def meshStep (i : Nat) : InitStep α where
  run := fun s h =>
    match (h.request (HostCall.NewMesh i)).1 with
    | some mesh =>
      (true, { s with mMeshArray := Function.update s.mMeshArray i mesh },
        (h.request (HostCall.NewMesh i)).2)
    | none => (false, s, (h.request (HostCall.NewMesh i)).2)
  message := fun h => h.meshError i

/-- The step "load the shaders". -/
def shadersStep : InitStep α where
  run := fun s h =>
    ((h.request HostCall.LoadShaders).1 ≠ none, s, (h.request HostCall.LoadShaders).2)
  message := fun _ => "Error loading shaders"

/-- The step "create the constant buffers": both buffers are requested, the step
succeeds when both exist. -/
def constantBuffersStep : InitStep α where
  run := fun s h =>
    let b1 := h.request (HostCall.CreateConstantBuffer ConstantBuffer.perFrame)
    let b2 := b1.2.request (HostCall.CreateConstantBuffer ConstantBuffer.perModel)
    (decide (b1.1 ≠ none ∧ b2.1 ≠ none), s, b2.2)
  message := fun _ => "Error creating constant buffers"

/-- The step "load texture `t`". -/
def textureStep (t : Nat) : InitStep α where
  run := fun s h =>
    ((h.request (HostCall.LoadTexture t)).1 ≠ none, s, (h.request (HostCall.LoadTexture t)).2)
  message := fun _ => "Error loading textures"

/-- The bookkeeping before the shadow maps: the descriptor gets the shadow map
size.  It cannot fail. -/
def shadowDescStep : InitStep α where
  run := fun s h =>
    (true, { s with mShadowMapTextureDesc := ⟨s.mShadowMapSize, s.mShadowMapSize⟩ }, h)
  message := fun _ => ""

/-- The step "create the texture of shadow map `i`". -/
def shadowTextureStep (i : Fin gsNumSpotlights) : InitStep α where
  run := fun s h =>
    let r := h.request (HostCall.CreateTexture2D s.mShadowMapTextureDesc)
    (decide (r.1 ≠ none),
      { s with mShadowMapSpotlightTexture := Function.update s.mShadowMapSpotlightTexture i r.1 },
      r.2)
  message := fun _ => "Error creating shadow map texture"

/-- The step "create the depth view of shadow map `i`". -/
def shadowDepthViewStep (i : Fin gsNumSpotlights) : InitStep α where
  run := fun s h =>
    let r := h.request (HostCall.CreateDepthStencilView (s.mShadowMapSpotlightTexture i))
    (decide (r.1 ≠ none),
      { s with
        mShadowMapSpotlightDepthStencil :=
          Function.update s.mShadowMapSpotlightDepthStencil i r.1 },
      r.2)
  message := fun _ => "Error creating shadow map depth stencil view"

/-- The step "create the shader view of shadow map `i`". -/
def shadowShaderViewStep (i : Fin gsNumSpotlights) : InitStep α where
  run := fun s h =>
    let r := h.request (HostCall.CreateShaderResourceView (s.mShadowMapSpotlightTexture i))
    (decide (r.1 ≠ none),
      { s with mShadowMapSpotlightSRV := Function.update s.mShadowMapSpotlightSRV i r.1 },
      r.2)
  message := fun _ => "Error creating shadow map shader resource view"

/-- The three steps of shadow map `i`: texture, depth view, shader view. -/
def shadowTripleSteps (i : Fin gsNumSpotlights) : List (InitStep α) :=
  [shadowTextureStep i, shadowDepthViewStep i, shadowShaderViewStep i]

/-- The bookkeeping before the portal depth buffer: the portal descriptor gets the
portal size.  It cannot fail. -/
def portalDescStep : InitStep α where
  run := fun s h => (true, { s with mPortalDesc := ⟨s.mPortalWidth, s.mPortalHeight⟩ }, h)
  message := fun _ => ""

/-- The step "create the portal depth texture". -/
def portalDepthTextureStep : InitStep α where
  run := fun s h =>
    let r := h.request (HostCall.CreateTexture2D ⟨s.mPortalWidth, s.mPortalHeight⟩)
    (decide (r.1 ≠ none), { s with mPortalDepthStencil := r.1 }, r.2)
  message := fun _ => "Error creating portal depth stencil texture"

/-- The step "create the portal depth view". -/
def portalDepthViewStep : InitStep α where
  run := fun s h =>
    let r := h.request (HostCall.CreateDepthStencilView s.mPortalDepthStencil)
    (decide (r.1 ≠ none), { s with mPortalDepthStencilView := r.1 }, r.2)
  message := fun _ => "Error creating portal depth stencil view"

/-- The step "create the states". -/
def statesStep : InitStep α where
  run := fun s h =>
    ((h.request HostCall.CreateStates).1 ≠ none, s, (h.request HostCall.CreateStates).2)
  message := fun _ => "Error creating states"

/-- The set-up sequence of `InitGeometry` as the spec lists it: the mesh loads,
the shader load, the constant buffers, the texture loads, the four shadow map
triples, the portal depth texture and view, the state creation. -/
def initGeometryPlan : List (InitStep α) :=
  meshLoadOrder.map meshStep
    ++ [shadersStep, constantBuffersStep]
    ++ (List.range NumOfTextures).map textureStep
    ++ [shadowDescStep]
    ++ (List.finRange gsNumSpotlights).flatMap shadowTripleSteps
    ++ [portalDescStep, portalDepthTextureStep, portalDepthViewStep, statesStep]


/-! ## Light data of the per-frame block -/

/-- The block `b` carries the light data of the block `a`: the point light and
spotlight entries (colour times strength, position, facing, cosine of the half
angle, view and projection matrix), the light counts, the ambient colour, the
specular power and the camera position are those of `a`. -/
def SameLightData (a b : PerFrameConstants α) : Prop :=
  b.pointLights = a.pointLights ∧ b.spotlights = a.spotlights
    ∧ b.lightStackTops = a.lightStackTops ∧ b.ambientColour = a.ambientColour
    ∧ b.specularPower = a.specularPower ∧ b.cameraPosition = a.cameraPosition

/-- The globals `g2` continue `g1` with the light data kept: the per-frame block
of `g2` carries the light data of that of `g1`, and so does every per-frame
block uploaded between the two. -/
def Gfx.KeepsLights (g1 g2 : Gfx α) : Prop :=
  SameLightData g1.gPerFrameConstants g2.gPerFrameConstants
    ∧ ∃ blocks : List (PerFrameConstants α),
        perFrameUploads g2.calls = perFrameUploads g1.calls ++ blocks
          ∧ ∀ b ∈ blocks, SameLightData g1.gPerFrameConstants b


/-! ## The record of a frame without the data it carries

The order of the device calls of a frame depends on which models, portals and
lights the scene holds, and on nothing else: not on positions, matrices or
colours.  `Event` is a device call without such data, `SceneShape` is what of
the scene decides the calls, and the functions `depthEvents`, `litEvents` and
`frameEvents` give the calls of a pass and of a frame from the shape. -/

/-- A device call without the data it carries: the calls of `Cmd` other than the
two constant buffer uploads and `RSSetViewports`, the clear without its colour. -/
inductive Event where
  | OMSetRenderTargets (target : Option RenderTargetRef) (depth : DepthRef)
  | ClearDepthStencilView (depth : DepthRef)
  | ClearRenderTargetView (target : RenderTargetRef)
  | VSSetConstantBuffers (slot : Nat) (buffer : ConstantBuffer)
  | PSSetConstantBuffers (slot : Nat) (buffer : ConstantBuffer)
  | VSSetShader (shader : Nat)
  | PSSetShader (shader : Nat)
  | OMSetBlendState (state : BlendState)
  | OMSetDepthStencilState (state : DepthState)
  | RSSetState (state : RasterState)
  | PSSetSamplers (slot : Nat) (sampler : Sampler)
  | PSSetShaderResources (slot : Nat) (views : List ViewRef)
  | MeshRender (mesh : MeshRef)
  | Present
deriving DecidableEq, Repr

/-- The event of a device call; the constant buffer uploads and the viewport
call have none. -/
def Cmd.event : Cmd α → Option Event
  | Cmd.RSSetViewports _ _ => none
  | Cmd.OMSetRenderTargets target depth => some (Event.OMSetRenderTargets target depth)
  | Cmd.ClearDepthStencilView depth => some (Event.ClearDepthStencilView depth)
  | Cmd.ClearRenderTargetView target _ => some (Event.ClearRenderTargetView target)
  | Cmd.UpdatePerFrame _ => none
  | Cmd.UpdatePerModel _ => none
  | Cmd.VSSetConstantBuffers slot buffer => some (Event.VSSetConstantBuffers slot buffer)
  | Cmd.PSSetConstantBuffers slot buffer => some (Event.PSSetConstantBuffers slot buffer)
  | Cmd.VSSetShader shader => some (Event.VSSetShader shader)
  | Cmd.PSSetShader shader => some (Event.PSSetShader shader)
  | Cmd.OMSetBlendState state => some (Event.OMSetBlendState state)
  | Cmd.OMSetDepthStencilState state => some (Event.OMSetDepthStencilState state)
  | Cmd.RSSetState state => some (Event.RSSetState state)
  | Cmd.PSSetSamplers slot sampler => some (Event.PSSetSamplers slot sampler)
  | Cmd.PSSetShaderResources slot views => some (Event.PSSetShaderResources slot views)
  | Cmd.MeshRender mesh => some (Event.MeshRender mesh)
  | Cmd.Present => some Event.Present

/-- The events of a run of device calls, in order. -/
def events (cs : List (Cmd α)) : List Event := cs.filterMap Cmd.event

/-- The globals `g2` continue `g1` by calls whose events are `evs`. -/
def Gfx.Emits (g1 g2 : Gfx α) (evs : List Event) : Prop :=
  events g2.calls = events g1.calls ++ evs

/-- What of a model decides the device calls: its mesh and its textures. -/
structure ModelShape where
  mesh : MeshRef
  textures : List TextureRef
deriving DecidableEq, Repr

/-- The shape of a model. -/
def Model.shape (m : Model α) : ModelShape := ⟨m.mMesh, m.mTexture⟩

/-- The view that `GetTexture(index)` yields for a model of this shape. -/
def ModelShape.view (m : ModelShape) (index : Nat) : ViewRef :=
  match m.textures.get? index with
  | some t => ViewRef.texture t
  | none => ViewRef.outOfRange

/-- What of a portal decides the device calls: the mesh of its body, its render
target and its shader view. -/
structure PortalShape where
  mesh : MeshRef
  target : Handle
  view : Handle
deriving DecidableEq, Repr

/-- The shape of a portal. -/
def CPortal.shape (p : CPortal α) : PortalShape :=
  ⟨p.mpBody.mMesh, p.mRenderTarget, p.mTextureSRV⟩

/-- What of the scene decides the device calls of a frame: the shapes of the
models of each bucket and of the portals, the mesh of each light slot (`none`
for an empty slot), the number of rounds of the three light loops, the shadow
map and portal views, and whether there is a camera. -/
structure SceneShape where
  teapots : Fin gsNumOfModelPS → List ModelShape
  models : Fin gsNumOfModelPS → List ModelShape
  transparent : List ModelShape
  portals : List PortalShape
  pointLights : Fin gsNumPointLights → Option MeshRef
  spotlights : Fin gsNumSpotlights → Option MeshRef
  directionalLights : Fin gsNumDirectionalLights → Option MeshRef
  pointRounds : Nat
  spotRounds : Nat
  directionalRounds : Nat
  shadowDepthViews : Fin gsNumSpotlights → Handle
  shadowViews : Fin gsNumSpotlights → Handle
  portalDepthView : Handle
  hasCamera : Bool

/-- The shape of a scene, given the number of rounds that a loop with a float
bound makes. -/
def CSceneManager.shapeWith (rounds : α → Nat) (s : CSceneManager α) : SceneShape where
  teapots := fun i => (s.mTeapotCollection i).map Model.shape
  models := fun i => (s.mModelCollection i).map Model.shape
  transparent := s.mTransparentModels.map Model.shape
  portals := s.mPortalCollection.map CPortal.shape
  pointLights := fun i => (s.mPointLights i).map (fun l => l.mpBody.mMesh)
  spotlights := fun i => (s.mSpotlights i).map (fun l => l.mpBody.mMesh)
  directionalLights := fun i => (s.mDirectionalLights i).map (fun l => l.mpBody.mMesh)
  pointRounds := rounds s.mLightStackTop.x
  spotRounds := rounds s.mLightStackTop.y
  directionalRounds := rounds s.mLightStackTop.z
  shadowDepthViews := s.mShadowMapSpotlightDepthStencil
  shadowViews := s.mShadowMapSpotlightSRV
  portalDepthView := s.mPortalDepthStencilView
  hasCamera := s.mCamera.isSome

/-- The shape of a scene. -/
def CSceneManager.shape [LinearOrderedField α] [FloorRing α] (s : CSceneManager α) :
    SceneShape :=
  s.shapeWith loopRounds

/-- The events of `Model::Render` for a model with the given mesh. -/
def renderEvents (mesh : MeshRef) : List Event :=
  [Event.VSSetConstantBuffers 1 ConstantBuffer.perModel,
   Event.PSSetConstantBuffers 1 ConstantBuffer.perModel, Event.MeshRender mesh]

/-- The events of a loop that renders the models of a list. -/
def modelsEvents (ms : List ModelShape) : List Event :=
  ms.flatMap (fun m => renderEvents m.mesh)

/-- The events of `RenderDepthBufferFromLight`: the settings, the ordinary
buckets by ascending index, the portal bodies, the special buckets by ascending
index without culling, the transparent models. -/
def depthEvents (sh : SceneShape) : List Event :=
  [Event.VSSetConstantBuffers 0 ConstantBuffer.perFrame,
   Event.PSSetConstantBuffers 0 ConstantBuffer.perFrame,
   Event.VSSetShader vs_BasicTransform,
   Event.PSSetShader ps_DepthOnly,
   Event.OMSetBlendState BlendState.NoBlending,
   Event.OMSetDepthStencilState DepthState.UseDepthBuffer,
   Event.RSSetState RasterState.CullBack]
    ++ (List.finRange gsNumOfModelPS).flatMap (fun i => modelsEvents (sh.models i))
    ++ sh.portals.flatMap (fun p => renderEvents p.mesh)
    ++ [Event.RSSetState RasterState.CullNone]
    ++ (List.finRange gsNumOfModelPS).flatMap (fun i => modelsEvents (sh.teapots i))
    ++ [Event.OMSetBlendState BlendState.Multiplicative,
        Event.OMSetDepthStencilState DepthState.DepthReadOnly]
    ++ modelsEvents sh.transparent

/-- The events of the inner loop of a sweep: for each model its first texture
on slot 0, its second on slot `gsNumSpotlights + 1` when `secondTexture` is set,
and its render. -/
def texturedEvents (secondTexture : Bool) (ms : List ModelShape) : List Event :=
  ms.flatMap (fun m =>
    [Event.PSSetShaderResources 0 [m.view 0]]
      ++ (if secondTexture then [Event.PSSetShaderResources (gsNumSpotlights + 1) [m.view 1]]
          else [])
      ++ renderEvents m.mesh)

/-- The events of a sweep: for each bucket index, ascending, the shader switch
and the inner loop. -/
def sweepEvents (shaderSwitch : Nat → List (Cmd Unit) × Bool)
    (collection : Fin gsNumOfModelPS → List ModelShape) : List Event :=
  (List.finRange gsNumOfModelPS).flatMap (fun i =>
    events (shaderSwitch i.val).1 ++ texturedEvents (shaderSwitch i.val).2 (collection i))

/-- The events of a light marker loop of `rounds` rounds over `n` slots: the
render of the light in slot `i` for each round `i`; a round whose slot is empty
or out of range issues nothing. -/
def markerEvents {n : Nat} (rounds : Nat) (lights : Fin n → Option MeshRef) : List Event :=
  (List.range rounds).flatMap (fun i =>
    if h : i < n then
      match lights ⟨i, h⟩ with
      | some mesh => renderEvents mesh
      | none => []
    else [])

/-- The events of `RenderSceneFromCamera`. -/
def litEvents (sh : SceneShape) : List Event :=
  [Event.VSSetConstantBuffers 0 ConstantBuffer.perFrame,
   Event.PSSetConstantBuffers 0 ConstantBuffer.perFrame,
   Event.OMSetBlendState BlendState.NoBlending,
   Event.OMSetDepthStencilState DepthState.UseDepthBuffer,
   Event.PSSetSamplers 0 Sampler.Anisotropic4x,
   Event.RSSetState RasterState.CullNone]
    ++ sweepEvents shaderSwitchNoCull sh.teapots
    ++ [Event.RSSetState RasterState.CullBack]
    ++ sweepEvents shaderSwitchCullBack sh.models
    ++ [Event.PSSetShader ps_Portal, Event.PSSetShaderResources 0 [ViewRef.texture TVTexture]]
    ++ sh.portals.flatMap (fun p =>
        Event.PSSetShaderResources (gsNumSpotlights + 1) [ViewRef.handle p.view]
          :: renderEvents p.mesh)
    ++ [Event.VSSetShader vs_BasicTransform,
        Event.PSSetShader ps_LightModel,
        Event.PSSetShaderResources 0 [ViewRef.texture FlareTexture],
        Event.PSSetSamplers 0 Sampler.Anisotropic4x,
        Event.OMSetBlendState BlendState.Additive,
        Event.OMSetDepthStencilState DepthState.DepthReadOnly,
        Event.RSSetState RasterState.CullNone]
    ++ markerEvents sh.pointRounds sh.pointLights
    ++ markerEvents sh.spotRounds sh.spotlights
    ++ markerEvents sh.directionalRounds sh.directionalLights
    ++ [Event.VSSetShader vs_BasicTransform,
        Event.PSSetShader ps_Transparent,
        Event.PSSetSamplers 0 Sampler.Trilinear,
        Event.OMSetBlendState BlendState.Multiplicative,
        Event.OMSetDepthStencilState DepthState.DepthReadOnly,
        Event.RSSetState RasterState.CullNone]
    ++ sh.transparent.flatMap (fun m =>
        Event.PSSetShaderResources 0 [m.view 0] :: renderEvents m.mesh)

/-- The events of round `i` of the shadow loop of `RenderScene`: the depth view
of shadow map `i` bound without a colour target and cleared, then the depth
render; a round whose spotlight slot is empty stops after the clear, a round
out of range issues nothing. -/
def shadowPassEvents (sh : SceneShape) (i : Nat) : List Event :=
  if h : i < gsNumSpotlights then
    [Event.OMSetRenderTargets none (DepthRef.handle (sh.shadowDepthViews ⟨i, h⟩)),
     Event.ClearDepthStencilView (DepthRef.handle (sh.shadowDepthViews ⟨i, h⟩))]
      ++ (if (sh.spotlights ⟨i, h⟩).isSome then depthEvents sh else [])
  else []

/-- The events of the portal pass of `RenderScene` for one portal: its render
target bound with the portal depth view, the shadow map views bound to the
pixel shader from slot 1, both cleared, then the lit scene. -/
def portalPassEvents (sh : SceneShape) (p : PortalShape) : List Event :=
  [Event.OMSetRenderTargets (some (RenderTargetRef.handle p.target))
     (DepthRef.handle sh.portalDepthView),
   Event.PSSetShaderResources 1 (List.ofFn (fun i => ViewRef.handle (sh.shadowViews i))),
   Event.ClearRenderTargetView (RenderTargetRef.handle p.target),
   Event.ClearDepthStencilView (DepthRef.handle sh.portalDepthView)]
    ++ litEvents sh

/-- The events of a frame (`RenderScene`): the shadow passes, the sampler, the
portal passes in the order of the collection, the main pass on the back buffer
(nothing drawn when there is no camera), the shadow map slots unbound,
`Present`. -/
def frameEvents (sh : SceneShape) : List Event :=
  (List.range sh.spotRounds).flatMap (shadowPassEvents sh)
    ++ [Event.PSSetSamplers 1 Sampler.Point]
    ++ sh.portals.flatMap (portalPassEvents sh)
    ++ [Event.OMSetRenderTargets (some RenderTargetRef.backBuffer) DepthRef.mainDepth,
        Event.ClearRenderTargetView RenderTargetRef.backBuffer,
        Event.ClearDepthStencilView DepthRef.mainDepth]
    ++ (if sh.hasCamera then litEvents sh else [])
    ++ [Event.PSSetShaderResources 1 (List.replicate gsNumSpotlights (ViewRef.handle none)),
        Event.Present]


/-! ## Draws and the device state they are issued in -/

/-- The part of the device state that the claims about draws speak of: the
rasteriser, blend and depth states last set, and the last binding of pixel
shader resources (its first slot and its views); `none` is "not set yet". -/
structure DeviceState where
  raster : Option RasterState
  blend : Option BlendState
  depth : Option DepthState
  bound : Option (Nat × List ViewRef)
deriving DecidableEq, Repr

/-- One draw (`Mesh::Render`) with the device state it is issued in. -/
structure DrawRecord where
  mesh : MeshRef
  raster : Option RasterState
  blend : Option BlendState
  depth : Option DepthState
  bound : Option (Nat × List ViewRef)
deriving DecidableEq, Repr

/-- The device state after an event. -/
def DeviceState.step (st : DeviceState) : Event → DeviceState
  | Event.RSSetState state => { st with raster := some state }
  | Event.OMSetBlendState state => { st with blend := some state }
  | Event.OMSetDepthStencilState state => { st with depth := some state }
  | Event.PSSetShaderResources slot views => { st with bound := some (slot, views) }
  | _ => st

/-- The device state after a run of events. -/
def DeviceState.run (st : DeviceState) (evs : List Event) : DeviceState :=
  evs.foldl DeviceState.step st

/-- The draws of a run of events that starts in the state `st`, in order, each
with the state it is issued in. -/
def drawRecords : DeviceState → List Event → List DrawRecord
  | _, [] => []
  | st, Event.MeshRender mesh :: rest =>
    ⟨mesh, st.raster, st.blend, st.depth, st.bound⟩ :: drawRecords st rest
  | st, e :: rest => drawRecords (st.step e) rest

/-- The run of events `evs`, started in a state with `P`, makes the draws `recs`
and ends in a state with `Q`. -/
def Segment (P Q : DeviceState → Prop) (evs : List Event) (recs : List DrawRecord) : Prop :=
  ∀ st, P st → drawRecords st evs = recs ∧ Q (st.run evs)

/-- The rasteriser, blend and depth states are `r`, `b` and `d`. -/
def DeviceState.Has (r : RasterState) (b : BlendState) (d : DepthState) (st : DeviceState) :
    Prop :=
  st.raster = some r ∧ st.blend = some b ∧ st.depth = some d

/-- The texture binding that precedes the draw of a model in a sweep: its second
texture on slot `gsNumSpotlights + 1` when `secondTexture` is set, its first
texture on slot 0 otherwise. -/
def sweepBinding (secondTexture : Bool) (m : ModelShape) : Nat × List ViewRef :=
  if secondTexture then (gsNumSpotlights + 1, [m.view 1]) else (0, [m.view 0])

/-- The meshes of the light markers drawn by a marker loop of `rounds` rounds
over `n` slots, in order. -/
def markerMeshes {n : Nat} (rounds : Nat) (lights : Fin n → Option MeshRef) : List MeshRef :=
  (List.range rounds).flatMap (fun i => if h : i < n then (lights ⟨i, h⟩).toList else [])


/-! ## The passes of a frame -/

/-- The events that mark the passes of a frame: binding and clearing a target,
a draw, `Present`. -/
def Event.isPassEvent : Event → Bool
  | Event.OMSetRenderTargets _ _ => true
  | Event.ClearDepthStencilView _ => true
  | Event.ClearRenderTargetView _ => true
  | Event.MeshRender _ => true
  | Event.Present => true
  | _ => false

/-- The pass events of a run of events, in order. -/
def passEvents (evs : List Event) : List Event := evs.filter Event.isPassEvent

/-- The draws of a depth render (`RenderDepthBufferFromLight`), in order: the
ordinary buckets, the portal bodies, the special buckets, the transparent
models. -/
def depthDraws (sh : SceneShape) : List Event :=
  (List.finRange gsNumOfModelPS).flatMap
      (fun i => (sh.models i).map (fun m => Event.MeshRender m.mesh))
    ++ sh.portals.map (fun p => Event.MeshRender p.mesh)
    ++ (List.finRange gsNumOfModelPS).flatMap
        (fun i => (sh.teapots i).map (fun m => Event.MeshRender m.mesh))
    ++ sh.transparent.map (fun m => Event.MeshRender m.mesh)

/-- The draws of a lit-scene render (`RenderSceneFromCamera`), in order: the
special buckets, the ordinary buckets, the portal bodies, the light markers
(point, spot, directional), the transparent models. -/
def litDraws (sh : SceneShape) : List Event :=
  (List.finRange gsNumOfModelPS).flatMap
      (fun i => (sh.teapots i).map (fun m => Event.MeshRender m.mesh))
    ++ (List.finRange gsNumOfModelPS).flatMap
        (fun i => (sh.models i).map (fun m => Event.MeshRender m.mesh))
    ++ sh.portals.map (fun p => Event.MeshRender p.mesh)
    ++ (markerMeshes sh.pointRounds sh.pointLights
          ++ markerMeshes sh.spotRounds sh.spotlights
          ++ markerMeshes sh.directionalRounds sh.directionalLights).map Event.MeshRender
    ++ sh.transparent.map (fun m => Event.MeshRender m.mesh)


/-- The event binds a view to one of the pixel shader slots
`1 .. gsNumSpotlights`, the slots of the shadow maps. -/
def Event.touchesShadowSlots : Event → Bool
  | Event.PSSetShaderResources slot views =>
    decide (slot ≤ gsNumSpotlights ∧ 2 ≤ slot + views.length)
  | _ => false


/-- The events of a run that bind a view to one of the shadow map slots. -/
def shadowSlotBindings (evs : List Event) : List Event := evs.filter Event.touchesShadowSlots


/-! ## Keyboard control (`Model::Control`, `CSceneManager::UpdateScene`) -/

/-- The key codes that the scene code names (`Input.h` is not among the
sources; only the identity of a key matters). -/
inductive KeyCode where
  | Key_I | Key_K | Key_J | Key_L | Key_U | Key_O | Key_Period | Key_Comma
  | Key_1
  | Key_Up | Key_Down | Key_Left | Key_Right | Key_W | Key_S | Key_A | Key_D
deriving DecidableEq, Repr

/-- The input provider during one call: what `KeyHeld` and `KeyHit` answer for
each key. -/
structure Input where
  KeyHeld : KeyCode → Bool
  KeyHit : KeyCode → Bool

/-- The constant `ROTATION_SPEED` of `Scene.cpp`: 2 radians per second. -/
def ROTATION_SPEED [OfNat α 2] : α := 2

/-- The constant `MOVEMENT_SPEED` of `Scene.cpp`: 50 units per second. -/
def MOVEMENT_SPEED [OfNat α 50] : α := 50

/-- Vector-vector subtraction, `operator- (const CVector3&, const CVector3&)`. -/
def CVector3.sub [Sub α] (v w : CVector3 α) : CVector3 α :=
  ⟨v.x - w.x, v.y - w.y, v.z - w.z⟩

/-- The method `Model::Control`: refresh the world matrix; for each held turn key
add or subtract `ROTATION_SPEED * frameTime` on its rotation component; take the
normalised third row of the world matrix; for each held move key add or subtract
that direction times `MOVEMENT_SPEED * frameTime` on the position. -/
def Model.Control [Add α] [Sub α] [Mul α] [Zero α] [OfNat α 2] [OfNat α 50] (L : MathLib α)
    (input : Input) (m : Model α) (frameTime : α)
    (turnUp turnDown turnLeft turnRight turnCW turnCCW moveForward moveBackward : KeyCode) :
    Model α :=
  let m0 := m.UpdateWorldMatrix L
  let m1 : Model α :=
    if input.KeyHeld turnDown then
      { m0 with mRotation := { m0.mRotation with x := m0.mRotation.x + ROTATION_SPEED * frameTime } }
    else m0
  let m2 : Model α :=
    if input.KeyHeld turnUp then
      { m1 with mRotation := { m1.mRotation with x := m1.mRotation.x - ROTATION_SPEED * frameTime } }
    else m1
  let m3 : Model α :=
    if input.KeyHeld turnRight then
      { m2 with mRotation := { m2.mRotation with y := m2.mRotation.y + ROTATION_SPEED * frameTime } }
    else m2
  let m4 : Model α :=
    if input.KeyHeld turnLeft then
      { m3 with mRotation := { m3.mRotation with y := m3.mRotation.y - ROTATION_SPEED * frameTime } }
    else m3
  let m5 : Model α :=
    if input.KeyHeld turnCW then
      { m4 with mRotation := { m4.mRotation with z := m4.mRotation.z + ROTATION_SPEED * frameTime } }
    else m4
  let m6 : Model α :=
    if input.KeyHeld turnCCW then
      { m5 with mRotation := { m5.mRotation with z := m5.mRotation.z - ROTATION_SPEED * frameTime } }
    else m5
  let localZDir :=
    Normalise L ⟨m6.mWorldMatrix.e20, m6.mWorldMatrix.e21, m6.mWorldMatrix.e22⟩
  let m7 : Model α :=
    if input.KeyHeld moveForward then
      { m6 with
        mPosition :=
          ⟨m6.mPosition.x + localZDir.x * MOVEMENT_SPEED * frameTime,
           m6.mPosition.y + localZDir.y * MOVEMENT_SPEED * frameTime,
           m6.mPosition.z + localZDir.z * MOVEMENT_SPEED * frameTime⟩ }
    else m6
  if input.KeyHeld moveBackward then
    { m7 with
      mPosition :=
        ⟨m7.mPosition.x - localZDir.x * MOVEMENT_SPEED * frameTime,
         m7.mPosition.y - localZDir.y * MOVEMENT_SPEED * frameTime,
         m7.mPosition.z - localZDir.z * MOVEMENT_SPEED * frameTime⟩ }
  else m7

/-- The member `gLightOrbit` of `Scene.h`. -/
def gLightOrbit [OfNat α 20] : α := 20

/-- The member `gLightOrbitSpeed` of `Scene.h`: `0.7f`. -/
def gLightOrbitSpeed [Div α] [OfNat α 7] [OfNat α 10] : α := 7 / 10

/-- The function-local statics of `UpdateScene`: the orbit angle `rotate`, the
toggle `go`, the frame time and frame count gathered for the window title. -/
structure UpdateStatics (α : Type) where
  rotate : α
  go : Bool
  totalFrameTime : α
  frameCount : Nat

/-- The statics of `UpdateScene` as their initialisers leave them. -/
def UpdateStatics.start [Zero α] : UpdateStatics α :=
  { rotate := 0, go := true, totalFrameTime := 0, frameCount := 0 }

/-- The function `CSceneManager::UpdateScene`.  The sine of the C library is the
parameter `sin` (the cosine is `L.cos`); `cameraControl` is `Camera::Control` of
the absent `class Camera` with the keys of the call; the window title is not
modelled.  The result is `none` when a statement with undefined behaviour is
reached: `front()` of an empty bucket, a null `mSpotlights[0]` or a null
`mCamera`. -/
def CSceneManager.UpdateScene [Add α] [Sub α] [Mul α] [Div α] [Zero α] [One α] [LT α]
    [DecidableRel (fun a b : α => a < b)] [OfNat α 2] [OfNat α 7] [OfNat α 10] [OfNat α 20]
    [OfNat α 50] (L : MathLib α) (sin : α → α)
    (cameraControl : Camera α → α → Camera α) (input : Input) (s : CSceneManager α)
    (statics : UpdateStatics α) (g : Gfx α) (frameTime : α) :
    Option (CSceneManager α × UpdateStatics α × Gfx α) :=
  match s.mTeapotCollection ⟨ps_PixelLighting, by decide⟩ with
  | [] => none
  | front :: rest =>
    let front1 := front.Control L input frameTime KeyCode.Key_I KeyCode.Key_K KeyCode.Key_J
      KeyCode.Key_L KeyCode.Key_U KeyCode.Key_O KeyCode.Key_Period KeyCode.Key_Comma
    let teapots := Function.update s.mTeapotCollection ⟨ps_PixelLighting, by decide⟩
      (front1 :: rest)
    match s.mSpotlights ⟨0, by decide⟩ with
    | none => none
    | some spot =>
      let spot1 : CSpotlight α :=
        { spot with
          toCLight := spot.toCLight.SetPosition
            (front1.Position.add
              ⟨L.cos statics.rotate * gLightOrbit, 10, sin statics.rotate * gLightOrbit⟩) }
      let spot2 : CSpotlight α :=
        { spot1 with toCLight := spot1.toCLight.FaceTarget L front1.Position }
      let rotate1 :=
        if statics.go then statics.rotate - gLightOrbitSpeed * frameTime else statics.rotate
      let go1 := if input.KeyHit KeyCode.Key_1 then !statics.go else statics.go
      match s.mCamera with
      | none => none
      | some camera =>
        let total := statics.totalFrameTime + frameTime
        let g1 : Gfx α :=
          { g with
            gPerFrameConstants :=
              { g.gPerFrameConstants with wiggle := g.gPerFrameConstants.wiggle + frameTime } }
        let count := statics.frameCount + 1
        let statics1 : UpdateStatics α :=
          if 1 / 2 < total then
            { rotate := rotate1, go := go1, totalFrameTime := 0, frameCount := 0 }
          else
            { rotate := rotate1, go := go1, totalFrameTime := total, frameCount := count }
        some
          ({ s with
             mTeapotCollection := teapots
             mSpotlights := Function.update s.mSpotlights ⟨0, by decide⟩ (some spot2)
             mCamera := some (cameraControl camera frameTime) },
           statics1, g1)


/-! ## Teardown (`CSceneManager::ReleaseResources`, `CPortal::Release`) -/

/-- One step of a teardown: a statement of `ReleaseResources` or of
`CPortal::Release` that releases or deletes something, with what it acts on.
A step guarded by `if (pointer)` is recorded when the pointer is not null.
The two constant buffers live in globals that the scene does not hold; their
guarded releases are recorded as issued. -/
inductive Teardown where
  | ReleaseStates
  | ReleaseShadowDepthView (i : Fin gsNumSpotlights)
  | ReleaseShadowView (i : Fin gsNumSpotlights)
  | ReleaseShadowTexture (i : Fin gsNumSpotlights)
  | ReleaseTexture (textureIndex : Nat)
  | ReleasePerModelBuffer
  | ReleasePerFrameBuffer
  | ReleaseShaders
  | ReleaseSpotlight (i : Fin gsNumSpotlights)
  | ReleasePointLight (i : Fin gsNumPointLights)
  | ReleaseDirectionalLight (i : Fin gsNumDirectionalLights)
  | DeleteCamera
  | DeleteModel (mesh : MeshRef)
  | DeleteMesh (meshIndex : Nat)
  | ReleasePortalTexture (texture : Nat)
  | ReleasePortalView (view : Nat)
  | ReleasePortalTarget (target : Nat)
  | DeletePortalCamera
  | DeletePortalBody (mesh : MeshRef)
deriving DecidableEq, Repr

/-- The method `CPortal::Release`: the three guarded releases, then the camera
and the body are deleted. -/
def CPortal.Release (p : CPortal α) : List Teardown :=
  (match p.mTexture with
    | some t => [Teardown.ReleasePortalTexture t]
    | none => [])
    ++ (match p.mTextureSRV with
      | some v => [Teardown.ReleasePortalView v]
      | none => [])
    ++ (match p.mRenderTarget with
      | some r => [Teardown.ReleasePortalTarget r]
      | none => [])
    ++ [Teardown.DeletePortalCamera, Teardown.DeletePortalBody p.mpBody.mMesh]

/-- The steps of a teardown so far, oldest first, and whether a statement with
undefined behaviour was reached (a null light pointer dereferenced, an array
read out of range). -/
structure TeardownRecord where
  steps : List Teardown
  fault : Bool
deriving DecidableEq, Repr

/-- Record steps, in order. -/
def TeardownRecord.emit (r : TeardownRecord) (steps : List Teardown) : TeardownRecord :=
  { r with steps := r.steps ++ steps }

/-- Record that a statement with undefined behaviour was reached. -/
def TeardownRecord.raise (r : TeardownRecord) : TeardownRecord :=
  { r with fault := true }

/-- One round of the first loop of `ReleaseResources`, for index `i`: the three
guarded releases of shadow map `i`, in the order depth view, shader view,
texture. -/
def CSceneManager.releaseShadowMap (s : CSceneManager α) (i : Nat) (r : TeardownRecord) :
    TeardownRecord :=
  if h : i < gsNumSpotlights then
    r.emit
      ((if (s.mShadowMapSpotlightDepthStencil ⟨i, h⟩).isSome then
          [Teardown.ReleaseShadowDepthView ⟨i, h⟩] else [])
        ++ (if (s.mShadowMapSpotlightSRV ⟨i, h⟩).isSome then
          [Teardown.ReleaseShadowView ⟨i, h⟩] else [])
        ++ (if (s.mShadowMapSpotlightTexture ⟨i, h⟩).isSome then
          [Teardown.ReleaseShadowTexture ⟨i, h⟩] else []))
  else r.raise

/-- One round of a light loop of `ReleaseResources` over an array of `n` light
pointers: `lights[i]->Release(); delete lights[i];`. -/
def releaseLight {β : Type} {n : Nat} (lights : Fin n → Option β) (step : Fin n → Teardown)
    (i : Nat) (r : TeardownRecord) : TeardownRecord :=
  if h : i < n then
    match lights ⟨i, h⟩ with
    | some _ => r.emit [step ⟨i, h⟩]
    | none => r.raise
  else r.raise

/-- The function `CSceneManager::ReleaseResources`: the record of its steps.  It
has no statement on `mPortalCollection`, `mPortalDepthStencil` or
`mPortalDepthStencilView`. -/
def CSceneManager.ReleaseResources [LinearOrderedField α] [FloorRing α] (s : CSceneManager α) :
    TeardownRecord :=
  let r0 : TeardownRecord := { steps := [Teardown.ReleaseStates], fault := false }
  let r1 := forLoop (loopRounds s.mLightStackTop.y) s.releaseShadowMap r0
  let r2 := r1.emit ((List.range NumOfTextures).map Teardown.ReleaseTexture)
  let r3 := r2.emit
    [Teardown.ReleasePerModelBuffer, Teardown.ReleasePerFrameBuffer, Teardown.ReleaseShaders]
  let r4 := forLoop (loopRounds s.mLightStackTop.y)
    (releaseLight s.mSpotlights Teardown.ReleaseSpotlight) r3
  let r5 := forLoop (loopRounds s.mLightStackTop.x)
    (releaseLight s.mPointLights Teardown.ReleasePointLight) r4
  let r6 := forLoop (loopRounds s.mLightStackTop.z)
    (releaseLight s.mDirectionalLights Teardown.ReleaseDirectionalLight) r5
  let r7 := r6.emit [Teardown.DeleteCamera]
  let r8 := r7.emit
    ((List.finRange gsNumOfModelPS).flatMap
      (fun i => (s.mModelCollection i).map (fun m => Teardown.DeleteModel m.mMesh)))
  let r9 := r8.emit
    ((List.finRange gsNumOfModelPS).flatMap
      (fun i => (s.mTeapotCollection i).map (fun m => Teardown.DeleteModel m.mMesh)))
  let r10 := r9.emit (s.mTransparentModels.map (fun m => Teardown.DeleteModel m.mMesh))
  r10.emit ((List.range (Mesh_Portal + 1)).map Teardown.DeleteMesh)

/-- The step belongs to `CPortal::Release`. -/
def Teardown.isPortalStep : Teardown → Bool
  | Teardown.ReleasePortalTexture _ => true
  | Teardown.ReleasePortalView _ => true
  | Teardown.ReleasePortalTarget _ => true
  | Teardown.DeletePortalCamera => true
  | Teardown.DeletePortalBody _ => true
  | _ => false

/-! ## Sequences of light requests -/

/-- The arguments of one `NewLight` call. -/
structure LightRequest (α : Type) where
  type : ELightType
  mesh : MeshRef
  colour : CVector3 α
  position : CVector3 α
  strength : α
  facingToward : CVector3 α
  fov : α

/-- The scene after a sequence of `NewLight` calls, first call first. -/
def CSceneManager.NewLights [LinearOrderedField α] [FloorRing α] (L : MathLib α)
    (stale : CMatrix4x4 α) (s : CSceneManager α) (requests : List (LightRequest α)) :
    CSceneManager α :=
  requests.foldl
    (fun st r => st.NewLight L stale r.type r.mesh r.colour r.position r.strength
      r.facingToward r.fov)
    s

/-- The number of requests of a type in a sequence. -/
def requestCount (type : ELightType) (requests : List (LightRequest α)) : Nat :=
  (requests.filter (fun r => decide (r.type = type))).length

/-! ## The vertex shader bound at each draw -/

/-- The draws of a run of events that starts with the vertex shader `vs` bound,
in order, each with the vertex shader bound when it is issued. -/
def shaderDraws : Option Nat → List Event → List (MeshRef × Option Nat)
  | _, [] => []
  | _, Event.VSSetShader shader :: rest => shaderDraws (some shader) rest
  | vs, Event.MeshRender mesh :: rest => (mesh, vs) :: shaderDraws vs rest
  | vs, _ :: rest => shaderDraws vs rest

/-- The vertex shader that is bound while the models of bucket `i` of a sweep are
drawn: the one the `case` of `i` sets, or for the two cases that set none
(`ps_ParallaxMap`, `ps_Fade`) the one set by the case before. -/
def sweepVertexShader (i : Nat) : Nat :=
  if i = ps_Wiggle then vs_Wiggle
  else if i = ps_NormalMap then vs_NormalMap
  else if i = ps_ParallaxMap then vs_NormalMap
  else if i = ps_PixelLighting then vs_PixelLighting
  else if i = ps_Fade then vs_PixelLighting
  else vs_WiggleTangent


/-- The step releases a part of a shadow map. -/
def Teardown.isShadowStep : Teardown → Bool
  | Teardown.ReleaseShadowDepthView _ => true
  | Teardown.ReleaseShadowView _ => true
  | Teardown.ReleaseShadowTexture _ => true
  | _ => false


end Scalar

/-- The real-number reading of the C math library: `cos`, `sin`, `pow` and `PI`
are the real functions and constant, `IsZero` is the "float approx. fn with
default epsilon" that `Normalise` mentions, `InvSqrt` the inverse square root. -/
noncomputable def realMath (epsilon : ℝ) : FloatMath ℝ where
  cos := Real.cos
  sin := Real.sin
  pow := fun x y => x ^ y
  pi := Real.pi
  IsZero := fun x => decide (|x| < epsilon)
  InvSqrt := fun x => 1 / Real.sqrt x

/-- The helper library over the reals, with the three functions the spec leaves
open passed through. -/
noncomputable def realMathLib (epsilon : ℝ)
    (faceTarget : CMatrix4x4 ℝ → CVector3 ℝ → CMatrix4x4 ℝ)
    (getEulerAngles : CMatrix4x4 ℝ → CVector3 ℝ)
    (makeProjectionMatrix : ℝ → ℝ → CMatrix4x4 ℝ) : MathLib ℝ :=
  stdMathLib (realMath epsilon) faceTarget getEulerAngles makeProjectionMatrix

/-- The all-zero matrix. -/
def CMatrix4x4.zero [Zero α] : CMatrix4x4 α :=
  ⟨0, 0, 0, 0,
   0, 0, 0, 0,
   0, 0, 0, 0,
   0, 0, 0, 0⟩

/-- The globals at program start: the constant blocks are objects of static
storage, hence zero-initialised; nothing was issued yet.  The viewport size is
set by the window code, which is not among the sources. -/
def Gfx.start [Zero α] (viewportWidth viewportHeight : Nat) : Gfx α where
  gPerFrameConstants :=
    { viewMatrix := CMatrix4x4.zero, projectionMatrix := CMatrix4x4.zero,
      viewProjectionMatrix := CMatrix4x4.zero,
      pointLights := fun _ => ⟨⟨0, 0, 0⟩, ⟨0, 0, 0⟩⟩,
      spotlights := fun _ =>
        ⟨⟨0, 0, 0⟩, ⟨0, 0, 0⟩, ⟨0, 0, 0⟩, 0, CMatrix4x4.zero, CMatrix4x4.zero⟩,
      lightStackTops := ⟨0, 0, 0⟩, ambientColour := ⟨0, 0, 0⟩, specularPower := 0,
      cameraPosition := ⟨0, 0, 0⟩, wiggle := 0 }
  gPerModelConstants :=
    { worldMatrix := CMatrix4x4.zero, objectColour := ⟨0, 0, 0⟩, wiggleStrength := 0 }
  gViewportWidth := viewportWidth
  gViewportHeight := viewportHeight
  calls := []
  fault := false

/-- A helper library over the reals for worked examples: the three functions
the spec leaves open are filled with stand-ins (`FaceTarget` keeps the matrix,
`GetEulerAngles` returns zero angles, `MakeProjectionMatrix` the identity). -/
noncomputable def exampleLib : MathLib ℝ :=
  realMathLib (1 / 1000000) (fun m _ => m) (fun _ => ⟨0, 0, 0⟩) (fun _ _ => CMatrix4x4.identity)

/-- A scene for worked examples: the initial scene after four spotlight and
three point-light requests, so both arrays are full. -/
noncomputable def exampleFullScene : CSceneManager ℝ :=
  let mk := fun (s : CSceneManager ℝ) (t : ELightType) (n : ℝ) =>
    s.NewLight exampleLib CMatrix4x4.identity t 8 ⟨1, 8 / 10, 2 / 10⟩ ⟨n, 30, -20⟩ 50 ⟨0, 0, 0⟩ 90
  let s1 := mk CSceneManager.init ELightType.spotlight 1
  let s2 := mk s1 ELightType.spotlight 2
  let s3 := mk s2 ELightType.spotlight 3
  let s4 := mk s3 ELightType.spotlight 4
  let s5 := mk s4 ELightType.point 5
  let s6 := mk s5 ELightType.point 6
  mk s6 ELightType.point 7

/-- Camera functions for worked examples: stand-ins that return the identity. -/
def exampleCameraLib : CameraLib ℝ where
  ViewMatrix := fun _ => CMatrix4x4.identity
  ProjectionMatrix := fun _ => CMatrix4x4.identity
  ViewProjectionMatrix := fun _ => CMatrix4x4.identity

/-- The spotlight of the built-in scene (`InitScene`): colour `{0.8, 0.8, 1}`,
position `{30, 20, 0}`, strength `10`, facing `{15, 0, 0}`, default cone. -/
noncomputable def exampleSpotlight : CSpotlight ℝ :=
  CSpotlight.new exampleLib CMatrix4x4.identity 8 ⟨8 / 10, 8 / 10, 1⟩ ⟨30, 20, 0⟩ 10
    ⟨15, 0, 0⟩ 90

/-- A scene for worked examples: the initial scene with a camera, after the
spotlight request of the built-in scene. -/
noncomputable def exampleScene : CSceneManager ℝ :=
  ({ (CSceneManager.init : CSceneManager ℝ) with
      mCamera := some ⟨⟨15, 30, -70⟩, ⟨0, 0, 0⟩⟩ }).NewLight exampleLib CMatrix4x4.identity
    ELightType.spotlight 8 ⟨8 / 10, 8 / 10, 1⟩ ⟨30, 20, 0⟩ 10 ⟨15, 0, 0⟩ 90

/-- A host for worked examples in which every request succeeds; the object
created by the `n`-th request has identity `n`. -/
def exampleHost : Host where
  outcome := fun n _ => some n
  meshError := fun _ => "Cannot load mesh"
  calls := []
  gLastError := ""

/-- A host for worked examples in which the device cannot create a render
target view and everything else succeeds. -/
def exampleHostNoRenderTarget : Host where
  outcome := fun n c =>
    match c with
    | HostCall.CreateRenderTargetView _ => none
    | _ => some n
  meshError := fun _ => "Cannot load mesh"
  calls := []
  gLastError := ""

/-- A host for worked examples in which the device rejects a texture of zero
width and everything else succeeds. -/
def exampleHostNoZeroWidth : Host where
  outcome := fun n c =>
    match c with
    | HostCall.CreateTexture2D desc => if desc.Width = 0 then none else some n
    | _ => some n
  meshError := fun _ => "Cannot load mesh"
  calls := []
  gLastError := ""

/-- A portal for worked examples: the portal of the built-in scene, freshly
constructed. -/
noncomputable def examplePortal : CPortal ℝ :=
  CPortal.new exampleLib CMatrix4x4.identity Mesh_Portal ⟨10, 15, 50⟩ ⟨0, 3, 0⟩


/-- A host for worked examples in which the brick texture cannot be loaded and
everything else succeeds. -/
def exampleHostNoBrick : Host where
  outcome := fun n c =>
    match c with
    | HostCall.LoadTexture t => if t = BrickTexture then none else some n
    | _ => some n
  meshError := fun _ => "Cannot load mesh"
  calls := []
  gLastError := ""


/-- A scene for worked examples with one spotlight and one portal: the example
scene after the portal request of the built-in scene, all allocations
succeeding. -/
noncomputable def examplePortalScene : CSceneManager ℝ :=
  (exampleScene.NewPortal exampleLib CMatrix4x4.identity exampleHost ⟨10, 15, 50⟩ ⟨0, 3, 0⟩).1


/-- A scene for worked examples: the initial scene after a set-up in which every
request succeeds, then the spotlight request of the built-in scene. -/
noncomputable def exampleBuiltScene : CSceneManager ℝ :=
  ((CSceneManager.init : CSceneManager ℝ).InitGeometry exampleHost).2.1.NewLight exampleLib
    CMatrix4x4.identity ELightType.spotlight 8 ⟨8 / 10, 8 / 10, 1⟩ ⟨30, 20, 0⟩ 10 ⟨15, 0, 0⟩ 90


/-- The built-in scene for worked examples: `InitScene` from the initial scene,
with a device on which every request succeeds. -/
noncomputable def exampleInitScene : CSceneManager ℝ :=
  ((CSceneManager.init : CSceneManager ℝ).InitScene exampleLib CMatrix4x4.identity
    exampleHost).2.1

/-- A keyboard for worked examples on which no key is held or hit. -/
def exampleNoKeys : Input := ⟨fun _ => false, fun _ => false⟩

/-- An IEEE 754 binary32 number, the C++ `float`.  `finite s m e` is
`(-1)^s * m * 2^e` with `m < 2^24` and `-149 ≤ e ≤ 104`, and `2^23 ≤ m` unless
`e = -149` (zero and the subnormal numbers). -/
inductive Binary32 where
  | finite (sign : Bool) (mantissa : Nat) (exponent : Int)
  | infinite (sign : Bool)
  | nan
deriving DecidableEq, Repr

/-- The number of binary digits of `n`, by halving, in at most `fuel` rounds. -/
def Binary32.bitsAux : Nat → Nat → Nat
  | 0, _ => 0
  | fuel + 1, n => if n = 0 then 0 else Binary32.bitsAux fuel (n / 2) + 1

/-- The number of binary digits of `n`. -/
def Binary32.bits (n : Nat) : Nat := Binary32.bitsAux n n

/-- Round `(-1)^s * n * 2^p` to the nearest binary32 number, ties to even;
with `sticky` set the exact magnitude lies above `n * 2^p`, by less than one
unit of `n` (division and square root pass it, with an `n` of more than 25
digits, so that digits are always dropped).  Overflow gives infinity. -/
def Binary32.round (s : Bool) (n : Nat) (p : Int) (sticky : Bool) : Binary32 :=
  if n = 0 then Binary32.finite s 0 (-149)
  else
    let top : Int := p + (Binary32.bits n : Int) - 1
    let r : Int := max (top - 23) (-149)
    if r ≤ p then
      if 104 < r then Binary32.infinite s
      else Binary32.finite s (n * 2 ^ (p - r).toNat) r
    else
      let k : Nat := (r - p).toNat
      let q0 : Nat := n / 2 ^ k
      let rest : Nat := n % 2 ^ k
      let half : Nat := 2 ^ (k - 1)
      let up : Bool := decide (half < rest) || (decide (rest = half) && (sticky || q0 % 2 == 1))
      let q : Nat := if up then q0 + 1 else q0
      let q1 : Nat := if q = 2 ^ 24 then 2 ^ 23 else q
      let r1 : Int := if q = 2 ^ 24 then r + 1 else r
      if 104 < r1 then Binary32.infinite s else Binary32.finite s q1 r1

/-- The conversion of an integer literal. -/
def Binary32.ofNat (n : Nat) : Binary32 := Binary32.round false n 0 false

instance (n : Nat) : OfNat Binary32 n := ⟨Binary32.ofNat n⟩
instance : Zero Binary32 := ⟨Binary32.ofNat 0⟩
instance : One Binary32 := ⟨Binary32.ofNat 1⟩

/-- Unary minus. -/
def Binary32.neg : Binary32 → Binary32
  | Binary32.finite s m e => Binary32.finite (!s) m e
  | Binary32.infinite s => Binary32.infinite (!s)
  | Binary32.nan => Binary32.nan

/-- The function `fabsf`. -/
def Binary32.abs : Binary32 → Binary32
  | Binary32.finite _ m e => Binary32.finite false m e
  | Binary32.infinite _ => Binary32.infinite false
  | Binary32.nan => Binary32.nan

/-- Float multiplication. -/
def Binary32.mul : Binary32 → Binary32 → Binary32
  | Binary32.nan, _ => Binary32.nan
  | _, Binary32.nan => Binary32.nan
  | Binary32.infinite s, Binary32.infinite t => Binary32.infinite (s != t)
  | Binary32.infinite s, Binary32.finite t n _ =>
    if n = 0 then Binary32.nan else Binary32.infinite (s != t)
  | Binary32.finite s m _, Binary32.infinite t =>
    if m = 0 then Binary32.nan else Binary32.infinite (s != t)
  | Binary32.finite s m e, Binary32.finite t n f => Binary32.round (s != t) (m * n) (e + f) false

/-- Float addition. -/
def Binary32.add : Binary32 → Binary32 → Binary32
  | Binary32.nan, _ => Binary32.nan
  | _, Binary32.nan => Binary32.nan
  | Binary32.infinite s, Binary32.infinite t => if s = t then Binary32.infinite s else Binary32.nan
  | Binary32.infinite s, Binary32.finite _ _ _ => Binary32.infinite s
  | Binary32.finite _ _ _, Binary32.infinite t => Binary32.infinite t
  | Binary32.finite s m e, Binary32.finite t n f =>
    let p : Int := min e f
    let a : Nat := m * 2 ^ (e - p).toNat
    let b : Nat := n * 2 ^ (f - p).toNat
    if s = t then Binary32.round s (a + b) p false
    else if a = b then Binary32.finite false 0 (-149)
    else if b < a then Binary32.round s (a - b) p false
    else Binary32.round t (b - a) p false

/-- Float division. -/
def Binary32.div : Binary32 → Binary32 → Binary32
  | Binary32.nan, _ => Binary32.nan
  | _, Binary32.nan => Binary32.nan
  | Binary32.infinite _, Binary32.infinite _ => Binary32.nan
  | Binary32.infinite s, Binary32.finite t _ _ => Binary32.infinite (s != t)
  | Binary32.finite s _ _, Binary32.infinite t => Binary32.finite (s != t) 0 (-149)
  | Binary32.finite s m e, Binary32.finite t n f =>
    if n = 0 then (if m = 0 then Binary32.nan else Binary32.infinite (s != t))
    else Binary32.round (s != t) (m * 2 ^ 64 / n) (e - f - 64) (decide (m * 2 ^ 64 % n ≠ 0))

/-- The integer square root, digit by digit from digit `i - 1` down. -/
def Binary32.isqrtAux : Nat → Nat → Nat → Nat
  | 0, _, r => r
  | i + 1, n, r => Binary32.isqrtAux i n (if (r + 2 ^ i) * (r + 2 ^ i) ≤ n then r + 2 ^ i else r)

/-- The integer square root: the largest `q` with `q * q ≤ n`. -/
def Binary32.isqrt (n : Nat) : Nat := Binary32.isqrtAux (Binary32.bits n) n 0

/-- The function `sqrtf`. -/
def Binary32.sqrt : Binary32 → Binary32
  | Binary32.nan => Binary32.nan
  | Binary32.infinite s => if s then Binary32.nan else Binary32.infinite false
  | Binary32.finite s m e =>
    if m = 0 then Binary32.finite s 0 (-149)
    else if s then Binary32.nan
    else
      let t : Int := if (e - 50) % 2 = 0 then 50 else 51
      let n : Nat := m * 2 ^ t.toNat
      Binary32.round false (Binary32.isqrt n) ((e - t) / 2)
        (decide (Binary32.isqrt n * Binary32.isqrt n ≠ n))

/-- The comparison `<` of two floats. -/
def Binary32.blt : Binary32 → Binary32 → Bool
  | Binary32.nan, _ => false
  | _, Binary32.nan => false
  | Binary32.infinite s, Binary32.infinite t => s && !t
  | Binary32.infinite s, Binary32.finite _ _ _ => s
  | Binary32.finite _ _ _, Binary32.infinite t => !t
  | Binary32.finite s m e, Binary32.finite t n f =>
    let p : Int := min e f
    let a : Nat := m * 2 ^ (e - p).toNat
    let b : Nat := n * 2 ^ (f - p).toNat
    match s, t with
    | false, false => decide (a < b)
    | true, true => decide (b < a)
    | true, false => decide (0 < a ∨ 0 < b)
    | false, true => false

instance : Add Binary32 := ⟨Binary32.add⟩
instance : Mul Binary32 := ⟨Binary32.mul⟩
instance : Neg Binary32 := ⟨Binary32.neg⟩
instance : Sub Binary32 := ⟨fun a b => Binary32.add a (Binary32.neg b)⟩
instance : Div Binary32 := ⟨Binary32.div⟩
instance : LT Binary32 := ⟨fun a b => Binary32.blt a b = true⟩
instance : DecidableRel (fun a b : Binary32 => a < b) :=
  fun a b => inferInstanceAs (Decidable (Binary32.blt a b = true))


/-- The cosine of the C library at angle zero, where it is exactly 1; this
stand-in answers NaN at every other angle, so nothing can rest on it there. -/
def Binary32.cosAtZero : Binary32 → Binary32
  | Binary32.finite _ 0 _ => 1
  | _ => Binary32.nan

/-- The sine of the C library at angle zero, where it returns its argument;
this stand-in answers NaN at every other angle. -/
def Binary32.sinAtZero : Binary32 → Binary32
  | Binary32.finite s 0 e => Binary32.finite s 0 e
  | _ => Binary32.nan

/-- The C math library and `BaseMath.h` on `Binary32`, as far as the worked
examples call them: `IsZero(x)` is `fabsf(x) < 1e-6f`, `InvSqrt(x)` is
`1.0f / sqrtf(x)`, `PI` is the float nearest to pi; `cos` and `sin` are given
at angle zero, `pow` is not called. -/
def binary32Math : FloatMath Binary32 where
  cos := Binary32.cosAtZero
  sin := Binary32.sinAtZero
  pow := fun _ _ => Binary32.nan
  pi := Binary32.finite false 13176795 (-22)
  IsZero := fun x => Binary32.blt x.abs (1 / 1000000)
  InvSqrt := fun x => 1 / x.sqrt

/-- The helper library on `Binary32` for worked examples: the matrix functions
of `stdMathLib` in float arithmetic; the stand-ins of `exampleLib` for
`FaceTarget`, `GetEulerAngles` and `MakeProjectionMatrix`. -/
def binary32Lib : MathLib Binary32 :=
  stdMathLib binary32Math (fun m _ => m) (fun _ => ⟨0, 0, 0⟩) (fun _ _ => CMatrix4x4.identity)

/-- A scene in float arithmetic for worked examples, with what `UpdateScene`
reads: the controllable teapot, moved to `{0, height, 0}` and not turned, a
spotlight in slot 0 at the position of the built-in one, and the camera at the
position of the built-in one. -/
def exampleOrbitScene (height : Binary32) : CSceneManager Binary32 :=
  { (CSceneManager.init : CSceneManager Binary32) with
    mTeapotCollection := fun i =>
      if i.val = ps_PixelLighting then
        [Model.newTextured CMatrix4x4.identity Mesh_Teapot [StoneTexture] ⟨0, height, 0⟩
          ⟨0, 0, 0⟩ 1]
      else []
    mSpotlights := fun i =>
      if i.val = 0 then
        some { mType := ELightType.spotlight,
               mpBody := Model.new CMatrix4x4.identity Mesh_Light ⟨30, 20, 0⟩ ⟨0, 0, 0⟩ 5,
               mColour := ⟨1, 1, 1⟩, mStrength := 10, mSpotlightConeAngle := 90 }
      else none
    mCamera := some ⟨⟨15, 30, -70⟩, ⟨0, 0, 0⟩⟩ }

/-! ## Theorems -/

section Theorems

variable {α : Type}

/-- C1. For every model, whatever its position, rotation, scale and stored
matrix, `WorldMatrix()` returns the product
`MatrixScaling(s) * MatrixRotationZ(r.z) * MatrixRotationX(r.x) * MatrixRotationY(r.y) * MatrixTranslation(p)`
in that order (associated to the left), for every implementation of the helper
library, and the call leaves position, rotation and scale as they were. -/
theorem C1_worldMatrix_product (L : MathLib α) (m : Model α) :
    (m.WorldMatrix L).1 =
      L.mul (L.mul (L.mul (L.mul (L.MatrixScaling m.Scale) (L.MatrixRotationZ m.Rotation.z))
        (L.MatrixRotationX m.Rotation.x)) (L.MatrixRotationY m.Rotation.y))
        (L.MatrixTranslation m.Position)
    ∧ (m.WorldMatrix L).2.Position = m.Position
    ∧ (m.WorldMatrix L).2.Rotation = m.Rotation
    ∧ (m.WorldMatrix L).2.Scale = m.Scale :=
  ⟨rfl, rfl, rfl, rfl⟩

/-- C2. `WorldMatrix()` is idempotent and cache-free: a second call right after
a first returns the same matrix and leaves the model as the first call left it,
and two models with the same position, rotation and scale return the same
matrix whatever their meshes, textures, wiggle strengths and stored matrices. -/
theorem C2_worldMatrix_idempotent_cache_free (L : MathLib α) (m : Model α)
    (p r s : CVector3 α) (mesh1 mesh2 : MeshRef) (w1 w2 : α) (t1 t2 : List TextureRef)
    (stored1 stored2 : CMatrix4x4 α) :
    ((m.WorldMatrix L).2.WorldMatrix L).1 = (m.WorldMatrix L).1
    ∧ ((m.WorldMatrix L).2.WorldMatrix L).2 = (m.WorldMatrix L).2
    ∧ (Model.WorldMatrix L ⟨mesh1, p, r, s, w1, t1, stored1⟩).1
        = (Model.WorldMatrix L ⟨mesh2, p, r, s, w2, t2, stored2⟩).1 :=
  ⟨rfl, rfl, rfl⟩

/-- C3. A model built with the constructor defaults (position `{0,0,0}`,
rotation `{0,0,0}`, scale `1`), by either constructor, has the 4x4 identity as
its `WorldMatrix()`, given `cos 0 = 1` and `sin 0 = 0`. -/
theorem C3_default_worldMatrix_identity [Field α] (fm : FloatMath α)
    (faceTarget : CMatrix4x4 α → CVector3 α → CMatrix4x4 α)
    (getEulerAngles : CMatrix4x4 α → CVector3 α)
    (makeProjectionMatrix : α → α → CMatrix4x4 α)
    (hcos : fm.cos 0 = 1) (hsin : fm.sin 0 = 0)
    (stale : CMatrix4x4 α) (mesh : MeshRef) (textures : List TextureRef) :
    ((Model.new stale mesh ⟨0, 0, 0⟩ ⟨0, 0, 0⟩ 1).WorldMatrix
        (stdMathLib fm faceTarget getEulerAngles makeProjectionMatrix)).1
      = CMatrix4x4.identity
    ∧ ((Model.newTextured stale mesh textures ⟨0, 0, 0⟩ ⟨0, 0, 0⟩ 1).WorldMatrix
        (stdMathLib fm faceTarget getEulerAngles makeProjectionMatrix)).1
      = CMatrix4x4.identity := by
  constructor <;>
    simp [Model.WorldMatrix, Model.UpdateWorldMatrix, Model.new, Model.newTextured, stdMathLib,
      CMatrix4x4.mul, MatrixScaling, MatrixRotationX, MatrixRotationY, MatrixRotationZ,
      MatrixTranslation, CMatrix4x4.identity, hcos, hsin]

/-- C3, at a concrete input: over the reals, mesh 0, no textures. -/
theorem C3_default_worldMatrix_identity_witness :
    ((Model.new (MatrixTranslation ⟨7, 8, 9⟩) 0 ⟨0, 0, 0⟩ ⟨0, 0, 0⟩ 1).WorldMatrix
        (realMathLib 0 (fun m _ => m) (fun _ => ⟨0, 0, 0⟩) (fun _ _ => CMatrix4x4.identity))).1
      = CMatrix4x4.identity
    ∧ ((Model.newTextured (MatrixTranslation ⟨7, 8, 9⟩) 0 [3] ⟨0, 0, 0⟩ ⟨0, 0, 0⟩ 1).WorldMatrix
        (realMathLib 0 (fun m _ => m) (fun _ => ⟨0, 0, 0⟩) (fun _ _ => CMatrix4x4.identity))).1
      = CMatrix4x4.identity :=
  C3_default_worldMatrix_identity (realMath 0) (fun m _ => m) (fun _ => ⟨0, 0, 0⟩)
    (fun _ _ => CMatrix4x4.identity) Real.cos_zero Real.sin_zero (MatrixTranslation ⟨7, 8, 9⟩) 0 [3]

/-- A spatial mutator call leaves the colour of a light alone. -/
theorem CLight.call_GetColour (L : MathLib α) (l : CLight α) (c : LightCall α) :
    (l.call L c).GetColour = l.GetColour := by
  cases c <;> rfl

/-- A spatial mutator call leaves the strength of a light alone. -/
theorem CLight.call_GetStrength (L : MathLib α) (l : CLight α) (c : LightCall α) :
    (l.call L c).GetStrength = l.GetStrength := by
  cases c <;> rfl

/-- No sequence of spatial mutator calls changes the colour of a light. -/
theorem CLight.calls_GetColour (L : MathLib α) (cs : List (LightCall α)) (l : CLight α) :
    (l.calls L cs).GetColour = l.GetColour := by
  induction cs generalizing l with
  | nil => rfl
  | cons c cs ih =>
    show ((l.call L c).calls L cs).GetColour = l.GetColour
    rw [ih, CLight.call_GetColour]

/-- No sequence of spatial mutator calls changes the strength of a light. -/
theorem CLight.calls_GetStrength (L : MathLib α) (cs : List (LightCall α)) (l : CLight α) :
    (l.calls L cs).GetStrength = l.GetStrength := by
  induction cs generalizing l with
  | nil => rfl
  | cons c cs ih =>
    show ((l.call L c).calls L cs).GetStrength = l.GetStrength
    rw [ih, CLight.call_GetStrength]

/-- The base part of a spotlight after a sequence of calls is the base part
after the same calls. -/
theorem CSpotlight.calls_toCLight (L : MathLib α) (cs : List (LightCall α))
    (sp : CSpotlight α) : (sp.calls L cs).toCLight = sp.toCLight.calls L cs := by
  induction cs generalizing sp with
  | nil => rfl
  | cons c cs ih =>
    show ((sp.call L c).calls L cs).toCLight = (sp.toCLight.call L c).calls L cs
    rw [ih]
    rfl

/-- C4. A point light or spotlight constructed with colour `c` and strength `s`
returns exactly `c` from `GetColour()` and exactly `s` from `GetStrength()`,
right after construction and after any sequence of `Rotate`, `FaceTarget` and
`SetPosition` calls; so does the point light of the scenario (colour
`{1.0,0.8,0.2}`, strength `50`, position `{-5,30,-20}`). -/
theorem C4_light_colour_strength_exact [Field α] (L : MathLib α) (stale : CMatrix4x4 α)
    (mesh : MeshRef) (c p f : CVector3 α) (s fov : α) (cs : List (LightCall α)) :
    (CLight.new L stale mesh c p s f).GetColour = c
    ∧ (CLight.new L stale mesh c p s f).GetStrength = s
    ∧ (CSpotlight.new L stale mesh c p s f fov).GetColour = c
    ∧ (CSpotlight.new L stale mesh c p s f fov).GetStrength = s
    ∧ ((CLight.new L stale mesh c p s f).calls L cs).GetColour = c
    ∧ ((CLight.new L stale mesh c p s f).calls L cs).GetStrength = s
    ∧ ((CSpotlight.new L stale mesh c p s f fov).calls L cs).GetColour = c
    ∧ ((CSpotlight.new L stale mesh c p s f fov).calls L cs).GetStrength = s
    ∧ ((CLight.new L stale mesh ⟨1, 8 / 10, 2 / 10⟩ ⟨-5, 30, -20⟩ 50 ⟨0, 0, 0⟩).calls L cs).GetColour
        = ⟨1, 8 / 10, 2 / 10⟩
    ∧ ((CLight.new L stale mesh ⟨1, 8 / 10, 2 / 10⟩ ⟨-5, 30, -20⟩ 50 ⟨0, 0, 0⟩).calls L cs).GetStrength
        = 50 := by
  refine ⟨rfl, rfl, rfl, rfl, ?_, ?_, ?_, ?_, ?_, ?_⟩
  · rw [CLight.calls_GetColour]; rfl
  · rw [CLight.calls_GetStrength]; rfl
  · rw [CSpotlight.calls_toCLight, CLight.calls_GetColour]; rfl
  · rw [CSpotlight.calls_toCLight, CLight.calls_GetStrength]; rfl
  · rw [CLight.calls_GetColour]; rfl
  · rw [CLight.calls_GetStrength]; rfl

/-- At or beyond the capacity of its type a point or spotlight request returns
the scene it was given. -/
theorem CSceneManager.NewLight_full [LinearOrderedField α] [FloorRing α] (L : MathLib α)
    (stale : CMatrix4x4 α) (s : CSceneManager α) (mesh : MeshRef) (colour position : CVector3 α)
    (strength : α) (facingToward : CVector3 α) (fov : α) :
    ((gsNumSpotlights : α) ≤ s.mLightStackTop.y →
      s.NewLight L stale ELightType.spotlight mesh colour position strength facingToward fov = s)
    ∧ ((gsNumPointLights : α) ≤ s.mLightStackTop.x →
      s.NewLight L stale ELightType.point mesh colour position strength facingToward fov = s) := by
  constructor
  · intro h
    simp only [CSceneManager.NewLight]
    rw [dif_neg (not_lt.mpr h)]
  · intro h
    simp only [CSceneManager.NewLight]
    rw [dif_neg (not_lt.mpr h)]

/-- C5. `NewLight` beyond capacity is a silent no-op: with the spotlight count
at 4 a spotlight request, and with the point-light count at 3 a point-light
request, returns the scene unchanged in every member (all slots, all three
counts, everything else); the call has no other result, so no error is
signalled. -/
theorem C5_newLight_beyond_capacity_noop [LinearOrderedField α] [FloorRing α] (L : MathLib α)
    (stale : CMatrix4x4 α) (s : CSceneManager α) (mesh : MeshRef) (colour position : CVector3 α)
    (strength : α) (facingToward : CVector3 α) (fov : α) :
    (s.mLightStackTop.y = 4 →
      s.NewLight L stale ELightType.spotlight mesh colour position strength facingToward fov = s)
    ∧ (s.mLightStackTop.x = 3 →
      s.NewLight L stale ELightType.point mesh colour position strength facingToward fov = s) := by
  constructor
  · intro h
    exact (CSceneManager.NewLight_full L stale s mesh colour position strength facingToward fov).1
      (by rw [h]; norm_num [gsNumSpotlights])
  · intro h
    exact (CSceneManager.NewLight_full L stale s mesh colour position strength facingToward fov).2
      (by rw [h]; norm_num [gsNumPointLights])

/-- The counts of the full example scene: three point lights, four spotlights. -/
theorem exampleFullScene_counts :
    exampleFullScene.mLightStackTop.x = 3 ∧ exampleFullScene.mLightStackTop.y = 4 := by
  constructor <;>
    norm_num [exampleFullScene, CSceneManager.NewLight, CSceneManager.init, gsNumSpotlights,
      gsNumPointLights]

/-- C5, at a concrete input: the full example scene, a fifth spotlight and a
fourth point light. -/
theorem C5_newLight_beyond_capacity_noop_witness :
    exampleFullScene.NewLight exampleLib CMatrix4x4.identity ELightType.spotlight 8
        ⟨1, 1, 1⟩ ⟨0, 5, 0⟩ 10 ⟨0, 0, 0⟩ 90 = exampleFullScene
    ∧ exampleFullScene.NewLight exampleLib CMatrix4x4.identity ELightType.point 8
        ⟨1, 1, 1⟩ ⟨0, 5, 0⟩ 10 ⟨0, 0, 0⟩ 90 = exampleFullScene :=
  ⟨(C5_newLight_beyond_capacity_noop exampleLib CMatrix4x4.identity exampleFullScene 8
      ⟨1, 1, 1⟩ ⟨0, 5, 0⟩ 10 ⟨0, 0, 0⟩ 90).1 exampleFullScene_counts.2,
   (C5_newLight_beyond_capacity_noop exampleLib CMatrix4x4.identity exampleFullScene 8
      ⟨1, 1, 1⟩ ⟨0, 5, 0⟩ 10 ⟨0, 0, 0⟩ 90).2 exampleFullScene_counts.1⟩

/-- The truncated index of a count that is the natural number `k` is `k`. -/
theorem stackIndex_natCast [LinearOrderedField α] [FloorRing α] (n : Nat) (hn : n ≠ 0)
    (k : Nat) (hk : k < n) (top : α) (htop : top = (k : α)) (h : top < (n : α)) :
    stackIndex n hn top h = ⟨k, hk⟩ := by
  subst htop
  exact Fin.ext (Nat.floor_natCast k)

/-- A point-light request below capacity, with the count at the natural number
`k`: the exact scene after the call. -/
theorem CSceneManager.NewLight_point_below [LinearOrderedField α] [FloorRing α] (L : MathLib α)
    (stale : CMatrix4x4 α) (s : CSceneManager α) (mesh : MeshRef) (colour position : CVector3 α)
    (strength : α) (facingToward : CVector3 α) (fov : α) (k : Nat) (hk : k < gsNumPointLights)
    (hx : s.mLightStackTop.x = (k : α)) :
    s.NewLight L stale ELightType.point mesh colour position strength facingToward fov =
      { s with
        mPointLights := Function.update s.mPointLights ⟨k, hk⟩
          (some (CLight.new L stale mesh colour position strength facingToward))
        mLightStackTop := ⟨(k : α) + 1, s.mLightStackTop.y, s.mLightStackTop.z⟩ } := by
  have h : s.mLightStackTop.x < (gsNumPointLights : α) := by
    rw [hx]; exact_mod_cast hk
  simp only [CSceneManager.NewLight]
  rw [dif_pos h, stackIndex_natCast gsNumPointLights (by decide) k hk _ hx h, hx]

/-- A spotlight request below capacity, with the count at the natural number
`k`: the exact scene after the call. -/
theorem CSceneManager.NewLight_spotlight_below [LinearOrderedField α] [FloorRing α]
    (L : MathLib α) (stale : CMatrix4x4 α) (s : CSceneManager α) (mesh : MeshRef)
    (colour position : CVector3 α) (strength : α) (facingToward : CVector3 α) (fov : α)
    (k : Nat) (hk : k < gsNumSpotlights) (hy : s.mLightStackTop.y = (k : α)) :
    s.NewLight L stale ELightType.spotlight mesh colour position strength facingToward fov =
      { s with
        mSpotlights := Function.update s.mSpotlights ⟨k, hk⟩
          (some (CSpotlight.new L stale mesh colour position strength facingToward fov))
        mLightStackTop := ⟨s.mLightStackTop.x, (k : α) + 1, s.mLightStackTop.z⟩ } := by
  have h : s.mLightStackTop.y < (gsNumSpotlights : α) := by
    rw [hy]; exact_mod_cast hk
  simp only [CSceneManager.NewLight]
  rw [dif_pos h, stackIndex_natCast gsNumSpotlights (by decide) k hk _ hy h, hy]

/-- C6. `NewLight` below capacity stores into the slot of its own type.  For a
point request with the point count at `k < 3`: slot `k` of the point array holds
a new light with the given colour, position and strength, the point count is
`k + 1`, every other point slot (so slots `0..k-1`) is unchanged, and the
spotlight and directional arrays and counts are unchanged.  For a spotlight
request with the spotlight count at `k < 4`: the same for the spotlight array,
the new spotlight also carrying the given cone angle, with the point and
directional arrays and counts unchanged. -/
theorem C6_newLight_below_capacity_stores [LinearOrderedField α] [FloorRing α] (L : MathLib α)
    (stale : CMatrix4x4 α) (s : CSceneManager α) (mesh : MeshRef) (colour position : CVector3 α)
    (strength : α) (facingToward : CVector3 α) (fov : α) (k : Nat) :
    (∀ hk : k < gsNumPointLights, s.mLightStackTop.x = (k : α) →
      ∃ l : CLight α,
        (s.NewLight L stale ELightType.point mesh colour position strength facingToward
          fov).mPointLights ⟨k, hk⟩ = some l
        ∧ l = CLight.new L stale mesh colour position strength facingToward
        ∧ l.GetColour = colour ∧ l.mpBody.Position = position ∧ l.GetStrength = strength
        ∧ (s.NewLight L stale ELightType.point mesh colour position strength facingToward
          fov).mLightStackTop.x = (k : α) + 1
        ∧ (∀ j : Fin gsNumPointLights, j.val ≠ k →
            (s.NewLight L stale ELightType.point mesh colour position strength facingToward
              fov).mPointLights j = s.mPointLights j)
        ∧ (s.NewLight L stale ELightType.point mesh colour position strength facingToward
          fov).mSpotlights = s.mSpotlights
        ∧ (s.NewLight L stale ELightType.point mesh colour position strength facingToward
          fov).mDirectionalLights = s.mDirectionalLights
        ∧ (s.NewLight L stale ELightType.point mesh colour position strength facingToward
          fov).mLightStackTop.y = s.mLightStackTop.y
        ∧ (s.NewLight L stale ELightType.point mesh colour position strength facingToward
          fov).mLightStackTop.z = s.mLightStackTop.z)
    ∧ (∀ hk : k < gsNumSpotlights, s.mLightStackTop.y = (k : α) →
      ∃ sp : CSpotlight α,
        (s.NewLight L stale ELightType.spotlight mesh colour position strength facingToward
          fov).mSpotlights ⟨k, hk⟩ = some sp
        ∧ sp = CSpotlight.new L stale mesh colour position strength facingToward fov
        ∧ sp.GetColour = colour ∧ sp.mpBody.Position = position ∧ sp.GetStrength = strength
        ∧ sp.GetConeAngle = fov
        ∧ (s.NewLight L stale ELightType.spotlight mesh colour position strength facingToward
          fov).mLightStackTop.y = (k : α) + 1
        ∧ (∀ j : Fin gsNumSpotlights, j.val ≠ k →
            (s.NewLight L stale ELightType.spotlight mesh colour position strength facingToward
              fov).mSpotlights j = s.mSpotlights j)
        ∧ (s.NewLight L stale ELightType.spotlight mesh colour position strength facingToward
          fov).mPointLights = s.mPointLights
        ∧ (s.NewLight L stale ELightType.spotlight mesh colour position strength facingToward
          fov).mDirectionalLights = s.mDirectionalLights
        ∧ (s.NewLight L stale ELightType.spotlight mesh colour position strength facingToward
          fov).mLightStackTop.x = s.mLightStackTop.x
        ∧ (s.NewLight L stale ELightType.spotlight mesh colour position strength facingToward
          fov).mLightStackTop.z = s.mLightStackTop.z) := by
  constructor
  · intro hk hx
    rw [CSceneManager.NewLight_point_below L stale s mesh colour position strength facingToward
      fov k hk hx]
    refine ⟨_, Function.update_same _ _ _, rfl, rfl, rfl, rfl, rfl, ?_, rfl, rfl, rfl, rfl⟩
    intro j hj
    exact Function.update_noteq (fun e => hj (congrArg Fin.val e)) _ _
  · intro hk hy
    rw [CSceneManager.NewLight_spotlight_below L stale s mesh colour position strength
      facingToward fov k hk hy]
    refine ⟨_, Function.update_same _ _ _, rfl, rfl, rfl, rfl, rfl, rfl, ?_, rfl, rfl, rfl, rfl⟩
    intro j hj
    exact Function.update_noteq (fun e => hj (congrArg Fin.val e)) _ _

/-- C6, at a concrete input: the initial scene (both counts `0`) over the reals,
a point-light and a spotlight request. -/
theorem C6_newLight_below_capacity_stores_witness :
    (∃ l : CLight ℝ,
      ((CSceneManager.init : CSceneManager ℝ).NewLight exampleLib CMatrix4x4.identity
        ELightType.point 8 ⟨1, 8 / 10, 2 / 10⟩ ⟨-5, 30, -20⟩ 50 ⟨0, 0, 0⟩ 90).mPointLights
          ⟨0, by decide⟩ = some l
      ∧ l.GetColour = ⟨1, 8 / 10, 2 / 10⟩ ∧ l.mpBody.Position = ⟨-5, 30, -20⟩
      ∧ l.GetStrength = 50)
    ∧ (∃ sp : CSpotlight ℝ,
      ((CSceneManager.init : CSceneManager ℝ).NewLight exampleLib CMatrix4x4.identity
        ELightType.spotlight 8 ⟨1, 8 / 10, 2 / 10⟩ ⟨-5, 30, -20⟩ 50 ⟨0, 0, 0⟩ 90).mSpotlights
          ⟨0, by decide⟩ = some sp
      ∧ sp.GetColour = ⟨1, 8 / 10, 2 / 10⟩ ∧ sp.GetConeAngle = 90) := by
  have h := C6_newLight_below_capacity_stores exampleLib CMatrix4x4.identity
    (CSceneManager.init : CSceneManager ℝ) 8 ⟨1, 8 / 10, 2 / 10⟩ ⟨-5, 30, -20⟩ 50 ⟨0, 0, 0⟩ 90 0
  obtain ⟨l, h1, -, h2, h3, h4, -⟩ := h.1 (by decide) (by simp [CSceneManager.init])
  obtain ⟨sp, g1, -, g2, -, -, g3, -⟩ := h.2 (by decide) (by simp [CSceneManager.init])
  exact ⟨⟨l, h1, h2, h3, h4⟩, ⟨sp, g1, g2, g3⟩⟩

/-- C7, as stated, fails: on the initial scene (no directional light) a
directional request leaves the directional count at `0`, not `1`, and slot 0 of
the directional array empty. -/
theorem C7_directional_not_created :
    ¬ (((CSceneManager.init : CSceneManager ℝ).NewLight exampleLib CMatrix4x4.identity
          ELightType.directional 8 ⟨1, 1, 1⟩ ⟨0, 50, 0⟩ 10 ⟨0, 0, 0⟩ 90).mLightStackTop.z = 1)
    ∧ ((CSceneManager.init : CSceneManager ℝ).NewLight exampleLib CMatrix4x4.identity
          ELightType.directional 8 ⟨1, 1, 1⟩ ⟨0, 50, 0⟩ 10 ⟨0, 0, 0⟩ 90).mDirectionalLights
            ⟨0, by decide⟩ = none := by
  constructor
  · simp [CSceneManager.NewLight, CSceneManager.init]
  · rfl

/-- C7, amended. `NewLight` never creates a directional light: for every scene
a request of type directional returns the scene unchanged, so the directional
count and the directional array stay as they were, a second request is dropped
like the first, and from the initial scene the count stays `0`, within the
capacity `1`. -/
theorem C7_directional_request_dropped [LinearOrderedField α] [FloorRing α] (L : MathLib α)
    (stale : CMatrix4x4 α) (s : CSceneManager α) (mesh : MeshRef) (colour position : CVector3 α)
    (strength : α) (facingToward : CVector3 α) (fov : α) :
    s.NewLight L stale ELightType.directional mesh colour position strength facingToward fov = s
    ∧ (s.NewLight L stale ELightType.directional mesh colour position strength facingToward
        fov).NewLight L stale ELightType.directional mesh colour position strength facingToward
        fov = s
    ∧ ((CSceneManager.init : CSceneManager α).NewLight L stale ELightType.directional mesh colour
        position strength facingToward fov).mLightStackTop.z = 0
    ∧ ((CSceneManager.init : CSceneManager α).NewLight L stale ELightType.directional mesh colour
        position strength facingToward fov).mLightStackTop.z ≤ (gsNumDirectionalLights : α) := by
  refine ⟨rfl, rfl, rfl, ?_⟩
  show (0 : α) ≤ (gsNumDirectionalLights : α)
  exact Nat.cast_nonneg _

/-- C8. For every spotlight with cone angle `a` degrees, `GetCosHalfAngle()` is
the cosine of `a / 2` degrees converted to radians (`a / 2 * π / 180`); for a
spotlight constructed with the default 90 degree cone it is `cos (π / 4)`, that
is `√2 / 2`.  Read over the reals. -/
theorem C8_cosHalfAngle (epsilon : ℝ) (faceTarget : CMatrix4x4 ℝ → CVector3 ℝ → CMatrix4x4 ℝ)
    (getEulerAngles : CMatrix4x4 ℝ → CVector3 ℝ) (makeProjectionMatrix : ℝ → ℝ → CMatrix4x4 ℝ)
    (sp : CSpotlight ℝ) (stale : CMatrix4x4 ℝ) (mesh : MeshRef) (c p f : CVector3 ℝ) (s : ℝ) :
    sp.GetCosHalfAngle (realMathLib epsilon faceTarget getEulerAngles makeProjectionMatrix)
      = Real.cos (sp.GetConeAngle / 2 * Real.pi / 180)
    ∧ (CSpotlight.new (realMathLib epsilon faceTarget getEulerAngles makeProjectionMatrix)
        stale mesh c p s f 90).GetCosHalfAngle
          (realMathLib epsilon faceTarget getEulerAngles makeProjectionMatrix)
      = Real.cos (Real.pi / 4)
    ∧ (CSpotlight.new (realMathLib epsilon faceTarget getEulerAngles makeProjectionMatrix)
        stale mesh c p s f 90).GetCosHalfAngle
          (realMathLib epsilon faceTarget getEulerAngles makeProjectionMatrix)
      = Real.sqrt 2 / 2 := by
  have h90 : (CSpotlight.new (realMathLib epsilon faceTarget getEulerAngles makeProjectionMatrix)
        stale mesh c p s f 90).GetCosHalfAngle
          (realMathLib epsilon faceTarget getEulerAngles makeProjectionMatrix)
      = Real.cos (Real.pi / 4) := by
    show Real.cos ((90 : ℝ) / 2 * Real.pi / 180) = Real.cos (Real.pi / 4)
    congr 1
    ring
  exact ⟨rfl, h90, h90.trans Real.cos_pi_div_four⟩

/-- For an affine matrix (last column `(0, 0, 0, 1)`) whose upper-left 3x3 block
has a non-zero determinant, `InverseAffine` is a right inverse. -/
theorem InverseAffine_right_inverse [Field α] (m : CMatrix4x4 α) (h03 : m.e03 = 0)
    (h13 : m.e13 = 0) (h23 : m.e23 = 0) (h33 : m.e33 = 1) (hdet : m.det3 ≠ 0) :
    CMatrix4x4.mul m (InverseAffine m) = CMatrix4x4.identity := by
  have hd : m.e00 * (m.e11 * m.e22 - m.e12 * m.e21) + m.e01 * (m.e12 * m.e20 - m.e10 * m.e22)
      + m.e02 * (m.e10 * m.e21 - m.e11 * m.e20) ≠ 0 := hdet
  have hi : (m.e00 * (m.e11 * m.e22 - m.e12 * m.e21) + m.e01 * (m.e12 * m.e20 - m.e10 * m.e22)
      + m.e02 * (m.e10 * m.e21 - m.e11 * m.e20))
      * (1 / (m.e00 * (m.e11 * m.e22 - m.e12 * m.e21) + m.e01 * (m.e12 * m.e20 - m.e10 * m.e22)
      + m.e02 * (m.e10 * m.e21 - m.e11 * m.e20))) = 1 := mul_one_div_cancel hd
  simp only [CMatrix4x4.mul, InverseAffine, CMatrix4x4.identity, h03, h13, h23, h33,
    CMatrix4x4.mk.injEq]
  generalize 1 / (m.e00 * (m.e11 * m.e22 - m.e12 * m.e21)
    + m.e01 * (m.e12 * m.e20 - m.e10 * m.e22)
    + m.e02 * (m.e10 * m.e21 - m.e11 * m.e20)) = i at hi ⊢
  refine ⟨?_, ?_, ?_, ?_, ?_, ?_, ?_, ?_, ?_, ?_, ?_, ?_, ?_, ?_, ?_, ?_⟩ <;>
    first
      | ring1
      | linear_combination hi

/-- The world matrix built with the modelled helper library is affine, and its
last row is the position followed by `1`. -/
theorem Model.worldMatrix_std_rows [Field α] (fm : FloatMath α)
    (faceTarget : CMatrix4x4 α → CVector3 α → CMatrix4x4 α)
    (getEulerAngles : CMatrix4x4 α → CVector3 α)
    (makeProjectionMatrix : α → α → CMatrix4x4 α) (m : Model α) :
    let W := (m.WorldMatrix (stdMathLib fm faceTarget getEulerAngles makeProjectionMatrix)).1
    W.e03 = 0 ∧ W.e13 = 0 ∧ W.e23 = 0 ∧ W.e33 = 1
      ∧ W.e30 = m.mPosition.x ∧ W.e31 = m.mPosition.y ∧ W.e32 = m.mPosition.z := by
  simp [Model.WorldMatrix, Model.UpdateWorldMatrix, stdMathLib, CMatrix4x4.mul, MatrixScaling,
    MatrixRotationX, MatrixRotationY, MatrixRotationZ, MatrixTranslation]

/-- The 3x3 determinant is multiplicative when the left factor has zeros above
the last entry of its last column. -/
theorem CMatrix4x4.det3_mul [Field α] (a b : CMatrix4x4 α) (h03 : a.e03 = 0)
    (h13 : a.e13 = 0) (h23 : a.e23 = 0) :
    (CMatrix4x4.mul a b).det3 = a.det3 * b.det3 := by
  simp only [CMatrix4x4.mul, CMatrix4x4.det3, h03, h13, h23]
  ring

/-- The last column of a product, when that of the right factor is `(0, 0, 0, 1)`
and the left factor has zeros above the last entry of its last column. -/
theorem CMatrix4x4.mul_lastColumn [Field α] (a b : CMatrix4x4 α) (h03 : a.e03 = 0)
    (h13 : a.e13 = 0) (h23 : a.e23 = 0) (g03 : b.e03 = 0) (g13 : b.e13 = 0)
    (g23 : b.e23 = 0) :
    (CMatrix4x4.mul a b).e03 = 0 ∧ (CMatrix4x4.mul a b).e13 = 0
      ∧ (CMatrix4x4.mul a b).e23 = 0 := by
  simp [CMatrix4x4.mul, h03, h13, h23, g03, g13, g23]

/-- The determinant of the upper-left block of the world matrix: the product of
the three scale factors, times `cos² + sin²` of each of the three angles. -/
theorem Model.worldMatrix_std_det3 [Field α] (fm : FloatMath α)
    (faceTarget : CMatrix4x4 α → CVector3 α → CMatrix4x4 α)
    (getEulerAngles : CMatrix4x4 α → CVector3 α)
    (makeProjectionMatrix : α → α → CMatrix4x4 α) (m : Model α) :
    (m.WorldMatrix (stdMathLib fm faceTarget getEulerAngles makeProjectionMatrix)).1.det3
      = m.mScale.x * m.mScale.y * m.mScale.z
        * (fm.cos m.mRotation.z ^ 2 + fm.sin m.mRotation.z ^ 2)
        * (fm.cos m.mRotation.x ^ 2 + fm.sin m.mRotation.x ^ 2)
        * (fm.cos m.mRotation.y ^ 2 + fm.sin m.mRotation.y ^ 2) := by
  show (CMatrix4x4.mul (CMatrix4x4.mul (CMatrix4x4.mul (CMatrix4x4.mul (MatrixScaling m.mScale)
      (MatrixRotationZ fm m.mRotation.z)) (MatrixRotationX fm m.mRotation.x))
      (MatrixRotationY fm m.mRotation.y)) (MatrixTranslation m.mPosition)).det3 = _
  obtain ⟨a1, a2, a3⟩ := CMatrix4x4.mul_lastColumn (MatrixScaling m.mScale)
    (MatrixRotationZ fm m.mRotation.z) rfl rfl rfl rfl rfl rfl
  obtain ⟨b1, b2, b3⟩ := CMatrix4x4.mul_lastColumn _ (MatrixRotationX fm m.mRotation.x)
    a1 a2 a3 rfl rfl rfl
  obtain ⟨c1, c2, c3⟩ := CMatrix4x4.mul_lastColumn _ (MatrixRotationY fm m.mRotation.y)
    b1 b2 b3 rfl rfl rfl
  rw [CMatrix4x4.det3_mul _ _ c1 c2 c3, CMatrix4x4.det3_mul _ _ b1 b2 b3,
    CMatrix4x4.det3_mul _ _ a1 a2 a3, CMatrix4x4.det3_mul _ _ rfl rfl rfl]
  simp only [CMatrix4x4.det3, MatrixScaling, MatrixRotationX, MatrixRotationY, MatrixRotationZ,
    MatrixTranslation]
  ring

/-- With `cos² + sin² = 1` and non-zero scale factors, the world matrix times its
`InverseAffine` is the identity, and the model's position goes to the origin. -/
theorem Model.worldMatrix_std_inverse [Field α] (fm : FloatMath α)
    (faceTarget : CMatrix4x4 α → CVector3 α → CMatrix4x4 α)
    (getEulerAngles : CMatrix4x4 α → CVector3 α)
    (makeProjectionMatrix : α → α → CMatrix4x4 α)
    (htrig : ∀ a : α, fm.cos a ^ 2 + fm.sin a ^ 2 = 1) (m : Model α)
    (hx : m.mScale.x ≠ 0) (hy : m.mScale.y ≠ 0) (hz : m.mScale.z ≠ 0) :
    CMatrix4x4.mul
        (m.WorldMatrix (stdMathLib fm faceTarget getEulerAngles makeProjectionMatrix)).1
        (InverseAffine
          (m.WorldMatrix (stdMathLib fm faceTarget getEulerAngles makeProjectionMatrix)).1)
      = CMatrix4x4.identity
    ∧ CMatrix4x4.transformPoint m.mPosition
        (InverseAffine
          (m.WorldMatrix (stdMathLib fm faceTarget getEulerAngles makeProjectionMatrix)).1)
      = (0, 0, 0, 1) := by
  obtain ⟨h03, h13, h23, h33, h30, h31, h32⟩ :=
    Model.worldMatrix_std_rows fm faceTarget getEulerAngles makeProjectionMatrix m
  have hdet : (m.WorldMatrix
      (stdMathLib fm faceTarget getEulerAngles makeProjectionMatrix)).1.det3 ≠ 0 := by
    rw [Model.worldMatrix_std_det3, htrig, htrig, htrig]
    simp [hx, hy, hz]
  have hinv := InverseAffine_right_inverse _ h03 h13 h23 h33 hdet
  refine ⟨hinv, ?_⟩
  have e30 := congrArg CMatrix4x4.e30 hinv
  have e31 := congrArg CMatrix4x4.e31 hinv
  have e32 := congrArg CMatrix4x4.e32 hinv
  have e33 := congrArg CMatrix4x4.e33 hinv
  simp only [CMatrix4x4.mul, CMatrix4x4.identity, h30, h31, h32, h33, one_mul] at e30 e31 e32 e33
  simp only [CMatrix4x4.transformPoint, Prod.mk.injEq]
  exact ⟨e30, e31, e32, e33⟩

/-- A spatial mutator call leaves the scale of the light's body alone. -/
theorem CLight.call_body_scale (L : MathLib α) (l : CLight α) (c : LightCall α) :
    (l.call L c).mpBody.mScale = l.mpBody.mScale := by
  cases c <;> rfl

/-- No sequence of spatial mutator calls changes the scale of a spotlight's body. -/
theorem CSpotlight.calls_body_scale (L : MathLib α) (cs : List (LightCall α))
    (sp : CSpotlight α) : (sp.calls L cs).mpBody.mScale = sp.mpBody.mScale := by
  induction cs generalizing sp with
  | nil => rfl
  | cons c cs ih =>
    show ((sp.call L c).calls L cs).mpBody.mScale = sp.mpBody.mScale
    rw [ih]
    exact CLight.call_body_scale L sp.toCLight c

/-- C9. With `cos² + sin² = 1`: for every spotlight whose body has non-zero
scale factors, `CalculateViewMatrix()` is the inverse of the body's world matrix
(world times view is the identity), and the row vector `(p, 1)` of the
spotlight's own position `p` goes to `(0, 0, 0, 1)` under the view matrix.  With
`pow` positive on positive bases this covers every spotlight constructed with
strength `> 0`, also after any `Rotate`, `FaceTarget` and `SetPosition` calls. -/
theorem C9_viewMatrix_inverts_world [LinearOrderedField α] (fm : FloatMath α)
    (faceTarget : CMatrix4x4 α → CVector3 α → CMatrix4x4 α)
    (getEulerAngles : CMatrix4x4 α → CVector3 α)
    (makeProjectionMatrix : α → α → CMatrix4x4 α)
    (htrig : ∀ a : α, fm.cos a ^ 2 + fm.sin a ^ 2 = 1)
    (hpow : ∀ x y : α, 0 < x → 0 < fm.pow x y) :
    (∀ sp : CSpotlight α,
      sp.mpBody.Scale.x ≠ 0 → sp.mpBody.Scale.y ≠ 0 → sp.mpBody.Scale.z ≠ 0 →
        (stdMathLib fm faceTarget getEulerAngles makeProjectionMatrix).mul
            (sp.mpBody.WorldMatrix
              (stdMathLib fm faceTarget getEulerAngles makeProjectionMatrix)).1
            (sp.CalculateViewMatrix
              (stdMathLib fm faceTarget getEulerAngles makeProjectionMatrix)).1
          = CMatrix4x4.identity
        ∧ CMatrix4x4.transformPoint sp.mpBody.Position
            (sp.CalculateViewMatrix
              (stdMathLib fm faceTarget getEulerAngles makeProjectionMatrix)).1
          = (0, 0, 0, 1))
    ∧ (∀ (stale : CMatrix4x4 α) (mesh : MeshRef) (c p f : CVector3 α) (s fov : α)
        (cs : List (LightCall α)), 0 < s →
        (stdMathLib fm faceTarget getEulerAngles makeProjectionMatrix).mul
            (((CSpotlight.new (stdMathLib fm faceTarget getEulerAngles makeProjectionMatrix)
                stale mesh c p s f fov).calls
                (stdMathLib fm faceTarget getEulerAngles makeProjectionMatrix) cs).mpBody.WorldMatrix
              (stdMathLib fm faceTarget getEulerAngles makeProjectionMatrix)).1
            (((CSpotlight.new (stdMathLib fm faceTarget getEulerAngles makeProjectionMatrix)
                stale mesh c p s f fov).calls
                (stdMathLib fm faceTarget getEulerAngles makeProjectionMatrix)
                cs).CalculateViewMatrix
              (stdMathLib fm faceTarget getEulerAngles makeProjectionMatrix)).1
          = CMatrix4x4.identity
        ∧ CMatrix4x4.transformPoint
            ((CSpotlight.new (stdMathLib fm faceTarget getEulerAngles makeProjectionMatrix)
                stale mesh c p s f fov).calls
                (stdMathLib fm faceTarget getEulerAngles makeProjectionMatrix) cs).mpBody.Position
            (((CSpotlight.new (stdMathLib fm faceTarget getEulerAngles makeProjectionMatrix)
                stale mesh c p s f fov).calls
                (stdMathLib fm faceTarget getEulerAngles makeProjectionMatrix)
                cs).CalculateViewMatrix
              (stdMathLib fm faceTarget getEulerAngles makeProjectionMatrix)).1
          = (0, 0, 0, 1)) := by
  have key : ∀ sp : CSpotlight α,
      sp.mpBody.mScale.x ≠ 0 → sp.mpBody.mScale.y ≠ 0 → sp.mpBody.mScale.z ≠ 0 →
        (stdMathLib fm faceTarget getEulerAngles makeProjectionMatrix).mul
            (sp.mpBody.WorldMatrix
              (stdMathLib fm faceTarget getEulerAngles makeProjectionMatrix)).1
            (sp.CalculateViewMatrix
              (stdMathLib fm faceTarget getEulerAngles makeProjectionMatrix)).1
          = CMatrix4x4.identity
        ∧ CMatrix4x4.transformPoint sp.mpBody.Position
            (sp.CalculateViewMatrix
              (stdMathLib fm faceTarget getEulerAngles makeProjectionMatrix)).1
          = (0, 0, 0, 1) := fun sp hx hy hz =>
    Model.worldMatrix_std_inverse fm faceTarget getEulerAngles makeProjectionMatrix htrig
      sp.mpBody hx hy hz
  refine ⟨key, ?_⟩
  intro stale mesh c p f s fov cs hs
  have hsc : ((CSpotlight.new (stdMathLib fm faceTarget getEulerAngles makeProjectionMatrix)
      stale mesh c p s f fov).calls
      (stdMathLib fm faceTarget getEulerAngles makeProjectionMatrix) cs).mpBody.mScale
      = ⟨fm.pow s (7 / 10), fm.pow s (7 / 10), fm.pow s (7 / 10)⟩ := by
    rw [CSpotlight.calls_body_scale]
    rfl
  have hne : fm.pow s (7 / 10) ≠ 0 := ne_of_gt (hpow s (7 / 10) hs)
  apply key <;> rw [hsc] <;> exact hne

/-- C9, at a concrete input: over the reals, the spotlight of the built-in scene
(position `{30, 20, 0}`, strength `10`) after it was moved to `{35, 10, 20}`. -/
theorem C9_viewMatrix_inverts_world_witness :
    exampleLib.mul
        (((CSpotlight.new exampleLib CMatrix4x4.identity 8 ⟨8 / 10, 8 / 10, 1⟩ ⟨30, 20, 0⟩ 10
            ⟨15, 0, 0⟩ 90).calls exampleLib
            [LightCall.SetPosition ⟨35, 10, 20⟩]).mpBody.WorldMatrix exampleLib).1
        (((CSpotlight.new exampleLib CMatrix4x4.identity 8 ⟨8 / 10, 8 / 10, 1⟩ ⟨30, 20, 0⟩ 10
            ⟨15, 0, 0⟩ 90).calls exampleLib
            [LightCall.SetPosition ⟨35, 10, 20⟩]).CalculateViewMatrix exampleLib).1
      = CMatrix4x4.identity
    ∧ CMatrix4x4.transformPoint ⟨35, 10, 20⟩
        (((CSpotlight.new exampleLib CMatrix4x4.identity 8 ⟨8 / 10, 8 / 10, 1⟩ ⟨30, 20, 0⟩ 10
            ⟨15, 0, 0⟩ 90).calls exampleLib
            [LightCall.SetPosition ⟨35, 10, 20⟩]).CalculateViewMatrix exampleLib).1
      = (0, 0, 0, 1) :=
  (C9_viewMatrix_inverts_world (realMath (1 / 1000000)) (fun m _ => m) (fun _ => ⟨0, 0, 0⟩)
    (fun _ _ => CMatrix4x4.identity) (fun a => Real.cos_sq_add_sin_sq a)
    (fun x y hx => Real.rpow_pos_of_pos hx y)).2 CMatrix4x4.identity 8 ⟨8 / 10, 8 / 10, 1⟩
    ⟨30, 20, 0⟩ ⟨15, 0, 0⟩ 10 90 [LightCall.SetPosition ⟨35, 10, 20⟩] (by norm_num)

/-! ### Rendering: the shadow passes and the per-frame block -/

/-- The uploads of two runs of calls, one after the other. -/
theorem perFrameUploads_append (a b : List (Cmd α)) :
    perFrameUploads (a ++ b) = perFrameUploads a ++ perFrameUploads b := by
  induction a with
  | nil => rfl
  | cons c rest ih =>
    cases c <;> simp [perFrameUploads, ih]

/-- A property that holds before a loop and is kept by every round holds after it. -/
theorem forLoop_induction {σ : Type} (P : σ → Prop) (n : Nat) (body : Nat → σ → σ) (init : σ)
    (h0 : P init) (hstep : ∀ i st, P st → P (body i st)) : P (forLoop n body init) := by
  induction n with
  | zero => exact h0
  | succ k ih => exact hstep k _ ih

/-- Continuing without a per-frame upload is reflexive. -/
theorem Gfx.Neutral.same (g : Gfx α) : g.Neutral g := ⟨rfl, rfl⟩

/-- Continuing without a per-frame upload is transitive. -/
theorem Gfx.Neutral.next {g1 g2 g3 : Gfx α} (h12 : g1.Neutral g2) (h23 : g2.Neutral g3) :
    g1.Neutral g3 :=
  ⟨h23.1.trans h12.1, h23.2.trans h12.2⟩

/-- Issuing calls none of which is a per-frame upload is neutral. -/
theorem Gfx.emit_neutral (g : Gfx α) (cs : List (Cmd α)) (h : perFrameUploads cs = []) :
    g.Neutral (g.emit cs) := by
  refine ⟨rfl, ?_⟩
  show perFrameUploads (g.calls ++ cs) = perFrameUploads g.calls
  rw [perFrameUploads_append, h, List.append_nil]

/-- The method `Model::Render` issues no per-frame upload. -/
theorem Model.Render_neutral (L : MathLib α) (m : Model α) (g : Gfx α) :
    g.Neutral (m.Render L g).2 := by
  refine ⟨rfl, ?_⟩
  show perFrameUploads (g.calls ++ _) = perFrameUploads g.calls
  rw [perFrameUploads_append]
  simp [perFrameUploads]

/-- The model loop issues no per-frame upload. -/
theorem renderModels_neutral (L : MathLib α) (ms : List (Model α)) (g : Gfx α) :
    g.Neutral (renderModels L ms g).2 := by
  induction ms generalizing g with
  | nil => exact Gfx.Neutral.same g
  | cons m rest ih => exact (Model.Render_neutral L m g).next (ih _)

/-- The portal loop of the shadow pass issues no per-frame upload. -/
theorem renderPortals_neutral (L : MathLib α) (ps : List (CPortal α)) (g : Gfx α) :
    g.Neutral (renderPortals L ps g).2 := by
  induction ps generalizing g with
  | nil => exact Gfx.Neutral.same g
  | cons p rest ih => exact (Model.Render_neutral L p.mpBody g).next (ih _)

/-- The bucket loop of the shadow pass issues no per-frame upload. -/
theorem renderBuckets_neutral (L : MathLib α)
    (collection : Fin gsNumOfModelPS → List (Model α)) (g : Gfx α) :
    g.Neutral (renderBuckets L collection g).2 := by
  unfold renderBuckets
  refine forLoop_induction
    (fun st : (Fin gsNumOfModelPS → List (Model α)) × Gfx α => g.Neutral st.2) _ _ _
    (Gfx.Neutral.same g) ?_
  · intro i st hst
    by_cases h : i < gsNumOfModelPS
    · simp only [dif_pos h]
      exact hst.next (renderModels_neutral L _ _)
    · simp only [dif_neg h]
      exact hst

/-- Refreshing the stored world matrix twice is refreshing it once. -/
theorem Model.UpdateWorldMatrix_idem (L : MathLib α) (m : Model α) :
    (m.UpdateWorldMatrix L).UpdateWorldMatrix L = m.UpdateWorldMatrix L := rfl

/-- What one shadow pass does to the light, the light arrays and the per-frame
block: the light comes back refreshed, the scene keeps its spotlight array, its
counts and its shadow map views, the per-frame block keeps its spotlight
entries, and exactly one per-frame upload is issued, whose view matrix is the
light's view matrix, whose projection matrix is the light's projection matrix
and whose view-projection matrix is their product. -/
theorem CSceneManager.RenderDepthBufferFromLight_spec [Field α] (L : MathLib α)
    (s : CSceneManager α) (g : Gfx α) (light : CSpotlight α) :
    (s.RenderDepthBufferFromLight L g light).1 = light.refreshed L
    ∧ (s.RenderDepthBufferFromLight L g light).2.1.mSpotlights = s.mSpotlights
    ∧ (s.RenderDepthBufferFromLight L g light).2.1.mLightStackTop = s.mLightStackTop
    ∧ (s.RenderDepthBufferFromLight L g light).2.1.mShadowMapSpotlightDepthStencil
        = s.mShadowMapSpotlightDepthStencil
    ∧ (s.RenderDepthBufferFromLight L g light).2.2.gPerFrameConstants.spotlights
        = g.gPerFrameConstants.spotlights
    ∧ ∃ c : PerFrameConstants α,
        perFrameUploads (s.RenderDepthBufferFromLight L g light).2.2.calls
          = perFrameUploads g.calls ++ [c]
        ∧ c.spotlights = g.gPerFrameConstants.spotlights
        ∧ c.viewMatrix = (light.CalculateViewMatrix L).1
        ∧ c.projectionMatrix = light.CalculateProjectionMatrix L
        ∧ c.viewProjectionMatrix = L.mul c.viewMatrix c.projectionMatrix := by
  refine ⟨rfl, rfl, rfl, rfl, ?_, ?_⟩
  · simp only [CSceneManager.RenderDepthBufferFromLight]
    have h1 := renderBuckets_neutral L s.mModelCollection
    have h2 := renderPortals_neutral L s.mPortalCollection
    have h3 := renderBuckets_neutral L s.mTeapotCollection
    have h4 := renderModels_neutral L s.mTransparentModels
    rw [(h4 _).1]
    show (renderBuckets L s.mTeapotCollection _).2.gPerFrameConstants.spotlights = _
    rw [(h3 _).1]
    show (renderPortals L s.mPortalCollection _).2.gPerFrameConstants.spotlights = _
    rw [(h2 _).1, (h1 _).1]
    rfl
  · refine ⟨shadowBlock L g.gPerFrameConstants light, ?_, rfl, rfl, rfl, rfl⟩
    simp only [CSceneManager.RenderDepthBufferFromLight]
    have h1 := renderBuckets_neutral L s.mModelCollection
    have h2 := renderPortals_neutral L s.mPortalCollection
    have h3 := renderBuckets_neutral L s.mTeapotCollection
    have h4 := renderModels_neutral L s.mTransparentModels
    rw [(h4 _).2]
    show perFrameUploads ((renderBuckets L s.mTeapotCollection _).2.calls ++ _) = _
    rw [perFrameUploads_append, (h3 _).2]
    show (perFrameUploads ((renderPortals L s.mPortalCollection _).2.calls ++ _) ++ _) = _
    rw [perFrameUploads_append, (h2 _).2, (h1 _).2]
    show (perFrameUploads (g.calls ++ _) ++ _ ++ _) = _
    rw [perFrameUploads_append]
    simp [perFrameUploads, shadowBlock]

/-- The data and the light that the six spotlight assignments of `RenderScene`
produce: the light comes back refreshed; the view matrix is that of
`CalculateViewMatrix`, the projection matrix that of `CalculateProjectionMatrix`. -/
theorem spotlightData_spec [Field α] (L : MathLib α) (sp : CSpotlight α) :
    (spotlightData L sp).2 = sp.refreshed L
    ∧ (spotlightData L sp).1.viewMatrix = (sp.CalculateViewMatrix L).1
    ∧ (spotlightData L sp).1.projectionMatrix = sp.CalculateProjectionMatrix L :=
  ⟨rfl, rfl, rfl⟩

/-- A round of the point-light loop leaves the scene and the call record alone. -/
theorem CSceneManager.aggregatePoint_keeps [Mul α] (i : Nat) (st : CSceneManager α × Gfx α) :
    (CSceneManager.aggregatePoint i st).1 = st.1
    ∧ (CSceneManager.aggregatePoint i st).2.calls = st.2.calls := by
  unfold CSceneManager.aggregatePoint
  split
  · split <;> exact ⟨rfl, rfl⟩
  · exact ⟨rfl, rfl⟩

/-- A round of the spotlight loop on a populated slot, written out: the entry
is filled and the fault of the dangling reads is recorded. -/
theorem CSceneManager.aggregateSpot_of_some [Field α] (L : MathLib α) (i : Nat)
    (h : i < gsNumSpotlights) (st : CSceneManager α × Gfx α) (sp : CSpotlight α)
    (hs : st.1.mSpotlights ⟨i, h⟩ = some sp) :
    CSceneManager.aggregateSpot L i st =
      ({ st.1 with
         mSpotlights := Function.update st.1.mSpotlights ⟨i, h⟩ (some (spotlightData L sp).2) },
       { st.2.raise with
         gPerFrameConstants :=
           { st.2.gPerFrameConstants with
             spotlights := Function.update st.2.gPerFrameConstants.spotlights ⟨i, h⟩
               (spotlightData L sp).1 } }) := by
  unfold CSceneManager.aggregateSpot
  rw [dif_pos h]
  simp only [hs]
  rfl

/-- The spotlight loop of `RenderScene` after `k` rounds, when the first `n ≥ k`
slots hold the spotlights `sps`: slots below `k` hold the refreshed spotlights
and their entries of the per-frame block are filled; the other slots, the
counts and the call record are as before. -/
theorem CSceneManager.aggregateSpot_rounds [Field α] (L : MathLib α)
    (init : CSceneManager α × Gfx α) (n : Nat) (sps : Fin gsNumSpotlights → CSpotlight α)
    (hn : n ≤ gsNumSpotlights)
    (hpop : ∀ j : Fin gsNumSpotlights, j.val < n → init.1.mSpotlights j = some (sps j))
    (k : Nat) (hk : k ≤ n) :
    (forLoop k (CSceneManager.aggregateSpot L) init).2.calls = init.2.calls
    ∧ (forLoop k (CSceneManager.aggregateSpot L) init).1.mLightStackTop = init.1.mLightStackTop
    ∧ ∀ j : Fin gsNumSpotlights,
        (j.val < k →
          (forLoop k (CSceneManager.aggregateSpot L) init).1.mSpotlights j
              = some ((sps j).refreshed L)
          ∧ (forLoop k (CSceneManager.aggregateSpot L) init).2.gPerFrameConstants.spotlights j
              = (spotlightData L (sps j)).1)
        ∧ (k ≤ j.val →
          (forLoop k (CSceneManager.aggregateSpot L) init).1.mSpotlights j
              = init.1.mSpotlights j) := by
  induction k with
  | zero =>
    refine ⟨rfl, rfl, fun j => ⟨fun hj => absurd hj (Nat.not_lt_zero _), fun _ => rfl⟩⟩
  | succ k ih =>
    obtain ⟨ihc, iht, ihs⟩ := ih (Nat.le_of_succ_le hk)
    have hk4 : k < gsNumSpotlights := Nat.lt_of_lt_of_le hk hn
    have hslot : (forLoop k (CSceneManager.aggregateSpot L) init).1.mSpotlights ⟨k, hk4⟩
        = some (sps ⟨k, hk4⟩) := by
      rw [(ihs ⟨k, hk4⟩).2 (Nat.le_refl k)]
      exact hpop ⟨k, hk4⟩ hk
    have hstep : forLoop (k + 1) (CSceneManager.aggregateSpot L) init
        = CSceneManager.aggregateSpot L k (forLoop k (CSceneManager.aggregateSpot L) init) := rfl
    rw [hstep, CSceneManager.aggregateSpot_of_some L k hk4 _ _ hslot]
    refine ⟨ihc, iht, fun j => ⟨fun hj => ?_, fun hj => ?_⟩⟩
    · by_cases e : j = ⟨k, hk4⟩
      · subst e
        exact ⟨Function.update_same _ _ _, Function.update_same _ _ _⟩
      · have hjk : j.val < k := by
          have hne : j.val ≠ k := fun h => e (Fin.ext h)
          omega
        exact ⟨(Function.update_noteq e _ _).trans ((ihs j).1 hjk).1,
          (Function.update_noteq e _ _).trans ((ihs j).1 hjk).2⟩
    · have e : j ≠ ⟨k, hk4⟩ := by
        intro h
        rw [h] at hj
        exact absurd hj (Nat.not_succ_le_self k)
      exact (Function.update_noteq e _ _).trans ((ihs j).2 (Nat.le_of_succ_le hj))

/-- The light aggregation of `RenderScene`, when the spotlight count is the
natural number `n ≤ 4` and the first `n` slots hold the spotlights `sps`: no
device call is issued, the counts are kept, and for every `j < n` slot `j` holds
the refreshed spotlight and entry `j` of the per-frame block is its data. -/
theorem CSceneManager.aggregateLights_spec [LinearOrderedField α] [FloorRing α]
    (L : MathLib α) (s : CSceneManager α) (g : Gfx α) (n : Nat)
    (sps : Fin gsNumSpotlights → CSpotlight α) (hn : n ≤ gsNumSpotlights)
    (htop : s.mLightStackTop.y = (n : α))
    (hpop : ∀ j : Fin gsNumSpotlights, j.val < n → s.mSpotlights j = some (sps j)) :
    (s.aggregateLights L g).2.calls = g.calls
    ∧ (s.aggregateLights L g).1.mLightStackTop = s.mLightStackTop
    ∧ ∀ j : Fin gsNumSpotlights, j.val < n →
        (s.aggregateLights L g).1.mSpotlights j = some ((sps j).refreshed L)
        ∧ (s.aggregateLights L g).2.gPerFrameConstants.spotlights j
            = (spotlightData L (sps j)).1 := by
  have hp : (forLoop (loopRounds s.mLightStackTop.x) CSceneManager.aggregatePoint (s, g)).1 = s
      ∧ (forLoop (loopRounds s.mLightStackTop.x) CSceneManager.aggregatePoint (s, g)).2.calls
          = g.calls := by
    refine forLoop_induction
      (fun st : CSceneManager α × Gfx α => st.1 = s ∧ st.2.calls = g.calls) _ _ _ ⟨rfl, rfl⟩ ?_
    intro i st hst
    obtain ⟨h1, h2⟩ := CSceneManager.aggregatePoint_keeps i st
    exact ⟨h1.trans hst.1, h2.trans hst.2⟩
  have hrounds : loopRounds s.mLightStackTop.y = n := by
    rw [htop]
    exact Nat.ceil_natCast n
  obtain ⟨hc, ht, hs⟩ := CSceneManager.aggregateSpot_rounds L
    (forLoop (loopRounds s.mLightStackTop.x) CSceneManager.aggregatePoint (s, g)) n sps hn
    (by rw [hp.1]; exact hpop) n (Nat.le_refl n)
  rw [hp.2] at hc
  rw [hp.1] at ht
  unfold CSceneManager.aggregateLights
  simp only [hrounds]
  split
  · exact ⟨hc, ht, fun j hj => ((hs j).1 hj)⟩
  · exact ⟨hc, ht, fun j hj => ((hs j).1 hj)⟩

/-- One round of the shadow loop on a slot that holds a refreshed spotlight: the
spotlight array and the spotlight entries of the per-frame block are kept, and
exactly one per-frame block is uploaded, carrying those entries and the light's
view, projection and view-projection matrices. -/
theorem CSceneManager.shadowPass_spec [Field α] (L : MathLib α) (i : Nat)
    (h : i < gsNumSpotlights) (st : CSceneManager α × Gfx α) (sp : CSpotlight α)
    (hs : st.1.mSpotlights ⟨i, h⟩ = some (sp.refreshed L)) :
    (CSceneManager.shadowPass L i st).1.mSpotlights = st.1.mSpotlights
    ∧ (CSceneManager.shadowPass L i st).2.gPerFrameConstants.spotlights
        = st.2.gPerFrameConstants.spotlights
    ∧ ∃ c : PerFrameConstants α,
        perFrameUploads (CSceneManager.shadowPass L i st).2.calls
          = perFrameUploads st.2.calls ++ [c]
        ∧ c.spotlights = st.2.gPerFrameConstants.spotlights
        ∧ c.viewMatrix = (sp.CalculateViewMatrix L).1
        ∧ c.projectionMatrix = sp.CalculateProjectionMatrix L
        ∧ c.viewProjectionMatrix = L.mul c.viewMatrix c.projectionMatrix := by
  obtain ⟨r1, r2, -, -, r5, c, rc, rcs, rcv, rcp, rcvp⟩ :=
    CSceneManager.RenderDepthBufferFromLight_spec L st.1
      (st.2.emit
        [Cmd.OMSetRenderTargets none
          (DepthRef.handle (st.1.mShadowMapSpotlightDepthStencil ⟨i, h⟩)),
         Cmd.ClearDepthStencilView
          (DepthRef.handle (st.1.mShadowMapSpotlightDepthStencil ⟨i, h⟩))])
      (sp.refreshed L)
  have hround : CSceneManager.shadowPass L i st =
      ({ (st.1.RenderDepthBufferFromLight L
            (st.2.emit
              [Cmd.OMSetRenderTargets none
                (DepthRef.handle (st.1.mShadowMapSpotlightDepthStencil ⟨i, h⟩)),
               Cmd.ClearDepthStencilView
                (DepthRef.handle (st.1.mShadowMapSpotlightDepthStencil ⟨i, h⟩))])
            (sp.refreshed L)).2.1 with
          mSpotlights := Function.update
            (st.1.RenderDepthBufferFromLight L
              (st.2.emit
                [Cmd.OMSetRenderTargets none
                  (DepthRef.handle (st.1.mShadowMapSpotlightDepthStencil ⟨i, h⟩)),
                 Cmd.ClearDepthStencilView
                  (DepthRef.handle (st.1.mShadowMapSpotlightDepthStencil ⟨i, h⟩))])
              (sp.refreshed L)).2.1.mSpotlights ⟨i, h⟩
            (some (st.1.RenderDepthBufferFromLight L
              (st.2.emit
                [Cmd.OMSetRenderTargets none
                  (DepthRef.handle (st.1.mShadowMapSpotlightDepthStencil ⟨i, h⟩)),
                 Cmd.ClearDepthStencilView
                  (DepthRef.handle (st.1.mShadowMapSpotlightDepthStencil ⟨i, h⟩))])
              (sp.refreshed L)).1) },
       (st.1.RenderDepthBufferFromLight L
          (st.2.emit
            [Cmd.OMSetRenderTargets none
              (DepthRef.handle (st.1.mShadowMapSpotlightDepthStencil ⟨i, h⟩)),
             Cmd.ClearDepthStencilView
              (DepthRef.handle (st.1.mShadowMapSpotlightDepthStencil ⟨i, h⟩))])
          (sp.refreshed L)).2.2) := by
    unfold CSceneManager.shadowPass
    rw [dif_pos h]
    simp only [hs]
  rw [hround]
  refine ⟨?_, r5, c, ?_, rcs, rcv, rcp, rcvp⟩
  · show Function.update _ _ _ = _
    rw [r1, r2]
    have e : (sp.refreshed L).refreshed L = sp.refreshed L := rfl
    rw [e, ← hs]
    exact Function.update_eq_self _ _
  · rw [rc]
    show perFrameUploads (st.2.calls ++ _) ++ [c] = _
    rw [perFrameUploads_append]
    simp [perFrameUploads]

/-- The shadow loop after `k` rounds, when the first `n ≥ k` slots hold the
refreshed spotlights `sps`: the spotlight array and the spotlight entries of the
per-frame block are as before the loop, and exactly `k` per-frame blocks were
uploaded, the one of round `j` carrying those entries and the view, projection
and view-projection matrices of spotlight `j`. -/
theorem CSceneManager.shadowPass_rounds [Field α] (L : MathLib α)
    (init : CSceneManager α × Gfx α) (n : Nat) (sps : Fin gsNumSpotlights → CSpotlight α)
    (hn : n ≤ gsNumSpotlights)
    (hpop : ∀ j : Fin gsNumSpotlights, j.val < n →
      init.1.mSpotlights j = some ((sps j).refreshed L))
    (k : Nat) (hk : k ≤ n) :
    (forLoop k (CSceneManager.shadowPass L) init).1.mSpotlights = init.1.mSpotlights
    ∧ (forLoop k (CSceneManager.shadowPass L) init).2.gPerFrameConstants.spotlights
        = init.2.gPerFrameConstants.spotlights
    ∧ ∃ U : List (PerFrameConstants α),
        perFrameUploads (forLoop k (CSceneManager.shadowPass L) init).2.calls
          = perFrameUploads init.2.calls ++ U
        ∧ U.length = k
        ∧ ∀ j : Fin gsNumSpotlights, j.val < k →
            ∃ c : PerFrameConstants α, U[j.val]? = some c
              ∧ c.spotlights = init.2.gPerFrameConstants.spotlights
              ∧ c.viewMatrix = ((sps j).CalculateViewMatrix L).1
              ∧ c.projectionMatrix = (sps j).CalculateProjectionMatrix L
              ∧ c.viewProjectionMatrix = L.mul c.viewMatrix c.projectionMatrix := by
  induction k with
  | zero =>
    exact ⟨rfl, rfl, [], (List.append_nil _).symm, rfl,
      fun j hj => absurd hj (Nat.not_lt_zero _)⟩
  | succ k ih =>
    obtain ⟨ihs, ihp, U, hU, hlen, hall⟩ := ih (Nat.le_of_succ_le hk)
    have hk4 : k < gsNumSpotlights := Nat.lt_of_lt_of_le hk hn
    have hslot : (forLoop k (CSceneManager.shadowPass L) init).1.mSpotlights ⟨k, hk4⟩
        = some ((sps ⟨k, hk4⟩).refreshed L) := by
      rw [ihs]
      exact hpop ⟨k, hk4⟩ hk
    obtain ⟨q1, q2, c, qc, qcs, qcv, qcp, qcvp⟩ :=
      CSceneManager.shadowPass_spec L k hk4 (forLoop k (CSceneManager.shadowPass L) init)
        (sps ⟨k, hk4⟩) hslot
    have hstep : forLoop (k + 1) (CSceneManager.shadowPass L) init
        = CSceneManager.shadowPass L k (forLoop k (CSceneManager.shadowPass L) init) := rfl
    rw [hstep]
    refine ⟨q1.trans ihs, q2.trans ihp, U ++ [c], ?_, ?_, ?_⟩
    · rw [qc, hU, List.append_assoc]
    · rw [List.length_append, hlen]
      rfl
    · intro j hj
      by_cases e : j.val < k
      · obtain ⟨c0, h0, h1⟩ := hall j e
        refine ⟨c0, ?_, h1⟩
        rw [List.getElem?_append_left (by rw [hlen]; exact e)]
        exact h0
      · have hjk : j.val = k := by omega
        have hj2 : j = ⟨k, hk4⟩ := Fin.ext hjk
        subst hj2
        refine ⟨c, ?_, qcs.trans ihp, qcv, qcp, qcvp⟩
        have := List.getElem?_concat_length U c
        rw [hlen] at this
        exact this

/-! ### Rendering: the call record only grows -/

/-- Continuing a record is reflexive. -/
theorem Gfx.Extends.keep (g : Gfx α) : g.Extends g :=
  ⟨⟨[], (List.append_nil _).symm⟩, fun h => h⟩

/-- Continuing a record is transitive. -/
theorem Gfx.Extends.andThen {g1 g2 g3 : Gfx α} (h12 : g1.Extends g2) (h23 : g2.Extends g3) :
    g1.Extends g3 := by
  obtain ⟨⟨a, ha⟩, fa⟩ := h12
  obtain ⟨⟨b, hb⟩, fb⟩ := h23
  exact ⟨⟨a ++ b, by rw [hb, ha, List.append_assoc]⟩, fun h => fb (fa h)⟩

/-- Issuing calls continues the record. -/
theorem Gfx.emit_extends (g : Gfx α) (cs : List (Cmd α)) : g.Extends (g.emit cs) :=
  ⟨⟨cs, rfl⟩, fun h => h⟩

/-- Recording a fault leaves the calls alone. -/
theorem Gfx.raise_extends (g : Gfx α) : g.Extends g.raise :=
  ⟨⟨[], (List.append_nil _).symm⟩, fun _ => rfl⟩

/-- The method `Model::Render` continues the record. -/
theorem Model.Render_extends (L : MathLib α) (m : Model α) (g : Gfx α) :
    g.Extends (m.Render L g).2 := ⟨⟨_, rfl⟩, fun h => h⟩

/-- The model loop continues the record. -/
theorem renderModels_extends (L : MathLib α) (ms : List (Model α)) (g : Gfx α) :
    g.Extends (renderModels L ms g).2 := by
  induction ms generalizing g with
  | nil => exact Gfx.Extends.keep g
  | cons m rest ih => exact (Model.Render_extends L m g).andThen (ih _)

/-- The portal loop of the shadow pass continues the record. -/
theorem renderPortals_extends (L : MathLib α) (ps : List (CPortal α)) (g : Gfx α) :
    g.Extends (renderPortals L ps g).2 := by
  induction ps generalizing g with
  | nil => exact Gfx.Extends.keep g
  | cons p rest ih => exact (Model.Render_extends L p.mpBody g).andThen (ih _)

/-- The bucket loop of the shadow pass continues the record. -/
theorem renderBuckets_extends (L : MathLib α)
    (collection : Fin gsNumOfModelPS → List (Model α)) (g : Gfx α) :
    g.Extends (renderBuckets L collection g).2 := by
  unfold renderBuckets
  refine forLoop_induction
    (fun st : (Fin gsNumOfModelPS → List (Model α)) × Gfx α => g.Extends st.2) _ _ _
    (Gfx.Extends.keep g) ?_
  · intro i st hst
    by_cases h : i < gsNumOfModelPS
    · simp only [dif_pos h]
      exact hst.andThen (renderModels_extends L _ _)
    · simp only [dif_neg h]
      exact hst

/-- The function `RenderDepthBufferFromLight` continues the record. -/
theorem CSceneManager.RenderDepthBufferFromLight_extends [One α] (L : MathLib α)
    (s : CSceneManager α) (g : Gfx α) (light : CSpotlight α) :
    g.Extends (s.RenderDepthBufferFromLight L g light).2.2 := by
  unfold CSceneManager.RenderDepthBufferFromLight
  refine Gfx.Extends.andThen ?_ (renderModels_extends L _ _)
  refine Gfx.Extends.andThen ?_ (Gfx.emit_extends _ _)
  refine Gfx.Extends.andThen ?_ (renderBuckets_extends L _ _)
  refine Gfx.Extends.andThen ?_ (Gfx.emit_extends _ _)
  refine Gfx.Extends.andThen ?_ (renderPortals_extends L _ _)
  refine Gfx.Extends.andThen ?_ (renderBuckets_extends L _ _)
  exact ⟨⟨_, rfl⟩, fun h => h⟩

/-- One round of the shadow loop continues the record. -/
theorem CSceneManager.shadowPass_extends [Field α] (L : MathLib α) (i : Nat)
    (st : CSceneManager α × Gfx α) :
    st.2.Extends (CSceneManager.shadowPass L i st).2 := by
  unfold CSceneManager.shadowPass
  by_cases h : i < gsNumSpotlights
  · rw [dif_pos h]
    cases hs : st.1.mSpotlights ⟨i, h⟩ with
    | none =>
      simp only [hs]
      exact (Gfx.emit_extends _ _).andThen (Gfx.raise_extends _)
    | some sp =>
      simp only [hs]
      exact (Gfx.emit_extends _ _).andThen
        (CSceneManager.RenderDepthBufferFromLight_extends L st.1 _ sp)
  · rw [dif_neg h]
    exact Gfx.raise_extends _

/-- The shadow loop of `RenderScene` continues the record. -/
theorem CSceneManager.shadowPasses_extends [LinearOrderedField α] [FloorRing α]
    (L : MathLib α) (s : CSceneManager α) (g : Gfx α) :
    g.Extends (s.shadowPasses L g).2 := by
  unfold CSceneManager.shadowPasses
  refine forLoop_induction
    (fun st : CSceneManager α × Gfx α => g.Extends st.2) _ _ _ (Gfx.Extends.keep g) ?_
  intro i st hst
  exact hst.andThen (CSceneManager.shadowPass_extends L i st)

/-- Binding a model texture continues the record. -/
theorem bindModelTexture_extends (slot : Nat) (m : Model α) (index : Nat) (g : Gfx α) :
    g.Extends (bindModelTexture slot m index g) := by
  unfold bindModelTexture
  split
  · exact (Gfx.raise_extends g).andThen (Gfx.emit_extends _ _)
  · exact Gfx.emit_extends _ _

/-- The inner loop of a sweep continues the record. -/
theorem drawTexturedModels_extends (L : MathLib α) (secondTexture : Bool)
    (ms : List (Model α)) (g : Gfx α) :
    g.Extends (drawTexturedModels L secondTexture ms g).2 := by
  induction ms generalizing g with
  | nil => exact Gfx.Extends.keep g
  | cons m rest ih =>
    have h1 := bindModelTexture_extends 0 m 0 g
    have h2 : (bindModelTexture 0 m 0 g).Extends
        (if secondTexture then
          bindModelTexture (gsNumSpotlights + 1) m 1 (bindModelTexture 0 m 0 g)
         else bindModelTexture 0 m 0 g) := by
      split
      · exact bindModelTexture_extends _ _ _ _
      · exact Gfx.Extends.keep _
    exact ((h1.andThen h2).andThen (Model.Render_extends L m _)).andThen (ih _)

/-- A sweep over the buckets continues the record. -/
theorem sweepBuckets_extends (L : MathLib α) (shaderSwitch : Nat → List (Cmd α) × Bool)
    (collection : Fin gsNumOfModelPS → List (Model α)) (g : Gfx α) :
    g.Extends (sweepBuckets L shaderSwitch collection g).2 := by
  unfold sweepBuckets
  refine forLoop_induction
    (fun st : (Fin gsNumOfModelPS → List (Model α)) × Gfx α => g.Extends st.2) _ _ _
    (Gfx.Extends.keep g) ?_
  intro i st hst
  by_cases h : i < gsNumOfModelPS
  · simp only [dif_pos h]
    exact (hst.andThen (Gfx.emit_extends _ _)).andThen (drawTexturedModels_extends L _ _ _)
  · simp only [dif_neg h]
    exact hst

/-- The portal loop of the lit-scene render continues the record. -/
theorem drawPortals_extends (L : MathLib α) (ps : List (CPortal α)) (g : Gfx α) :
    g.Extends (drawPortals L ps g).2 := by
  induction ps generalizing g with
  | nil => exact Gfx.Extends.keep g
  | cons p rest ih =>
    exact ((Gfx.emit_extends g _).andThen (Model.Render_extends L p.mpBody _)).andThen (ih _)

/-- A light marker loop continues the record. -/
theorem drawLightMarkers_extends [LinearOrderedField α] [FloorRing α] {β : Type}
    (L : MathLib α) (n : Nat) (base : β → CLight α) (rebase : β → CLight α → β) (top : α)
    (lights : Fin n → Option β) (g : Gfx α) :
    g.Extends (drawLightMarkers L n base rebase top lights g).2 := by
  unfold drawLightMarkers
  refine forLoop_induction
    (fun st : (Fin n → Option β) × Gfx α => g.Extends st.2) _ _ _ (Gfx.Extends.keep g) ?_
  intro i st hst
  by_cases h : i < n
  · simp only [dif_pos h]
    split
    · exact hst.andThen ⟨⟨_, rfl⟩, fun h => h⟩
    · exact hst.andThen (Gfx.raise_extends _)
  · simp only [dif_neg h]
    exact hst.andThen (Gfx.raise_extends _)

/-- The transparent loop continues the record. -/
theorem drawTransparentModels_extends (L : MathLib α) (ms : List (Model α)) (g : Gfx α) :
    g.Extends (drawTransparentModels L ms g).2 := by
  induction ms generalizing g with
  | nil => exact Gfx.Extends.keep g
  | cons m rest ih =>
    exact ((bindModelTexture_extends 0 m 0 g).andThen (Model.Render_extends L m _)).andThen (ih _)

/-- The function `RenderSceneFromCamera` continues the record. -/
theorem CSceneManager.RenderSceneFromCamera_extends [LinearOrderedField α] [FloorRing α]
    (K : CameraLib α) (L : MathLib α) (s : CSceneManager α) (g : Gfx α) (camera : Camera α) :
    g.Extends (s.RenderSceneFromCamera K L g camera).2 := by
  unfold CSceneManager.RenderSceneFromCamera
  refine Gfx.Extends.andThen ?_ (drawTransparentModels_extends L _ _)
  refine Gfx.Extends.andThen ?_ (Gfx.emit_extends _ _)
  refine Gfx.Extends.andThen ?_ (drawLightMarkers_extends L _ _ _ _ _ _)
  refine Gfx.Extends.andThen ?_ (drawLightMarkers_extends L _ _ _ _ _ _)
  refine Gfx.Extends.andThen ?_ (drawLightMarkers_extends L _ _ _ _ _ _)
  refine Gfx.Extends.andThen ?_ (Gfx.emit_extends _ _)
  refine Gfx.Extends.andThen ?_ (drawPortals_extends L _ _)
  refine Gfx.Extends.andThen ?_ (Gfx.emit_extends _ _)
  refine Gfx.Extends.andThen ?_ (sweepBuckets_extends L _ _ _)
  refine Gfx.Extends.andThen ?_ (Gfx.emit_extends _ _)
  refine Gfx.Extends.andThen ?_ (sweepBuckets_extends L _ _ _)
  exact ⟨⟨_, rfl⟩, fun h => h⟩

/-- The portal loop of `RenderScene` continues the record. -/
theorem CSceneManager.portalPasses_extends [LinearOrderedField α] [FloorRing α]
    (K : CameraLib α) (L : MathLib α) (s : CSceneManager α) (g : Gfx α) :
    g.Extends (s.portalPasses K L g).2 := by
  unfold CSceneManager.portalPasses
  refine forLoop_induction
    (fun st : CSceneManager α × Gfx α => g.Extends st.2) _ _ _ (Gfx.Extends.keep g) ?_
  intro k st hst
  simp only []
  split
  · exact (hst.andThen (Gfx.emit_extends _ _)).andThen
      (CSceneManager.RenderSceneFromCamera_extends K L _ _ _)
  · exact hst.andThen (Gfx.raise_extends _)

/-- What `RenderScene` issues after the shadow loop only continues the record. -/
theorem CSceneManager.RenderScene_extends_shadow [LinearOrderedField α] [FloorRing α]
    (K : CameraLib α) (L : MathLib α) (s : CSceneManager α) (g : Gfx α) :
    (((s.aggregateLights L g).1.shadowPasses L
        ((s.aggregateLights L g).2.emit
          [Cmd.RSSetViewports (s.aggregateLights L g).1.mShadowMapSize
            (s.aggregateLights L g).1.mShadowMapSize])).2).Extends
      (s.RenderScene K L g).2 := by
  unfold CSceneManager.RenderScene
  refine Gfx.Extends.andThen ?_ (Gfx.emit_extends _ _)
  split
  · refine Gfx.Extends.andThen ?_ (CSceneManager.RenderSceneFromCamera_extends K L _ _ _)
    refine Gfx.Extends.andThen ?_ (Gfx.emit_extends _ _)
    exact (Gfx.emit_extends _ _).andThen (CSceneManager.portalPasses_extends K L _ _)
  · refine Gfx.Extends.andThen ?_ (Gfx.raise_extends _)
    refine Gfx.Extends.andThen ?_ (Gfx.emit_extends _ _)
    exact (Gfx.emit_extends _ _).andThen (CSceneManager.portalPasses_extends K L _ _)

/-- A spotlight request below capacity, with the count at the natural number
`k`: slot `k` holds the new spotlight. -/
theorem CSceneManager.NewLight_spotlight_slot [LinearOrderedField α] [FloorRing α]
    (L : MathLib α) (stale : CMatrix4x4 α) (s : CSceneManager α) (mesh : MeshRef)
    (colour position : CVector3 α) (strength : α) (facingToward : CVector3 α) (fov : α)
    (k : Nat) (hk : k < gsNumSpotlights) (hy : s.mLightStackTop.y = (k : α)) :
    (s.NewLight L stale ELightType.spotlight mesh colour position strength facingToward
      fov).mSpotlights ⟨k, hk⟩
      = some (CSpotlight.new L stale mesh colour position strength facingToward fov) := by
  rw [CSceneManager.NewLight_spotlight_below L stale s mesh colour position strength
    facingToward fov k hk hy]
  exact Function.update_same _ _ _

/-- The example scene has spotlight count `1` and its slot 0 holds the example
spotlight. -/
theorem exampleScene_spotlights :
    exampleScene.mLightStackTop.y = ((1 : Nat) : ℝ)
    ∧ ∀ j : Fin gsNumSpotlights, j.val < 1 → exampleScene.mSpotlights j = some exampleSpotlight := by
  have h := CSceneManager.NewLight_spotlight_below exampleLib CMatrix4x4.identity
    ({ (CSceneManager.init : CSceneManager ℝ) with mCamera := some ⟨⟨15, 30, -70⟩, ⟨0, 0, 0⟩⟩ })
    8 ⟨8 / 10, 8 / 10, 1⟩ ⟨30, 20, 0⟩ 10 ⟨15, 0, 0⟩ 90 0 (by decide)
    (by simp [CSceneManager.init])
  constructor
  · unfold exampleScene
    rw [h]
    norm_num
  · intro j hj
    have e : j = ⟨0, by decide⟩ := Fin.ext (Nat.lt_one_iff.mp hj)
    subst e
    exact CSceneManager.NewLight_spotlight_slot exampleLib CMatrix4x4.identity
      ({ (CSceneManager.init : CSceneManager ℝ) with
          mCamera := some ⟨⟨15, 30, -70⟩, ⟨0, 0, 0⟩⟩ })
      8 ⟨8 / 10, 8 / 10, 1⟩ ⟨30, 20, 0⟩ 10 ⟨15, 0, 0⟩ 90 0 (by decide)
      (by simp [CSceneManager.init])

/-! ### Model factory -/

/-- C15. `NewModel` bucket placement.  With `fresh` the model built from the
mesh of `meshIndex`, the textures named by `textureIndexes` in the same order,
and the given position, rotation and scale: if `shaderType` is `ps_Transparent`
the scene after the call is the scene before it with `fresh` appended to the
transparent bucket; if `shaderType` is below `gsNumOfModelPS` (one of the six
model shader assignments) and the mesh is the teapot, it is the scene before
with `fresh` (carrying the wiggle strength) appended to the teapot bucket of
`shaderType`; if `shaderType` is below `gsNumOfModelPS` and the mesh is another
mesh below `Mesh_Portal`, it is the scene before with that model appended to the
ordinary bucket of `shaderType`.  In each case nothing else of the scene
changes. -/
theorem C15_newModel_bucket_placement [Zero α] (stale : CMatrix4x4 α) (s : CSceneManager α)
    (meshIndex : Nat) (textureIndexes : List Nat) (position : CVector3 α) (scale : α)
    (rotation : CVector3 α) (wiggleStrength : α) (shaderType : Nat) :
    (shaderType = ps_Transparent →
      s.NewModel stale meshIndex textureIndexes position scale rotation wiggleStrength shaderType
        = { s with
            mTransparentModels := s.mTransparentModels ++
              [Model.newTextured stale (s.mMeshArray meshIndex) textureIndexes position rotation
                scale] })
    ∧ (∀ h : shaderType < gsNumOfModelPS, meshIndex = Mesh_Teapot →
      s.NewModel stale meshIndex textureIndexes position scale rotation wiggleStrength shaderType
        = { s with
            mTeapotCollection := Function.update s.mTeapotCollection ⟨shaderType, h⟩
              (s.mTeapotCollection ⟨shaderType, h⟩ ++
                [(Model.newTextured stale (s.mMeshArray meshIndex) textureIndexes position
                  rotation scale).SetWiggleStrength wiggleStrength]) })
    ∧ (∀ h : shaderType < gsNumOfModelPS, meshIndex ≠ Mesh_Teapot → meshIndex < Mesh_Portal →
      s.NewModel stale meshIndex textureIndexes position scale rotation wiggleStrength shaderType
        = { s with
            mModelCollection := Function.update s.mModelCollection ⟨shaderType, h⟩
              (s.mModelCollection ⟨shaderType, h⟩ ++
                [(Model.newTextured stale (s.mMeshArray meshIndex) textureIndexes position
                  rotation scale).SetWiggleStrength wiggleStrength]) })
    ∧ (Model.newTextured stale (s.mMeshArray meshIndex) textureIndexes position rotation
        scale).Position = position
    ∧ (Model.newTextured stale (s.mMeshArray meshIndex) textureIndexes position rotation
        scale).Rotation = rotation
    ∧ (Model.newTextured stale (s.mMeshArray meshIndex) textureIndexes position rotation
        scale).Scale = ⟨scale, scale, scale⟩
    ∧ (Model.newTextured stale (s.mMeshArray meshIndex) textureIndexes position rotation
        scale).mTexture = textureIndexes
    ∧ ((Model.newTextured stale (s.mMeshArray meshIndex) textureIndexes position rotation
        scale).SetWiggleStrength wiggleStrength).Position = position
    ∧ ((Model.newTextured stale (s.mMeshArray meshIndex) textureIndexes position rotation
        scale).SetWiggleStrength wiggleStrength).Rotation = rotation
    ∧ ((Model.newTextured stale (s.mMeshArray meshIndex) textureIndexes position rotation
        scale).SetWiggleStrength wiggleStrength).Scale = ⟨scale, scale, scale⟩
    ∧ ((Model.newTextured stale (s.mMeshArray meshIndex) textureIndexes position rotation
        scale).SetWiggleStrength wiggleStrength).mTexture = textureIndexes := by
  refine ⟨?_, ?_, ?_, rfl, rfl, rfl, rfl, rfl, rfl, rfl, rfl⟩
  · intro ht
    have hnot : ¬ shaderType < gsNumOfModelPS := by
      rw [ht]
      decide
    simp only [CSceneManager.NewModel, dif_neg hnot, if_pos ht]
  · intro h hm
    have hnt : shaderType ≠ ps_Transparent := by
      intro e
      rw [e] at h
      exact absurd h (by decide)
    simp only [CSceneManager.NewModel, dif_pos h, if_pos hm, if_neg hnt]
  · intro h hm hp
    have hnt : shaderType ≠ ps_Transparent := by
      intro e
      rw [e] at h
      exact absurd h (by decide)
    simp only [CSceneManager.NewModel, dif_pos h, if_neg hm, if_pos hp, if_neg hnt]

/-- C15, at a concrete input: the first and the last `NewModel` call of the
built-in scene, on the initial scene over the reals.  The teapot goes to the
teapot bucket of `ps_PixelLighting` and leaves the ordinary and transparent
buckets empty; the glass cube goes to the transparent bucket. -/
theorem C15_newModel_bucket_placement_witness :
    ((((CSceneManager.init : CSceneManager ℝ).NewModel CMatrix4x4.identity Mesh_Teapot [1]
        ⟨15, 0, 0⟩ 1 ⟨0, 2, 0⟩ 0 ps_PixelLighting).mTeapotCollection ⟨3, by decide⟩).map
        (fun m => (m.mMesh, m.mTexture, m.Position)) = [(9, [1], ⟨15, 0, 0⟩)])
    ∧ ((CSceneManager.init : CSceneManager ℝ).NewModel CMatrix4x4.identity Mesh_Teapot [1]
        ⟨15, 0, 0⟩ 1 ⟨0, 2, 0⟩ 0 ps_PixelLighting).mModelCollection ⟨3, by decide⟩ = []
    ∧ ((CSceneManager.init : CSceneManager ℝ).NewModel CMatrix4x4.identity Mesh_Teapot [1]
        ⟨15, 0, 0⟩ 1 ⟨0, 2, 0⟩ 0 ps_PixelLighting).mTransparentModels = []
    ∧ (((CSceneManager.init : CSceneManager ℝ).NewModel CMatrix4x4.identity Mesh_Cube [22]
        ⟨5, 10, 30⟩ 1 ⟨0, 3, 0⟩ 0 ps_Transparent).mTransparentModels.map
        (fun m => (m.mMesh, m.mTexture, m.Position)) = [(1, [22], ⟨5, 10, 30⟩)]) := by
  have h := C15_newModel_bucket_placement CMatrix4x4.identity (CSceneManager.init : CSceneManager ℝ)
    Mesh_Teapot [1] ⟨15, 0, 0⟩ 1 ⟨0, 2, 0⟩ 0 ps_PixelLighting
  have g := C15_newModel_bucket_placement CMatrix4x4.identity (CSceneManager.init : CSceneManager ℝ)
    Mesh_Cube [22] ⟨5, 10, 30⟩ 1 ⟨0, 3, 0⟩ 0 ps_Transparent
  rw [h.2.1 (by decide) rfl, g.1 rfl]
  refine ⟨?_, rfl, rfl, rfl⟩
  simp [CSceneManager.init, Model.newTextured, Model.SetWiggleStrength, Model.Position,
    Mesh_Teapot, ps_PixelLighting]

/-! ### Portal texture creation -/

/-- `CreateTexture` when the texture cannot be created. -/
theorem CPortal.CreateTexture_noTexture (p : CPortal α) (desc : TextureDesc) (h : Host)
    (h1 : h.ahead 0 (HostCall.CreateTexture2D desc) = none) :
    p.CreateTexture desc h =
      (false, { p with mTexture := none },
        { h with
          calls := h.calls ++ [HostCall.CreateTexture2D desc]
          gLastError := "Error creating portal texture" }) := by
  have e : h.outcome h.calls.length (HostCall.CreateTexture2D desc) = none := h1
  simp [CPortal.CreateTexture, Host.request, Host.setError, e]

/-- `CreateTexture` when the texture is created and the render target view is not. -/
theorem CPortal.CreateTexture_noRenderTarget (p : CPortal α) (desc : TextureDesc) (h : Host)
    (t : Nat) (h1 : h.ahead 0 (HostCall.CreateTexture2D desc) = some t)
    (h2 : h.ahead 1 (HostCall.CreateRenderTargetView (some t)) = none) :
    p.CreateTexture desc h =
      (false, { p with mTexture := some t, mRenderTarget := none },
        { h with
          calls := h.calls ++ [HostCall.CreateTexture2D desc]
            ++ [HostCall.CreateRenderTargetView (some t)]
          gLastError := "Error creating portal render target view" }) := by
  have e1 : h.outcome h.calls.length (HostCall.CreateTexture2D desc) = some t := h1
  have e2 : h.outcome (h.calls.length + 1) (HostCall.CreateRenderTargetView (some t)) = none := h2
  simp [CPortal.CreateTexture, Host.request, Host.setError, e1, e2]

/-- `CreateTexture` when the texture and the render target view are created and
the shader view is not. -/
theorem CPortal.CreateTexture_noShaderView (p : CPortal α) (desc : TextureDesc) (h : Host)
    (t rt : Nat) (h1 : h.ahead 0 (HostCall.CreateTexture2D desc) = some t)
    (h2 : h.ahead 1 (HostCall.CreateRenderTargetView (some t)) = some rt)
    (h3 : h.ahead 2 (HostCall.CreateShaderResourceView (some t)) = none) :
    p.CreateTexture desc h =
      (false, { p with mTexture := some t, mRenderTarget := some rt, mTextureSRV := none },
        { h with
          calls := h.calls ++ [HostCall.CreateTexture2D desc]
            ++ [HostCall.CreateRenderTargetView (some t)]
            ++ [HostCall.CreateShaderResourceView (some t)]
          gLastError := "Error creating portal shader resource view" }) := by
  have e1 : h.outcome h.calls.length (HostCall.CreateTexture2D desc) = some t := h1
  have e2 : h.outcome (h.calls.length + 1) (HostCall.CreateRenderTargetView (some t))
      = some rt := h2
  have e3 : h.outcome (h.calls.length + 1 + 1) (HostCall.CreateShaderResourceView (some t))
      = none := h3
  simp [CPortal.CreateTexture, Host.request, Host.setError, e1, e2, e3]

/-- `CreateTexture` when all three allocations succeed. -/
theorem CPortal.CreateTexture_allCreated (p : CPortal α) (desc : TextureDesc) (h : Host)
    (t rt sv : Nat) (h1 : h.ahead 0 (HostCall.CreateTexture2D desc) = some t)
    (h2 : h.ahead 1 (HostCall.CreateRenderTargetView (some t)) = some rt)
    (h3 : h.ahead 2 (HostCall.CreateShaderResourceView (some t)) = some sv) :
    p.CreateTexture desc h =
      (true, { p with mTexture := some t, mRenderTarget := some rt, mTextureSRV := some sv },
        { h with
          calls := h.calls ++ [HostCall.CreateTexture2D desc]
            ++ [HostCall.CreateRenderTargetView (some t)]
            ++ [HostCall.CreateShaderResourceView (some t)] }) := by
  have e1 : h.outcome h.calls.length (HostCall.CreateTexture2D desc) = some t := h1
  have e2 : h.outcome (h.calls.length + 1) (HostCall.CreateRenderTargetView (some t))
      = some rt := h2
  have e3 : h.outcome (h.calls.length + 1 + 1) (HostCall.CreateShaderResourceView (some t))
      = some sv := h3
  simp [CPortal.CreateTexture, Host.request, Host.setError, e1, e2, e3]

/-- C16. `CPortal::CreateTexture` returns `true` exactly when the three device
allocations (colour texture, render target view of it, shader view of it)
succeed one after the other; then all three handles are non-null.  When it
returns `false` the stored message is the one of the first failing allocation
and the requests made end with that allocation: after a failed texture creation
no view is requested, after a failed render target view no shader view. -/
theorem C16_createTexture_reports_all_three (p : CPortal α) (desc : TextureDesc) (h : Host) :
    ((p.CreateTexture desc h).1 = true ↔
      ∃ t rt sv : Nat, h.ahead 0 (HostCall.CreateTexture2D desc) = some t
        ∧ h.ahead 1 (HostCall.CreateRenderTargetView (some t)) = some rt
        ∧ h.ahead 2 (HostCall.CreateShaderResourceView (some t)) = some sv)
    ∧ ((p.CreateTexture desc h).1 = true →
        (p.CreateTexture desc h).2.1.mTexture ≠ none
        ∧ (p.CreateTexture desc h).2.1.mRenderTarget ≠ none
        ∧ (p.CreateTexture desc h).2.1.mTextureSRV ≠ none)
    ∧ (h.ahead 0 (HostCall.CreateTexture2D desc) = none →
        (p.CreateTexture desc h).1 = false
        ∧ (p.CreateTexture desc h).2.2.gLastError = "Error creating portal texture"
        ∧ (p.CreateTexture desc h).2.2.calls = h.calls ++ [HostCall.CreateTexture2D desc])
    ∧ (∀ t : Nat, h.ahead 0 (HostCall.CreateTexture2D desc) = some t →
        h.ahead 1 (HostCall.CreateRenderTargetView (some t)) = none →
        (p.CreateTexture desc h).1 = false
        ∧ (p.CreateTexture desc h).2.2.gLastError = "Error creating portal render target view"
        ∧ (p.CreateTexture desc h).2.2.calls
            = h.calls ++ [HostCall.CreateTexture2D desc]
              ++ [HostCall.CreateRenderTargetView (some t)])
    ∧ (∀ t rt : Nat, h.ahead 0 (HostCall.CreateTexture2D desc) = some t →
        h.ahead 1 (HostCall.CreateRenderTargetView (some t)) = some rt →
        h.ahead 2 (HostCall.CreateShaderResourceView (some t)) = none →
        (p.CreateTexture desc h).1 = false
        ∧ (p.CreateTexture desc h).2.2.gLastError
            = "Error creating portal shader resource view"
        ∧ (p.CreateTexture desc h).2.2.calls
            = h.calls ++ [HostCall.CreateTexture2D desc]
              ++ [HostCall.CreateRenderTargetView (some t)]
              ++ [HostCall.CreateShaderResourceView (some t)]) := by
  refine ⟨?_, ?_, ?_, ?_, ?_⟩
  · constructor
    · intro hr
      cases h1 : h.ahead 0 (HostCall.CreateTexture2D desc) with
      | none =>
        rw [CPortal.CreateTexture_noTexture p desc h h1] at hr
        exact absurd hr Bool.false_ne_true
      | some t =>
        cases h2 : h.ahead 1 (HostCall.CreateRenderTargetView (some t)) with
        | none =>
          rw [CPortal.CreateTexture_noRenderTarget p desc h t h1 h2] at hr
          exact absurd hr Bool.false_ne_true
        | some rt =>
          cases h3 : h.ahead 2 (HostCall.CreateShaderResourceView (some t)) with
          | none =>
            rw [CPortal.CreateTexture_noShaderView p desc h t rt h1 h2 h3] at hr
            exact absurd hr Bool.false_ne_true
          | some sv => exact ⟨t, rt, sv, rfl, h2, h3⟩
    · rintro ⟨t, rt, sv, h1, h2, h3⟩
      rw [CPortal.CreateTexture_allCreated p desc h t rt sv h1 h2 h3]
  · intro hr
    cases h1 : h.ahead 0 (HostCall.CreateTexture2D desc) with
    | none =>
      rw [CPortal.CreateTexture_noTexture p desc h h1] at hr
      exact absurd hr Bool.false_ne_true
    | some t =>
      cases h2 : h.ahead 1 (HostCall.CreateRenderTargetView (some t)) with
      | none =>
        rw [CPortal.CreateTexture_noRenderTarget p desc h t h1 h2] at hr
        exact absurd hr Bool.false_ne_true
      | some rt =>
        cases h3 : h.ahead 2 (HostCall.CreateShaderResourceView (some t)) with
        | none =>
          rw [CPortal.CreateTexture_noShaderView p desc h t rt h1 h2 h3] at hr
          exact absurd hr Bool.false_ne_true
        | some sv =>
          rw [CPortal.CreateTexture_allCreated p desc h t rt sv h1 h2 h3]
          exact ⟨by simp, by simp, by simp⟩
  · intro h1
    rw [CPortal.CreateTexture_noTexture p desc h h1]
    exact ⟨rfl, rfl, rfl⟩
  · intro t h1 h2
    rw [CPortal.CreateTexture_noRenderTarget p desc h t h1 h2]
    exact ⟨rfl, rfl, rfl⟩
  · intro t rt h1 h2 h3
    rw [CPortal.CreateTexture_noShaderView p desc h t rt h1 h2 h3]
    exact ⟨rfl, rfl, rfl⟩

/-- C16, at a concrete input: the example portal on a host whose device cannot
create a render target view, and on a host where everything succeeds. -/
theorem C16_createTexture_reports_all_three_witness :
    ((examplePortal.CreateTexture ⟨1024, 1024⟩ exampleHostNoRenderTarget).1 = false
      ∧ (examplePortal.CreateTexture ⟨1024, 1024⟩ exampleHostNoRenderTarget).2.2.gLastError
          = "Error creating portal render target view"
      ∧ (examplePortal.CreateTexture ⟨1024, 1024⟩ exampleHostNoRenderTarget).2.2.calls
          = [HostCall.CreateTexture2D ⟨1024, 1024⟩, HostCall.CreateRenderTargetView (some 0)])
    ∧ (examplePortal.CreateTexture ⟨1024, 1024⟩ exampleHost).1 = true :=
  ⟨(C16_createTexture_reports_all_three examplePortal ⟨1024, 1024⟩
      exampleHostNoRenderTarget).2.2.2.1 0 rfl rfl,
   (C16_createTexture_reports_all_three examplePortal ⟨1024, 1024⟩ exampleHost).1.mpr
      ⟨0, 1, 2, rfl, rfl, rfl⟩⟩

/-- C17, as stated, fails: on the freshly constructed example portal, with a
device that creates the texture and then cannot create the render target view,
`CreateTexture` fails and leaves the texture handle set: neither are all three
handles set nor are all three null. -/
theorem C17_createTexture_not_atomic :
    ¬ (((examplePortal.CreateTexture ⟨1024, 1024⟩ exampleHostNoRenderTarget).2.1.mTexture ≠ none
          ∧ (examplePortal.CreateTexture ⟨1024, 1024⟩
              exampleHostNoRenderTarget).2.1.mRenderTarget ≠ none
          ∧ (examplePortal.CreateTexture ⟨1024, 1024⟩
              exampleHostNoRenderTarget).2.1.mTextureSRV ≠ none)
        ∨ ((examplePortal.CreateTexture ⟨1024, 1024⟩ exampleHostNoRenderTarget).1 = false
          ∧ (examplePortal.CreateTexture ⟨1024, 1024⟩
              exampleHostNoRenderTarget).2.1.mTexture = none
          ∧ (examplePortal.CreateTexture ⟨1024, 1024⟩
              exampleHostNoRenderTarget).2.1.mRenderTarget = none
          ∧ (examplePortal.CreateTexture ⟨1024, 1024⟩
              exampleHostNoRenderTarget).2.1.mTextureSRV = none)) := by
  rw [CPortal.CreateTexture_noRenderTarget examplePortal ⟨1024, 1024⟩ exampleHostNoRenderTarget
    0 rfl rfl]
  simp

/-- C17, amended. On a freshly constructed portal (all three handles null) the
outcome of `CreateTexture` is fixed by which allocation fails first, and every
handle written before the failure stays set.  Texture creation fails: `false`,
all three handles null.  The texture is created and the render target view is
not: `false`, the texture handle set, the two views null.  Texture and render
target view are created and the shader view is not: `false`, texture and
render target view set, the shader view null.  All three are created: `true`,
all three handles set.  In every case the requests made are the creations up
to the first failing one and nothing else: no handle is released or reset. -/
theorem C17_createTexture_keeps_what_succeeded (body : Model α) (camera : Camera α)
    (desc : TextureDesc) (h : Host) :
    (h.ahead 0 (HostCall.CreateTexture2D desc) = none →
      CPortal.CreateTexture ⟨body, camera, none, none, none⟩ desc h
        = (false,
           { mpBody := body, mCamera := camera, mTexture := none, mRenderTarget := none,
             mTextureSRV := none },
           { h with
             calls := h.calls ++ [HostCall.CreateTexture2D desc]
             gLastError := "Error creating portal texture" }))
    ∧ (∀ t : Nat, h.ahead 0 (HostCall.CreateTexture2D desc) = some t →
        h.ahead 1 (HostCall.CreateRenderTargetView (some t)) = none →
        CPortal.CreateTexture ⟨body, camera, none, none, none⟩ desc h
          = (false,
             { mpBody := body, mCamera := camera, mTexture := some t, mRenderTarget := none,
               mTextureSRV := none },
             { h with
               calls := h.calls ++ [HostCall.CreateTexture2D desc]
                 ++ [HostCall.CreateRenderTargetView (some t)]
               gLastError := "Error creating portal render target view" }))
    ∧ (∀ t rt : Nat, h.ahead 0 (HostCall.CreateTexture2D desc) = some t →
        h.ahead 1 (HostCall.CreateRenderTargetView (some t)) = some rt →
        h.ahead 2 (HostCall.CreateShaderResourceView (some t)) = none →
        CPortal.CreateTexture ⟨body, camera, none, none, none⟩ desc h
          = (false,
             { mpBody := body, mCamera := camera, mTexture := some t,
               mRenderTarget := some rt, mTextureSRV := none },
             { h with
               calls := h.calls ++ [HostCall.CreateTexture2D desc]
                 ++ [HostCall.CreateRenderTargetView (some t)]
                 ++ [HostCall.CreateShaderResourceView (some t)]
               gLastError := "Error creating portal shader resource view" }))
    ∧ (∀ t rt sv : Nat, h.ahead 0 (HostCall.CreateTexture2D desc) = some t →
        h.ahead 1 (HostCall.CreateRenderTargetView (some t)) = some rt →
        h.ahead 2 (HostCall.CreateShaderResourceView (some t)) = some sv →
        CPortal.CreateTexture ⟨body, camera, none, none, none⟩ desc h
          = (true,
             { mpBody := body, mCamera := camera, mTexture := some t,
               mRenderTarget := some rt, mTextureSRV := some sv },
             { h with
               calls := h.calls ++ [HostCall.CreateTexture2D desc]
                 ++ [HostCall.CreateRenderTargetView (some t)]
                 ++ [HostCall.CreateShaderResourceView (some t)] })) := by
  refine ⟨fun h1 => ?_, fun t h1 h2 => ?_, fun t rt h1 h2 h3 => ?_, fun t rt sv h1 h2 h3 => ?_⟩
  · rw [CPortal.CreateTexture_noTexture _ desc h h1]
  · rw [CPortal.CreateTexture_noRenderTarget _ desc h t h1 h2]
  · rw [CPortal.CreateTexture_noShaderView _ desc h t rt h1 h2 h3]
  · rw [CPortal.CreateTexture_allCreated _ desc h t rt sv h1 h2 h3]

/-- C17, amended, at concrete inputs: a freshly constructed portal on a device
that creates the texture (object 0) and cannot create the render target view
keeps the texture handle; on a device where every request succeeds all three
handles are set. -/
theorem C17_createTexture_keeps_what_succeeded_witness :
    (CPortal.CreateTexture
        (⟨examplePortal.mpBody, examplePortal.mCamera, none, none, none⟩ : CPortal ℝ)
        ⟨1024, 1024⟩ exampleHostNoRenderTarget).2.1.mTexture = some 0
      ∧ (CPortal.CreateTexture
          (⟨examplePortal.mpBody, examplePortal.mCamera, none, none, none⟩ : CPortal ℝ)
          ⟨1024, 1024⟩ exampleHostNoRenderTarget).1 = false
      ∧ (CPortal.CreateTexture
          (⟨examplePortal.mpBody, examplePortal.mCamera, none, none, none⟩ : CPortal ℝ)
          ⟨1024, 1024⟩ exampleHost).1 = true :=
  ⟨congrArg (fun r : Bool × CPortal ℝ × Host => r.2.1.mTexture)
      ((C17_createTexture_keeps_what_succeeded examplePortal.mpBody examplePortal.mCamera
        ⟨1024, 1024⟩ exampleHostNoRenderTarget).2.1 0 rfl rfl),
   congrArg (fun r : Bool × CPortal ℝ × Host => r.1)
      ((C17_createTexture_keeps_what_succeeded examplePortal.mpBody examplePortal.mCamera
        ⟨1024, 1024⟩ exampleHostNoRenderTarget).2.1 0 rfl rfl),
   congrArg (fun r : Bool × CPortal ℝ × Host => r.1)
      ((C17_createTexture_keeps_what_succeeded examplePortal.mpBody examplePortal.mCamera
        ⟨1024, 1024⟩ exampleHost).2.2.2 0 1 2 rfl rfl rfl)⟩

/-- The factory `NewModel` leaves the portal descriptor alone. -/
theorem CSceneManager.NewModel_mPortalDesc [Zero α] (stale : CMatrix4x4 α)
    (s : CSceneManager α) (meshIndex : Nat) (textureIndexes : List Nat) (position : CVector3 α)
    (scale : α) (rotation : CVector3 α) (wiggleStrength : α) (shaderType : Nat) :
    (s.NewModel stale meshIndex textureIndexes position scale rotation wiggleStrength
      shaderType).mPortalDesc = s.mPortalDesc := by
  unfold CSceneManager.NewModel
  simp only
  split_ifs <;> rfl

/-- The factory `NewLight` leaves the portal descriptor alone. -/
theorem CSceneManager.NewLight_mPortalDesc [LinearOrderedField α] [FloorRing α] (L : MathLib α)
    (stale : CMatrix4x4 α) (s : CSceneManager α) (type : ELightType) (mesh : MeshRef)
    (colour position : CVector3 α) (strength : α) (facingToward : CVector3 α) (fov : α) :
    (s.NewLight L stale type mesh colour position strength facingToward fov).mPortalDesc
      = s.mPortalDesc := by
  unfold CSceneManager.NewLight
  cases type <;> simp only <;> split_ifs <;> rfl

/-- What `NewPortal` leaves behind when the device cannot create the portal
texture: the portal is in the collection with its three handles null, the
message is stored, and the one request made is the texture. -/
theorem CSceneManager.NewPortal_noTexture [Field α] (L : MathLib α) (stale : CMatrix4x4 α)
    (s : CSceneManager α) (h : Host) (position rotation : CVector3 α)
    (hfail : h.ahead 0 (HostCall.CreateTexture2D s.mPortalDesc) = none) :
    (s.NewPortal L stale h position rotation).1.mPortalCollection
        = s.mPortalCollection
            ++ [CPortal.new L stale (s.mMeshArray Mesh_Portal) position rotation]
      ∧ (s.NewPortal L stale h position rotation).2.gLastError = "Error creating portal texture"
      ∧ (s.NewPortal L stale h position rotation).2.calls
          = h.calls ++ [HostCall.CreateTexture2D s.mPortalDesc] := by
  unfold CSceneManager.NewPortal
  simp only
  rw [CPortal.CreateTexture_noTexture _ s.mPortalDesc h hfail]
  exact ⟨rfl, rfl, rfl⟩

/-- C18 (what the code does instead). `NewPortal` appends the portal to
`mPortalCollection` before it calls `CreateTexture` and drops the returned flag:
when the device cannot create the portal texture, the call reports `false`, yet
the portal is registered, as the last entry of the collection with all three
handles null, and the only trace of the failure is `gLastError`. -/
theorem C18_failed_portal_is_registered [Field α] (L : MathLib α) (stale : CMatrix4x4 α)
    (s : CSceneManager α) (h : Host) (position rotation : CVector3 α)
    (hfail : h.ahead 0 (HostCall.CreateTexture2D s.mPortalDesc) = none) :
    ((CPortal.new L stale (s.mMeshArray Mesh_Portal) position rotation).CreateTexture
        s.mPortalDesc h).1 = false
      ∧ (s.NewPortal L stale h position rotation).1.mPortalCollection.length
          = s.mPortalCollection.length + 1
      ∧ (∃ portal : CPortal α,
          (s.NewPortal L stale h position rotation).1.mPortalCollection.getLast? = some portal
            ∧ portal.mTexture = none ∧ portal.mRenderTarget = none
            ∧ portal.mTextureSRV = none)
      ∧ (s.NewPortal L stale h position rotation).2.gLastError
          = "Error creating portal texture" := by
  obtain ⟨hc, he, _⟩ := CSceneManager.NewPortal_noTexture L stale s h position rotation hfail
  refine ⟨?_, ?_, ⟨CPortal.new L stale (s.mMeshArray Mesh_Portal) position rotation, ?_,
    rfl, rfl, rfl⟩, he⟩
  · rw [CPortal.CreateTexture_noTexture _ s.mPortalDesc h hfail]
  · rw [hc]; simp
  · rw [hc]; simp

/-- C18 on an example: the initial scene has a portal descriptor of zero width,
which the example device rejects; `NewPortal` registers the portal all the same. -/
theorem C18_failed_portal_is_registered_witness :
    exampleHostNoZeroWidth.ahead 0
        (HostCall.CreateTexture2D (CSceneManager.init : CSceneManager ℝ).mPortalDesc) = none
      ∧ ((CSceneManager.init : CSceneManager ℝ).NewPortal exampleLib CMatrix4x4.identity
          exampleHostNoZeroWidth ⟨10, 15, 50⟩ ⟨0, 3, 0⟩).1.mPortalCollection.length
          = (CSceneManager.init : CSceneManager ℝ).mPortalCollection.length + 1 :=
  ⟨rfl, (C18_failed_portal_is_registered exampleLib CMatrix4x4.identity CSceneManager.init
      exampleHostNoZeroWidth ⟨10, 15, 50⟩ ⟨0, 3, 0⟩ rfl).2.1⟩

/-- C20 (what the code does instead). `InitScene` ends with `return true` and
never looks at what `NewPortal` or `CreateTexture` reported: when the device
cannot create the portal texture while `InitScene` runs, the failure is stored in
`gLastError`, and `InitScene` returns `true`. -/
theorem C20_initScene_returns_true_on_failure [LinearOrderedField α] [FloorRing α]
    (L : MathLib α) (stale : CMatrix4x4 α) (s : CSceneManager α) (h : Host)
    (hfail : h.ahead 0 (HostCall.CreateTexture2D s.mPortalDesc) = none) :
    (s.InitScene L stale h).1 = true
      ∧ (s.InitScene L stale h).2.2.gLastError = "Error creating portal texture"
      ∧ (s.InitScene L stale h).2.2.calls = h.calls ++ [HostCall.CreateTexture2D s.mPortalDesc] := by
  have hd : ∀ (s11 : CSceneManager α) (position rotation : CVector3 α),
      s11.mPortalDesc = s.mPortalDesc →
      (s11.NewPortal L stale h position rotation).2.gLastError = "Error creating portal texture"
        ∧ (s11.NewPortal L stale h position rotation).2.calls
            = h.calls ++ [HostCall.CreateTexture2D s.mPortalDesc] := by
    intro s11 position rotation e
    have key := CSceneManager.NewPortal_noTexture L stale s11 h position rotation
      (by rw [e]; exact hfail)
    rw [e] at key
    exact key.2
  unfold CSceneManager.InitScene
  simp only
  exact ⟨trivial, hd _ _ _
    (by simp only [CSceneManager.NewLight_mPortalDesc, CSceneManager.NewModel_mPortalDesc])⟩

/-- C20 on an example: from the initial scene (portal descriptor of zero width)
with the device that rejects zero width, `InitScene` returns `true`. -/
theorem C20_initScene_returns_true_on_failure_witness :
    exampleHostNoZeroWidth.ahead 0
        (HostCall.CreateTexture2D (CSceneManager.init : CSceneManager ℝ).mPortalDesc) = none
      ∧ ((CSceneManager.init : CSceneManager ℝ).InitScene exampleLib CMatrix4x4.identity
          exampleHostNoZeroWidth).1 = true
      ∧ ((CSceneManager.init : CSceneManager ℝ).InitScene exampleLib CMatrix4x4.identity
          exampleHostNoZeroWidth).2.2.gLastError = "Error creating portal texture" :=
  ⟨rfl, (C20_initScene_returns_true_on_failure exampleLib CMatrix4x4.identity CSceneManager.init
      exampleHostNoZeroWidth rfl).1,
   (C20_initScene_returns_true_on_failure exampleLib CMatrix4x4.identity CSceneManager.init
      exampleHostNoZeroWidth rfl).2.1⟩


/-- Running two lists of steps one after the other: the second list runs from
where the first ended when the first succeeded, and does not run otherwise. -/
theorem runPlan_append (a b : List (InitStep α)) (s : CSceneManager α) (h : Host) :
    runPlan (a ++ b) s h
      = if (runPlan a s h).1 = true then runPlan b (runPlan a s h).2.1 (runPlan a s h).2.2
        else runPlan a s h := by
  induction a generalizing s h with
  | nil => simp [runPlan]
  | cons step rest ih =>
    simp only [List.cons_append, runPlan]
    by_cases hs : (step.run s h).1 = true
    · simp only [hs, if_true]
      exact ih _ _
    · simp [hs]

/-- One step of a run. -/
theorem runPlan_cons (step : InitStep α) (rest : List (InitStep α)) (s : CSceneManager α)
    (h : Host) :
    runPlan (step :: rest) s h
      = if (step.run s h).1 = true then runPlan rest (step.run s h).2.1 (step.run s h).2.2
        else (false, (step.run s h).2.1,
          (step.run s h).2.2.setError (step.message (step.run s h).2.2)) := rfl

/-- A run of steps returns `true` exactly when every step succeeds. -/
theorem runPlan_true_iff (p : List (InitStep α)) (s : CSceneManager α) (h : Host) :
    (runPlan p s h).1 = true ↔ AllSucceed p s h := by
  induction p generalizing s h with
  | nil => simp [runPlan, AllSucceed]
  | cons step rest ih =>
    simp only [runPlan, AllSucceed]
    by_cases hs : (step.run s h).1 = true
    · simp only [hs, if_true, true_and]
      exact ih _ _
    · simp [hs]

/-- A run of steps that returns `false` stopped at its first failing step: the
steps before it succeeded, the result is that of the failing step with its
message stored, and the steps after it did not run. -/
theorem runPlan_false_split (p : List (InitStep α)) (s : CSceneManager α) (h : Host)
    (hf : (runPlan p s h).1 = false) :
    ∃ (done : List (InitStep α)) (step : InitStep α) (rest : List (InitStep α))
      (s1 : CSceneManager α) (h1 : Host),
      p = done ++ step :: rest
        ∧ runPlan done s h = (true, s1, h1)
        ∧ (step.run s1 h1).1 = false
        ∧ runPlan p s h
            = (false, (step.run s1 h1).2.1,
                (step.run s1 h1).2.2.setError (step.message (step.run s1 h1).2.2)) := by
  induction p generalizing s h with
  | nil => simp [runPlan] at hf
  | cons step rest ih =>
    by_cases hs : (step.run s h).1 = true
    · have e : runPlan (step :: rest) s h = runPlan rest (step.run s h).2.1 (step.run s h).2.2 := by
        simp only [runPlan, hs, if_true]
      rw [e] at hf
      obtain ⟨done, st, rest1, s1, h1, hp, hd, hfail, hr⟩ := ih _ _ hf
      refine ⟨step :: done, st, rest1, s1, h1, ?_, ?_, hfail, ?_⟩
      · rw [hp]; rfl
      · simp only [runPlan, hs, if_true]
        exact hd
      · rw [e]; exact hr
    · refine ⟨[], step, rest, s, h, rfl, rfl, ?_, ?_⟩
      · simpa using hs
      · simp only [runPlan, hs, if_false]
        simp


/-- The mesh loads of `InitGeometry` are the run of their steps. -/
theorem CSceneManager.loadMeshes_eq_runPlan (l : List Nat) (s : CSceneManager α) (h : Host) :
    CSceneManager.loadMeshes l s h = runPlan (l.map meshStep) s h := by
  induction l generalizing s h with
  | nil => rfl
  | cons i rest ih =>
    simp only [CSceneManager.loadMeshes, List.map_cons, runPlan, meshStep]
    cases hr : (h.request (HostCall.NewMesh i)).1 with
    | none => simp
    | some mesh =>
      simp only [if_true]
      exact ih _ _

/-- The texture loads of `InitGeometry`, with the message that follows their
failure, are the run of their steps. -/
theorem loadTextures_eq_runPlan (l : List Nat) (s : CSceneManager α) (h : Host) :
    runPlan (l.map textureStep) s h
      = if (loadTextures l h).1 = true then (true, s, (loadTextures l h).2)
        else (false, s, (loadTextures l h).2.setError "Error loading textures") := by
  induction l generalizing h with
  | nil => simp [runPlan, loadTextures]
  | cons t rest ih =>
    simp only [loadTextures, List.map_cons, runPlan, textureStep]
    cases hr : (h.request (HostCall.LoadTexture t)).1 with
    | none => simp
    | some view =>
      simp only [ne_eq, reduceCtorEq, not_false_eq_true, decide_True, if_true, if_false]
      exact ih _

/-- The shadow map loop of `InitGeometry` is the run of its steps. -/
theorem CSceneManager.createShadowMaps_eq_runPlan (l : List (Fin gsNumSpotlights))
    (s : CSceneManager α) (h : Host) :
    CSceneManager.createShadowMaps l s h = runPlan (l.flatMap shadowTripleSteps) s h := by
  induction l generalizing s h with
  | nil => rfl
  | cons i rest ih =>
    simp only [CSceneManager.createShadowMaps, List.flatMap_cons, shadowTripleSteps,
      List.cons_append, List.nil_append, runPlan, shadowTextureStep, shadowDepthViewStep,
      shadowShaderViewStep, Function.update_same]
    cases h1 : (h.request (HostCall.CreateTexture2D s.mShadowMapTextureDesc)).1 with
    | none => simp
    | some t =>
      simp only [ne_eq, reduceCtorEq, not_false_eq_true, decide_True, if_true, if_false]
      cases h2 : ((h.request (HostCall.CreateTexture2D s.mShadowMapTextureDesc)).2.request
          (HostCall.CreateDepthStencilView (some t))).1 with
      | none => simp
      | some d =>
        simp only [ne_eq, reduceCtorEq, not_false_eq_true, decide_True, if_true, if_false]
        cases h3 : (((h.request (HostCall.CreateTexture2D s.mShadowMapTextureDesc)).2.request
            (HostCall.CreateDepthStencilView (some t))).2.request
            (HostCall.CreateShaderResourceView (some t))).1 with
        | none => simp
        | some v =>
          simp only [ne_eq, reduceCtorEq, not_false_eq_true, decide_True, if_true, if_false]
          exact ih _ _


/-- The function `InitGeometry` is the run of the set-up sequence. -/
theorem CSceneManager.InitGeometry_eq_runPlan (s : CSceneManager α) (h : Host) :
    s.InitGeometry h = runPlan initGeometryPlan s h := by
  unfold CSceneManager.InitGeometry initGeometryPlan
  generalize meshLoadOrder = meshes
  generalize List.range NumOfTextures = textures
  generalize List.finRange gsNumSpotlights = spots
  simp only [List.append_assoc, List.cons_append, List.nil_append]
  rw [runPlan_append, ← CSceneManager.loadMeshes_eq_runPlan]
  generalize CSceneManager.loadMeshes meshes s h = m
  by_cases hm : m.1 = true
  · simp only [hm, if_true, Bool.true_eq_false, if_false, runPlan_cons, shadersStep,
      constantBuffersStep]
    cases hsh : (m.2.2.request HostCall.LoadShaders).1 with
    | none => simp
    | some shaders =>
      simp only [ne_eq, reduceCtorEq, not_false_eq_true, decide_True, if_true, if_false]
      generalize (m.2.2.request HostCall.LoadShaders).2 = h1
      cases hb1 : (h1.request (HostCall.CreateConstantBuffer ConstantBuffer.perFrame)).1 with
      | none => simp
      | some b1 =>
        cases hb2 : ((h1.request (HostCall.CreateConstantBuffer ConstantBuffer.perFrame)).2.request
            (HostCall.CreateConstantBuffer ConstantBuffer.perModel)).1 with
        | none => simp
        | some b2 =>
          simp only [ne_eq, reduceCtorEq, not_false_eq_true, decide_True, if_true, if_false,
            or_self, and_self]
          generalize ((h1.request (HostCall.CreateConstantBuffer ConstantBuffer.perFrame)).2.request
            (HostCall.CreateConstantBuffer ConstantBuffer.perModel)).2 = h2
          rw [runPlan_append, loadTextures_eq_runPlan]
          generalize loadTextures textures h2 = t
          by_cases ht : t.1 = true
          · simp only [ht, if_true, Bool.true_eq_false, if_false, runPlan_cons, shadowDescStep]
            rw [runPlan_append, ← CSceneManager.createShadowMaps_eq_runPlan]
            generalize CSceneManager.createShadowMaps spots _ t.2 = sm
            by_cases hsm : sm.1 = true
            · simp only [hsm, if_true, Bool.true_eq_false, if_false, runPlan_cons, runPlan,
                portalDescStep, portalDepthTextureStep, portalDepthViewStep, statesStep]
              cases hd : (sm.2.2.request
                  (HostCall.CreateTexture2D ⟨sm.2.1.mPortalWidth, sm.2.1.mPortalHeight⟩)).1 with
              | none => simp
              | some d =>
                simp only [ne_eq, reduceCtorEq, not_false_eq_true, decide_True, if_true, if_false]
                generalize (sm.2.2.request
                  (HostCall.CreateTexture2D ⟨sm.2.1.mPortalWidth, sm.2.1.mPortalHeight⟩)).2 = h3
                cases hv : (h3.request (HostCall.CreateDepthStencilView (some d))).1 with
                | none => simp
                | some v =>
                  simp only [ne_eq, reduceCtorEq, not_false_eq_true, decide_True, if_true,
                    if_false]
                  cases hst : ((h3.request (HostCall.CreateDepthStencilView (some d))).2.request
                      HostCall.CreateStates).1 with
                  | none => simp
                  | some st => simp
            · have hsm2 : sm.1 = false := by simpa using hsm
              simp [hsm2]
          · have ht2 : t.1 = false := by simpa using ht
            simp [ht2]
  · have hm2 : m.1 = false := by simpa using hm
    simp [hm2]


/-- C19. `InitGeometry` is the run of the set-up sequence `initGeometryPlan`
(the eleven mesh loads, the shader load, the constant buffers, the 23 texture
loads, the four shadow map triples, the portal depth texture and view, the state
creation), stopping at the first failure: it returns `true` exactly when every
step succeeds; when it returns `false` the sequence splits into steps that all
succeeded, the first failing step and the steps after it, the stored message is
that of the failing step (for a mesh load, the message of the thrown error), and
the scene and the requests made are those at the end of the failing step, so no
later step ran. -/
theorem C19_initGeometry_aborts_at_first_failure (s : CSceneManager α) (h : Host) :
    s.InitGeometry h = runPlan initGeometryPlan s h
      ∧ ((s.InitGeometry h).1 = true ↔ AllSucceed initGeometryPlan s h)
      ∧ ((s.InitGeometry h).1 = false →
          ∃ (done : List (InitStep α)) (step : InitStep α) (rest : List (InitStep α))
            (s1 : CSceneManager α) (h1 : Host),
            initGeometryPlan = done ++ step :: rest
              ∧ AllSucceed done s h
              ∧ runPlan done s h = (true, s1, h1)
              ∧ (step.run s1 h1).1 = false
              ∧ (s.InitGeometry h).2.2.gLastError = step.message (step.run s1 h1).2.2
              ∧ (s.InitGeometry h).2.2.calls = (step.run s1 h1).2.2.calls
              ∧ (s.InitGeometry h).2.1 = (step.run s1 h1).2.1) := by
  refine ⟨CSceneManager.InitGeometry_eq_runPlan s h, ?_, ?_⟩
  · rw [CSceneManager.InitGeometry_eq_runPlan]
    exact runPlan_true_iff _ _ _
  · intro hf
    rw [CSceneManager.InitGeometry_eq_runPlan] at hf ⊢
    obtain ⟨done, step, rest, s1, h1, hp, hd, hfail, hr⟩ := runPlan_false_split _ s h hf
    refine ⟨done, step, rest, s1, h1, hp, ?_, hd, hfail, ?_, ?_, ?_⟩
    · rw [← runPlan_true_iff, hd]
    · rw [hr]; rfl
    · rw [hr]; rfl
    · rw [hr]

/-- C19 on an example: when the brick texture (the third texture) cannot be
loaded, `InitGeometry` returns `false`, not every step succeeds, the message is
the texture one, and the 17 requests made are the 11 meshes, the shaders, the 2
constant buffers and 3 textures: no shadow map, portal buffer or state was
requested. -/
theorem C19_initGeometry_aborts_at_first_failure_witness :
    ((CSceneManager.init : CSceneManager ℝ).InitGeometry exampleHostNoBrick).1 = false
      ∧ ¬ AllSucceed initGeometryPlan (CSceneManager.init : CSceneManager ℝ) exampleHostNoBrick
      ∧ ((CSceneManager.init : CSceneManager ℝ).InitGeometry exampleHostNoBrick).2.2.gLastError
          = "Error loading textures"
      ∧ ((CSceneManager.init : CSceneManager ℝ).InitGeometry exampleHostNoBrick).2.2.calls.length
          = 17 :=
  ⟨rfl,
   fun hall => Bool.false_ne_true
    ((C19_initGeometry_aborts_at_first_failure (CSceneManager.init : CSceneManager ℝ)
      exampleHostNoBrick).2.1.mpr hall),
   rfl, rfl⟩


/-! ### Rendering: the light data is read-only -/

/-- A block carries its own light data. -/
theorem SameLightData.self (a : PerFrameConstants α) : SameLightData a a :=
  ⟨rfl, rfl, rfl, rfl, rfl, rfl⟩

/-- Carrying the light data is transitive. -/
theorem SameLightData.chain {a b c : PerFrameConstants α} (hab : SameLightData a b)
    (hbc : SameLightData b c) : SameLightData a c :=
  ⟨hbc.1.trans hab.1, hbc.2.1.trans hab.2.1, hbc.2.2.1.trans hab.2.2.1,
    hbc.2.2.2.1.trans hab.2.2.2.1, hbc.2.2.2.2.1.trans hab.2.2.2.2.1,
    hbc.2.2.2.2.2.trans hab.2.2.2.2.2⟩

/-- Keeping the light data is reflexive. -/
theorem Gfx.KeepsLights.stay (g : Gfx α) : g.KeepsLights g :=
  ⟨SameLightData.self _, [], (List.append_nil _).symm, fun _ hb => by cases hb⟩

/-- Keeping the light data is transitive. -/
theorem Gfx.KeepsLights.follow {g1 g2 g3 : Gfx α} (h12 : g1.KeepsLights g2)
    (h23 : g2.KeepsLights g3) : g1.KeepsLights g3 := by
  obtain ⟨s12, a, ha, hA⟩ := h12
  obtain ⟨s23, b, hb, hB⟩ := h23
  refine ⟨s12.chain s23, a ++ b, by rw [hb, ha, List.append_assoc], ?_⟩
  intro c hc
  rcases List.mem_append.mp hc with h | h
  · exact hA c h
  · exact s12.chain (hB c h)

/-- Continuing without a per-frame upload keeps the light data. -/
theorem Gfx.Neutral.keepsLights {g1 g2 : Gfx α} (h : g1.Neutral g2) : g1.KeepsLights g2 :=
  ⟨by rw [h.1]; exact SameLightData.self _, [], by rw [h.2, List.append_nil],
    fun _ hb => by cases hb⟩

/-- Recording a fault is neutral. -/
theorem Gfx.raise_neutral (g : Gfx α) : g.Neutral g.raise := ⟨rfl, rfl⟩

/-- Binding a model texture issues no per-frame upload. -/
theorem bindModelTexture_neutral (slot : Nat) (m : Model α) (index : Nat) (g : Gfx α) :
    g.Neutral (bindModelTexture slot m index g) := by
  unfold bindModelTexture
  split
  · exact (Gfx.raise_neutral g).next (Gfx.emit_neutral _ _ rfl)
  · exact Gfx.emit_neutral _ _ rfl

/-- The inner loop of a sweep issues no per-frame upload. -/
theorem drawTexturedModels_neutral (L : MathLib α) (secondTexture : Bool)
    (ms : List (Model α)) (g : Gfx α) :
    g.Neutral (drawTexturedModels L secondTexture ms g).2 := by
  induction ms generalizing g with
  | nil => exact Gfx.Neutral.same g
  | cons m rest ih =>
    have h1 := bindModelTexture_neutral 0 m 0 g
    have h2 : (bindModelTexture 0 m 0 g).Neutral
        (if secondTexture then
          bindModelTexture (gsNumSpotlights + 1) m 1 (bindModelTexture 0 m 0 g)
         else bindModelTexture 0 m 0 g) := by
      split
      · exact bindModelTexture_neutral _ _ _ _
      · exact Gfx.Neutral.same _
    exact ((h1.next h2).next (Model.Render_neutral L m _)).next (ih _)

/-- The shader switches issue no per-frame upload. -/
theorem shaderSwitch_uploads (i : Nat) :
    perFrameUploads (shaderSwitchNoCull i : List (Cmd α) × Bool).1 = []
      ∧ perFrameUploads (shaderSwitchCullBack i : List (Cmd α) × Bool).1 = [] := by
  unfold shaderSwitchNoCull shaderSwitchCullBack
  constructor <;> (split_ifs <;> rfl)

/-- A sweep over the buckets issues no per-frame upload, whatever the shader
switch, as long as the switch itself issues none. -/
theorem sweepBuckets_neutral (L : MathLib α) (shaderSwitch : Nat → List (Cmd α) × Bool)
    (hsw : ∀ i, perFrameUploads (shaderSwitch i).1 = [])
    (collection : Fin gsNumOfModelPS → List (Model α)) (g : Gfx α) :
    g.Neutral (sweepBuckets L shaderSwitch collection g).2 := by
  unfold sweepBuckets
  refine forLoop_induction
    (fun st : (Fin gsNumOfModelPS → List (Model α)) × Gfx α => g.Neutral st.2) _ _ _
    (Gfx.Neutral.same g) ?_
  intro i st hst
  by_cases h : i < gsNumOfModelPS
  · simp only [dif_pos h]
    exact (hst.next (Gfx.emit_neutral _ _ (hsw i))).next (drawTexturedModels_neutral L _ _ _)
  · simp only [dif_neg h]
    exact hst

/-- The portal loop of the lit-scene render issues no per-frame upload. -/
theorem drawPortals_neutral (L : MathLib α) (ps : List (CPortal α)) (g : Gfx α) :
    g.Neutral (drawPortals L ps g).2 := by
  induction ps generalizing g with
  | nil => exact Gfx.Neutral.same g
  | cons p rest ih =>
    have h1 : g.Neutral (g.emit
        [Cmd.PSSetShaderResources (gsNumSpotlights + 1) [ViewRef.handle p.mTextureSRV]]) :=
      Gfx.emit_neutral g _ rfl
    exact (h1.next (Model.Render_neutral L p.mpBody _)).next (ih _)

/-- Writing the per-model block issues no per-frame upload. -/
theorem Gfx.setModelConstants_neutral (g : Gfx α) (block : PerModelConstants α) :
    g.Neutral { g with gPerModelConstants := block } := ⟨rfl, rfl⟩

/-- A light marker loop issues no per-frame upload. -/
theorem drawLightMarkers_neutral [LinearOrderedField α] [FloorRing α] {β : Type}
    (L : MathLib α) (n : Nat) (base : β → CLight α) (rebase : β → CLight α → β) (top : α)
    (lights : Fin n → Option β) (g : Gfx α) :
    g.Neutral (drawLightMarkers L n base rebase top lights g).2 := by
  unfold drawLightMarkers
  refine forLoop_induction
    (fun st : (Fin n → Option β) × Gfx α => g.Neutral st.2) _ _ _ (Gfx.Neutral.same g) ?_
  intro i st hst
  by_cases h : i < n
  · simp only [dif_pos h]
    split
    · exact hst.next ((Gfx.setModelConstants_neutral _ _).next (Model.Render_neutral L _ _))
    · exact hst.next (Gfx.raise_neutral _)
  · simp only [dif_neg h]
    exact hst.next (Gfx.raise_neutral _)

/-- The transparent loop issues no per-frame upload. -/
theorem drawTransparentModels_neutral (L : MathLib α) (ms : List (Model α)) (g : Gfx α) :
    g.Neutral (drawTransparentModels L ms g).2 := by
  induction ms generalizing g with
  | nil => exact Gfx.Neutral.same g
  | cons m rest ih =>
    exact ((bindModelTexture_neutral 0 m 0 g).next (Model.Render_neutral L m _)).next (ih _)


/-- Replacing the per-frame block by one that carries the same light data and
issuing calls that upload that block (and no other) keeps the light data. -/
theorem Gfx.upload_keepsLights (g : Gfx α) (pf : PerFrameConstants α) (cs : List (Cmd α))
    (hpf : SameLightData g.gPerFrameConstants pf) (hcs : perFrameUploads cs = [pf]) :
    g.KeepsLights (({ g with gPerFrameConstants := pf }).emit cs) := by
  refine ⟨hpf, [pf], ?_, ?_⟩
  · show perFrameUploads (g.calls ++ cs) = _
    rw [perFrameUploads_append, hcs]
  · intro b hb
    rw [List.mem_singleton.mp hb]
    exact hpf

/-- The function `RenderSceneFromCamera` keeps the light data: it writes the
view, projection and view-projection matrices of the per-frame block, uploads
it once, and nothing after that touches the block. -/
theorem CSceneManager.RenderSceneFromCamera_keepsLights [LinearOrderedField α] [FloorRing α]
    (K : CameraLib α) (L : MathLib α) (s : CSceneManager α) (g : Gfx α) (camera : Camera α) :
    g.KeepsLights (s.RenderSceneFromCamera K L g camera).2 := by
  unfold CSceneManager.RenderSceneFromCamera
  refine Gfx.KeepsLights.follow ?_ (drawTransparentModels_neutral L _ _).keepsLights
  refine Gfx.KeepsLights.follow ?_ (Gfx.emit_neutral _ _ (by rfl)).keepsLights
  refine Gfx.KeepsLights.follow ?_ (drawLightMarkers_neutral L _ _ _ _ _ _).keepsLights
  refine Gfx.KeepsLights.follow ?_ (drawLightMarkers_neutral L _ _ _ _ _ _).keepsLights
  refine Gfx.KeepsLights.follow ?_ (drawLightMarkers_neutral L _ _ _ _ _ _).keepsLights
  refine Gfx.KeepsLights.follow ?_ (Gfx.emit_neutral _ _ (by rfl)).keepsLights
  refine Gfx.KeepsLights.follow ?_ (drawPortals_neutral L _ _).keepsLights
  refine Gfx.KeepsLights.follow ?_ (Gfx.emit_neutral _ _ (by rfl)).keepsLights
  refine Gfx.KeepsLights.follow ?_
    (sweepBuckets_neutral L _ (fun i => (shaderSwitch_uploads i).2) _ _).keepsLights
  refine Gfx.KeepsLights.follow ?_ (Gfx.emit_neutral _ _ (by rfl)).keepsLights
  refine Gfx.KeepsLights.follow ?_
    (sweepBuckets_neutral L _ (fun i => (shaderSwitch_uploads i).1) _ _).keepsLights
  exact Gfx.upload_keepsLights g _ _ ⟨rfl, rfl, rfl, rfl, rfl, rfl⟩ rfl

/-- The function `RenderDepthBufferFromLight` keeps the light data: it writes
the view, projection and view-projection matrices of the per-frame block,
uploads it once, and nothing after that touches the block. -/
theorem CSceneManager.RenderDepthBufferFromLight_keepsLights [One α] (L : MathLib α)
    (s : CSceneManager α) (g : Gfx α) (light : CSpotlight α) :
    g.KeepsLights (s.RenderDepthBufferFromLight L g light).2.2 := by
  unfold CSceneManager.RenderDepthBufferFromLight
  refine Gfx.KeepsLights.follow ?_ (renderModels_neutral L _ _).keepsLights
  refine Gfx.KeepsLights.follow ?_ (Gfx.emit_neutral _ _ (by rfl)).keepsLights
  refine Gfx.KeepsLights.follow ?_ (renderBuckets_neutral L _ _).keepsLights
  refine Gfx.KeepsLights.follow ?_ (Gfx.emit_neutral _ _ (by rfl)).keepsLights
  refine Gfx.KeepsLights.follow ?_ (renderPortals_neutral L _ _).keepsLights
  refine Gfx.KeepsLights.follow ?_ (renderBuckets_neutral L _ _).keepsLights
  exact Gfx.upload_keepsLights g _ _ ⟨rfl, rfl, rfl, rfl, rfl, rfl⟩ rfl

/-- One round of the shadow loop keeps the light data. -/
theorem CSceneManager.shadowPass_keepsLights [Field α] (L : MathLib α) (i : Nat)
    (st : CSceneManager α × Gfx α) :
    st.2.KeepsLights (CSceneManager.shadowPass L i st).2 := by
  unfold CSceneManager.shadowPass
  by_cases h : i < gsNumSpotlights
  · rw [dif_pos h]
    have h1 : st.2.KeepsLights (st.2.emit
        [Cmd.OMSetRenderTargets none
          (DepthRef.handle (st.1.mShadowMapSpotlightDepthStencil ⟨i, h⟩)),
         Cmd.ClearDepthStencilView
          (DepthRef.handle (st.1.mShadowMapSpotlightDepthStencil ⟨i, h⟩))]) :=
      (Gfx.emit_neutral _ _ (by rfl)).keepsLights
    cases hs : st.1.mSpotlights ⟨i, h⟩ with
    | none =>
      simp only [hs]
      exact h1.follow (Gfx.raise_neutral _).keepsLights
    | some sp =>
      simp only [hs]
      exact h1.follow (CSceneManager.RenderDepthBufferFromLight_keepsLights L st.1 _ sp)
  · rw [dif_neg h]
    exact (Gfx.raise_neutral _).keepsLights

/-- The shadow loop of `RenderScene` keeps the light data. -/
theorem CSceneManager.shadowPasses_keepsLights [LinearOrderedField α] [FloorRing α]
    (L : MathLib α) (s : CSceneManager α) (g : Gfx α) :
    g.KeepsLights (s.shadowPasses L g).2 := by
  unfold CSceneManager.shadowPasses
  refine forLoop_induction
    (fun st : CSceneManager α × Gfx α => g.KeepsLights st.2) _ _ _ (Gfx.KeepsLights.stay g) ?_
  intro i st hst
  exact hst.follow (CSceneManager.shadowPass_keepsLights L i st)

/-- The portal loop of `RenderScene` keeps the light data. -/
theorem CSceneManager.portalPasses_keepsLights [LinearOrderedField α] [FloorRing α]
    (K : CameraLib α) (L : MathLib α) (s : CSceneManager α) (g : Gfx α) :
    g.KeepsLights (s.portalPasses K L g).2 := by
  unfold CSceneManager.portalPasses
  refine forLoop_induction
    (fun st : CSceneManager α × Gfx α => g.KeepsLights st.2) _ _ _ (Gfx.KeepsLights.stay g) ?_
  intro k st hst
  simp only []
  split
  · refine Gfx.KeepsLights.follow ?_ (CSceneManager.RenderSceneFromCamera_keepsLights K L _ _ _)
    exact hst.follow (Gfx.emit_neutral _ _ (by rfl)).keepsLights
  · exact hst.follow (Gfx.raise_neutral _).keepsLights

/-- Light aggregation issues no device call. -/
theorem CSceneManager.aggregateLights_calls [LinearOrderedField α] [FloorRing α]
    (L : MathLib α) (s : CSceneManager α) (g : Gfx α) :
    (s.aggregateLights L g).2.calls = g.calls := by
  have hp : (forLoop (loopRounds s.mLightStackTop.x) CSceneManager.aggregatePoint
      (s, g)).2.calls = g.calls := by
    refine forLoop_induction
      (fun st : CSceneManager α × Gfx α => st.2.calls = g.calls) _ _ _ rfl ?_
    intro i st hst
    exact (CSceneManager.aggregatePoint_keeps i st).2.trans hst
  have hs : (forLoop (loopRounds s.mLightStackTop.y) (CSceneManager.aggregateSpot L)
      (forLoop (loopRounds s.mLightStackTop.x) CSceneManager.aggregatePoint (s, g))).2.calls
        = g.calls := by
    refine forLoop_induction
      (fun st : CSceneManager α × Gfx α => st.2.calls = g.calls) _ _ _ hp ?_
    intro i st hst
    unfold CSceneManager.aggregateSpot
    by_cases h : i < gsNumSpotlights
    · simp only [dif_pos h]
      split
      · exact hst
      · exact hst
    · simp only [dif_neg h]
      exact hst
  unfold CSceneManager.aggregateLights
  simp only
  split
  · exact hs
  · exact hs

/-! ### Rendering: the events of a pass follow from the shape of the scene -/

/-- The events of two runs of calls, one after the other. -/
theorem events_append (a b : List (Cmd α)) : events (a ++ b) = events a ++ events b :=
  List.filterMap_append _ _ _

/-- Continuing with no event. -/
theorem Gfx.Emits.none (g : Gfx α) : g.Emits g [] := (List.append_nil _).symm

/-- Continuing twice: the events follow one another. -/
theorem Gfx.Emits.seq {g1 g2 g3 : Gfx α} {a b : List Event} (h12 : g1.Emits g2 a)
    (h23 : g2.Emits g3 b) : g1.Emits g3 (a ++ b) := by
  unfold Gfx.Emits at *
  rw [h23, h12, List.append_assoc]

/-- The same continuation under another name for its events. -/
theorem Gfx.Emits.as {g1 g2 : Gfx α} {a b : List Event} (h : g1.Emits g2 a) (e : a = b) :
    g1.Emits g2 b := e ▸ h

/-- Issuing calls emits their events. -/
theorem Gfx.emit_emits (g : Gfx α) (cs : List (Cmd α)) : g.Emits (g.emit cs) (events cs) :=
  events_append _ _

/-- Recording a fault emits nothing. -/
theorem Gfx.raise_emits (g : Gfx α) : g.Emits g.raise [] := (List.append_nil _).symm

/-- The method `Model::Render` keeps the shape of the model and emits its render
events. -/
theorem Model.Render_emits (L : MathLib α) (m : Model α) (g : Gfx α) :
    (m.Render L g).1.shape = m.shape ∧ g.Emits (m.Render L g).2 (renderEvents m.shape.mesh) :=
  ⟨rfl, events_append _ _⟩

/-- The model loop keeps the shapes and emits the render events of the models. -/
theorem renderModels_emits (L : MathLib α) (ms : List (Model α)) (g : Gfx α) :
    (renderModels L ms g).1.map Model.shape = ms.map Model.shape
      ∧ g.Emits (renderModels L ms g).2 (modelsEvents (ms.map Model.shape)) := by
  induction ms generalizing g with
  | nil => exact ⟨rfl, Gfx.Emits.none g⟩
  | cons m rest ih =>
    obtain ⟨h1, h2⟩ := ih (m.Render L g).2
    refine ⟨?_, ?_⟩
    · show (m.Render L g).1.shape :: _ = m.shape :: _
      rw [h1]
      rfl
    · exact ((Model.Render_emits L m g).2.seq h2).as (by simp [modelsEvents])

/-- The portal loop of the shadow pass keeps the shapes and emits the render
events of the portal bodies. -/
theorem renderPortals_emits (L : MathLib α) (ps : List (CPortal α)) (g : Gfx α) :
    (renderPortals L ps g).1.map CPortal.shape = ps.map CPortal.shape
      ∧ g.Emits (renderPortals L ps g).2
          ((ps.map CPortal.shape).flatMap (fun p => renderEvents p.mesh)) := by
  induction ps generalizing g with
  | nil => exact ⟨rfl, Gfx.Emits.none g⟩
  | cons p rest ih =>
    obtain ⟨h1, h2⟩ := ih (p.Render L g).2
    refine ⟨?_, ?_⟩
    · show (p.Render L g).1.shape :: _ = p.shape :: _
      rw [h1]
      rfl
    · exact ((Model.Render_emits L p.mpBody g).2.seq h2).as (by simp [CPortal.shape, Model.shape])

/-- A loop whose rounds keep an invariant and emit events keeps the invariant
and emits the events of its rounds in order. -/
theorem forLoop_emits {σ : Type} (out : σ → Gfx α) (Inv : σ → Prop) (n : Nat)
    (body : Nat → σ → σ) (f : Nat → List Event) (init : σ) (h0 : Inv init)
    (hstep : ∀ i st, i < n → Inv st → Inv (body i st) ∧ (out st).Emits (out (body i st)) (f i)) :
    Inv (forLoop n body init)
      ∧ (out init).Emits (out (forLoop n body init)) ((List.range n).flatMap f) := by
  have key : ∀ k, k ≤ n → Inv (forLoop k body init)
      ∧ (out init).Emits (out (forLoop k body init)) ((List.range k).flatMap f) := by
    intro k
    induction k with
    | zero => exact fun _ => ⟨h0, Gfx.Emits.none _⟩
    | succ k ih =>
      intro hk
      obtain ⟨i1, i2⟩ := ih (Nat.le_of_succ_le hk)
      obtain ⟨s1, s2⟩ := hstep k _ hk i1
      exact ⟨s1, (i2.seq s2).as (by simp [List.range_succ])⟩
  exact key n (Nat.le_refl n)

/-- A sum over the indices below `n` taken as numbers is the sum over `Fin n`. -/
theorem flatMap_range_dite {β : Type} (n : Nat) (f : Fin n → List β) :
    (List.range n).flatMap (fun i => if h : i < n then f ⟨i, h⟩ else [])
      = (List.finRange n).flatMap f := by
  rw [← List.map_coe_finRange, List.flatMap_map]
  congr 1
  funext i
  simp [i.2]


/-- A loop over the buckets whose inner loop keeps the shapes of the models and
emits events that follow from them keeps the shapes of all buckets and emits
the events of the buckets by ascending index. -/
theorem bucketLoop_emits
    (inner : Nat → List (Model α) → Gfx α → List (Model α) × Gfx α)
    (tr : Nat → List ModelShape → List Event)
    (hinner : ∀ i ms g, (inner i ms g).1.map Model.shape = ms.map Model.shape
      ∧ g.Emits (inner i ms g).2 (tr i (ms.map Model.shape)))
    (collection : Fin gsNumOfModelPS → List (Model α)) (g : Gfx α) :
    (∀ j, ((forLoop gsNumOfModelPS
        (fun i st =>
          if h : i < gsNumOfModelPS then
            (Function.update st.1 ⟨i, h⟩ (inner i (st.1 ⟨i, h⟩) st.2).1,
              (inner i (st.1 ⟨i, h⟩) st.2).2)
          else st)
        (collection, g)).1 j).map Model.shape = (collection j).map Model.shape)
      ∧ g.Emits (forLoop gsNumOfModelPS
        (fun i st =>
          if h : i < gsNumOfModelPS then
            (Function.update st.1 ⟨i, h⟩ (inner i (st.1 ⟨i, h⟩) st.2).1,
              (inner i (st.1 ⟨i, h⟩) st.2).2)
          else st)
        (collection, g)).2
          ((List.finRange gsNumOfModelPS).flatMap
            (fun i => tr i.val ((collection i).map Model.shape))) := by
  have key := forLoop_emits (fun st : (Fin gsNumOfModelPS → List (Model α)) × Gfx α => st.2)
    (fun st => ∀ j, (st.1 j).map Model.shape = (collection j).map Model.shape)
    gsNumOfModelPS
    (fun i st =>
      if h : i < gsNumOfModelPS then
        (Function.update st.1 ⟨i, h⟩ (inner i (st.1 ⟨i, h⟩) st.2).1,
          (inner i (st.1 ⟨i, h⟩) st.2).2)
      else st)
    (fun i => if h : i < gsNumOfModelPS then tr i ((collection ⟨i, h⟩).map Model.shape) else [])
    (collection, g) (fun _ => rfl) ?_
  · refine ⟨key.1, key.2.as ?_⟩
    exact flatMap_range_dite gsNumOfModelPS
      (fun i => tr i.val ((collection i).map Model.shape))
  · intro i st hi hst
    simp only [dif_pos hi]
    obtain ⟨h1, h2⟩ := hinner i (st.1 ⟨i, hi⟩) st.2
    refine ⟨?_, ?_⟩
    · intro j
      by_cases hj : j = ⟨i, hi⟩
      · subst hj
        rw [Function.update_same, h1]
        exact hst _
      · rw [Function.update_noteq hj]
        exact hst j
    · rw [hst ⟨i, hi⟩] at h2
      exact h2

/-- The bucket loop of the shadow pass keeps the shapes and emits the render
events of the buckets by ascending index. -/
theorem renderBuckets_emits (L : MathLib α)
    (collection : Fin gsNumOfModelPS → List (Model α)) (g : Gfx α) :
    (∀ j, ((renderBuckets L collection g).1 j).map Model.shape
        = (collection j).map Model.shape)
      ∧ g.Emits (renderBuckets L collection g).2
          ((List.finRange gsNumOfModelPS).flatMap
            (fun i => modelsEvents ((collection i).map Model.shape))) :=
  bucketLoop_emits (fun _ ms g => renderModels L ms g) (fun _ ms => modelsEvents ms)
    (fun _ ms g => renderModels_emits L ms g) collection g


/-- Two scenes whose models, portals and lights have the same shapes and that
agree on the counts, the views and the presence of a camera have the same
shape. -/
theorem CSceneManager.shapeWith_congr (rounds : α → Nat) (s1 s2 : CSceneManager α)
    (hT : ∀ i, (s1.mTeapotCollection i).map Model.shape
      = (s2.mTeapotCollection i).map Model.shape)
    (hM : ∀ i, (s1.mModelCollection i).map Model.shape
      = (s2.mModelCollection i).map Model.shape)
    (hX : s1.mTransparentModels.map Model.shape = s2.mTransparentModels.map Model.shape)
    (hP : s1.mPortalCollection.map CPortal.shape = s2.mPortalCollection.map CPortal.shape)
    (hPL : ∀ i, (s1.mPointLights i).map (fun l => l.mpBody.mMesh)
      = (s2.mPointLights i).map (fun l => l.mpBody.mMesh))
    (hSL : ∀ i, (s1.mSpotlights i).map (fun l => l.mpBody.mMesh)
      = (s2.mSpotlights i).map (fun l => l.mpBody.mMesh))
    (hDL : ∀ i, (s1.mDirectionalLights i).map (fun l => l.mpBody.mMesh)
      = (s2.mDirectionalLights i).map (fun l => l.mpBody.mMesh))
    (hTop : s1.mLightStackTop = s2.mLightStackTop)
    (hDV : s1.mShadowMapSpotlightDepthStencil = s2.mShadowMapSpotlightDepthStencil)
    (hSV : s1.mShadowMapSpotlightSRV = s2.mShadowMapSpotlightSRV)
    (hPD : s1.mPortalDepthStencilView = s2.mPortalDepthStencilView)
    (hCam : s1.mCamera.isSome = s2.mCamera.isSome) :
    s1.shapeWith rounds = s2.shapeWith rounds := by
  simp only [CSceneManager.shapeWith, SceneShape.mk.injEq]
  exact ⟨funext hT, funext hM, hX, hP, funext hPL, funext hSL, funext hDL, by rw [hTop],
    by rw [hTop], by rw [hTop], hDV, hSV, hPD, hCam⟩

/-- The function `RenderDepthBufferFromLight` keeps the shape of the scene and
the mesh of the light, and emits the events of a depth render. -/
theorem CSceneManager.RenderDepthBufferFromLight_emits [One α] (L : MathLib α)
    (rounds : α → Nat) (s : CSceneManager α) (g : Gfx α) (light : CSpotlight α) :
    (s.RenderDepthBufferFromLight L g light).2.1.shapeWith rounds = s.shapeWith rounds
      ∧ (s.RenderDepthBufferFromLight L g light).2.1.mSpotlights = s.mSpotlights
      ∧ (s.RenderDepthBufferFromLight L g light).1.mpBody.mMesh = light.mpBody.mMesh
      ∧ g.Emits (s.RenderDepthBufferFromLight L g light).2.2
          (depthEvents (s.shapeWith rounds)) := by
  unfold CSceneManager.RenderDepthBufferFromLight
  dsimp only
  generalize hg1 : Gfx.emit _ _ = g1
  have e1 : g.Emits g1 [Event.VSSetConstantBuffers 0 ConstantBuffer.perFrame,
      Event.PSSetConstantBuffers 0 ConstantBuffer.perFrame,
      Event.VSSetShader vs_BasicTransform,
      Event.PSSetShader ps_DepthOnly,
      Event.OMSetBlendState BlendState.NoBlending,
      Event.OMSetDepthStencilState DepthState.UseDepthBuffer,
      Event.RSSetState RasterState.CullBack] := by
    rw [← hg1]
    exact events_append _ _
  obtain ⟨m1, m2⟩ := renderBuckets_emits L s.mModelCollection g1
  obtain ⟨p1, p2⟩ := renderPortals_emits L s.mPortalCollection
    (renderBuckets L s.mModelCollection g1).2
  have e2 := Gfx.emit_emits (renderPortals L s.mPortalCollection
    (renderBuckets L s.mModelCollection g1).2).2 [Cmd.RSSetState RasterState.CullNone]
  obtain ⟨t1, t2⟩ := renderBuckets_emits L s.mTeapotCollection
    ((renderPortals L s.mPortalCollection (renderBuckets L s.mModelCollection g1).2).2.emit
      [Cmd.RSSetState RasterState.CullNone])
  have e3 := Gfx.emit_emits (renderBuckets L s.mTeapotCollection
    ((renderPortals L s.mPortalCollection (renderBuckets L s.mModelCollection g1).2).2.emit
      [Cmd.RSSetState RasterState.CullNone])).2
    [Cmd.OMSetBlendState BlendState.Multiplicative,
     Cmd.OMSetDepthStencilState DepthState.DepthReadOnly]
  obtain ⟨x1, x2⟩ := renderModels_emits L s.mTransparentModels
    ((renderBuckets L s.mTeapotCollection
      ((renderPortals L s.mPortalCollection (renderBuckets L s.mModelCollection g1).2).2.emit
        [Cmd.RSSetState RasterState.CullNone])).2.emit
      [Cmd.OMSetBlendState BlendState.Multiplicative,
       Cmd.OMSetDepthStencilState DepthState.DepthReadOnly])
  refine ⟨?_, rfl, rfl, ?_⟩
  · exact CSceneManager.shapeWith_congr rounds _ s t1 m1 x1 p1 (fun _ => rfl) (fun _ => rfl)
      (fun _ => rfl) rfl rfl rfl rfl rfl
  · exact ((((((e1.seq m2).seq p2).seq e2).seq t2).seq e3).seq x2).as rfl


/-- Binding a model texture emits the binding of the view of that index. -/
theorem bindModelTexture_emits (slot : Nat) (m : Model α) (index : Nat) (g : Gfx α) :
    g.Emits (bindModelTexture slot m index g)
      [Event.PSSetShaderResources slot [m.shape.view index]] := by
  unfold bindModelTexture
  split
  · exact ((Gfx.raise_emits g).seq (Gfx.emit_emits _ _)).as rfl
  · exact (Gfx.emit_emits _ _).as rfl

/-- The inner loop of a sweep keeps the shapes and emits, for each model, its
texture bindings and its render. -/
theorem drawTexturedModels_emits (L : MathLib α) (secondTexture : Bool)
    (ms : List (Model α)) (g : Gfx α) :
    (drawTexturedModels L secondTexture ms g).1.map Model.shape = ms.map Model.shape
      ∧ g.Emits (drawTexturedModels L secondTexture ms g).2
          (texturedEvents secondTexture (ms.map Model.shape)) := by
  induction ms generalizing g with
  | nil => exact ⟨rfl, Gfx.Emits.none g⟩
  | cons m rest ih =>
    have h1 := bindModelTexture_emits 0 m 0 g
    have h2 : (bindModelTexture 0 m 0 g).Emits
        (if secondTexture then
          bindModelTexture (gsNumSpotlights + 1) m 1 (bindModelTexture 0 m 0 g)
         else bindModelTexture 0 m 0 g)
        (if secondTexture then
          [Event.PSSetShaderResources (gsNumSpotlights + 1) [m.shape.view 1]] else []) := by
      split
      · exact bindModelTexture_emits _ _ _ _
      · exact Gfx.Emits.none _
    obtain ⟨i1, i2⟩ := ih (m.Render L
      (if secondTexture then
        bindModelTexture (gsNumSpotlights + 1) m 1 (bindModelTexture 0 m 0 g)
       else bindModelTexture 0 m 0 g)).2
    refine ⟨?_, ?_⟩
    · show (m.Render L _).1.shape :: _ = m.shape :: _
      rw [i1]
      rfl
    · exact (((h1.seq h2).seq (Model.Render_emits L m _).2).seq i2).as
        (by simp [texturedEvents])

/-- The shader switches issue the same events and make the same decision
whatever the type of the numbers. -/
theorem shaderSwitch_events (i : Nat) :
    (events (shaderSwitchNoCull i : List (Cmd α) × Bool).1
        = events (shaderSwitchNoCull i : List (Cmd Unit) × Bool).1
      ∧ (shaderSwitchNoCull i : List (Cmd α) × Bool).2
        = (shaderSwitchNoCull i : List (Cmd Unit) × Bool).2)
    ∧ (events (shaderSwitchCullBack i : List (Cmd α) × Bool).1
        = events (shaderSwitchCullBack i : List (Cmd Unit) × Bool).1
      ∧ (shaderSwitchCullBack i : List (Cmd α) × Bool).2
        = (shaderSwitchCullBack i : List (Cmd Unit) × Bool).2) := by
  unfold shaderSwitchNoCull shaderSwitchCullBack
  refine ⟨⟨?_, ?_⟩, ⟨?_, ?_⟩⟩ <;> (split_ifs <;> rfl)

/-- A sweep over the buckets keeps the shapes and emits, for each bucket index
in ascending order, the events of the shader switch and of the inner loop. -/
theorem sweepBuckets_emits (L : MathLib α) (shaderSwitch : Nat → List (Cmd α) × Bool)
    (switchEvents : Nat → List (Cmd Unit) × Bool)
    (hsw : ∀ i, events (shaderSwitch i).1 = events (switchEvents i).1
      ∧ (shaderSwitch i).2 = (switchEvents i).2)
    (collection : Fin gsNumOfModelPS → List (Model α)) (g : Gfx α) :
    (∀ j, ((sweepBuckets L shaderSwitch collection g).1 j).map Model.shape
        = (collection j).map Model.shape)
      ∧ g.Emits (sweepBuckets L shaderSwitch collection g).2
          (sweepEvents switchEvents (fun i => (collection i).map Model.shape)) :=
  bucketLoop_emits
    (fun i ms g => drawTexturedModels L (shaderSwitch i).2 ms (g.emit (shaderSwitch i).1))
    (fun i ms => events (switchEvents i).1 ++ texturedEvents (switchEvents i).2 ms)
    (fun i ms g => by
      obtain ⟨h1, h2⟩ := drawTexturedModels_emits L (shaderSwitch i).2 ms
        (g.emit (shaderSwitch i).1)
      refine ⟨h1, ?_⟩
      show g.Emits _ (events (switchEvents i).1 ++ texturedEvents (switchEvents i).2 _)
      rw [← (hsw i).1, ← (hsw i).2]
      exact (Gfx.emit_emits g _).seq h2)
    collection g

/-- The portal loop of the lit-scene render keeps the shapes and emits, for each
portal, the binding of its own view and its render. -/
theorem drawPortals_emits (L : MathLib α) (ps : List (CPortal α)) (g : Gfx α) :
    (drawPortals L ps g).1.map CPortal.shape = ps.map CPortal.shape
      ∧ g.Emits (drawPortals L ps g).2
          ((ps.map CPortal.shape).flatMap (fun p =>
            Event.PSSetShaderResources (gsNumSpotlights + 1) [ViewRef.handle p.view]
              :: renderEvents p.mesh)) := by
  induction ps generalizing g with
  | nil => exact ⟨rfl, Gfx.Emits.none g⟩
  | cons p rest ih =>
    have h1 := Gfx.emit_emits g
      [Cmd.PSSetShaderResources (gsNumSpotlights + 1) [ViewRef.handle p.mTextureSRV]]
    obtain ⟨i1, i2⟩ := ih (p.Render L (g.emit
      [Cmd.PSSetShaderResources (gsNumSpotlights + 1) [ViewRef.handle p.mTextureSRV]])).2
    refine ⟨?_, ?_⟩
    · show (p.Render L _).1.shape :: _ = p.shape :: _
      rw [i1]
      rfl
    · exact ((h1.seq (Model.Render_emits L p.mpBody _).2).seq i2).as
        (by simp [CPortal.shape, Model.shape, events, Cmd.event])

/-- The transparent loop keeps the shapes and emits, for each model, the binding
of its first texture and its render. -/
theorem drawTransparentModels_emits (L : MathLib α) (ms : List (Model α)) (g : Gfx α) :
    (drawTransparentModels L ms g).1.map Model.shape = ms.map Model.shape
      ∧ g.Emits (drawTransparentModels L ms g).2
          ((ms.map Model.shape).flatMap (fun m =>
            Event.PSSetShaderResources 0 [m.view 0] :: renderEvents m.mesh)) := by
  induction ms generalizing g with
  | nil => exact ⟨rfl, Gfx.Emits.none g⟩
  | cons m rest ih =>
    obtain ⟨i1, i2⟩ := ih (m.Render L (bindModelTexture 0 m 0 g)).2
    refine ⟨?_, ?_⟩
    · show (m.Render L _).1.shape :: _ = m.shape :: _
      rw [i1]
      rfl
    · exact (((bindModelTexture_emits 0 m 0 g).seq (Model.Render_emits L m _).2).seq i2).as
        (by simp)

/-- A light marker loop keeps the mesh of every slot and emits the render of the
light of each round; `base` reads the light out of a slot and `rebase` puts it
back. -/
theorem drawLightMarkers_emits [LinearOrderedField α] [FloorRing α] {β : Type}
    (L : MathLib α) (n : Nat) (base : β → CLight α) (rebase : β → CLight α → β)
    (hbase : ∀ l c, (base (rebase l c)).mpBody.mMesh = c.mpBody.mMesh) (top : α)
    (lights : Fin n → Option β) (g : Gfx α) :
    (∀ j, ((drawLightMarkers L n base rebase top lights g).1 j).map
        (fun l => (base l).mpBody.mMesh) = (lights j).map (fun l => (base l).mpBody.mMesh))
      ∧ g.Emits (drawLightMarkers L n base rebase top lights g).2
          (markerEvents (loopRounds top)
            (fun j => (lights j).map (fun l => (base l).mpBody.mMesh))) := by
  unfold drawLightMarkers markerEvents
  refine forLoop_emits (fun st : (Fin n → Option β) × Gfx α => st.2)
    (fun st => ∀ j, (st.1 j).map (fun l => (base l).mpBody.mMesh)
      = (lights j).map (fun l => (base l).mpBody.mMesh)) _ _ _ _ (fun _ => rfl) ?_
  intro i st _ hst
  by_cases h : i < n
  · simp only [dif_pos h]
    have hslot := hst ⟨i, h⟩
    cases hs : st.1 ⟨i, h⟩ with
    | none =>
      rw [hs] at hslot
      simp only [← hslot, Option.map_none']
      exact ⟨hst, Gfx.raise_emits _⟩
    | some l =>
      rw [hs] at hslot
      simp only [← hslot, Option.map_some']
      refine ⟨?_, ?_⟩
      · intro j
        by_cases hj : j = ⟨i, h⟩
        · subst hj
          rw [Function.update_same, ← hst ⟨i, h⟩, hs]
          simp only [Option.map_some']
          rw [hbase]
          rfl
        · rw [Function.update_noteq hj]
          exact hst j
      · exact events_append _ _
  · simp only [dif_neg h]
    exact ⟨hst, Gfx.raise_emits _⟩


/-- The function `RenderSceneFromCamera` keeps the shape of the scene and emits
the events of a lit-scene render. -/
theorem CSceneManager.RenderSceneFromCamera_emits [LinearOrderedField α] [FloorRing α]
    (K : CameraLib α) (L : MathLib α) (s : CSceneManager α) (g : Gfx α) (camera : Camera α) :
    (s.RenderSceneFromCamera K L g camera).1.shape = s.shape
      ∧ g.Emits (s.RenderSceneFromCamera K L g camera).2 (litEvents s.shape) := by
  unfold CSceneManager.RenderSceneFromCamera
  dsimp only
  have e1 : g.Emits
      (({ g with
          gPerFrameConstants :=
            { g.gPerFrameConstants with
              viewMatrix := K.ViewMatrix camera
              projectionMatrix := K.ProjectionMatrix camera
              viewProjectionMatrix := K.ViewProjectionMatrix camera } }).emit
        [Cmd.UpdatePerFrame
          { g.gPerFrameConstants with
            viewMatrix := K.ViewMatrix camera
            projectionMatrix := K.ProjectionMatrix camera
            viewProjectionMatrix := K.ViewProjectionMatrix camera },
         Cmd.VSSetConstantBuffers 0 ConstantBuffer.perFrame,
         Cmd.PSSetConstantBuffers 0 ConstantBuffer.perFrame,
         Cmd.OMSetBlendState BlendState.NoBlending,
         Cmd.OMSetDepthStencilState DepthState.UseDepthBuffer,
         Cmd.PSSetSamplers 0 Sampler.Anisotropic4x,
         Cmd.RSSetState RasterState.CullNone])
      [Event.VSSetConstantBuffers 0 ConstantBuffer.perFrame,
       Event.PSSetConstantBuffers 0 ConstantBuffer.perFrame,
       Event.OMSetBlendState BlendState.NoBlending,
       Event.OMSetDepthStencilState DepthState.UseDepthBuffer,
       Event.PSSetSamplers 0 Sampler.Anisotropic4x,
       Event.RSSetState RasterState.CullNone] := events_append _ _
  generalize Gfx.emit { g with
      gPerFrameConstants :=
        { g.gPerFrameConstants with
          viewMatrix := K.ViewMatrix camera
          projectionMatrix := K.ProjectionMatrix camera
          viewProjectionMatrix := K.ViewProjectionMatrix camera } } _ = g1 at e1 ⊢
  obtain ⟨t1, t2⟩ := sweepBuckets_emits L shaderSwitchNoCull shaderSwitchNoCull
    (fun i => (shaderSwitch_events i).1) s.mTeapotCollection g1
  generalize sweepBuckets L shaderSwitchNoCull s.mTeapotCollection g1 = teapots at t1 t2 ⊢
  have e2 := Gfx.emit_emits teapots.2 [Cmd.RSSetState RasterState.CullBack]
  generalize teapots.2.emit [Cmd.RSSetState RasterState.CullBack] = g2 at e2 ⊢
  obtain ⟨m1, m2⟩ := sweepBuckets_emits L shaderSwitchCullBack shaderSwitchCullBack
    (fun i => (shaderSwitch_events i).2) s.mModelCollection g2
  generalize sweepBuckets L shaderSwitchCullBack s.mModelCollection g2 = models at m1 m2 ⊢
  have e3 := Gfx.emit_emits models.2
    [Cmd.PSSetShader ps_Portal, Cmd.PSSetShaderResources 0 [ViewRef.texture TVTexture]]
  generalize models.2.emit
    [Cmd.PSSetShader ps_Portal, Cmd.PSSetShaderResources 0 [ViewRef.texture TVTexture]]
    = g3 at e3 ⊢
  obtain ⟨p1, p2⟩ := drawPortals_emits L s.mPortalCollection g3
  generalize drawPortals L s.mPortalCollection g3 = portals at p1 p2 ⊢
  have e4 := Gfx.emit_emits portals.2
    [Cmd.VSSetShader vs_BasicTransform,
     Cmd.PSSetShader ps_LightModel,
     Cmd.PSSetShaderResources 0 [ViewRef.texture FlareTexture],
     Cmd.PSSetSamplers 0 Sampler.Anisotropic4x,
     Cmd.OMSetBlendState BlendState.Additive,
     Cmd.OMSetDepthStencilState DepthState.DepthReadOnly,
     Cmd.RSSetState RasterState.CullNone]
  generalize portals.2.emit
    [Cmd.VSSetShader vs_BasicTransform,
     Cmd.PSSetShader ps_LightModel,
     Cmd.PSSetShaderResources 0 [ViewRef.texture FlareTexture],
     Cmd.PSSetSamplers 0 Sampler.Anisotropic4x,
     Cmd.OMSetBlendState BlendState.Additive,
     Cmd.OMSetDepthStencilState DepthState.DepthReadOnly,
     Cmd.RSSetState RasterState.CullNone] = g4 at e4 ⊢
  obtain ⟨a1, a2⟩ := drawLightMarkers_emits L gsNumPointLights id (fun _ l => l)
    (fun _ _ => rfl) s.mLightStackTop.x s.mPointLights g4
  generalize drawLightMarkers L gsNumPointLights id (fun _ l => l) s.mLightStackTop.x
    s.mPointLights g4 = points at a1 a2 ⊢
  obtain ⟨b1, b2⟩ := drawLightMarkers_emits L gsNumSpotlights CSpotlight.toCLight
    (fun sp l => { sp with toCLight := l }) (fun _ _ => rfl) s.mLightStackTop.y
    s.mSpotlights points.2
  generalize drawLightMarkers L gsNumSpotlights CSpotlight.toCLight
    (fun sp l => { sp with toCLight := l }) s.mLightStackTop.y s.mSpotlights points.2
    = spots at b1 b2 ⊢
  obtain ⟨c1, c2⟩ := drawLightMarkers_emits L gsNumDirectionalLights id (fun _ l => l)
    (fun _ _ => rfl) s.mLightStackTop.z s.mDirectionalLights spots.2
  generalize drawLightMarkers L gsNumDirectionalLights id (fun _ l => l) s.mLightStackTop.z
    s.mDirectionalLights spots.2 = directionals at c1 c2 ⊢
  have e5 := Gfx.emit_emits directionals.2
    [Cmd.VSSetShader vs_BasicTransform,
     Cmd.PSSetShader ps_Transparent,
     Cmd.PSSetSamplers 0 Sampler.Trilinear,
     Cmd.OMSetBlendState BlendState.Multiplicative,
     Cmd.OMSetDepthStencilState DepthState.DepthReadOnly,
     Cmd.RSSetState RasterState.CullNone]
  generalize directionals.2.emit
    [Cmd.VSSetShader vs_BasicTransform,
     Cmd.PSSetShader ps_Transparent,
     Cmd.PSSetSamplers 0 Sampler.Trilinear,
     Cmd.OMSetBlendState BlendState.Multiplicative,
     Cmd.OMSetDepthStencilState DepthState.DepthReadOnly,
     Cmd.RSSetState RasterState.CullNone] = g5 at e5 ⊢
  obtain ⟨x1, x2⟩ := drawTransparentModels_emits L s.mTransparentModels g5
  generalize drawTransparentModels L s.mTransparentModels g5 = transparent at x1 x2 ⊢
  refine ⟨?_, ?_⟩
  · exact CSceneManager.shapeWith_congr loopRounds _ s t1 m1 x1 p1 a1 b1 c1 rfl rfl rfl rfl rfl
  · exact (((((((((((e1.seq t2).seq e2).seq m2).seq e3).seq p2).seq e4).seq a2).seq b2).seq
      c2).seq e5).seq x2).as rfl


/-- Writing back into a slot a spotlight with the mesh of the one that was there
leaves the meshes of all slots as they were. -/
theorem Function.update_map_mesh {n : Nat} (f : Fin n → Option (CSpotlight α)) (k : Fin n)
    (new old : CSpotlight α) (hk : f k = some old)
    (hm : new.mpBody.mMesh = old.mpBody.mMesh) (j : Fin n) :
    (Function.update f k (some new) j).map (fun l => l.mpBody.mMesh)
      = (f j).map (fun l => l.mpBody.mMesh) := by
  by_cases hj : j = k
  · subst hj
    rw [Function.update_same, hk]
    exact congrArg some hm
  · rw [Function.update_noteq hj]

/-- A round of the spotlight loop of the aggregation keeps the shape of the
scene and issues no call. -/
theorem CSceneManager.aggregateSpot_shape [Field α] (L : MathLib α) (rounds : α → Nat)
    (i : Nat) (st : CSceneManager α × Gfx α) :
    (CSceneManager.aggregateSpot L i st).1.shapeWith rounds = st.1.shapeWith rounds
      ∧ (CSceneManager.aggregateSpot L i st).2.calls = st.2.calls := by
  unfold CSceneManager.aggregateSpot
  by_cases h : i < gsNumSpotlights
  · rw [dif_pos h]
    cases hs : st.1.mSpotlights ⟨i, h⟩ with
    | none => exact ⟨rfl, rfl⟩
    | some sp =>
      refine ⟨?_, rfl⟩
      refine CSceneManager.shapeWith_congr rounds _ st.1 (fun _ => rfl) (fun _ => rfl) rfl rfl
        (fun _ => rfl) ?_ (fun _ => rfl) rfl rfl rfl rfl rfl
      intro j
      by_cases hj : j = ⟨i, h⟩
      · subst hj
        show Option.map _ (Function.update st.1.mSpotlights _ _ _) = _
        rw [Function.update_same, hs]
        rfl
      · show Option.map _ (Function.update st.1.mSpotlights _ _ _) = _
        rw [Function.update_noteq hj]
  · rw [dif_neg h]
    exact ⟨rfl, rfl⟩

/-- The light aggregation keeps the shape of the scene. -/
theorem CSceneManager.aggregateLights_shape [LinearOrderedField α] [FloorRing α]
    (L : MathLib α) (s : CSceneManager α) (g : Gfx α) :
    (s.aggregateLights L g).1.shape = s.shape := by
  have hp : (forLoop (loopRounds s.mLightStackTop.x) CSceneManager.aggregatePoint (s, g)).1
      = s := by
    refine forLoop_induction (fun st : CSceneManager α × Gfx α => st.1 = s) _ _ _ rfl ?_
    intro i st hst
    exact (CSceneManager.aggregatePoint_keeps i st).1.trans hst
  have hs : (forLoop (loopRounds s.mLightStackTop.y) (CSceneManager.aggregateSpot L)
      (forLoop (loopRounds s.mLightStackTop.x) CSceneManager.aggregatePoint (s, g))).1.shape
        = s.shape := by
    refine forLoop_induction (fun st : CSceneManager α × Gfx α => st.1.shape = s.shape) _ _ _
      (congrArg CSceneManager.shape hp) ?_
    intro i st hst
    exact (CSceneManager.aggregateSpot_shape L loopRounds i st).1.trans hst
  unfold CSceneManager.aggregateLights
  dsimp only
  split
  · exact hs
  · exact hs

/-- One round of the shadow loop keeps the shape of the scene and emits the
events of a shadow pass. -/
theorem CSceneManager.shadowPass_emits [Field α] (L : MathLib α) (rounds : α → Nat) (i : Nat)
    (st : CSceneManager α × Gfx α) :
    (CSceneManager.shadowPass L i st).1.shapeWith rounds = st.1.shapeWith rounds
      ∧ st.2.Emits (CSceneManager.shadowPass L i st).2
          (shadowPassEvents (st.1.shapeWith rounds) i) := by
  unfold CSceneManager.shadowPass shadowPassEvents
  by_cases h : i < gsNumSpotlights
  · rw [dif_pos h, dif_pos h]
    have h1 := Gfx.emit_emits st.2
      [Cmd.OMSetRenderTargets none
        (DepthRef.handle (st.1.mShadowMapSpotlightDepthStencil ⟨i, h⟩)),
       Cmd.ClearDepthStencilView
        (DepthRef.handle (st.1.mShadowMapSpotlightDepthStencil ⟨i, h⟩))]
    have hslot : (st.1.shapeWith rounds).spotlights ⟨i, h⟩
        = (st.1.mSpotlights ⟨i, h⟩).map (fun l => l.mpBody.mMesh) := rfl
    cases hs : st.1.mSpotlights ⟨i, h⟩ with
    | none =>
      rw [hslot, hs]
      exact ⟨rfl, (h1.seq (Gfx.raise_emits _)).as rfl⟩
    | some sp =>
      rw [hslot, hs]
      obtain ⟨r1, r2, r3, r4⟩ := CSceneManager.RenderDepthBufferFromLight_emits L rounds st.1
        (st.2.emit
          [Cmd.OMSetRenderTargets none
            (DepthRef.handle (st.1.mShadowMapSpotlightDepthStencil ⟨i, h⟩)),
           Cmd.ClearDepthStencilView
            (DepthRef.handle (st.1.mShadowMapSpotlightDepthStencil ⟨i, h⟩))]) sp
      refine ⟨?_, (h1.seq r4).as rfl⟩
      refine Eq.trans ?_ r1
      refine CSceneManager.shapeWith_congr rounds _ _ (fun _ => rfl) (fun _ => rfl) rfl rfl
        (fun _ => rfl) ?_ (fun _ => rfl) rfl rfl rfl rfl rfl
      intro j
      exact Function.update_map_mesh _ _ _ sp (by rw [r2]; exact hs) r3 j
  · rw [dif_neg h, dif_neg h]
    exact ⟨rfl, Gfx.raise_emits _⟩

/-- The shadow loop of `RenderScene` keeps the shape of the scene and emits the
events of its rounds in order. -/
theorem CSceneManager.shadowPasses_emits [LinearOrderedField α] [FloorRing α]
    (L : MathLib α) (s : CSceneManager α) (g : Gfx α) :
    (s.shadowPasses L g).1.shape = s.shape
      ∧ g.Emits (s.shadowPasses L g).2
          ((List.range s.shape.spotRounds).flatMap (shadowPassEvents s.shape)) := by
  unfold CSceneManager.shadowPasses
  refine forLoop_emits (fun st : CSceneManager α × Gfx α => st.2)
    (fun st => st.1.shape = s.shape) _ _ _ _ rfl ?_
  intro i st _ hst
  obtain ⟨h1, h2⟩ := CSceneManager.shadowPass_emits L loopRounds i st
  refine ⟨h1.trans hst, ?_⟩
  have e : st.1.shapeWith loopRounds = s.shape := hst
  rw [e] at h2
  exact h2

/-- A sum over the positions of a list is the sum over its entries. -/
theorem flatMap_range_get {β γ : Type} (f : β → List γ) (l : List β) :
    (List.range l.length).flatMap (fun k => (l.get? k).elim [] f) = l.flatMap f := by
  induction l with
  | nil => rfl
  | cons x rest ih =>
    rw [List.length_cons, List.range_succ_eq_map, List.flatMap_cons, List.flatMap_map]
    simp only [List.get?_cons_zero, List.flatMap_cons]
    rw [← ih]
    rfl


/-- The portal loop of `RenderScene` keeps the shape of the scene and emits the
events of a portal pass for each portal, in the order of the collection. -/
theorem CSceneManager.portalPasses_emits [LinearOrderedField α] [FloorRing α]
    (K : CameraLib α) (L : MathLib α) (s : CSceneManager α) (g : Gfx α) :
    (s.portalPasses K L g).1.shape = s.shape
      ∧ g.Emits (s.portalPasses K L g).2
          (s.shape.portals.flatMap (portalPassEvents s.shape)) := by
  unfold CSceneManager.portalPasses
  have key := forLoop_emits (fun st : CSceneManager α × Gfx α => st.2)
    (fun st => st.1.shape = s.shape) s.mPortalCollection.length
    (fun k st =>
      match st.1.mPortalCollection.get? k with
      | some portal =>
        st.1.RenderSceneFromCamera K L
          (st.2.emit
            [Cmd.OMSetRenderTargets (some (RenderTargetRef.handle portal.mRenderTarget))
              (DepthRef.handle st.1.mPortalDepthStencilView),
             Cmd.PSSetShaderResources 1 st.1.shadowMapViews,
             Cmd.ClearRenderTargetView (RenderTargetRef.handle portal.mRenderTarget)
              st.1.mBackgroundColor,
             Cmd.ClearDepthStencilView (DepthRef.handle st.1.mPortalDepthStencilView)])
          portal.mCamera
      | none => (st.1, st.2.raise))
    (fun k => (s.shape.portals.get? k).elim [] (portalPassEvents s.shape))
    (s, g) rfl ?_
  · refine ⟨key.1, key.2.as ?_⟩
    have hlen : s.mPortalCollection.length = s.shape.portals.length :=
      (List.length_map _ _).symm
    rw [hlen]
    exact flatMap_range_get (portalPassEvents s.shape) s.shape.portals
  · intro k st _ hst
    have hportals : st.1.mPortalCollection.map CPortal.shape = s.shape.portals :=
      congrArg SceneShape.portals hst
    have hget : s.shape.portals.get? k = (st.1.mPortalCollection.get? k).map CPortal.shape := by
      rw [← hportals]
      simp only [List.get?_eq_getElem?, List.getElem?_map]
    dsimp only
    rw [hget]
    cases hp : st.1.mPortalCollection.get? k with
    | none => exact ⟨hst, Gfx.raise_emits _⟩
    | some portal =>
      obtain ⟨r1, r2⟩ := CSceneManager.RenderSceneFromCamera_emits K L st.1
        (st.2.emit
          [Cmd.OMSetRenderTargets (some (RenderTargetRef.handle portal.mRenderTarget))
            (DepthRef.handle st.1.mPortalDepthStencilView),
           Cmd.PSSetShaderResources 1 st.1.shadowMapViews,
           Cmd.ClearRenderTargetView (RenderTargetRef.handle portal.mRenderTarget)
            st.1.mBackgroundColor,
           Cmd.ClearDepthStencilView (DepthRef.handle st.1.mPortalDepthStencilView)])
        portal.mCamera
      refine ⟨r1.trans hst, ?_⟩
      have h1 := Gfx.emit_emits st.2
        [Cmd.OMSetRenderTargets (some (RenderTargetRef.handle portal.mRenderTarget))
          (DepthRef.handle st.1.mPortalDepthStencilView),
         Cmd.PSSetShaderResources 1 st.1.shadowMapViews,
         Cmd.ClearRenderTargetView (RenderTargetRef.handle portal.mRenderTarget)
          st.1.mBackgroundColor,
         Cmd.ClearDepthStencilView (DepthRef.handle st.1.mPortalDepthStencilView)]
      have h2 := h1.seq r2
      rw [← hst]
      exact h2.as rfl

/-- The function `RenderScene` keeps the shape of the scene and emits the events
of a frame. -/
theorem CSceneManager.RenderScene_emits [LinearOrderedField α] [FloorRing α]
    (K : CameraLib α) (L : MathLib α) (s : CSceneManager α) (g : Gfx α) :
    (s.RenderScene K L g).1.shape = s.shape
      ∧ g.Emits (s.RenderScene K L g).2 (frameEvents s.shape) := by
  unfold CSceneManager.RenderScene
  dsimp only
  have a1 := CSceneManager.aggregateLights_shape L s g
  have a2 : g.Emits (s.aggregateLights L g).2 [] := by
    unfold Gfx.Emits
    rw [CSceneManager.aggregateLights_calls, List.append_nil]
  generalize s.aggregateLights L g = a at a1 a2 ⊢
  have e1 := Gfx.emit_emits a.2 [Cmd.RSSetViewports a.1.mShadowMapSize a.1.mShadowMapSize]
  generalize a.2.emit [Cmd.RSSetViewports a.1.mShadowMapSize a.1.mShadowMapSize] = g1 at e1 ⊢
  obtain ⟨s1, s2⟩ := CSceneManager.shadowPasses_emits L a.1 g1
  rw [a1] at s1 s2
  generalize a.1.shadowPasses L g1 = sh at s1 s2 ⊢
  have e2 := Gfx.emit_emits sh.2
    [Cmd.RSSetViewports sh.1.mPortalWidth sh.1.mPortalHeight, Cmd.PSSetSamplers 1 Sampler.Point]
  generalize sh.2.emit
    [Cmd.RSSetViewports sh.1.mPortalWidth sh.1.mPortalHeight, Cmd.PSSetSamplers 1 Sampler.Point]
    = g2 at e2 ⊢
  obtain ⟨p1, p2⟩ := CSceneManager.portalPasses_emits K L sh.1 g2
  rw [s1] at p1 p2
  generalize sh.1.portalPasses K L g2 = po at p1 p2 ⊢
  have e3 := Gfx.emit_emits po.2
    [Cmd.OMSetRenderTargets (some RenderTargetRef.backBuffer) DepthRef.mainDepth,
     Cmd.ClearRenderTargetView RenderTargetRef.backBuffer po.1.mBackgroundColor,
     Cmd.ClearDepthStencilView DepthRef.mainDepth,
     Cmd.RSSetViewports po.2.gViewportWidth po.2.gViewportHeight]
  generalize po.2.emit
    [Cmd.OMSetRenderTargets (some RenderTargetRef.backBuffer) DepthRef.mainDepth,
     Cmd.ClearRenderTargetView RenderTargetRef.backBuffer po.1.mBackgroundColor,
     Cmd.ClearDepthStencilView DepthRef.mainDepth,
     Cmd.RSSetViewports po.2.gViewportWidth po.2.gViewportHeight] = g3 at e3 ⊢
  have hcam : po.1.mCamera.isSome = s.shape.hasCamera := congrArg SceneShape.hasCamera p1
  have front := ((((a2.seq e1).seq s2).seq e2).seq p2).seq e3
  cases hc : po.1.mCamera with
  | none =>
    rw [hc] at hcam
    dsimp only
    refine ⟨p1, ?_⟩
    refine ((front.seq (Gfx.raise_emits g3)).seq (Gfx.emit_emits _ _)).as ?_
    unfold frameEvents
    rw [← hcam]
    rfl
  | some camera =>
    rw [hc] at hcam
    dsimp only
    obtain ⟨m1, m2⟩ := CSceneManager.RenderSceneFromCamera_emits K L po.1 g3 camera
    rw [p1] at m1 m2
    refine ⟨m1, ?_⟩
    refine ((front.seq m2).seq (Gfx.emit_emits _ _)).as ?_
    unfold frameEvents
    rw [← hcam]
    rfl


/-! ### Rendering: the draws of the lit scene and the state they are issued in -/

/-- The device state after two runs of events, one after the other. -/
theorem DeviceState.run_append (st : DeviceState) (a b : List Event) :
    st.run (a ++ b) = (st.run a).run b :=
  List.foldl_append _ _ _ _

/-- The draws of two runs of events, one after the other. -/
theorem drawRecords_append (st : DeviceState) (a b : List Event) :
    drawRecords st (a ++ b) = drawRecords st a ++ drawRecords (st.run a) b := by
  induction a generalizing st with
  | nil => rfl
  | cons e rest ih =>
    cases e <;> simp [drawRecords, DeviceState.run, DeviceState.step, ih]

/-- Two segments, one after the other. -/
theorem Segment.andThenSegment {P Q R : DeviceState → Prop} {a b : List Event} {ra rb : List DrawRecord}
    (h1 : Segment P Q a ra) (h2 : Segment Q R b rb) : Segment P R (a ++ b) (ra ++ rb) := by
  intro st hst
  obtain ⟨r1, q1⟩ := h1 st hst
  obtain ⟨r2, q2⟩ := h2 _ q1
  rw [drawRecords_append, DeviceState.run_append, r1, r2]
  exact ⟨rfl, q2⟩

/-- A segment under a stronger condition at its start and a weaker one at its
end. -/
theorem Segment.mono {P P2 Q Q2 : DeviceState → Prop} {a : List Event} {ra : List DrawRecord}
    (h : Segment P Q a ra) (hP : ∀ st, P2 st → P st) (hQ : ∀ st, Q st → Q2 st) :
    Segment P2 Q2 a ra :=
  fun st hst => ⟨(h st (hP st hst)).1, hQ _ (h st (hP st hst)).2⟩

/-- Segments that keep a condition, one for each entry of a list. -/
theorem Segment.flatMap {β : Type} (P : DeviceState → Prop) (xs : List β)
    (ev : β → List Event) (rc : β → List DrawRecord) (h : ∀ x, Segment P P (ev x) (rc x)) :
    Segment P P (xs.flatMap ev) (xs.flatMap rc) := by
  induction xs with
  | nil => exact fun st hst => ⟨rfl, hst⟩
  | cons x rest ih =>
    rw [List.flatMap_cons, List.flatMap_cons]
    exact (h x).andThenSegment ih

/-- One entry for each entry of a list. -/
theorem flatMap_single {β γ : Type} (f : β → γ) (l : List β) :
    l.flatMap (fun x => [f x]) = l.map f := by
  induction l with
  | nil => rfl
  | cons x rest ih => rw [List.flatMap_cons, ih]; rfl

/-- The shader switches make no draw and leave the device state alone. -/
theorem shaderSwitch_segment (P : DeviceState → Prop) (i : Nat) :
    Segment P P (events (shaderSwitchNoCull i : List (Cmd Unit) × Bool).1) []
      ∧ Segment P P (events (shaderSwitchCullBack i : List (Cmd Unit) × Bool).1) [] := by
  unfold shaderSwitchNoCull shaderSwitchCullBack
  constructor <;> (split_ifs <;> exact fun st hst => ⟨rfl, hst⟩)

/-- The inner loop of a sweep draws each model once, in order, in the states
that the sweep has set, after binding the model's texture. -/
theorem texturedEvents_segment (r : RasterState) (b : BlendState) (d : DepthState)
    (secondTexture : Bool) (ms : List ModelShape) :
    Segment (DeviceState.Has r b d) (DeviceState.Has r b d) (texturedEvents secondTexture ms)
      (ms.map (fun m => ⟨m.mesh, some r, some b, some d, some (sweepBinding secondTexture m)⟩)) := by
  have key := Segment.flatMap (DeviceState.Has r b d) ms
    (fun m =>
      [Event.PSSetShaderResources 0 [m.view 0]]
        ++ (if secondTexture then
              [Event.PSSetShaderResources (gsNumSpotlights + 1) [m.view 1]]
            else [])
        ++ renderEvents m.mesh)
    (fun m => [⟨m.mesh, some r, some b, some d, some (sweepBinding secondTexture m)⟩]) ?_
  · rw [← flatMap_single]
    exact key
  · intro m st hst
    obtain ⟨h1, h2, h3⟩ := hst
    cases secondTexture
    · simp [drawRecords, DeviceState.run, DeviceState.step, renderEvents, sweepBinding,
        DeviceState.Has, h1, h2, h3]
    · simp [drawRecords, DeviceState.run, DeviceState.step, renderEvents, sweepBinding,
        DeviceState.Has, h1, h2, h3]

/-- A sweep draws the models of the buckets by ascending bucket index, each
once, in the states that the sweep has set. -/
theorem sweepEvents_segment (r : RasterState) (b : BlendState) (d : DepthState)
    (shaderSwitch : Nat → List (Cmd Unit) × Bool)
    (hsw : ∀ i, Segment (DeviceState.Has r b d) (DeviceState.Has r b d)
      (events (shaderSwitch i).1) [])
    (collection : Fin gsNumOfModelPS → List ModelShape) :
    Segment (DeviceState.Has r b d) (DeviceState.Has r b d)
      (sweepEvents shaderSwitch collection)
      ((List.finRange gsNumOfModelPS).flatMap (fun i =>
        (collection i).map (fun m =>
          ⟨m.mesh, some r, some b, some d, some (sweepBinding (shaderSwitch i.val).2 m)⟩))) :=
  Segment.flatMap _ _ _ _
    (fun i => (hsw i.val).andThenSegment (texturedEvents_segment r b d (shaderSwitch i.val).2 (collection i)))


/-- The portal loop of the lit-scene render draws each portal body once, in
order, after binding the portal's own view. -/
theorem portalEvents_segment (r : RasterState) (b : BlendState) (d : DepthState)
    (ps : List PortalShape) :
    Segment (DeviceState.Has r b d) (DeviceState.Has r b d)
      (ps.flatMap (fun p =>
        Event.PSSetShaderResources (gsNumSpotlights + 1) [ViewRef.handle p.view]
          :: renderEvents p.mesh))
      (ps.map (fun p =>
        ⟨p.mesh, some r, some b, some d, some (gsNumSpotlights + 1, [ViewRef.handle p.view])⟩)) := by
  rw [← flatMap_single]
  refine Segment.flatMap _ _ _ _ ?_
  intro p st hst
  obtain ⟨h1, h2, h3⟩ := hst
  simp [drawRecords, DeviceState.run, DeviceState.step, renderEvents, DeviceState.Has, h1, h2, h3]

/-- The transparent loop draws each transparent model once, in order, after
binding the model's first texture. -/
theorem transparentEvents_segment (r : RasterState) (b : BlendState) (d : DepthState)
    (ms : List ModelShape) :
    Segment (DeviceState.Has r b d) (DeviceState.Has r b d)
      (ms.flatMap (fun m => Event.PSSetShaderResources 0 [m.view 0] :: renderEvents m.mesh))
      (ms.map (fun m => ⟨m.mesh, some r, some b, some d, some (0, [m.view 0])⟩)) := by
  rw [← flatMap_single]
  refine Segment.flatMap _ _ _ _ ?_
  intro m st hst
  obtain ⟨h1, h2, h3⟩ := hst
  simp [drawRecords, DeviceState.run, DeviceState.step, renderEvents, DeviceState.Has, h1, h2, h3]

/-- A light marker loop draws the lights of its rounds, in order, in the states
and with the binding set before the loop. -/
theorem markerEvents_segment (r : RasterState) (b : BlendState) (d : DepthState)
    (bd : Nat × List ViewRef) {n : Nat} (rounds : Nat) (lights : Fin n → Option MeshRef) :
    Segment (fun st => st.Has r b d ∧ st.bound = some bd)
      (fun st => st.Has r b d ∧ st.bound = some bd)
      (markerEvents rounds lights)
      ((markerMeshes rounds lights).map (fun mesh => ⟨mesh, some r, some b, some d, some bd⟩)) := by
  unfold markerEvents markerMeshes
  rw [List.map_flatMap]
  refine Segment.flatMap _ _ _ _ ?_
  intro k
  by_cases h : k < n
  · simp only [dif_pos h]
    cases lights ⟨k, h⟩ with
    | none => exact fun st hst => ⟨rfl, hst⟩
    | some mesh =>
      intro st hst
      obtain ⟨⟨h1, h2, h3⟩, h4⟩ := hst
      simp [drawRecords, DeviceState.run, DeviceState.step, renderEvents, DeviceState.Has,
        h1, h2, h3, h4]
  · simp only [dif_neg h]
    exact fun st hst => ⟨rfl, hst⟩

/-- The draws of the lit-scene render, from any device state: the special
buckets by ascending index without culling, the ordinary buckets by ascending
index with back-face culling, the portal bodies with their own views, the light
markers (point, spot, directional) blended additively, the transparent models
blended multiplicatively. -/
theorem litEvents_records (sh : SceneShape) (st0 : DeviceState) :
    drawRecords st0 (litEvents sh)
      = (List.finRange gsNumOfModelPS).flatMap (fun i =>
          (sh.teapots i).map (fun m =>
            ⟨m.mesh, some RasterState.CullNone, some BlendState.NoBlending,
              some DepthState.UseDepthBuffer,
              some (sweepBinding (shaderSwitchNoCull i.val : List (Cmd Unit) × Bool).2 m)⟩))
        ++ (List.finRange gsNumOfModelPS).flatMap (fun i =>
          (sh.models i).map (fun m =>
            ⟨m.mesh, some RasterState.CullBack, some BlendState.NoBlending,
              some DepthState.UseDepthBuffer,
              some (sweepBinding (shaderSwitchCullBack i.val : List (Cmd Unit) × Bool).2 m)⟩))
        ++ sh.portals.map (fun p =>
            ⟨p.mesh, some RasterState.CullBack, some BlendState.NoBlending,
              some DepthState.UseDepthBuffer,
              some (gsNumSpotlights + 1, [ViewRef.handle p.view])⟩)
        ++ (markerMeshes sh.pointRounds sh.pointLights
              ++ markerMeshes sh.spotRounds sh.spotlights
              ++ markerMeshes sh.directionalRounds sh.directionalLights).map (fun mesh =>
            ⟨mesh, some RasterState.CullNone, some BlendState.Additive,
              some DepthState.DepthReadOnly, some (0, [ViewRef.texture FlareTexture])⟩)
        ++ sh.transparent.map (fun m =>
            ⟨m.mesh, some RasterState.CullNone, some BlendState.Multiplicative,
              some DepthState.DepthReadOnly, some (0, [m.view 0])⟩) := by
  have h1 : Segment (fun _ => True)
      (DeviceState.Has RasterState.CullNone BlendState.NoBlending DepthState.UseDepthBuffer)
      [Event.VSSetConstantBuffers 0 ConstantBuffer.perFrame,
       Event.PSSetConstantBuffers 0 ConstantBuffer.perFrame,
       Event.OMSetBlendState BlendState.NoBlending,
       Event.OMSetDepthStencilState DepthState.UseDepthBuffer,
       Event.PSSetSamplers 0 Sampler.Anisotropic4x,
       Event.RSSetState RasterState.CullNone] [] :=
    fun _ _ => ⟨rfl, rfl, rfl, rfl⟩
  have h2 : Segment
      (DeviceState.Has RasterState.CullNone BlendState.NoBlending DepthState.UseDepthBuffer)
      (DeviceState.Has RasterState.CullBack BlendState.NoBlending DepthState.UseDepthBuffer)
      [Event.RSSetState RasterState.CullBack] [] :=
    fun _ hst => ⟨rfl, rfl, hst.2.1, hst.2.2⟩
  have h3 : Segment
      (DeviceState.Has RasterState.CullBack BlendState.NoBlending DepthState.UseDepthBuffer)
      (DeviceState.Has RasterState.CullBack BlendState.NoBlending DepthState.UseDepthBuffer)
      [Event.PSSetShader ps_Portal, Event.PSSetShaderResources 0 [ViewRef.texture TVTexture]]
      [] :=
    fun _ hst => ⟨rfl, hst.1, hst.2.1, hst.2.2⟩
  have h4 : Segment
      (DeviceState.Has RasterState.CullBack BlendState.NoBlending DepthState.UseDepthBuffer)
      (fun st => st.Has RasterState.CullNone BlendState.Additive DepthState.DepthReadOnly
        ∧ st.bound = some (0, [ViewRef.texture FlareTexture]))
      [Event.VSSetShader vs_BasicTransform,
       Event.PSSetShader ps_LightModel,
       Event.PSSetShaderResources 0 [ViewRef.texture FlareTexture],
       Event.PSSetSamplers 0 Sampler.Anisotropic4x,
       Event.OMSetBlendState BlendState.Additive,
       Event.OMSetDepthStencilState DepthState.DepthReadOnly,
       Event.RSSetState RasterState.CullNone] [] :=
    fun _ _ => ⟨rfl, ⟨rfl, rfl, rfl⟩, rfl⟩
  have h5 : Segment
      (fun st => st.Has RasterState.CullNone BlendState.Additive DepthState.DepthReadOnly
        ∧ st.bound = some (0, [ViewRef.texture FlareTexture]))
      (DeviceState.Has RasterState.CullNone BlendState.Multiplicative DepthState.DepthReadOnly)
      [Event.VSSetShader vs_BasicTransform,
       Event.PSSetShader ps_Transparent,
       Event.PSSetSamplers 0 Sampler.Trilinear,
       Event.OMSetBlendState BlendState.Multiplicative,
       Event.OMSetDepthStencilState DepthState.DepthReadOnly,
       Event.RSSetState RasterState.CullNone] [] :=
    fun _ _ => ⟨rfl, rfl, rfl, rfl⟩
  have sweep1 := sweepEvents_segment RasterState.CullNone BlendState.NoBlending
    DepthState.UseDepthBuffer shaderSwitchNoCull (fun i => (shaderSwitch_segment _ i).1)
    sh.teapots
  have sweep2 := sweepEvents_segment RasterState.CullBack BlendState.NoBlending
    DepthState.UseDepthBuffer shaderSwitchCullBack (fun i => (shaderSwitch_segment _ i).2)
    sh.models
  have portals := portalEvents_segment RasterState.CullBack BlendState.NoBlending
    DepthState.UseDepthBuffer sh.portals
  have m1 := markerEvents_segment RasterState.CullNone BlendState.Additive
    DepthState.DepthReadOnly (0, [ViewRef.texture FlareTexture]) sh.pointRounds sh.pointLights
  have m2 := markerEvents_segment RasterState.CullNone BlendState.Additive
    DepthState.DepthReadOnly (0, [ViewRef.texture FlareTexture]) sh.spotRounds sh.spotlights
  have m3 := markerEvents_segment RasterState.CullNone BlendState.Additive
    DepthState.DepthReadOnly (0, [ViewRef.texture FlareTexture]) sh.directionalRounds
    sh.directionalLights
  have tr := transparentEvents_segment RasterState.CullNone BlendState.Multiplicative
    DepthState.DepthReadOnly sh.transparent
  have a1 := ((h1.andThenSegment sweep1).andThenSegment h2).andThenSegment sweep2
  have a2 := ((a1.andThenSegment h3).andThenSegment portals).andThenSegment h4
  have a3 := ((a2.andThenSegment m1).andThenSegment m2).andThenSegment m3
  have all := (a3.andThenSegment h5).andThenSegment tr
  have key := (all st0 trivial).1
  unfold litEvents
  rw [key]
  simp only [List.nil_append, List.append_nil, List.map_append, List.append_assoc]


/-! ### Rendering: the passes of a frame -/

/-- The pass events of two runs of events, one after the other. -/
theorem passEvents_append (a b : List Event) :
    passEvents (a ++ b) = passEvents a ++ passEvents b :=
  List.filter_append _ _

/-- The pass events of a run of events made of one piece for each entry of a
list. -/
theorem passEvents_flatMap {β : Type} (xs : List β) (f : β → List Event) :
    passEvents (xs.flatMap f) = xs.flatMap (fun x => passEvents (f x)) :=
  List.filter_flatMap _ _ _

/-- The pass events of a model loop are its draws. -/
theorem passEvents_modelsEvents (ms : List ModelShape) :
    passEvents (modelsEvents ms) = ms.map (fun m => Event.MeshRender m.mesh) := by
  unfold modelsEvents
  rw [passEvents_flatMap, ← flatMap_single]
  exact List.flatMap_congr (fun _ _ => rfl)

/-- The pass events of a depth render are its draws. -/
theorem passEvents_depthEvents (sh : SceneShape) :
    passEvents (depthEvents sh) = depthDraws sh := by
  unfold depthEvents depthDraws
  simp only [passEvents_append, passEvents_flatMap, passEvents_modelsEvents]
  have hp : (sh.portals.flatMap fun p => passEvents (renderEvents p.mesh))
      = sh.portals.map (fun p => Event.MeshRender p.mesh) := by
    rw [← flatMap_single]
    exact List.flatMap_congr (fun _ _ => rfl)
  rw [hp]
  simp [passEvents, Event.isPassEvent]

/-- The pass events of the inner loop of a sweep are its draws. -/
theorem passEvents_texturedEvents (secondTexture : Bool) (ms : List ModelShape) :
    passEvents (texturedEvents secondTexture ms) = ms.map (fun m => Event.MeshRender m.mesh) := by
  unfold texturedEvents
  rw [passEvents_flatMap, ← flatMap_single]
  refine List.flatMap_congr (fun m _ => ?_)
  cases secondTexture <;> rfl

/-- The shader switches issue no pass event. -/
theorem passEvents_shaderSwitch (i : Nat) :
    passEvents (events (shaderSwitchNoCull i : List (Cmd Unit) × Bool).1) = []
      ∧ passEvents (events (shaderSwitchCullBack i : List (Cmd Unit) × Bool).1) = [] := by
  unfold shaderSwitchNoCull shaderSwitchCullBack
  constructor <;> (split_ifs <;> rfl)

/-- The pass events of a sweep are its draws. -/
theorem passEvents_sweepEvents (shaderSwitch : Nat → List (Cmd Unit) × Bool)
    (hsw : ∀ i, passEvents (events (shaderSwitch i).1) = [])
    (collection : Fin gsNumOfModelPS → List ModelShape) :
    passEvents (sweepEvents shaderSwitch collection)
      = (List.finRange gsNumOfModelPS).flatMap
          (fun i => (collection i).map (fun m => Event.MeshRender m.mesh)) := by
  unfold sweepEvents
  rw [passEvents_flatMap]
  refine List.flatMap_congr (fun i _ => ?_)
  rw [passEvents_append, hsw, passEvents_texturedEvents, List.nil_append]

/-- The pass events of a light marker loop are its draws. -/
theorem passEvents_markerEvents {n : Nat} (rounds : Nat) (lights : Fin n → Option MeshRef) :
    passEvents (markerEvents rounds lights)
      = (markerMeshes rounds lights).map Event.MeshRender := by
  unfold markerEvents markerMeshes
  rw [passEvents_flatMap, List.map_flatMap]
  refine List.flatMap_congr (fun k _ => ?_)
  by_cases h : k < n
  · simp only [dif_pos h]
    cases lights ⟨k, h⟩ <;> rfl
  · simp only [dif_neg h]
    rfl

/-- The pass events of a lit-scene render are its draws. -/
theorem passEvents_litEvents (sh : SceneShape) : passEvents (litEvents sh) = litDraws sh := by
  unfold litEvents litDraws
  simp only [passEvents_append, passEvents_markerEvents, List.map_append]
  rw [passEvents_sweepEvents _ (fun i => (passEvents_shaderSwitch i).1),
    passEvents_sweepEvents _ (fun i => (passEvents_shaderSwitch i).2)]
  have hp : passEvents (sh.portals.flatMap fun p =>
        Event.PSSetShaderResources (gsNumSpotlights + 1) [ViewRef.handle p.view]
          :: renderEvents p.mesh)
      = sh.portals.map (fun p => Event.MeshRender p.mesh) := by
    rw [passEvents_flatMap, ← flatMap_single]
    exact List.flatMap_congr (fun _ _ => rfl)
  have ht : passEvents (sh.transparent.flatMap fun m =>
        Event.PSSetShaderResources 0 [m.view 0] :: renderEvents m.mesh)
      = sh.transparent.map (fun m => Event.MeshRender m.mesh) := by
    rw [passEvents_flatMap, ← flatMap_single]
    exact List.flatMap_congr (fun _ _ => rfl)
  rw [hp, ht]
  simp [passEvents, Event.isPassEvent]


/-- The pass events of a frame of a scene whose first `n` spotlight slots are
populated, whose spotlight count is `n`, and that has a camera. -/
theorem passEvents_frameEvents [LinearOrderedField α] [FloorRing α] (s : CSceneManager α)
    (n : Nat) (hn : n ≤ gsNumSpotlights) (htop : s.mLightStackTop.y = (n : α))
    (hpop : ∀ j : Fin gsNumSpotlights, j.val < n → (s.mSpotlights j).isSome)
    (hcam : s.mCamera.isSome) :
    passEvents (frameEvents s.shape)
      = (List.finRange n).flatMap (fun i =>
          [Event.OMSetRenderTargets none
             (DepthRef.handle (s.mShadowMapSpotlightDepthStencil (Fin.castLE hn i))),
           Event.ClearDepthStencilView
             (DepthRef.handle (s.mShadowMapSpotlightDepthStencil (Fin.castLE hn i)))]
            ++ depthDraws s.shape)
        ++ s.mPortalCollection.flatMap (fun p =>
          [Event.OMSetRenderTargets (some (RenderTargetRef.handle p.mRenderTarget))
             (DepthRef.handle s.mPortalDepthStencilView),
           Event.ClearRenderTargetView (RenderTargetRef.handle p.mRenderTarget),
           Event.ClearDepthStencilView (DepthRef.handle s.mPortalDepthStencilView)]
            ++ litDraws s.shape)
        ++ ([Event.OMSetRenderTargets (some RenderTargetRef.backBuffer) DepthRef.mainDepth,
             Event.ClearRenderTargetView RenderTargetRef.backBuffer,
             Event.ClearDepthStencilView DepthRef.mainDepth]
            ++ litDraws s.shape)
        ++ [Event.Present] := by
  have hrounds : s.shape.spotRounds = n := by
    show loopRounds s.mLightStackTop.y = n
    rw [htop]
    exact Nat.ceil_natCast n
  have hshadow : (List.range s.shape.spotRounds).flatMap
        (fun i => passEvents (shadowPassEvents s.shape i))
      = (List.finRange n).flatMap (fun i =>
          [Event.OMSetRenderTargets none
             (DepthRef.handle (s.mShadowMapSpotlightDepthStencil (Fin.castLE hn i))),
           Event.ClearDepthStencilView
             (DepthRef.handle (s.mShadowMapSpotlightDepthStencil (Fin.castLE hn i)))]
            ++ depthDraws s.shape) := by
    rw [hrounds, ← flatMap_range_dite]
    refine List.flatMap_congr (fun i hi => ?_)
    have hin : i < n := List.mem_range.mp hi
    have hi4 : i < gsNumSpotlights := Nat.lt_of_lt_of_le hin hn
    have hsome : (s.shape.spotlights ⟨i, hi4⟩).isSome = true := by
      show ((s.mSpotlights ⟨i, hi4⟩).map _).isSome = true
      have hs := hpop ⟨i, hi4⟩ hin
      cases hslot : s.mSpotlights ⟨i, hi4⟩ with
      | none => rw [hslot] at hs; cases hs
      | some sp => rfl
    unfold shadowPassEvents
    rw [dif_pos hi4, dif_pos hin, hsome, if_pos rfl, passEvents_append, passEvents_depthEvents]
    rfl
  have hportal : s.shape.portals.flatMap (fun p => passEvents (portalPassEvents s.shape p))
      = s.mPortalCollection.flatMap (fun p =>
          [Event.OMSetRenderTargets (some (RenderTargetRef.handle p.mRenderTarget))
             (DepthRef.handle s.mPortalDepthStencilView),
           Event.ClearRenderTargetView (RenderTargetRef.handle p.mRenderTarget),
           Event.ClearDepthStencilView (DepthRef.handle s.mPortalDepthStencilView)]
            ++ litDraws s.shape) := by
    show (s.mPortalCollection.map CPortal.shape).flatMap _ = _
    rw [List.flatMap_map]
    refine List.flatMap_congr (fun p _ => ?_)
    unfold portalPassEvents
    rw [passEvents_append, passEvents_litEvents]
    rfl
  have hcamera : s.shape.hasCamera = true := hcam
  unfold frameEvents
  simp only [passEvents_append, passEvents_flatMap]
  rw [hshadow, hportal, hcamera, if_pos rfl, passEvents_litEvents]
  simp [passEvents, Event.isPassEvent]

/-- The factory `NewLight` leaves the camera alone. -/
theorem CSceneManager.NewLight_mCamera [LinearOrderedField α] [FloorRing α] (L : MathLib α)
    (stale : CMatrix4x4 α) (s : CSceneManager α) (type : ELightType) (mesh : MeshRef)
    (colour position : CVector3 α) (strength : α) (facingToward : CVector3 α) (fov : α) :
    (s.NewLight L stale type mesh colour position strength facingToward fov).mCamera
      = s.mCamera := by
  unfold CSceneManager.NewLight
  cases type <;> simp only <;> split_ifs <;> rfl

/-- The factory `NewLight` leaves the portals alone. -/
theorem CSceneManager.NewLight_mPortalCollection [LinearOrderedField α] [FloorRing α]
    (L : MathLib α) (stale : CMatrix4x4 α) (s : CSceneManager α) (type : ELightType)
    (mesh : MeshRef) (colour position : CVector3 α) (strength : α) (facingToward : CVector3 α)
    (fov : α) :
    (s.NewLight L stale type mesh colour position strength facingToward fov).mPortalCollection
      = s.mPortalCollection := by
  unfold CSceneManager.NewLight
  cases type <;> simp only <;> split_ifs <;> rfl

/-- The example scene with a portal: one spotlight, in slot 0; one portal; a
camera. -/
theorem examplePortalScene_shape :
    examplePortalScene.mLightStackTop.y = ((1 : Nat) : ℝ)
      ∧ (∀ j : Fin gsNumSpotlights, j.val < 1 → (examplePortalScene.mSpotlights j).isSome)
      ∧ examplePortalScene.mCamera.isSome
      ∧ examplePortalScene.mPortalCollection.length = 1 := by
  refine ⟨exampleScene_spotlights.1, ?_, ?_, ?_⟩
  · intro j hj
    show (exampleScene.mSpotlights j).isSome = true
    rw [exampleScene_spotlights.2 j hj]
    rfl
  · show exampleScene.mCamera.isSome = true
    unfold exampleScene
    rw [CSceneManager.NewLight_mCamera]
    rfl
  · show (exampleScene.mPortalCollection ++ [_]).length = 1
    unfold exampleScene
    rw [CSceneManager.NewLight_mPortalCollection]
    rfl

/-- C14. Full lit-scene draw order.  For every scene, every state of the
globals and every camera, the draws that `RenderSceneFromCamera` issues are, in
this order and whatever the device state before the call: (1) the models of the
special buckets, by ascending bucket index and in bucket order, without
culling; (2) the models of the ordinary buckets, by ascending bucket index and
in bucket order, with back-face culling (both sweeps without blending, with the
depth buffer, each draw preceded by the binding of the model's texture);
(3) every portal body in the order of the collection, preceded by the binding
of the portal's own view to slot `gsNumSpotlights + 1`; (4) the light markers,
point then spot then directional, with additive blending, read-only depth and
no culling, the flare texture bound; (5) the transparent models in bucket
order with multiplicative blending, read-only depth and no culling.  There is
one draw for each model, portal and marker, and no other draw. -/
theorem C14_lit_scene_draw_order [LinearOrderedField α] [FloorRing α] (K : CameraLib α)
    (L : MathLib α) (s : CSceneManager α) (g : Gfx α) (camera : Camera α)
    (st0 : DeviceState) :
    ∃ evs : List Event,
      events (s.RenderSceneFromCamera K L g camera).2.calls = events g.calls ++ evs
        ∧ drawRecords st0 evs
          = (List.finRange gsNumOfModelPS).flatMap (fun i =>
              (s.shape.teapots i).map (fun m =>
                ⟨m.mesh, some RasterState.CullNone, some BlendState.NoBlending,
                  some DepthState.UseDepthBuffer,
                  some (sweepBinding (shaderSwitchNoCull i.val : List (Cmd Unit) × Bool).2 m)⟩))
            ++ (List.finRange gsNumOfModelPS).flatMap (fun i =>
              (s.shape.models i).map (fun m =>
                ⟨m.mesh, some RasterState.CullBack, some BlendState.NoBlending,
                  some DepthState.UseDepthBuffer,
                  some (sweepBinding (shaderSwitchCullBack i.val : List (Cmd Unit) × Bool).2 m)⟩))
            ++ s.shape.portals.map (fun p =>
                ⟨p.mesh, some RasterState.CullBack, some BlendState.NoBlending,
                  some DepthState.UseDepthBuffer,
                  some (gsNumSpotlights + 1, [ViewRef.handle p.view])⟩)
            ++ (markerMeshes s.shape.pointRounds s.shape.pointLights
                  ++ markerMeshes s.shape.spotRounds s.shape.spotlights
                  ++ markerMeshes s.shape.directionalRounds s.shape.directionalLights).map
                (fun mesh =>
                  ⟨mesh, some RasterState.CullNone, some BlendState.Additive,
                    some DepthState.DepthReadOnly, some (0, [ViewRef.texture FlareTexture])⟩)
            ++ s.shape.transparent.map (fun m =>
                ⟨m.mesh, some RasterState.CullNone, some BlendState.Multiplicative,
                  some DepthState.DepthReadOnly, some (0, [m.view 0])⟩) :=
  ⟨litEvents s.shape, (CSceneManager.RenderSceneFromCamera_emits K L s g camera).2,
    litEvents_records s.shape st0⟩


/-! ### Rendering: who binds the shadow maps -/

/-- The shadow map bindings of two runs of events, one after the other. -/
theorem shadowSlotBindings_append (a b : List Event) :
    shadowSlotBindings (a ++ b) = shadowSlotBindings a ++ shadowSlotBindings b :=
  List.filter_append _ _

/-- A run of events made of pieces without a shadow map binding has none. -/
theorem shadowSlotBindings_flatMap {β : Type} (xs : List β) (f : β → List Event)
    (h : ∀ x, shadowSlotBindings (f x) = []) : shadowSlotBindings (xs.flatMap f) = [] := by
  induction xs with
  | nil => rfl
  | cons x rest ih => rw [List.flatMap_cons, shadowSlotBindings_append, h, ih]; rfl

/-- A depth render binds no shadow map. -/
theorem shadowSlotBindings_depthEvents (sh : SceneShape) :
    shadowSlotBindings (depthEvents sh) = [] := by
  have hm : ∀ ms : List ModelShape, shadowSlotBindings (modelsEvents ms) = [] :=
    fun ms => shadowSlotBindings_flatMap ms _ (fun _ => rfl)
  have hb : ∀ c : Fin gsNumOfModelPS → List ModelShape,
      shadowSlotBindings ((List.finRange gsNumOfModelPS).flatMap fun i => modelsEvents (c i))
        = [] :=
    fun c => shadowSlotBindings_flatMap _ _ (fun i => hm (c i))
  have hp : shadowSlotBindings (sh.portals.flatMap fun p => renderEvents p.mesh) = [] :=
    shadowSlotBindings_flatMap _ _ (fun _ => rfl)
  unfold depthEvents
  simp only [shadowSlotBindings_append, hb, hm, hp, List.append_nil]
  rfl

/-- The shader switches bind no shadow map. -/
theorem shadowSlotBindings_shaderSwitch (i : Nat) :
    shadowSlotBindings (events (shaderSwitchNoCull i : List (Cmd Unit) × Bool).1) = []
      ∧ shadowSlotBindings (events (shaderSwitchCullBack i : List (Cmd Unit) × Bool).1) = [] := by
  unfold shaderSwitchNoCull shaderSwitchCullBack
  constructor <;> (split_ifs <;> rfl)

/-- A sweep binds no shadow map: its bindings are single views to slot 0 and to
slot `gsNumSpotlights + 1`. -/
theorem shadowSlotBindings_sweepEvents (shaderSwitch : Nat → List (Cmd Unit) × Bool)
    (hsw : ∀ i, shadowSlotBindings (events (shaderSwitch i).1) = [])
    (collection : Fin gsNumOfModelPS → List ModelShape) :
    shadowSlotBindings (sweepEvents shaderSwitch collection) = [] := by
  unfold sweepEvents
  refine shadowSlotBindings_flatMap _ _ (fun i => ?_)
  rw [shadowSlotBindings_append, hsw, List.nil_append]
  unfold texturedEvents
  refine shadowSlotBindings_flatMap _ _ (fun m => ?_)
  cases (shaderSwitch i.val).2 <;> rfl

/-- A light marker loop binds no shadow map. -/
theorem shadowSlotBindings_markerEvents {n : Nat} (rounds : Nat)
    (lights : Fin n → Option MeshRef) : shadowSlotBindings (markerEvents rounds lights) = [] := by
  unfold markerEvents
  refine shadowSlotBindings_flatMap _ _ (fun k => ?_)
  by_cases h : k < n
  · simp only [dif_pos h]
    cases lights ⟨k, h⟩ <;> rfl
  · simp only [dif_neg h]
    rfl

/-- A lit-scene render binds no shadow map. -/
theorem shadowSlotBindings_litEvents (sh : SceneShape) :
    shadowSlotBindings (litEvents sh) = [] := by
  have hp : shadowSlotBindings (sh.portals.flatMap fun p =>
      Event.PSSetShaderResources (gsNumSpotlights + 1) [ViewRef.handle p.view]
        :: renderEvents p.mesh) = [] :=
    shadowSlotBindings_flatMap _ _ (fun _ => rfl)
  have ht : shadowSlotBindings (sh.transparent.flatMap fun m =>
      Event.PSSetShaderResources 0 [m.view 0] :: renderEvents m.mesh) = [] :=
    shadowSlotBindings_flatMap _ _ (fun _ => rfl)
  unfold litEvents
  simp only [shadowSlotBindings_append, shadowSlotBindings_markerEvents,
    shadowSlotBindings_sweepEvents _ (fun i => (shadowSlotBindings_shaderSwitch i).1),
    shadowSlotBindings_sweepEvents _ (fun i => (shadowSlotBindings_shaderSwitch i).2),
    hp, ht, List.append_nil]
  rfl

/-- A round of the shadow loop binds no shadow map. -/
theorem shadowSlotBindings_shadowPassEvents (sh : SceneShape) (i : Nat) :
    shadowSlotBindings (shadowPassEvents sh i) = [] := by
  unfold shadowPassEvents
  by_cases h : i < gsNumSpotlights
  · rw [dif_pos h, shadowSlotBindings_append]
    by_cases hs : (sh.spotlights ⟨i, h⟩).isSome = true
    · rw [if_pos hs, shadowSlotBindings_depthEvents]
      rfl
    · rw [if_neg hs]
      rfl
  · rw [dif_neg h]
    rfl

/-- The example scene has no portal. -/
theorem exampleScene_noPortals : exampleScene.mPortalCollection = [] := by
  unfold exampleScene
  rw [CSceneManager.NewLight_mPortalCollection]
  rfl

/-! ### Light rotation -/

/-- C26 (what the code does instead). `CLight::Rotate` hands its argument to
`Model::SetRotation`: after `Rotate(d)` the rotation of the body is `d` itself,
whatever it was before, and position, scale, colour and strength are unchanged.
It is `r0 + d` only when `r0` is zero: a body at rotation `(0, 1, 0)` rotated by
`(0, 1, 0)` ends at `(0, 1, 0)`, not at `(0, 2, 0)`. -/
theorem C26_rotate_overwrites_rotation :
    (∀ (β : Type) (l : CLight β) (d : CVector3 β),
      (l.Rotate d).mpBody.mRotation = d
        ∧ (l.Rotate d).mpBody.mPosition = l.mpBody.mPosition
        ∧ (l.Rotate d).mpBody.mScale = l.mpBody.mScale
        ∧ (l.Rotate d).mColour = l.mColour
        ∧ (l.Rotate d).mStrength = l.mStrength)
      ∧ ((⟨ELightType.point,
            ⟨8, ⟨0, 0, 0⟩, ⟨0, 1, 0⟩, ⟨1, 1, 1⟩, 0, [], CMatrix4x4.identity⟩,
            ⟨1, 1, 1⟩, 10⟩ : CLight ℚ).Rotate ⟨0, 1, 0⟩).mpBody.mRotation
          ≠ (⟨0, 1, 0⟩ : CVector3 ℚ).add ⟨0, 1, 0⟩ :=
  ⟨fun _ _ _ => ⟨rfl, rfl, rfl, rfl, rfl⟩,
    by norm_num [CLight.Rotate, Model.SetRotation, CVector3.add]⟩

/-! ### The two shader switches -/

/-- C24 (what the code does instead). The two `switch (i)` statements of
`RenderSceneFromCamera` issue the same shader calls for every index and make the
same decision on the second texture for every index but `ps_WiggleParallax`:
there the no-cull sweep leaves `secondTexture` at `false` (its `case` lacks the
assignment) and the back-face-cull sweep sets it.  So for a model of that bucket
the no-cull sweep issues no binding to slot `gsNumSpotlights + 1` and the
back-face-cull sweep does. -/
theorem C24_sweeps_differ_on_wiggleParallax :
    (∀ i : Nat, (shaderSwitchNoCull i : List (Cmd Unit) × Bool).1
        = (shaderSwitchCullBack i : List (Cmd Unit) × Bool).1)
      ∧ (∀ i : Nat, i ≠ ps_WiggleParallax →
          (shaderSwitchNoCull i : List (Cmd Unit) × Bool).2
            = (shaderSwitchCullBack i : List (Cmd Unit) × Bool).2)
      ∧ (shaderSwitchNoCull ps_WiggleParallax : List (Cmd Unit) × Bool).2 = false
      ∧ (shaderSwitchCullBack ps_WiggleParallax : List (Cmd Unit) × Bool).2 = true
      ∧ (∀ m : ModelShape,
          texturedEvents (shaderSwitchNoCull ps_WiggleParallax : List (Cmd Unit) × Bool).2 [m]
            = Event.PSSetShaderResources 0 [m.view 0] :: renderEvents m.mesh
          ∧ texturedEvents (shaderSwitchCullBack ps_WiggleParallax : List (Cmd Unit) × Bool).2
              [m]
            = Event.PSSetShaderResources 0 [m.view 0]
                :: Event.PSSetShaderResources (gsNumSpotlights + 1) [m.view 1]
                :: renderEvents m.mesh) := by
  refine ⟨?_, ?_, rfl, rfl, fun m => ⟨rfl, rfl⟩⟩
  · intro i
    unfold shaderSwitchNoCull shaderSwitchCullBack
    split_ifs <;> rfl
  · intro i hi
    unfold shaderSwitchNoCull shaderSwitchCullBack
    split_ifs <;> rfl

/-! ### Teardown -/

/-- Recording steps none of which belongs to `CPortal::Release` keeps a record
free of such steps. -/
theorem TeardownRecord.emit_noPortalStep (r : TeardownRecord) (steps : List Teardown)
    (hr : r.steps.filter Teardown.isPortalStep = [])
    (hs : steps.filter Teardown.isPortalStep = []) :
    (r.emit steps).steps.filter Teardown.isPortalStep = [] := by
  show (r.steps ++ steps).filter Teardown.isPortalStep = []
  rw [List.filter_append, hr, hs]
  rfl

/-- A list of steps made by a function that never yields a step of
`CPortal::Release` has none. -/
theorem filter_map_noPortalStep {β : Type} (f : β → Teardown)
    (hf : ∀ x, (f x).isPortalStep = false) (l : List β) :
    (l.map f).filter Teardown.isPortalStep = [] := by
  induction l with
  | nil => rfl
  | cons x rest ih => rw [List.map_cons, List.filter_cons, hf x]; exact ih

/-- A round of a light loop of `ReleaseResources` records no step of
`CPortal::Release`. -/
theorem releaseLight_noPortalStep {β : Type} {n : Nat} (lights : Fin n → Option β)
    (step : Fin n → Teardown) (hstep : ∀ j, (step j).isPortalStep = false) (i : Nat)
    (r : TeardownRecord) (hr : r.steps.filter Teardown.isPortalStep = []) :
    (releaseLight lights step i r).steps.filter Teardown.isPortalStep = [] := by
  unfold releaseLight
  by_cases h : i < n
  · rw [dif_pos h]
    cases lights ⟨i, h⟩ with
    | none => exact hr
    | some l =>
      refine TeardownRecord.emit_noPortalStep r _ hr ?_
      rw [List.filter_cons, hstep]
      rfl
  · rw [dif_neg h]
    exact hr

/-- C21 (what the code does instead). `ReleaseResources` has no statement on
`mPortalCollection`: for every scene, whatever portals it holds, the record of
the teardown contains no step of `CPortal::Release` (no release of a portal
texture, view or render target, no deletion of a portal camera or body), while
`Release` of any portal consists of such steps and at least deletes the camera
and the body. -/
theorem C21_teardown_skips_portals [LinearOrderedField α] [FloorRing α] (s : CSceneManager α) :
    s.ReleaseResources.steps.filter Teardown.isPortalStep = []
      ∧ ∀ p : CPortal α, p.Release.filter Teardown.isPortalStep = p.Release
          ∧ Teardown.DeletePortalCamera ∈ p.Release
          ∧ Teardown.DeletePortalBody p.mpBody.mMesh ∈ p.Release := by
  constructor
  · unfold CSceneManager.ReleaseResources
    dsimp only
    have h1 : (forLoop (loopRounds s.mLightStackTop.y) s.releaseShadowMap
        { steps := [Teardown.ReleaseStates], fault := false }).steps.filter
          Teardown.isPortalStep = [] := by
      refine forLoop_induction
        (fun r : TeardownRecord => r.steps.filter Teardown.isPortalStep = []) _ _ _ rfl ?_
      intro i r hr
      unfold CSceneManager.releaseShadowMap
      by_cases h : i < gsNumSpotlights
      · rw [dif_pos h]
        refine TeardownRecord.emit_noPortalStep r _ hr ?_
        split_ifs <;> rfl
      · rw [dif_neg h]
        exact hr
    refine TeardownRecord.emit_noPortalStep _ _ ?_ (filter_map_noPortalStep _ (fun _ => by rfl) _)
    refine TeardownRecord.emit_noPortalStep _ _ ?_ (filter_map_noPortalStep _ (fun _ => by rfl) _)
    refine TeardownRecord.emit_noPortalStep _ _ ?_ ?_
    · refine TeardownRecord.emit_noPortalStep _ _ ?_ ?_
      · refine TeardownRecord.emit_noPortalStep _ _ ?_ (by rfl)
        refine forLoop_induction
          (fun r : TeardownRecord => r.steps.filter Teardown.isPortalStep = []) _ _ _ ?_
          (fun i r hr => releaseLight_noPortalStep _ _ (fun _ => by rfl) i r hr)
        refine forLoop_induction
          (fun r : TeardownRecord => r.steps.filter Teardown.isPortalStep = []) _ _ _ ?_
          (fun i r hr => releaseLight_noPortalStep _ _ (fun _ => by rfl) i r hr)
        refine forLoop_induction
          (fun r : TeardownRecord => r.steps.filter Teardown.isPortalStep = []) _ _ _ ?_
          (fun i r hr => releaseLight_noPortalStep _ _ (fun _ => by rfl) i r hr)
        refine TeardownRecord.emit_noPortalStep _ _ ?_ (by rfl)
        exact TeardownRecord.emit_noPortalStep _ _ h1 (filter_map_noPortalStep _ (fun _ => by rfl) _)
      · rw [List.filter_flatMap]
        induction (List.finRange gsNumOfModelPS) with
        | nil => rfl
        | cons i rest ih =>
          rw [List.flatMap_cons, filter_map_noPortalStep _ (fun _ => by rfl), ih]
          rfl
    · rw [List.filter_flatMap]
      induction (List.finRange gsNumOfModelPS) with
      | nil => rfl
      | cons i rest ih =>
        rw [List.flatMap_cons, filter_map_noPortalStep _ (fun _ => by rfl), ih]
        rfl
  · intro p
    unfold CPortal.Release
    cases p.mTexture <;> cases p.mTextureSRV <;> cases p.mRenderTarget <;> simp [Teardown.isPortalStep]


/-! ### The light counts -/

/-- One more request at the end of a sequence. -/
theorem CSceneManager.NewLights_concat [LinearOrderedField α] [FloorRing α] (L : MathLib α)
    (stale : CMatrix4x4 α) (s : CSceneManager α) (requests : List (LightRequest α))
    (r : LightRequest α) :
    s.NewLights L stale (requests ++ [r])
      = (s.NewLights L stale requests).NewLight L stale r.type r.mesh r.colour r.position
          r.strength r.facingToward r.fov := by
  unfold CSceneManager.NewLights
  rw [List.foldl_append]
  rfl

/-- The number of requests of a type after one more request. -/
theorem requestCount_concat (type : ELightType) (requests : List (LightRequest α))
    (r : LightRequest α) :
    requestCount type (requests ++ [r])
      = requestCount type requests + (if r.type = type then 1 else 0) := by
  unfold requestCount
  rw [List.filter_append, List.length_append]
  by_cases h : r.type = type
  · simp [h]
  · simp [h]

/-- The state of the light arrays after a sequence of requests from the initial
scene, by induction on the sequence. -/
theorem CSceneManager.NewLights_init [LinearOrderedField α] [FloorRing α] (L : MathLib α)
    (stale : CMatrix4x4 α) (requests : List (LightRequest α)) :
    ((CSceneManager.init : CSceneManager α).NewLights L stale requests).mLightStackTop
        = ⟨((min (requestCount ELightType.point requests) gsNumPointLights : Nat) : α),
            ((min (requestCount ELightType.spotlight requests) gsNumSpotlights : Nat) : α), 0⟩
      ∧ (∀ j : Fin gsNumPointLights,
          (((CSceneManager.init : CSceneManager α).NewLights L stale requests).mPointLights
              j).isSome = true
            ↔ j.val < min (requestCount ELightType.point requests) gsNumPointLights)
      ∧ (∀ j : Fin gsNumSpotlights,
          (((CSceneManager.init : CSceneManager α).NewLights L stale requests).mSpotlights
              j).isSome = true
            ↔ j.val < min (requestCount ELightType.spotlight requests) gsNumSpotlights)
      ∧ (∀ j : Fin gsNumDirectionalLights,
          ((CSceneManager.init : CSceneManager α).NewLights L stale requests).mDirectionalLights
              j = none) := by
  induction requests using List.reverseRecOn with
  | nil =>
    refine ⟨?_, ?_, ?_, fun _ => rfl⟩
    · show (⟨0, 0, 0⟩ : CVector3 α) = _
      simp [requestCount]
    · intro j
      simp [requestCount, CSceneManager.NewLights, CSceneManager.init]
    · intro j
      simp [requestCount, CSceneManager.NewLights, CSceneManager.init]
  | append_singleton requests r ih =>
    obtain ⟨htop, hpoint, hspot, hdir⟩ := ih
    rw [CSceneManager.NewLights_concat]
    simp only [requestCount_concat]
    generalize (CSceneManager.init : CSceneManager α).NewLights L stale requests = s at *
    generalize requestCount ELightType.point requests = p at *
    generalize requestCount ELightType.spotlight requests = q at *
    have hx : s.mLightStackTop.x = ((min p gsNumPointLights : Nat) : α) := by rw [htop]
    have hy : s.mLightStackTop.y = ((min q gsNumSpotlights : Nat) : α) := by rw [htop]
    have hz : s.mLightStackTop.z = 0 := by rw [htop]
    cases ht : r.type with
    | directional =>
      simp only [reduceCtorEq, if_false, Nat.add_zero]
      exact ⟨htop, hpoint, hspot, hdir⟩
    | point =>
      simp only [reduceCtorEq, if_false, if_true, Nat.add_zero]
      by_cases hp : p < gsNumPointLights
      · have hmin : min p gsNumPointLights = p := Nat.min_eq_left (Nat.le_of_lt hp)
        have hmin1 : min (p + 1) gsNumPointLights = p + 1 := Nat.min_eq_left hp
        rw [hmin] at hx hpoint
        rw [hmin1, CSceneManager.NewLight_point_below L stale s r.mesh r.colour r.position
          r.strength r.facingToward r.fov p hp hx]
        refine ⟨?_, ?_, hspot, hdir⟩
        · show (⟨(p : α) + 1, s.mLightStackTop.y, s.mLightStackTop.z⟩ : CVector3 α) = _
          rw [hy, hz]
          push_cast
          rfl
        · intro j
          show (Function.update s.mPointLights ⟨p, hp⟩ _ j).isSome = true ↔ _
          by_cases hj : j = ⟨p, hp⟩
          · subst hj
            rw [Function.update_same]
            simp
          · rw [Function.update_noteq hj, hpoint j]
            have hne : j.val ≠ p := fun e => hj (Fin.ext e)
            omega
      · have hge : gsNumPointLights ≤ p := Nat.le_of_not_lt hp
        have hmin : min p gsNumPointLights = gsNumPointLights := Nat.min_eq_right hge
        have hmin1 : min (p + 1) gsNumPointLights = gsNumPointLights :=
          Nat.min_eq_right (Nat.le_succ_of_le hge)
        rw [hmin] at hx hpoint htop
        rw [hmin1, (CSceneManager.NewLight_full L stale s r.mesh r.colour r.position r.strength
          r.facingToward r.fov).2 (le_of_eq hx.symm)]
        exact ⟨htop, hpoint, hspot, hdir⟩
    | spotlight =>
      simp only [reduceCtorEq, if_false, if_true, Nat.add_zero]
      by_cases hq : q < gsNumSpotlights
      · have hmin : min q gsNumSpotlights = q := Nat.min_eq_left (Nat.le_of_lt hq)
        have hmin1 : min (q + 1) gsNumSpotlights = q + 1 := Nat.min_eq_left hq
        rw [hmin] at hy hspot
        rw [hmin1, CSceneManager.NewLight_spotlight_below L stale s r.mesh r.colour r.position
          r.strength r.facingToward r.fov q hq hy]
        refine ⟨?_, hpoint, ?_, hdir⟩
        · show (⟨s.mLightStackTop.x, (q : α) + 1, s.mLightStackTop.z⟩ : CVector3 α) = _
          rw [hx, hz]
          push_cast
          rfl
        · intro j
          show (Function.update s.mSpotlights ⟨q, hq⟩ _ j).isSome = true ↔ _
          by_cases hj : j = ⟨q, hq⟩
          · subst hj
            rw [Function.update_same]
            simp
          · rw [Function.update_noteq hj, hspot j]
            have hne : j.val ≠ q := fun e => hj (Fin.ext e)
            omega
      · have hge : gsNumSpotlights ≤ q := Nat.le_of_not_lt hq
        have hmin : min q gsNumSpotlights = gsNumSpotlights := Nat.min_eq_right hge
        have hmin1 : min (q + 1) gsNumSpotlights = gsNumSpotlights :=
          Nat.min_eq_right (Nat.le_succ_of_le hge)
        rw [hmin] at hy hspot htop
        rw [hmin1, (CSceneManager.NewLight_full L stale s r.mesh r.colour r.position r.strength
          r.facingToward r.fov).1 (le_of_eq hy.symm)]
        exact ⟨htop, hpoint, hspot, hdir⟩


/-! ### Shadow maps: created for every index, released below the count -/

/-- A successful run of the shadow map loop leaves a texture, a depth view and a
shader view at every index of the list, and keeps those that were there. -/
theorem CSceneManager.createShadowMaps_handles (l : List (Fin gsNumSpotlights)) :
    ∀ (s : CSceneManager α) (h : Host), (CSceneManager.createShadowMaps l s h).1 = true →
      ∀ i : Fin gsNumSpotlights,
        ((i ∈ l ∨ (s.mShadowMapSpotlightTexture i).isSome = true) →
          ((CSceneManager.createShadowMaps l s h).2.1.mShadowMapSpotlightTexture i).isSome
            = true)
        ∧ ((i ∈ l ∨ (s.mShadowMapSpotlightDepthStencil i).isSome = true) →
          ((CSceneManager.createShadowMaps l s h).2.1.mShadowMapSpotlightDepthStencil i).isSome
            = true)
        ∧ ((i ∈ l ∨ (s.mShadowMapSpotlightSRV i).isSome = true) →
          ((CSceneManager.createShadowMaps l s h).2.1.mShadowMapSpotlightSRV i).isSome
            = true) := by
  induction l with
  | nil =>
    intro s h _ i
    refine ⟨?_, ?_, ?_⟩ <;> intro hi <;> rcases hi with hi | hi
    all_goals first | exact absurd hi (List.not_mem_nil _) | exact hi
  | cons i0 rest ih =>
    intro s h hok i
    simp only [CSceneManager.createShadowMaps] at hok ⊢
    cases h1 : (h.request (HostCall.CreateTexture2D s.mShadowMapTextureDesc)).1 with
    | none => simp [h1] at hok
    | some t1 =>
      simp only [h1, reduceCtorEq, if_false, Function.update_same] at hok ⊢
      generalize (h.request (HostCall.CreateTexture2D s.mShadowMapTextureDesc)).2 = ha at hok ⊢
      cases h2 : (ha.request (HostCall.CreateDepthStencilView (some t1))).1 with
      | none => simp [h2] at hok
      | some t2 =>
        simp only [h2, reduceCtorEq, if_false] at hok ⊢
        generalize (ha.request (HostCall.CreateDepthStencilView (some t1))).2 = hb at hok ⊢
        cases h3 : (hb.request (HostCall.CreateShaderResourceView (some t1))).1 with
        | none => simp [h3] at hok
        | some t3 =>
          simp only [h3, reduceCtorEq, if_false] at hok ⊢
          generalize (hb.request (HostCall.CreateShaderResourceView (some t1))).2 = hc at hok ⊢
          have key := ih _ hc hok i
          refine ⟨fun hi => key.1 ?_, fun hi => key.2.1 ?_, fun hi => key.2.2 ?_⟩
          all_goals
            by_cases e : i = i0
            · right
              subst e
              simp
            · rcases hi with hi | hi
              · left
                exact (List.mem_cons.mp hi).resolve_left e
              · right
                simpa [Function.update_noteq e] using hi

/-- A successful `InitGeometry` leaves a texture, a depth view and a shader view at
every shadow map index. -/
theorem CSceneManager.InitGeometry_shadowMaps (s : CSceneManager α) (h : Host)
    (hok : (s.InitGeometry h).1 = true) (i : Fin gsNumSpotlights) :
    ((s.InitGeometry h).2.1.mShadowMapSpotlightTexture i).isSome = true
      ∧ ((s.InitGeometry h).2.1.mShadowMapSpotlightDepthStencil i).isSome = true
      ∧ ((s.InitGeometry h).2.1.mShadowMapSpotlightSRV i).isSome = true := by
  unfold CSceneManager.InitGeometry at hok ⊢
  generalize meshLoadOrder = meshes at hok ⊢
  generalize List.range NumOfTextures = textures at hok ⊢
  have hall : ∀ (s1 : CSceneManager α) (h1 : Host),
      (CSceneManager.createShadowMaps (List.finRange gsNumSpotlights) s1 h1).1 = true →
      ((CSceneManager.createShadowMaps (List.finRange gsNumSpotlights) s1
          h1).2.1.mShadowMapSpotlightTexture i).isSome = true
        ∧ ((CSceneManager.createShadowMaps (List.finRange gsNumSpotlights) s1
          h1).2.1.mShadowMapSpotlightDepthStencil i).isSome = true
        ∧ ((CSceneManager.createShadowMaps (List.finRange gsNumSpotlights) s1
          h1).2.1.mShadowMapSpotlightSRV i).isSome = true := by
    intro s1 h1 h1ok
    have key := CSceneManager.createShadowMaps_handles (List.finRange gsNumSpotlights) s1 h1
      h1ok i
    exact ⟨key.1 (Or.inl (List.mem_finRange i)), key.2.1 (Or.inl (List.mem_finRange i)),
      key.2.2 (Or.inl (List.mem_finRange i))⟩
  generalize List.finRange gsNumSpotlights = spots at hok hall ⊢
  generalize CSceneManager.loadMeshes meshes s h = m at hok ⊢
  by_cases hm : m.1 = false
  · simp only [hm, if_true] at hok
    exact absurd hok Bool.false_ne_true
  · simp only [hm, Bool.true_eq_false, if_false] at hok ⊢
    generalize m.2.2.request HostCall.LoadShaders = sh at hok ⊢
    by_cases hsh : sh.1 = none
    · simp only [hsh, if_true] at hok
      exact absurd hok Bool.false_ne_true
    · simp only [hsh, if_false] at hok ⊢
      generalize sh.2.request (HostCall.CreateConstantBuffer ConstantBuffer.perFrame) = b1
        at hok ⊢
      generalize b1.2.request (HostCall.CreateConstantBuffer ConstantBuffer.perModel) = b2
        at hok ⊢
      by_cases hb : b1.1 = none ∨ b2.1 = none
      · simp only [hb, if_true] at hok
        exact absurd hok Bool.false_ne_true
      · simp only [hb, if_false] at hok ⊢
        generalize loadTextures textures b2.2 = t at hok ⊢
        by_cases ht : t.1 = false
        · simp only [ht, if_true] at hok
          exact absurd hok Bool.false_ne_true
        · simp only [ht, Bool.true_eq_false, if_false] at hok ⊢
          have hsm := hall { m.2.1 with
            mShadowMapTextureDesc := ⟨m.2.1.mShadowMapSize, m.2.1.mShadowMapSize⟩ } t.2
          generalize CSceneManager.createShadowMaps spots { m.2.1 with
            mShadowMapTextureDesc := ⟨m.2.1.mShadowMapSize, m.2.1.mShadowMapSize⟩ } t.2 = sm
            at hok hsm ⊢
          by_cases hs : sm.1 = false
          · simp only [hs, if_true] at hok
            exact absurd hok Bool.false_ne_true
          · have hs2 : sm.1 = true := by simpa using hs
            simp only [hs, Bool.true_eq_false, if_false] at hok ⊢
            have key := hsm hs2
            split_ifs
            all_goals exact key


/-- The steps on record after more steps, restricted to a kind of step. -/
theorem TeardownRecord.emit_filter (p : Teardown → Bool) (r : TeardownRecord)
    (steps : List Teardown) :
    (r.emit steps).steps.filter p = r.steps.filter p ++ steps.filter p :=
  List.filter_append _ _

/-- A list of steps made by a function that never yields a step of some kind has
none of that kind. -/
theorem filter_map_none {β : Type} (p : Teardown → Bool) (f : β → Teardown)
    (hf : ∀ x, p (f x) = false) (l : List β) : (l.map f).filter p = [] := by
  induction l with
  | nil => rfl
  | cons x rest ih => rw [List.map_cons, List.filter_cons, hf x]; exact ih

/-- The light loops of `ReleaseResources` record no step of a kind that the step
of the loop is not of. -/
theorem forLoop_releaseLight_filter {β : Type} {n : Nat} (p : Teardown → Bool)
    (lights : Fin n → Option β) (step : Fin n → Teardown) (hstep : ∀ j, p (step j) = false)
    (rounds : Nat) (r : TeardownRecord) :
    (forLoop rounds (releaseLight lights step) r).steps.filter p = r.steps.filter p := by
  refine forLoop_induction (fun r1 : TeardownRecord => r1.steps.filter p = r.steps.filter p)
    _ _ _ rfl ?_
  intro i r1 hr
  unfold releaseLight
  by_cases h : i < n
  · rw [dif_pos h]
    cases lights ⟨i, h⟩ with
    | none => exact hr
    | some l =>
      show (r1.emit [step ⟨i, h⟩]).steps.filter p = _
      rw [TeardownRecord.emit_filter, hr, List.filter_cons, hstep]
      simp
  · rw [dif_neg h]
    exact hr

/-- The shadow map steps of `ReleaseResources` are those of its first loop. -/
theorem CSceneManager.ReleaseResources_shadowSteps [LinearOrderedField α] [FloorRing α]
    (s : CSceneManager α) :
    s.ReleaseResources.steps.filter Teardown.isShadowStep
      = (forLoop (loopRounds s.mLightStackTop.y) s.releaseShadowMap
          { steps := [Teardown.ReleaseStates], fault := false }).steps.filter
            Teardown.isShadowStep := by
  unfold CSceneManager.ReleaseResources
  dsimp only
  have hflat : ∀ (c : Fin gsNumOfModelPS → List (Model α)) (l : List (Fin gsNumOfModelPS)),
      (l.flatMap (fun i => (c i).map (fun m => Teardown.DeleteModel m.mMesh))).filter
        Teardown.isShadowStep = [] := by
    intro c l
    rw [List.filter_flatMap]
    induction l with
    | nil => rfl
    | cons i rest ih =>
      rw [List.flatMap_cons, filter_map_none _ _ (fun _ => by rfl), ih]
      rfl
  have hS := forLoop_releaseLight_filter Teardown.isShadowStep s.mSpotlights
    Teardown.ReleaseSpotlight (fun _ => rfl)
  have hP := forLoop_releaseLight_filter Teardown.isShadowStep s.mPointLights
    Teardown.ReleasePointLight (fun _ => rfl)
  have hD := forLoop_releaseLight_filter Teardown.isShadowStep s.mDirectionalLights
    Teardown.ReleaseDirectionalLight (fun _ => rfl)
  have hT := filter_map_none Teardown.isShadowStep Teardown.ReleaseTexture (fun _ => rfl)
  have hM := filter_map_none Teardown.isShadowStep
    (fun m : Model α => Teardown.DeleteModel m.mMesh) (fun _ => rfl)
  have hMesh := filter_map_none Teardown.isShadowStep Teardown.DeleteMesh (fun _ => rfl)
  simp only [TeardownRecord.emit_filter, hS, hP, hD, hT, hM, hMesh, hflat, List.append_nil]
  simp [Teardown.isShadowStep]

/-- The shadow map steps on record after the first loop of `ReleaseResources`: a
part of shadow map `i` is released when it was released before the loop, or
when the loop reached `i` and that part is not null. -/
theorem CSceneManager.forLoop_releaseShadowMap_mem (s : CSceneManager α) (r : TeardownRecord)
    (i : Fin gsNumSpotlights) (n : Nat) :
    (Teardown.ReleaseShadowDepthView i ∈ (forLoop n s.releaseShadowMap r).steps
        ↔ Teardown.ReleaseShadowDepthView i ∈ r.steps
          ∨ (i.val < n ∧ (s.mShadowMapSpotlightDepthStencil i).isSome = true))
      ∧ (Teardown.ReleaseShadowView i ∈ (forLoop n s.releaseShadowMap r).steps
        ↔ Teardown.ReleaseShadowView i ∈ r.steps
          ∨ (i.val < n ∧ (s.mShadowMapSpotlightSRV i).isSome = true))
      ∧ (Teardown.ReleaseShadowTexture i ∈ (forLoop n s.releaseShadowMap r).steps
        ↔ Teardown.ReleaseShadowTexture i ∈ r.steps
          ∨ (i.val < n ∧ (s.mShadowMapSpotlightTexture i).isSome = true)) := by
  induction n with
  | zero => simp [forLoop]
  | succ k ih =>
    obtain ⟨ih1, ih2, ih3⟩ := ih
    show (_ ∈ (s.releaseShadowMap k (forLoop k s.releaseShadowMap r)).steps ↔ _)
      ∧ (_ ∈ (s.releaseShadowMap k (forLoop k s.releaseShadowMap r)).steps ↔ _)
      ∧ (_ ∈ (s.releaseShadowMap k (forLoop k s.releaseShadowMap r)).steps ↔ _)
    generalize forLoop k s.releaseShadowMap r = r1 at ih1 ih2 ih3 ⊢
    unfold CSceneManager.releaseShadowMap
    by_cases h : k < gsNumSpotlights
    · rw [dif_pos h]
      simp only [TeardownRecord.emit, List.mem_append, ih1, ih2, ih3]
      by_cases e : i = ⟨k, h⟩
      · subst e
        refine ⟨?_, ?_, ?_⟩
        · cases hd : s.mShadowMapSpotlightDepthStencil ⟨k, h⟩ <;>
            cases s.mShadowMapSpotlightSRV ⟨k, h⟩ <;>
            cases s.mShadowMapSpotlightTexture ⟨k, h⟩ <;> simp
        · cases s.mShadowMapSpotlightDepthStencil ⟨k, h⟩ <;>
            cases hd : s.mShadowMapSpotlightSRV ⟨k, h⟩ <;>
            cases s.mShadowMapSpotlightTexture ⟨k, h⟩ <;> simp
        · cases s.mShadowMapSpotlightDepthStencil ⟨k, h⟩ <;>
            cases s.mShadowMapSpotlightSRV ⟨k, h⟩ <;>
            cases hd : s.mShadowMapSpotlightTexture ⟨k, h⟩ <;> simp
      · have hne : i.val ≠ k := fun c => e (Fin.ext c)
        have hlt : i.val < k + 1 ↔ i.val < k := by omega
        refine ⟨?_, ?_, ?_⟩
        all_goals
          rw [hlt]
          cases s.mShadowMapSpotlightDepthStencil ⟨k, h⟩ <;>
            cases s.mShadowMapSpotlightSRV ⟨k, h⟩ <;>
            cases s.mShadowMapSpotlightTexture ⟨k, h⟩ <;> simp [e]
    · rw [dif_neg h]
      have hi : i.val < gsNumSpotlights := i.isLt
      have hlt : i.val < k + 1 ↔ i.val < k := by omega
      simp [TeardownRecord.raise, ih1, ih2, ih3, hlt]

/-- The shadow map arrays are not touched by `NewLight`. -/
theorem CSceneManager.NewLight_shadowMaps [LinearOrderedField α] [FloorRing α] (L : MathLib α)
    (stale : CMatrix4x4 α) (s : CSceneManager α) (type : ELightType) (mesh : MeshRef)
    (colour position : CVector3 α) (strength : α) (facingToward : CVector3 α) (fov : α) :
    (s.NewLight L stale type mesh colour position strength facingToward
        fov).mShadowMapSpotlightTexture = s.mShadowMapSpotlightTexture
      ∧ (s.NewLight L stale type mesh colour position strength facingToward
        fov).mShadowMapSpotlightDepthStencil = s.mShadowMapSpotlightDepthStencil
      ∧ (s.NewLight L stale type mesh colour position strength facingToward
        fov).mShadowMapSpotlightSRV = s.mShadowMapSpotlightSRV := by
  unfold CSceneManager.NewLight
  refine ⟨?_, ?_, ?_⟩ <;> cases type <;> simp only <;> split_ifs <;> rfl

/-- The worked example has one spotlight. -/
theorem exampleBuiltScene_count : exampleBuiltScene.mLightStackTop.y = 1 := by
  have h0 : ((CSceneManager.init : CSceneManager ℝ).InitGeometry
      exampleHost).2.1.mLightStackTop = ⟨0, 0, 0⟩ := rfl
  unfold exampleBuiltScene
  rw [CSceneManager.NewLight_spotlight_below exampleLib CMatrix4x4.identity _ 8 _ _ _ _ _ 0
    (by decide) (by rw [h0]; norm_num)]
  norm_num


/-- C27. Light-count invariant: after any sequence of `NewLight` calls from the
initial scene, the point count is a natural number `p ≤ 3`, the spotlight
count a natural number `q ≤ 4` and the directional count `0`; `p` and `q` are
the numbers of accepted requests of their type (of `n` requests of a type with
capacity `c` the first `min n c` arrive while the array is not full and are
accepted); every slot below its count holds a light, every slot at or above
it still holds the null pointer of the initial scene, and no directional slot
was written. -/
theorem C27_light_count_invariant [LinearOrderedField α] [FloorRing α] (L : MathLib α)
    (stale : CMatrix4x4 α) (requests : List (LightRequest α)) :
    ∃ p q : Nat,
      p = min (requestCount ELightType.point requests) gsNumPointLights
        ∧ q = min (requestCount ELightType.spotlight requests) gsNumSpotlights
        ∧ p ≤ 3 ∧ q ≤ 4
        ∧ ((CSceneManager.init : CSceneManager α).NewLights L stale requests).mLightStackTop
            = ⟨(p : α), (q : α), 0⟩
        ∧ (∀ j : Fin gsNumPointLights,
            (j.val < p →
              (((CSceneManager.init : CSceneManager α).NewLights L stale requests).mPointLights
                j).isSome = true)
            ∧ (p ≤ j.val →
              ((CSceneManager.init : CSceneManager α).NewLights L stale requests).mPointLights j
                = none))
        ∧ (∀ j : Fin gsNumSpotlights,
            (j.val < q →
              (((CSceneManager.init : CSceneManager α).NewLights L stale requests).mSpotlights
                j).isSome = true)
            ∧ (q ≤ j.val →
              ((CSceneManager.init : CSceneManager α).NewLights L stale requests).mSpotlights j
                = none))
        ∧ (∀ j : Fin gsNumDirectionalLights,
            ((CSceneManager.init : CSceneManager α).NewLights L stale requests).mDirectionalLights
              j = none) := by
  obtain ⟨htop, hpoint, hspot, hdir⟩ := CSceneManager.NewLights_init L stale requests
  refine ⟨_, _, rfl, rfl, Nat.min_le_right _ _, Nat.min_le_right _ _, htop, ?_, ?_, hdir⟩
  · intro j
    refine ⟨fun hj => (hpoint j).mpr hj, fun hj => ?_⟩
    have hn : ¬ ((((CSceneManager.init : CSceneManager α).NewLights L stale
        requests).mPointLights j).isSome = true) := fun c => absurd ((hpoint j).mp c) (by omega)
    simpa using hn
  · intro j
    refine ⟨fun hj => (hspot j).mpr hj, fun hj => ?_⟩
    have hn : ¬ ((((CSceneManager.init : CSceneManager α).NewLights L stale
        requests).mSpotlights j).isSome = true) := fun c => absurd ((hspot j).mp c) (by omega)
    simpa using hn

/-- C30. Shadow-map release is bounded by the spotlight count: when
`InitGeometry` has succeeded, every index 0..3 holds a texture, a depth view
and a shader view; in a scene that holds these shadow maps, `ReleaseResources`
releases each part of the triple of index `i` if and only if `i` is below the
spotlight count at teardown; hence with `k` spotlights the triples of indices
`k..3` exist and are not released. -/
theorem C30_shadow_release_bounded_by_count [LinearOrderedField α] [FloorRing α]
    (s0 : CSceneManager α) (h : Host) (s : CSceneManager α)
    (hok : (s0.InitGeometry h).1 = true)
    (htex : s.mShadowMapSpotlightTexture = (s0.InitGeometry h).2.1.mShadowMapSpotlightTexture)
    (hdsv : s.mShadowMapSpotlightDepthStencil
      = (s0.InitGeometry h).2.1.mShadowMapSpotlightDepthStencil)
    (hsrv : s.mShadowMapSpotlightSRV = (s0.InitGeometry h).2.1.mShadowMapSpotlightSRV) :
    (∀ i : Fin gsNumSpotlights,
        (s.mShadowMapSpotlightTexture i).isSome = true
          ∧ (s.mShadowMapSpotlightDepthStencil i).isSome = true
          ∧ (s.mShadowMapSpotlightSRV i).isSome = true)
      ∧ (∀ i : Fin gsNumSpotlights,
        (Teardown.ReleaseShadowDepthView i ∈ s.ReleaseResources.steps
            ↔ (i.val : α) < s.mLightStackTop.y)
          ∧ (Teardown.ReleaseShadowView i ∈ s.ReleaseResources.steps
            ↔ (i.val : α) < s.mLightStackTop.y)
          ∧ (Teardown.ReleaseShadowTexture i ∈ s.ReleaseResources.steps
            ↔ (i.val : α) < s.mLightStackTop.y))
      ∧ (∀ k : Nat, s.mLightStackTop.y = (k : α) → ∀ i : Fin gsNumSpotlights, k ≤ i.val →
          Teardown.ReleaseShadowDepthView i ∉ s.ReleaseResources.steps
            ∧ Teardown.ReleaseShadowView i ∉ s.ReleaseResources.steps
            ∧ Teardown.ReleaseShadowTexture i ∉ s.ReleaseResources.steps) := by
  have hall : ∀ i : Fin gsNumSpotlights,
      (s.mShadowMapSpotlightTexture i).isSome = true
        ∧ (s.mShadowMapSpotlightDepthStencil i).isSome = true
        ∧ (s.mShadowMapSpotlightSRV i).isSome = true := by
    intro i
    rw [htex, hdsv, hsrv]
    exact CSceneManager.InitGeometry_shadowMaps s0 h hok i
  have hrel : ∀ i : Fin gsNumSpotlights,
      (Teardown.ReleaseShadowDepthView i ∈ s.ReleaseResources.steps
          ↔ (i.val : α) < s.mLightStackTop.y)
        ∧ (Teardown.ReleaseShadowView i ∈ s.ReleaseResources.steps
          ↔ (i.val : α) < s.mLightStackTop.y)
        ∧ (Teardown.ReleaseShadowTexture i ∈ s.ReleaseResources.steps
          ↔ (i.val : α) < s.mLightStackTop.y) := by
    intro i
    have hmem : ∀ x : Teardown, x.isShadowStep = true →
        (x ∈ s.ReleaseResources.steps
          ↔ x ∈ (forLoop (loopRounds s.mLightStackTop.y) s.releaseShadowMap
              { steps := [Teardown.ReleaseStates], fault := false }).steps) := by
      intro x hx
      have e := CSceneManager.ReleaseResources_shadowSteps s
      constructor
      · intro hin
        have h1 : x ∈ s.ReleaseResources.steps.filter Teardown.isShadowStep :=
          List.mem_filter.mpr ⟨hin, hx⟩
        rw [e] at h1
        exact (List.mem_filter.mp h1).1
      · intro hin
        have h1 : x ∈ (forLoop (loopRounds s.mLightStackTop.y) s.releaseShadowMap
            { steps := [Teardown.ReleaseStates], fault := false }).steps.filter
              Teardown.isShadowStep := List.mem_filter.mpr ⟨hin, hx⟩
        rw [← e] at h1
        exact (List.mem_filter.mp h1).1
    have hloop := CSceneManager.forLoop_releaseShadowMap_mem s
      { steps := [Teardown.ReleaseStates], fault := false } i (loopRounds s.mLightStackTop.y)
    have hceil : i.val < loopRounds s.mLightStackTop.y ↔ (i.val : α) < s.mLightStackTop.y :=
      Nat.lt_ceil
    obtain ⟨t1, t2, t3⟩ := hall i
    refine ⟨?_, ?_, ?_⟩
    · rw [hmem (Teardown.ReleaseShadowDepthView i) rfl, hloop.1, ← hceil]
      simp [t2]
    · rw [hmem (Teardown.ReleaseShadowView i) rfl, hloop.2.1, ← hceil]
      simp [t3]
    · rw [hmem (Teardown.ReleaseShadowTexture i) rfl, hloop.2.2, ← hceil]
      simp [t1]
  refine ⟨hall, hrel, ?_⟩
  intro k hk i hi
  have hnot : ¬ ((i.val : α) < s.mLightStackTop.y) := by
    rw [hk]
    exact not_lt.mpr (Nat.cast_le.mpr hi)
  exact ⟨fun c => hnot ((hrel i).1.mp c), fun c => hnot ((hrel i).2.1.mp c),
    fun c => hnot ((hrel i).2.2.mp c)⟩

/-- C30 at work: after a set-up in which every request succeeds and the one
spotlight request of the built-in scene, all four shadow maps exist, the
teardown releases the texture of index 0 and not that of index 3. -/
theorem C30_shadow_release_bounded_by_count_witness :
    ((CSceneManager.init : CSceneManager ℝ).InitGeometry exampleHost).1 = true
      ∧ (∀ i : Fin gsNumSpotlights,
          (exampleBuiltScene.mShadowMapSpotlightTexture i).isSome = true)
      ∧ Teardown.ReleaseShadowTexture ⟨0, by decide⟩ ∈ exampleBuiltScene.ReleaseResources.steps
      ∧ Teardown.ReleaseShadowTexture ⟨3, by decide⟩
          ∉ exampleBuiltScene.ReleaseResources.steps := by
  have key := C30_shadow_release_bounded_by_count (CSceneManager.init : CSceneManager ℝ)
    exampleHost exampleBuiltScene rfl
    (CSceneManager.NewLight_shadowMaps exampleLib CMatrix4x4.identity _ _ _ _ _ _ _ _).1
    (CSceneManager.NewLight_shadowMaps exampleLib CMatrix4x4.identity _ _ _ _ _ _ _ _).2.1
    (CSceneManager.NewLight_shadowMaps exampleLib CMatrix4x4.identity _ _ _ _ _ _ _ _).2.2
  refine ⟨rfl, fun i => (key.1 i).1, ?_, ?_⟩
  · refine (key.2.1 ⟨0, by decide⟩).2.2.mpr ?_
    rw [exampleBuiltScene_count]
    norm_num
  · refine (key.2.2 1 ?_ ⟨3, by decide⟩ (by decide)).2.2
    rw [exampleBuiltScene_count]
    norm_num

/-! ### The built-in scene -/

/-- The ordinary buckets are those before a `NewLight` call. -/
theorem CSceneManager.NewLight_mModelCollection [LinearOrderedField α] [FloorRing α]
    (L : MathLib α) (stale : CMatrix4x4 α) (s : CSceneManager α) (type : ELightType)
    (mesh : MeshRef) (colour position : CVector3 α) (strength : α) (facingToward : CVector3 α)
    (fov : α) :
    (s.NewLight L stale type mesh colour position strength facingToward fov).mModelCollection
      = s.mModelCollection := by
  unfold CSceneManager.NewLight
  cases type <;> simp only <;> split_ifs <;> rfl

/-- The teapot buckets are those before a `NewLight` call. -/
theorem CSceneManager.NewLight_mTeapotCollection [LinearOrderedField α] [FloorRing α]
    (L : MathLib α) (stale : CMatrix4x4 α) (s : CSceneManager α) (type : ELightType)
    (mesh : MeshRef) (colour position : CVector3 α) (strength : α) (facingToward : CVector3 α)
    (fov : α) :
    (s.NewLight L stale type mesh colour position strength facingToward fov).mTeapotCollection
      = s.mTeapotCollection := by
  unfold CSceneManager.NewLight
  cases type <;> simp only <;> split_ifs <;> rfl

/-- The transparent list is that before a `NewLight` call. -/
theorem CSceneManager.NewLight_mTransparentModels [LinearOrderedField α] [FloorRing α]
    (L : MathLib α) (stale : CMatrix4x4 α) (s : CSceneManager α) (type : ELightType)
    (mesh : MeshRef) (colour position : CVector3 α) (strength : α) (facingToward : CVector3 α)
    (fov : α) :
    (s.NewLight L stale type mesh colour position strength facingToward fov).mTransparentModels
      = s.mTransparentModels := by
  unfold CSceneManager.NewLight
  cases type <;> simp only <;> split_ifs <;> rfl

/-- The models that `InitScene` leaves in a scene that held none: the mesh and
textures of each model of each bucket, in order. -/
theorem CSceneManager.InitScene_shapes [LinearOrderedField α] [FloorRing α] (L : MathLib α)
    (stale : CMatrix4x4 α) (s : CSceneManager α) (h : Host)
    (hM : ∀ i, s.mModelCollection i = []) (hT : ∀ i, s.mTeapotCollection i = [])
    (hTr : s.mTransparentModels = []) :
    (∀ i : Fin gsNumOfModelPS, ((s.InitScene L stale h).2.1.mTeapotCollection i).map Model.shape
      = ([[], [], [], [⟨s.mMeshArray Mesh_Teapot, [StoneTexture]⟩], [], []] :
          List (List ModelShape)).getD i.val [])
    ∧ (∀ i : Fin gsNumOfModelPS, ((s.InitScene L stale h).2.1.mModelCollection i).map Model.shape
      = ([[⟨s.mMeshArray Mesh_Sphere, [WoodTexture, WoodNormal]⟩],
          [⟨s.mMeshArray Mesh_CubeTangent, [PatternTexture, PatternNormalH]⟩],
          [⟨s.mMeshArray Mesh_CubeTangent, [TechTexture, TechNormalH]⟩],
          [⟨s.mMeshArray Mesh_Crate, [CargoTexture]⟩, ⟨s.mMeshArray Mesh_Ground, [GrassTexture]⟩],
          [⟨s.mMeshArray Mesh_Cube, [BrickTexture, WoodTexture]⟩],
          [⟨s.mMeshArray Mesh_SphereTangent, [PatternTexture, PatternNormalH]⟩]] :
          List (List ModelShape)).getD i.val [])
    ∧ (s.InitScene L stale h).2.1.mTransparentModels.map Model.shape
        = [⟨s.mMeshArray Mesh_Cube, [GlassTexture]⟩] := by
  unfold CSceneManager.InitScene
  simp only [CSceneManager.NewPortal, CSceneManager.NewLight_mModelCollection,
    CSceneManager.NewLight_mTeapotCollection, CSceneManager.NewLight_mTransparentModels]
  refine ⟨?_, ?_, ?_⟩
  · intro i
    fin_cases i <;>
      simp [CSceneManager.NewModel, Model.shape, Model.newTextured, Model.SetWiggleStrength, hT,
        Mesh_Teapot, Mesh_Crate, Mesh_Ground, Mesh_Sphere, Mesh_SphereTangent, Mesh_Cube,
        Mesh_CubeTangent, Mesh_Portal, ps_PixelLighting, ps_Wiggle, ps_WiggleParallax, ps_Portal,
        ps_Fade, ps_ParallaxMap, ps_NormalMap, ps_Transparent, gsNumOfModelPS, Function.update]
  · intro i
    fin_cases i <;>
      simp [CSceneManager.NewModel, Model.shape, Model.newTextured, Model.SetWiggleStrength, hM,
        Mesh_Teapot, Mesh_Crate, Mesh_Ground, Mesh_Sphere, Mesh_SphereTangent, Mesh_Cube,
        Mesh_CubeTangent, Mesh_Portal, ps_PixelLighting, ps_Wiggle, ps_WiggleParallax, ps_Portal,
        ps_Fade, ps_ParallaxMap, ps_NormalMap, ps_Transparent, gsNumOfModelPS, Function.update]
  · simp [CSceneManager.NewModel, Model.shape, Model.newTextured, Model.SetWiggleStrength, hTr,
        Mesh_Teapot, Mesh_Crate, Mesh_Ground, Mesh_Sphere, Mesh_SphereTangent, Mesh_Cube,
        Mesh_CubeTangent, Mesh_Portal, ps_PixelLighting, ps_Wiggle, ps_WiggleParallax, ps_Portal,
        ps_Fade, ps_ParallaxMap, ps_NormalMap, ps_Transparent, gsNumOfModelPS]

/-- A point light request leaves the spotlight array alone. -/
theorem CSceneManager.NewLight_point_mSpotlights [LinearOrderedField α] [FloorRing α]
    (L : MathLib α) (stale : CMatrix4x4 α) (s : CSceneManager α)
    (mesh : MeshRef) (colour position : CVector3 α) (strength : α) (facingToward : CVector3 α)
    (fov : α) :
    (s.NewLight L stale ELightType.point mesh colour position strength facingToward
        fov).mSpotlights = s.mSpotlights := by
  unfold CSceneManager.NewLight
  simp only
  split_ifs <;> rfl

/-- The light counts and the mesh table are those before a `NewModel` call. -/
theorem CSceneManager.NewModel_lights [Zero α] (stale : CMatrix4x4 α) (s : CSceneManager α)
    (meshIndex : Nat) (textureIndexes : List Nat) (position : CVector3 α) (scale : α)
    (rotation : CVector3 α) (wiggleStrength : α) (shaderType : Nat) :
    (s.NewModel stale meshIndex textureIndexes position scale rotation wiggleStrength
        shaderType).mLightStackTop = s.mLightStackTop
      ∧ (s.NewModel stale meshIndex textureIndexes position scale rotation wiggleStrength
        shaderType).mMeshArray = s.mMeshArray := by
  unfold CSceneManager.NewModel
  dsimp only
  constructor <;> split_ifs <;> rfl

/-- The controllable teapot, the first spotlight and the camera that `InitScene`
leaves in a scene that held no model and no spotlight; the spotlight faces the
first model of the ordinary bucket `ps_PixelLighting`, the crate. -/
theorem CSceneManager.InitScene_front [LinearOrderedField α] [FloorRing α] (L : MathLib α)
    (stale : CMatrix4x4 α) (s : CSceneManager α) (h : Host)
    (hM : ∀ i, s.mModelCollection i = []) (hT : ∀ i, s.mTeapotCollection i = [])
    (hy : s.mLightStackTop.y = 0) :
    (s.InitScene L stale h).2.1.mTeapotCollection ⟨ps_PixelLighting, by decide⟩
        = [(Model.newTextured stale (s.mMeshArray Mesh_Teapot) [StoneTexture] ⟨15, 0, 0⟩
            ⟨0, L.ToRadians 215, 0⟩ 1).SetWiggleStrength 0]
      ∧ (s.InitScene L stale h).2.1.mSpotlights ⟨0, by decide⟩
        = some (CSpotlight.new L stale (s.mMeshArray Mesh_Light) ⟨8 / 10, 8 / 10, 1⟩
            ⟨30, 20, 0⟩ 10 ⟨40, 0, 30⟩ 90)
      ∧ (s.InitScene L stale h).2.1.mCamera
        = some ⟨⟨15, 30, -70⟩, ⟨L.ToRadians 13, 0, 0⟩⟩ := by
  unfold CSceneManager.InitScene
  simp only [CSceneManager.NewPortal, CSceneManager.NewLight_mModelCollection,
    CSceneManager.NewLight_mTeapotCollection, CSceneManager.NewLight_point_mSpotlights]
  refine ⟨?_, ?_, trivial⟩
  · simp [CSceneManager.NewModel, hT,
        Mesh_Teapot, Mesh_Crate, Mesh_Ground, Mesh_Sphere, Mesh_SphereTangent, Mesh_Cube,
        Mesh_CubeTangent, Mesh_Portal, ps_PixelLighting, ps_Wiggle, ps_WiggleParallax, ps_Portal,
        ps_Fade, ps_ParallaxMap, ps_NormalMap, ps_Transparent, gsNumOfModelPS, Function.update]
  · rw [CSceneManager.NewLight_spotlight_slot L stale _ _ _ _ _ _ _ 0 (by decide)]
    · simp [CSceneManager.NewModel, hM, Model.Position, Model.newTextured,
        Model.SetWiggleStrength,
        Mesh_Teapot, Mesh_Crate, Mesh_Ground, Mesh_Sphere, Mesh_SphereTangent, Mesh_Cube,
        Mesh_CubeTangent, Mesh_Portal, ps_PixelLighting, ps_Wiggle, ps_WiggleParallax, ps_Portal,
        ps_Fade, ps_ParallaxMap, ps_NormalMap, ps_Transparent, gsNumOfModelPS, Function.update]
    · simp only [(CSceneManager.NewModel_lights _ _ _ _ _ _ _ _ _).1, hy, Nat.cast_zero]

/-- The result of `UpdateScene` in a scene with a controllable model, a first
spotlight and a camera. -/
theorem CSceneManager.UpdateScene_ready [LinearOrderedField α] (L : MathLib α) (sin : α → α)
    (cameraControl : Camera α → α → Camera α) (input : Input) (s : CSceneManager α)
    (statics : UpdateStatics α) (g : Gfx α) (frameTime : α) (front : Model α)
    (rest : List (Model α)) (spot : CSpotlight α) (camera : Camera α)
    (hteapot : s.mTeapotCollection ⟨ps_PixelLighting, by decide⟩ = front :: rest)
    (hspot : s.mSpotlights ⟨0, by decide⟩ = some spot) (hcam : s.mCamera = some camera) :
    ∃ (s1 : CSceneManager α) (st1 : UpdateStatics α) (g1 : Gfx α),
      s.UpdateScene L sin cameraControl input statics g frameTime = some (s1, st1, g1)
        ∧ s1.mTeapotCollection ⟨ps_PixelLighting, by decide⟩
            = front.Control L input frameTime KeyCode.Key_I KeyCode.Key_K KeyCode.Key_J
                KeyCode.Key_L KeyCode.Key_U KeyCode.Key_O KeyCode.Key_Period KeyCode.Key_Comma
              :: rest
        ∧ s1.mSpotlights ⟨0, by decide⟩
            = some { spot with
                toCLight := (spot.toCLight.SetPosition
                  ((front.Control L input frameTime KeyCode.Key_I KeyCode.Key_K KeyCode.Key_J
                      KeyCode.Key_L KeyCode.Key_U KeyCode.Key_O KeyCode.Key_Period
                      KeyCode.Key_Comma).Position.add
                    ⟨L.cos statics.rotate * gLightOrbit, 10,
                      sin statics.rotate * gLightOrbit⟩)).FaceTarget L
                  (front.Control L input frameTime KeyCode.Key_I KeyCode.Key_K KeyCode.Key_J
                    KeyCode.Key_L KeyCode.Key_U KeyCode.Key_O KeyCode.Key_Period
                    KeyCode.Key_Comma).Position }
        ∧ st1.rotate
            = (if statics.go then statics.rotate - gLightOrbitSpeed * frameTime
                else statics.rotate)
        ∧ st1.go = (if input.KeyHit KeyCode.Key_1 then !statics.go else statics.go) := by
  simp only [CSceneManager.UpdateScene, hteapot, hspot, hcam]
  refine ⟨_, _, _, rfl, ?_, ?_, ?_, ?_⟩
  · simp only [Function.update_same]
  · simp only [Function.update_same]
  · split_ifs <;> rfl
  · split_ifs <;> rfl


/-- The view that `GetTexture` yields is decided by the shape of the model. -/
theorem Model.GetTexture_shape (m : Model α) (index : Nat) :
    m.GetTexture index = m.shape.view index := rfl

/-- C28. Index safety of the built-in scene: in the scene that `InitScene` makes
from a scene without models and spotlights, the ordinary bucket
`ps_PixelLighting` is non-empty (its first model is the crate at `{40, 0, 30}`,
which `front()` in `InitScene` gave the first spotlight to face), the bucket
`ps_PixelLighting` of the teapot collection is non-empty, spotlight slot 0 is
populated and the camera is set, so `UpdateScene` reaches no undefined
statement; `GetTexture(0)` is in range for every model of every bucket and of
the transparent list, and `GetTexture(1)` is in range for every model of a
bucket whose sweep binds a second texture. -/
theorem C28_builtin_scene_index_safety [LinearOrderedField α] [FloorRing α] (L : MathLib α)
    (stale : CMatrix4x4 α) (s : CSceneManager α) (h : Host)
    (hM : ∀ i, s.mModelCollection i = []) (hT : ∀ i, s.mTeapotCollection i = [])
    (hTr : s.mTransparentModels = []) (hy : s.mLightStackTop.y = 0) :
    (∃ (front : Model α) (rest : List (Model α)),
        (s.InitScene L stale h).2.1.mModelCollection ⟨ps_PixelLighting, by decide⟩ = front :: rest
          ∧ front.Position = ⟨40, 0, 30⟩
          ∧ (s.InitScene L stale h).2.1.mSpotlights ⟨0, by decide⟩
              = some (CSpotlight.new L stale (s.mMeshArray Mesh_Light) ⟨8 / 10, 8 / 10, 1⟩
                  ⟨30, 20, 0⟩ 10 front.Position 90))
      ∧ (∃ (front : Model α) (rest : List (Model α)),
          (s.InitScene L stale h).2.1.mTeapotCollection ⟨ps_PixelLighting, by decide⟩
            = front :: rest)
      ∧ ((s.InitScene L stale h).2.1.mSpotlights ⟨0, by decide⟩).isSome = true
      ∧ (s.InitScene L stale h).2.1.mCamera.isSome = true
      ∧ (∀ (sin : α → α) (cameraControl : Camera α → α → Camera α) (input : Input)
          (statics : UpdateStatics α) (g : Gfx α) (frameTime : α),
          ((s.InitScene L stale h).2.1.UpdateScene L sin cameraControl input statics g
            frameTime).isSome = true)
      ∧ (∀ (i : Fin gsNumOfModelPS) (m : Model α),
          m ∈ (s.InitScene L stale h).2.1.mTeapotCollection i →
            m.GetTexture 0 ≠ ViewRef.outOfRange
              ∧ ((shaderSwitchNoCull i.val : List (Cmd α) × Bool).2 = true →
                  m.GetTexture 1 ≠ ViewRef.outOfRange))
      ∧ (∀ (i : Fin gsNumOfModelPS) (m : Model α),
          m ∈ (s.InitScene L stale h).2.1.mModelCollection i →
            m.GetTexture 0 ≠ ViewRef.outOfRange
              ∧ ((shaderSwitchCullBack i.val : List (Cmd α) × Bool).2 = true →
                  m.GetTexture 1 ≠ ViewRef.outOfRange))
      ∧ (∀ m : Model α, m ∈ (s.InitScene L stale h).2.1.mTransparentModels →
          m.GetTexture 0 ≠ ViewRef.outOfRange) := by
  obtain ⟨hteapot, hspot, hcam⟩ := CSceneManager.InitScene_front L stale s h hM hT hy
  obtain ⟨hst, hsm, hstr⟩ := CSceneManager.InitScene_shapes L stale s h hM hT hTr
  have hcrate : ∃ (front : Model α) (rest : List (Model α)),
      (s.InitScene L stale h).2.1.mModelCollection ⟨ps_PixelLighting, by decide⟩ = front :: rest
        ∧ front.Position = ⟨40, 0, 30⟩ := by
    unfold CSceneManager.InitScene
    simp only [CSceneManager.NewPortal, CSceneManager.NewLight_mModelCollection]
    simp [CSceneManager.NewModel, hM, Model.Position, Model.newTextured,
      Model.SetWiggleStrength,
      Mesh_Teapot, Mesh_Crate, Mesh_Ground, Mesh_Sphere, Mesh_SphereTangent, Mesh_Cube,
      Mesh_CubeTangent, Mesh_Portal, ps_PixelLighting, ps_Wiggle, ps_WiggleParallax, ps_Portal,
      ps_Fade, ps_ParallaxMap, ps_NormalMap, ps_Transparent, gsNumOfModelPS, Function.update]
  obtain ⟨front, rest, hfront, hpos⟩ := hcrate
  refine ⟨⟨front, rest, hfront, hpos, by rw [hpos]; exact hspot⟩, ⟨_, _, hteapot⟩,
    by rw [hspot]; rfl, by rw [hcam]; rfl, ?_, ?_, ?_, ?_⟩
  · intro sin cameraControl input statics g frameTime
    obtain ⟨s1, st1, g1, e, _⟩ := CSceneManager.UpdateScene_ready L sin cameraControl input
      (s.InitScene L stale h).2.1 statics g frameTime _ _ _ _ hteapot hspot hcam
    rw [e]
    rfl
  · intro i m hm
    have hs := List.mem_map_of_mem Model.shape hm
    rw [hst i] at hs
    have hall : ∀ sh ∈ ([[], [], [], [⟨s.mMeshArray Mesh_Teapot, [StoneTexture]⟩], [], []] :
          List (List ModelShape)).getD i.val [],
        sh.view 0 ≠ ViewRef.outOfRange
          ∧ ((shaderSwitchNoCull i.val : List (Cmd α) × Bool).2 = true →
              sh.view 1 ≠ ViewRef.outOfRange) := by
      fin_cases i <;>
        simp [ModelShape.view, shaderSwitchNoCull, ps_PixelLighting, ps_Wiggle,
          ps_WiggleParallax, ps_Portal, ps_Fade, ps_ParallaxMap, ps_NormalMap]
    exact hall m.shape hs
  · intro i m hm
    have hs := List.mem_map_of_mem Model.shape hm
    rw [hsm i] at hs
    have hall : ∀ sh ∈ ([[⟨s.mMeshArray Mesh_Sphere, [WoodTexture, WoodNormal]⟩],
          [⟨s.mMeshArray Mesh_CubeTangent, [PatternTexture, PatternNormalH]⟩],
          [⟨s.mMeshArray Mesh_CubeTangent, [TechTexture, TechNormalH]⟩],
          [⟨s.mMeshArray Mesh_Crate, [CargoTexture]⟩, ⟨s.mMeshArray Mesh_Ground, [GrassTexture]⟩],
          [⟨s.mMeshArray Mesh_Cube, [BrickTexture, WoodTexture]⟩],
          [⟨s.mMeshArray Mesh_SphereTangent, [PatternTexture, PatternNormalH]⟩]] :
          List (List ModelShape)).getD i.val [],
        sh.view 0 ≠ ViewRef.outOfRange
          ∧ ((shaderSwitchCullBack i.val : List (Cmd α) × Bool).2 = true →
              sh.view 1 ≠ ViewRef.outOfRange) := by
      fin_cases i <;>
        simp [ModelShape.view, shaderSwitchCullBack, ps_PixelLighting, ps_Wiggle,
          ps_WiggleParallax, ps_Portal, ps_Fade, ps_ParallaxMap, ps_NormalMap]
    exact hall m.shape hs
  · intro m hm
    have hs := List.mem_map_of_mem Model.shape hm
    rw [hstr] at hs
    have e : m.shape = ⟨s.mMeshArray Mesh_Cube, [GlassTexture]⟩ := by simpa using hs
    rw [Model.GetTexture_shape, e]
    simp [ModelShape.view]

/-- C28 on the built-in scene made from the initial scene over the reals: the
controllable teapot is there and `UpdateScene` returns a result on the first
frame. -/
theorem C28_builtin_scene_index_safety_witness :
    (∀ i, (CSceneManager.init : CSceneManager ℝ).mModelCollection i = [])
      ∧ (CSceneManager.init : CSceneManager ℝ).mLightStackTop.y = 0
      ∧ (∃ (front : Model ℝ) (rest : List (Model ℝ)),
          exampleInitScene.mTeapotCollection ⟨ps_PixelLighting, by decide⟩ = front :: rest)
      ∧ (exampleInitScene.UpdateScene exampleLib Real.sin (fun c _ => c) exampleNoKeys
          UpdateStatics.start (Gfx.start 1280 720) (1 / 60)).isSome = true :=
  ⟨fun _ => rfl, rfl,
   (C28_builtin_scene_index_safety exampleLib CMatrix4x4.identity CSceneManager.init exampleHost
      (fun _ => rfl) (fun _ => rfl) rfl rfl).2.1,
   (C28_builtin_scene_index_safety exampleLib CMatrix4x4.identity CSceneManager.init exampleHost
      (fun _ => rfl) (fun _ => rfl) rfl rfl).2.2.2.2.1 Real.sin (fun c _ => c) exampleNoKeys
      UpdateStatics.start (Gfx.start 1280 720) (1 / 60)⟩

/-! ### Rendering: the dangling references read by the light loops -/

/-- Every round of the point-light loop ends with the fault recorded: a
populated slot is read through the dangling reference of `GetPosition()`, an
empty slot is a null pointer. -/
theorem CSceneManager.aggregatePoint_fault [Mul α] (i : Nat) (st : CSceneManager α × Gfx α) :
    (CSceneManager.aggregatePoint i st).2.fault = true := by
  unfold CSceneManager.aggregatePoint
  split
  · split <;> rfl
  · rfl

/-- Every round of the spotlight loop ends with the fault recorded: a populated
slot is read through the dangling references of `GetPosition()` and
`GetFacing()`, an empty slot is a null pointer. -/
theorem CSceneManager.aggregateSpot_fault [Field α] (L : MathLib α) (i : Nat)
    (st : CSceneManager α × Gfx α) :
    (CSceneManager.aggregateSpot L i st).2.fault = true := by
  unfold CSceneManager.aggregateSpot
  split
  · split <;> rfl
  · rfl

/-- A loop of at least one round whose every round records the fault ends with
the fault recorded. -/
theorem forLoop_fault {σ : Type} (fault : σ → Bool) (n : Nat) (body : Nat → σ → σ) (init : σ)
    (hn : 0 < n) (hbody : ∀ i st, fault (body i st) = true) :
    fault (forLoop n body init) = true := by
  cases n with
  | zero => exact absurd hn (Nat.lt_irrefl 0)
  | succ k => exact hbody k _

/-- The light aggregation of `RenderScene` ends with the fault recorded as soon
as one of the two light counts is positive. -/
theorem CSceneManager.aggregateLights_fault [LinearOrderedField α] [FloorRing α]
    (L : MathLib α) (s : CSceneManager α) (g : Gfx α)
    (h : 0 < s.mLightStackTop.x ∨ 0 < s.mLightStackTop.y) :
    (s.aggregateLights L g).2.fault = true := by
  have hs : (forLoop (loopRounds s.mLightStackTop.y) (CSceneManager.aggregateSpot L)
      (forLoop (loopRounds s.mLightStackTop.x) CSceneManager.aggregatePoint (s, g))).2.fault
        = true := by
    rcases h with hx | hy
    · refine forLoop_induction (fun st : CSceneManager α × Gfx α => st.2.fault = true) _ _ _ ?_ ?_
      · exact forLoop_fault (fun st : CSceneManager α × Gfx α => st.2.fault) _ _ _
          (Nat.ceil_pos.mpr hx) CSceneManager.aggregatePoint_fault
      · intro i st _
        exact CSceneManager.aggregateSpot_fault L i st
    · exact forLoop_fault (fun st : CSceneManager α × Gfx α => st.2.fault) _ _ _
        (Nat.ceil_pos.mpr hy) (CSceneManager.aggregateSpot_fault L)
  unfold CSceneManager.aggregateLights
  dsimp only
  split
  · exact hs
  · rfl

/-- A fault recorded by the light aggregation is still recorded when
`RenderScene` returns. -/
theorem CSceneManager.RenderScene_fault [LinearOrderedField α] [FloorRing α]
    (K : CameraLib α) (L : MathLib α) (s : CSceneManager α) (g : Gfx α)
    (h : (s.aggregateLights L g).2.fault = true) :
    (s.RenderScene K L g).2.fault = true :=
  (((Gfx.emit_extends _ _).andThen (CSceneManager.shadowPasses_extends L _ _)).andThen
    (CSceneManager.RenderScene_extends_shadow K L s g)).2 h

/-- The spotlight count and the portals that `InitScene` leaves in a scene that
held no spotlight. -/
theorem CSceneManager.InitScene_counts [LinearOrderedField α] [FloorRing α] (L : MathLib α)
    (stale : CMatrix4x4 α) (s : CSceneManager α) (h : Host) (hy : s.mLightStackTop.y = 0) :
    (s.InitScene L stale h).2.1.mLightStackTop.y = 1
      ∧ (s.InitScene L stale h).2.1.mPortalCollection.length
          = s.mPortalCollection.length + 1 := by
  have e9 : ∀ t : CSceneManager α, t.mLightStackTop.y = 0 →
      ∀ (mesh : MeshRef) (c p : CVector3 α) (st : α) (f : CVector3 α) (fov : α),
      (t.NewLight L stale ELightType.spotlight mesh c p st f fov).mLightStackTop.y = 1 := by
    intro t ht mesh c p st f fov
    rw [CSceneManager.NewLight_spotlight_below L stale t mesh c p st f fov 0 (by decide)
      (by rw [ht]; norm_num)]
    norm_num
  have ep : ∀ (t : CSceneManager α) (mesh : MeshRef) (c p : CVector3 α) (st : α)
      (f : CVector3 α) (fov : α),
      (t.NewLight L stale ELightType.point mesh c p st f fov).mLightStackTop.y
        = t.mLightStackTop.y := by
    intro t mesh c p st f fov
    unfold CSceneManager.NewLight
    simp only
    split_ifs <;> rfl
  unfold CSceneManager.InitScene
  simp only [CSceneManager.NewPortal, List.length_append, List.length_singleton]
  constructor
  · rw [ep]
    apply e9
    simp only [(CSceneManager.NewModel_lights _ _ _ _ _ _ _ _ _).1, hy]
  · have em : ∀ (t : CSceneManager α) (meshIndex : Nat) (textureIndexes : List Nat)
        (position : CVector3 α) (scale : α) (rotation : CVector3 α) (wiggleStrength : α)
        (shaderType : Nat),
        (t.NewModel stale meshIndex textureIndexes position scale rotation wiggleStrength
          shaderType).mPortalCollection = t.mPortalCollection := by
      intro t meshIndex textureIndexes position scale rotation wiggleStrength shaderType
      unfold CSceneManager.NewModel
      dsimp only
      split_ifs <;> rfl
    simp only [CSceneManager.NewLight_mPortalCollection, em]


/-- The built-in scene holds one spotlight and one portal. -/
theorem exampleInitScene_counts :
    exampleInitScene.mLightStackTop.y = 1 ∧ exampleInitScene.mPortalCollection.length = 1 :=
  CSceneManager.InitScene_counts exampleLib CMatrix4x4.identity CSceneManager.init exampleHost rfl

/-- C11. A `RenderScene` call on a scene with `n ≥ 1` active spotlights reaches
undefined behaviour in its light aggregation, before the first device call of
the frame: the aggregation leaves the call record as it found it and records
the fault (the reads through the dangling references of `GetPosition()` and
`GetFacing()`), and the fault is still recorded when `RenderScene` returns, so
nothing is guaranteed about the passes that follow. -/
theorem C11_frame_undefined_before_first_call [LinearOrderedField α] [FloorRing α]
    (K : CameraLib α) (L : MathLib α) (s : CSceneManager α) (g : Gfx α) (n : Nat)
    (hn : 1 ≤ n) (htop : s.mLightStackTop.y = (n : α)) :
    (s.aggregateLights L g).2.calls = g.calls
      ∧ (s.aggregateLights L g).2.fault = true
      ∧ (s.RenderScene K L g).2.fault = true := by
  have hpos : 0 < s.mLightStackTop.y := by
    rw [htop]
    exact_mod_cast hn
  have hf := CSceneManager.aggregateLights_fault L s g (Or.inr hpos)
  exact ⟨CSceneManager.aggregateLights_calls L s g, hf,
    CSceneManager.RenderScene_fault K L s g hf⟩

/-- C11 at n = 1, m = 1: the built-in scene (one spotlight, one portal),
rendered from the globals at program start. -/
theorem C11_frame_undefined_before_first_call_witness :
    exampleInitScene.mLightStackTop.y = ((1 : Nat) : ℝ)
      ∧ exampleInitScene.mPortalCollection.length = 1
      ∧ (exampleInitScene.aggregateLights exampleLib (Gfx.start 1280 960)).2.calls = []
      ∧ (exampleInitScene.RenderScene exampleCameraLib exampleLib
          (Gfx.start 1280 960)).2.fault = true :=
  ⟨by rw [exampleInitScene_counts.1, Nat.cast_one], exampleInitScene_counts.2,
   (C11_frame_undefined_before_first_call exampleCameraLib exampleLib exampleInitScene
      (Gfx.start 1280 960) 1 (Nat.le_refl 1)
      (by rw [exampleInitScene_counts.1, Nat.cast_one])).1,
   (C11_frame_undefined_before_first_call exampleCameraLib exampleLib exampleInitScene
      (Gfx.start 1280 960) 1 (Nat.le_refl 1)
      (by rw [exampleInitScene_counts.1, Nat.cast_one])).2.2⟩

set_option maxRecDepth 1000000 in
/-- The arithmetic of `Binary32` on values whose IEEE 754 bit patterns are
known: `0.1f` is `0x3DCCCCCD`, `1e-6f` is `0x358637BD`, `0.7f` is `0x3F333333`,
`1e20f` is `0x60AD78EC`, `sqrtf(2)` is `0x3FB504F3`; `2^24 + 1` rounds to the
even neighbour `2^24 = 8388608 * 2` and `2^24 + 3` to `2^24 + 4`; the largest
float `(2^24 - 1) * 2^104` plus just under half a unit of its last digit is
itself, plus half a unit is infinity; half the
smallest subnormal rounds to zero; `1e20f * 1e20f` overflows and
`1 / sqrtf(inf)` is zero. -/
theorem Binary32.known_values :
    (1 / 10 : Binary32) = Binary32.finite false 13421773 (-27)
      ∧ (1 / 1000000 : Binary32) = Binary32.finite false 8796093 (-43)
      ∧ (7 / 10 : Binary32) = Binary32.finite false 11744051 (-24)
      ∧ (100000000000000000000 : Binary32) = Binary32.finite false 11368684 43
      ∧ Binary32.sqrt 2 = Binary32.finite false 11863283 (-23)
      ∧ (16777217 : Binary32) = Binary32.finite false 8388608 1
      ∧ (16777219 : Binary32) = Binary32.finite false 8388610 1
      ∧ Binary32.finite false 16777215 104 + Binary32.finite false 8388607 80
          = Binary32.finite false 16777215 104
      ∧ Binary32.finite false 16777215 104 + Binary32.finite false 8388608 80
          = Binary32.infinite false
      ∧ Binary32.finite false 1 (-149) / 2 = 0
      ∧ (100000000000000000000 : Binary32) * 100000000000000000000 = Binary32.infinite false
      ∧ 1 / Binary32.sqrt (Binary32.infinite false) = 0
      ∧ (33554432 : Binary32) + 10 = Binary32.finite false 8388610 2 :=
  ⟨rfl, rfl, rfl, rfl, rfl, rfl, rfl, rfl, rfl, rfl, rfl, rfl, rfl⟩

/-! ### Keyboard control of a model -/

set_option maxRecDepth 1000000 in
/-- C29 fails as stated, in float arithmetic.  With the controllable teapot at
height `2^25 = 33554432`, no key held and the orbit angle 0, `UpdateScene`
puts spotlight 0 at height `fl(33554432 + 10) = 33554440` (floats of that size
are 4 apart, and the tie goes to the even mantissa): the spotlight is 8 above
the teapot, not 10.  With the teapot at height `0.1f = 13421773 * 2^-27` the
spotlight is put at `10590618 * 2^-20`, which is `1342177331 * 2^-27` above
the teapot, where 10 is `1342177280 * 2^-27`. -/
theorem C29_spotlight_not_ten_above :
    (((exampleOrbitScene 33554432).UpdateScene binary32Lib Binary32.sinAtZero (fun c _ => c)
        exampleNoKeys UpdateStatics.start (Gfx.start 1280 720) (1 / 60)).map
        (fun r => ((r.1.mTeapotCollection ⟨ps_PixelLighting, by decide⟩).map
            (fun t => t.Position),
          (r.1.mSpotlights ⟨0, by decide⟩).map (fun sp => sp.mpBody.Position))))
      = some ([⟨0, 33554432, 0⟩], some ⟨20, 33554440, 0⟩)
    ∧ (33554440 : Binary32) - 33554432 = 8
    ∧ (8 : Binary32) ≠ 10
    ∧ (((exampleOrbitScene (1 / 10)).UpdateScene binary32Lib Binary32.sinAtZero (fun c _ => c)
        exampleNoKeys UpdateStatics.start (Gfx.start 1280 720) (1 / 60)).map
        (fun r => ((r.1.mTeapotCollection ⟨ps_PixelLighting, by decide⟩).map
            (fun t => t.Position),
          (r.1.mSpotlights ⟨0, by decide⟩).map (fun sp => sp.mpBody.Position))))
      = some ([⟨0, Binary32.finite false 13421773 (-27), 0⟩],
          some ⟨20, Binary32.finite false 10590618 (-20), 0⟩)
    ∧ 10590618 * 2 ^ 7 - 13421773 = 1342177331
    ∧ 10 * 2 ^ 27 = 1342177280 :=
  ⟨rfl, rfl, by decide, rfl, rfl, rfl⟩

/-- C29, amended.  In a scene with a controllable model, a first spotlight and
a camera `UpdateScene` returns a result, and in the arithmetic of the number
type, whatever it is (for the C++ build: float arithmetic with its rounding):
the position of spotlight 0 is the sum, component by component, of the
position of the controllable model after its `Control` call and the offset
`(cos a * gLightOrbit, 10, sin a * gLightOrbit)` for the orbit angle `a` held
when the call starts; the orbit angle becomes `a - gLightOrbitSpeed * frameTime`
when the toggle is on and stays `a` when it is off. -/
theorem C29_spotlight_orbit {β : Type} [Add β] [Sub β] [Mul β] [Div β] [Zero β] [One β] [LT β]
    [DecidableRel (fun a b : β => a < b)] [OfNat β 2] [OfNat β 7] [OfNat β 10] [OfNat β 20]
    [OfNat β 50] (L : MathLib β) (sin : β → β)
    (cameraControl : Camera β → β → Camera β) (input : Input) (s : CSceneManager β)
    (statics : UpdateStatics β) (g : Gfx β) (frameTime : β) (front : Model β)
    (rest : List (Model β)) (spot : CSpotlight β) (camera : Camera β)
    (hteapot : s.mTeapotCollection ⟨ps_PixelLighting, by decide⟩ = front :: rest)
    (hspot : s.mSpotlights ⟨0, by decide⟩ = some spot) (hcam : s.mCamera = some camera) :
    ∃ (s1 : CSceneManager β) (st1 : UpdateStatics β) (g1 : Gfx β) (teapot : Model β)
        (spot1 : CSpotlight β),
      s.UpdateScene L sin cameraControl input statics g frameTime = some (s1, st1, g1)
        ∧ s1.mTeapotCollection ⟨ps_PixelLighting, by decide⟩ = teapot :: rest
        ∧ teapot = front.Control L input frameTime KeyCode.Key_I KeyCode.Key_K KeyCode.Key_J
            KeyCode.Key_L KeyCode.Key_U KeyCode.Key_O KeyCode.Key_Period KeyCode.Key_Comma
        ∧ s1.mSpotlights ⟨0, by decide⟩ = some spot1
        ∧ spot1.mpBody.Position
            = ⟨teapot.Position.x + L.cos statics.rotate * gLightOrbit,
               teapot.Position.y + 10,
               teapot.Position.z + sin statics.rotate * gLightOrbit⟩
        ∧ st1.rotate
            = (if statics.go then statics.rotate - gLightOrbitSpeed * frameTime
                else statics.rotate) := by
  simp only [CSceneManager.UpdateScene, hteapot, hspot, hcam]
  refine ⟨_, _, _,
    front.Control L input frameTime KeyCode.Key_I KeyCode.Key_K KeyCode.Key_J KeyCode.Key_L
      KeyCode.Key_U KeyCode.Key_O KeyCode.Key_Period KeyCode.Key_Comma,
    { spot with
      toCLight := (spot.toCLight.SetPosition
        ((front.Control L input frameTime KeyCode.Key_I KeyCode.Key_K KeyCode.Key_J
            KeyCode.Key_L KeyCode.Key_U KeyCode.Key_O KeyCode.Key_Period
            KeyCode.Key_Comma).Position.add
          ⟨L.cos statics.rotate * gLightOrbit, 10, sin statics.rotate * gLightOrbit⟩)).FaceTarget
        L (front.Control L input frameTime KeyCode.Key_I KeyCode.Key_K KeyCode.Key_J
            KeyCode.Key_L KeyCode.Key_U KeyCode.Key_O KeyCode.Key_Period
            KeyCode.Key_Comma).Position },
    rfl, ?_, rfl, ?_, rfl, ?_⟩
  · simp only [Function.update_same]
  · simp only [Function.update_same]
  · split_ifs <;> rfl

set_option maxRecDepth 1000000 in
/-- C29, amended, in float arithmetic: the example scene with the teapot at
height 3, first frame (orbit angle 0, toggle on), frame time `1/60`, no key
held.  The spotlight is put at `{0 + 1 * 20, 3 + 10, 0 + 0 * 20}` and the orbit
angle becomes the float `0 - 0.7f * (1/60)`. -/
theorem C29_spotlight_orbit_witness :
    (exampleOrbitScene 3).mTeapotCollection ⟨ps_PixelLighting, by decide⟩
        = [Model.newTextured CMatrix4x4.identity Mesh_Teapot [StoneTexture] ⟨0, 3, 0⟩
            ⟨0, 0, 0⟩ 1]
      ∧ ((exampleOrbitScene 3).mSpotlights ⟨0, by decide⟩).isSome = true
      ∧ (exampleOrbitScene 3).mCamera = some ⟨⟨15, 30, -70⟩, ⟨0, 0, 0⟩⟩
      ∧ ∃ (s1 : CSceneManager Binary32) (st1 : UpdateStatics Binary32) (g1 : Gfx Binary32)
          (spot1 : CSpotlight Binary32),
          (exampleOrbitScene 3).UpdateScene binary32Lib Binary32.sinAtZero (fun c _ => c)
              exampleNoKeys UpdateStatics.start (Gfx.start 1280 720) (1 / 60)
            = some (s1, st1, g1)
          ∧ s1.mSpotlights ⟨0, by decide⟩ = some spot1
          ∧ spot1.mpBody.Position = ⟨20, 13, 0⟩
          ∧ st1.rotate = Binary32.finite true 12526988 (-30) := by
  obtain ⟨s1, st1, g1, teapot, spot1, e, _, ht, hs, hp, hr⟩ := C29_spotlight_orbit binary32Lib
    Binary32.sinAtZero (fun c _ => c) exampleNoKeys (exampleOrbitScene 3) UpdateStatics.start
    (Gfx.start 1280 720) (1 / 60) _ [] _ _ rfl rfl rfl
  refine ⟨rfl, rfl, rfl, s1, st1, g1, spot1, e, hs, ?_, ?_⟩
  · rw [hp, ht]
    rfl
  · rw [hr]
    rfl

/-! ### The facing of a light -/

/-- C23. The method `GetFacing` returns a reference to the temporary that
`Normalise` returned, destroyed when `GetFacing` returns.  The value that the
temporary held is the normalised Z axis of the refreshed world matrix, but
every read of the result, from any state of the run, is undefined behaviour
and records the fault. -/
theorem C23_facing_reference_dangles [Add α] [Mul α] [Zero α] (L : MathLib α) (l : CLight α)
    (g : Gfx α) :
    (l.GetFacing L).1.referent = Normalise L (L.GetZAxis (l.mpBody.WorldMatrix L).1)
      ∧ (g.readDangling (l.GetFacing L).1).1 = (l.GetFacing L).1.referent
      ∧ (g.readDangling (l.GetFacing L).1).2.fault = true :=
  ⟨rfl, rfl, rfl⟩

/-! ### The vertex shader bound at each draw -/

/-- The draws of a run of events, by its first event. -/
theorem shaderDraws_cons (vs : Option Nat) (e : Event) (rest : List Event) :
    shaderDraws vs (e :: rest)
      = match e with
        | Event.VSSetShader shader => shaderDraws (some shader) rest
        | Event.MeshRender mesh => (mesh, vs) :: shaderDraws vs rest
        | _ => shaderDraws vs rest := by
  cases e <;> rfl

/-- No events, no draws. -/
theorem shaderDraws_nil (vs : Option Nat) : shaderDraws vs [] = [] := rfl

/-- The draws of a loop: when each round's events yield that round's draws and
leave the vertex shader alone, the loop yields the draws of its rounds. -/
theorem shaderDraws_flatMap {β : Type} (vs : Option Nat) (ev : β → List Event)
    (dr : β → List (MeshRef × Option Nat))
    (h : ∀ x rest, shaderDraws vs (ev x ++ rest) = dr x ++ shaderDraws vs rest)
    (xs : List β) (rest : List Event) :
    shaderDraws vs (xs.flatMap ev ++ rest) = xs.flatMap dr ++ shaderDraws vs rest := by
  induction xs with
  | nil => rfl
  | cons x xs ih =>
    rw [List.flatMap_cons, List.flatMap_cons, List.append_assoc, h, ih, List.append_assoc]

/-- The draws of the inner loop of a sweep: each model of the bucket, with the
vertex shader that was bound before the loop. -/
theorem shaderDraws_texturedEvents (vs : Option Nat) (secondTexture : Bool)
    (ms : List ModelShape) (rest : List Event) :
    shaderDraws vs (texturedEvents secondTexture ms ++ rest)
      = ms.map (fun m => (m.mesh, vs)) ++ shaderDraws vs rest := by
  unfold texturedEvents
  rw [shaderDraws_flatMap vs _ (fun m => [(m.mesh, vs)])]
  · rw [flatMap_single]
  · intro m tail
    cases secondTexture <;> rfl

/-- The draws of a light marker loop: the lights in the slots it visits, with
the vertex shader that was bound before the loop. -/
theorem shaderDraws_markerEvents (vs : Option Nat) {n : Nat} (rounds : Nat)
    (lights : Fin n → Option MeshRef) (rest : List Event) :
    shaderDraws vs (markerEvents rounds lights ++ rest)
      = (markerMeshes rounds lights).map (fun mesh => (mesh, vs)) ++ shaderDraws vs rest := by
  unfold markerEvents markerMeshes
  rw [List.map_flatMap]
  refine shaderDraws_flatMap vs _ _ ?_ _ _
  intro k tail
  by_cases h : k < n
  · simp only [dif_pos h]
    cases lights ⟨k, h⟩ <;> rfl
  · simp only [dif_neg h]
    rfl

/-- The draws of the first sweep: each model of bucket `i` with
`sweepVertexShader i` bound; `vs_WiggleTangent` stays bound after the sweep. -/
theorem shaderDraws_sweepNoCull (vs : Option Nat)
    (collection : Fin gsNumOfModelPS → List ModelShape) (rest : List Event) :
    shaderDraws vs (sweepEvents shaderSwitchNoCull collection ++ rest)
      = (List.finRange gsNumOfModelPS).flatMap (fun i =>
          (collection i).map (fun m => (m.mesh, some (sweepVertexShader i.val))))
        ++ shaderDraws (some vs_WiggleTangent) rest := by
  have hr : List.finRange gsNumOfModelPS
      = [⟨0, by decide⟩, ⟨1, by decide⟩, ⟨2, by decide⟩, ⟨3, by decide⟩, ⟨4, by decide⟩,
         ⟨5, by decide⟩] := rfl
  unfold sweepEvents
  rw [hr]
  simp only [List.flatMap_cons, List.flatMap_nil, List.append_nil, List.append_assoc]
  have e0 : events (shaderSwitchNoCull 0 : List (Cmd Unit) × Bool).1
      = [Event.VSSetShader vs_Wiggle, Event.PSSetShader ps_Wiggle] := rfl
  have e1 : events (shaderSwitchNoCull 1 : List (Cmd Unit) × Bool).1
      = [Event.VSSetShader vs_NormalMap, Event.PSSetShader ps_NormalMap] := rfl
  have e2 : events (shaderSwitchNoCull 2 : List (Cmd Unit) × Bool).1
      = [Event.PSSetShader ps_ParallaxMap] := rfl
  have e3 : events (shaderSwitchNoCull 3 : List (Cmd Unit) × Bool).1
      = [Event.VSSetShader vs_PixelLighting, Event.PSSetShader ps_PixelLighting] := rfl
  have e4 : events (shaderSwitchNoCull 4 : List (Cmd Unit) × Bool).1
      = [Event.PSSetShader ps_Fade] := rfl
  have e5 : events (shaderSwitchNoCull 5 : List (Cmd Unit) × Bool).1
      = [Event.VSSetShader vs_WiggleTangent, Event.PSSetShader ps_ParallaxMap] := rfl
  rw [e0, e1, e2, e3, e4, e5]
  simp only [List.cons_append, List.nil_append, shaderDraws_cons, shaderDraws_texturedEvents,
    List.append_assoc]
  rfl

/-- The draws of the second sweep: each model of bucket `i` with
`sweepVertexShader i` bound; `vs_WiggleTangent` stays bound after the sweep. -/
theorem shaderDraws_sweepCullBack (vs : Option Nat)
    (collection : Fin gsNumOfModelPS → List ModelShape) (rest : List Event) :
    shaderDraws vs (sweepEvents shaderSwitchCullBack collection ++ rest)
      = (List.finRange gsNumOfModelPS).flatMap (fun i =>
          (collection i).map (fun m => (m.mesh, some (sweepVertexShader i.val))))
        ++ shaderDraws (some vs_WiggleTangent) rest := by
  have hr : List.finRange gsNumOfModelPS
      = [⟨0, by decide⟩, ⟨1, by decide⟩, ⟨2, by decide⟩, ⟨3, by decide⟩, ⟨4, by decide⟩,
         ⟨5, by decide⟩] := rfl
  unfold sweepEvents
  rw [hr]
  simp only [List.flatMap_cons, List.flatMap_nil, List.append_nil, List.append_assoc]
  have e0 : events (shaderSwitchCullBack 0 : List (Cmd Unit) × Bool).1
      = [Event.VSSetShader vs_Wiggle, Event.PSSetShader ps_Wiggle] := rfl
  have e1 : events (shaderSwitchCullBack 1 : List (Cmd Unit) × Bool).1
      = [Event.VSSetShader vs_NormalMap, Event.PSSetShader ps_NormalMap] := rfl
  have e2 : events (shaderSwitchCullBack 2 : List (Cmd Unit) × Bool).1
      = [Event.PSSetShader ps_ParallaxMap] := rfl
  have e3 : events (shaderSwitchCullBack 3 : List (Cmd Unit) × Bool).1
      = [Event.VSSetShader vs_PixelLighting, Event.PSSetShader ps_PixelLighting] := rfl
  have e4 : events (shaderSwitchCullBack 4 : List (Cmd Unit) × Bool).1
      = [Event.PSSetShader ps_Fade] := rfl
  have e5 : events (shaderSwitchCullBack 5 : List (Cmd Unit) × Bool).1
      = [Event.VSSetShader vs_WiggleTangent, Event.PSSetShader ps_ParallaxMap] := rfl
  rw [e0, e1, e2, e3, e4, e5]
  simp only [List.cons_append, List.nil_append, shaderDraws_cons, shaderDraws_texturedEvents,
    List.append_assoc]
  rfl

/-- The draws of `RenderSceneFromCamera`, each with the vertex shader bound
when it is issued, whatever was bound before. -/
theorem shaderDraws_litEvents (vs : Option Nat) (sh : SceneShape) :
    shaderDraws vs (litEvents sh)
      = (List.finRange gsNumOfModelPS).flatMap (fun i =>
          (sh.teapots i).map (fun m => (m.mesh, some (sweepVertexShader i.val))))
        ++ (List.finRange gsNumOfModelPS).flatMap (fun i =>
          (sh.models i).map (fun m => (m.mesh, some (sweepVertexShader i.val))))
        ++ sh.portals.map (fun p => (p.mesh, some vs_WiggleTangent))
        ++ (markerMeshes sh.pointRounds sh.pointLights
              ++ markerMeshes sh.spotRounds sh.spotlights
              ++ markerMeshes sh.directionalRounds sh.directionalLights).map (fun mesh =>
            (mesh, some vs_BasicTransform))
        ++ sh.transparent.map (fun m => (m.mesh, some vs_BasicTransform)) := by
  have hportals : ∀ (v : Option Nat) (ps : List PortalShape) (rest : List Event),
      shaderDraws v (ps.flatMap (fun p =>
          Event.PSSetShaderResources (gsNumSpotlights + 1) [ViewRef.handle p.view]
            :: renderEvents p.mesh) ++ rest)
        = ps.map (fun p => (p.mesh, v)) ++ shaderDraws v rest := by
    intro v ps rest
    rw [shaderDraws_flatMap v
      (fun p : PortalShape =>
        Event.PSSetShaderResources (gsNumSpotlights + 1) [ViewRef.handle p.view]
          :: renderEvents p.mesh)
      (fun p => [(p.mesh, v)]) (fun _ _ => rfl), flatMap_single]
  have htransparent : ∀ (v : Option Nat) (ms : List ModelShape) (rest : List Event),
      shaderDraws v (ms.flatMap (fun m =>
          Event.PSSetShaderResources 0 [m.view 0] :: renderEvents m.mesh) ++ rest)
        = ms.map (fun m => (m.mesh, v)) ++ shaderDraws v rest := by
    intro v ms rest
    rw [shaderDraws_flatMap v
      (fun m : ModelShape => Event.PSSetShaderResources 0 [m.view 0] :: renderEvents m.mesh)
      (fun m => [(m.mesh, v)]) (fun _ _ => rfl), flatMap_single]
  have hlast := htransparent (some vs_BasicTransform) sh.transparent []
  rw [List.append_nil, shaderDraws_nil, List.append_nil] at hlast
  unfold litEvents
  simp only [List.append_assoc, List.cons_append, List.nil_append, shaderDraws_cons,
    shaderDraws_sweepNoCull, shaderDraws_sweepCullBack, hportals, shaderDraws_markerEvents,
    hlast, List.map_append, List.append_nil]

/-- C25. Inherited vertex shaders: for every scene, whatever its buckets hold
and whatever vertex shader was bound before, the events of
`RenderSceneFromCamera` are `litEvents` of the scene, and among them every
model of bucket `i` of either sweep is drawn with `sweepVertexShader i` bound:
`vs_NormalMap` for bucket `ps_ParallaxMap` and `vs_PixelLighting` for bucket
`ps_Fade`, although the switch cases of these two buckets set no vertex
shader in either sweep.  (The portals that follow are drawn with
`vs_WiggleTangent` still bound, the light markers and transparent models with
`vs_BasicTransform`.) -/
theorem C25_inherited_vertex_shaders [LinearOrderedField α] [FloorRing α] (K : CameraLib α)
    (L : MathLib α) (s : CSceneManager α) (g : Gfx α) (camera : Camera α) (vs : Option Nat) :
    g.Emits (s.RenderSceneFromCamera K L g camera).2 (litEvents s.shape)
      ∧ shaderDraws vs (litEvents s.shape)
        = (List.finRange gsNumOfModelPS).flatMap (fun i =>
            (s.mTeapotCollection i).map (fun m => (m.mMesh, some (sweepVertexShader i.val))))
          ++ (List.finRange gsNumOfModelPS).flatMap (fun i =>
            (s.mModelCollection i).map (fun m => (m.mMesh, some (sweepVertexShader i.val))))
          ++ s.mPortalCollection.map (fun p => (p.mpBody.mMesh, some vs_WiggleTangent))
          ++ (markerMeshes s.shape.pointRounds s.shape.pointLights
                ++ markerMeshes s.shape.spotRounds s.shape.spotlights
                ++ markerMeshes s.shape.directionalRounds s.shape.directionalLights).map
              (fun mesh => (mesh, some vs_BasicTransform))
          ++ s.mTransparentModels.map (fun m => (m.mMesh, some vs_BasicTransform))
      ∧ sweepVertexShader ps_ParallaxMap = vs_NormalMap
      ∧ sweepVertexShader ps_Fade = vs_PixelLighting
      ∧ events (shaderSwitchNoCull ps_ParallaxMap : List (Cmd Unit) × Bool).1
          = [Event.PSSetShader ps_ParallaxMap]
      ∧ events (shaderSwitchNoCull ps_Fade : List (Cmd Unit) × Bool).1
          = [Event.PSSetShader ps_Fade]
      ∧ events (shaderSwitchCullBack ps_ParallaxMap : List (Cmd Unit) × Bool).1
          = [Event.PSSetShader ps_ParallaxMap]
      ∧ events (shaderSwitchCullBack ps_Fade : List (Cmd Unit) × Bool).1
          = [Event.PSSetShader ps_Fade] := by
  refine ⟨(CSceneManager.RenderSceneFromCamera_emits K L s g camera).2, ?_, rfl, rfl, rfl, rfl,
    rfl, rfl⟩
  rw [shaderDraws_litEvents]
  simp only [CSceneManager.shape, CSceneManager.shapeWith, List.map_map]
  rfl

end Theorems

end ShaderAssignment
